import Mathlib

/-!
# Fans prediction: model fitting and inverse prediction

A shallow embedding of `src/js/chart.js` (class `FansChart`) and of the
prediction helpers of `src/js/main.js` (class `FansPredictionSystem`).

Conventions of the embedding.

* The code is embedded twice.  In the first embedding (namespace `FansChart`)
  JavaScript numbers are modelled by an arbitrary linear ordered field `F`
  (exact arithmetic).  Every definition is computable over such a field, so
  it can be evaluated over `ℚ`; the theorems are stated for every such field
  or, where `Math.exp` / `Math.log` / `Math.sqrt` matter, over `ℝ`.
* In the second embedding (namespace `Js`) a number is a `JsNumber`: a finite
  number, `NaN`, `Infinity` or `-Infinity`.  Every operation is exact unless
  its result leaves the range of the doubles: a result of absolute value at
  least `2^1024 - 2^970` becomes an infinity, a product, quotient or
  exponential of absolute value at most `2^-1075` becomes `0`, and `NaN` and
  the infinities propagate as in IEEE arithmetic.  The `isNaN` tests of the
  fitters are represented there.  The rounding of results within the range
  is not represented in either embedding.
* `Math.sqrt`, `Math.exp` and `Math.log` are passed as parameters
  (`sqrt exp log : F → F`); over `ℝ` they are `Real.sqrt`, `Real.exp` and
  `Real.log`.
* In the first embedding, on finite inputs, the only operation of the source
  that can yield `NaN` is the z-score division `(y[i] - yMean) / yStd` with
  `yStd = 0`; it is modelled explicitly (the comparison `zScore <= threshold`
  is then false).  Every other division is guarded by the source itself, so
  the `isNaN` tests of the fitters never fire and are not represented in it.
* A method that assigns to instance fields becomes a function from the
  object to the updated object.  The `catch` blocks are not represented: no
  statement of the `try` bodies throws on finite numbers.
* A `Date` is a time value or an Invalid Date; `new Date(v)` truncates `v` to whole
  milliseconds and is invalid beyond `8.64e15` (`newDate`).
* The loader `loadData` is the one place where arbitrary JavaScript values are
  inspected; there a value is a `JsValue` (a number, possibly `NaN` or infinite,
  or a value of another type).
* The `equation` strings and all logging are presentation and are omitted.
-/

namespace FansPredict

variable {F : Type} [LinearOrderedField F]

/-- The constant `1000 * 60 * 60 * 24` (milliseconds per day). -/
def msPerDay : F := 1000 * 60 * 60 * 24

/-- The near-zero bound `1e-10` of the denominator checks. -/
def denomEps : F := 1 / 10 ^ 10

/-- One element of `this.data`: `{ timestamp, fans }`. -/
structure DataPoint (F : Type) where
  timestamp : F
  fans : F

/-- One element of `points` in `calculateLinearRegression`: `{ x, y }`. -/
structure Point (F : Type) where
  x : F
  y : F

/-- The object stored in `this.linearModel`. -/
structure LinearModel (F : Type) where
  slope : F
  intercept : F
  r2 : F
  startTime : F
  predict : F → F

/-- The object stored in `this.exponentialModel`. -/
structure ExponentialModel (F : Type) where
  a : F
  lam : F
  c : F
  r2 : F
  halfLife : F
  currentDecayRate : F
  startTime : F
  dataPoints : Nat
  outlierCount : Nat
  predict : F → F

/-- The result `{ a, lam, c, r2 }` of `simpleExponentialFit`. -/
structure OffsetFit (F : Type) where
  a : F
  lam : F
  c : F
  r2 : F

/-- The result `{ a, lam, r2 }` of `simpleExponentialFitNoOffset`. -/
structure NoOffsetFit (F : Type) where
  a : F
  lam : F
  r2 : F

/-- The fields of a `FansChart` instance that the fitting code reads and writes. -/
structure FansChart (F : Type) where
  data : List (DataPoint F)
  linearModel : Option (LinearModel F)
  exponentialModel : Option (ExponentialModel F)

/-- The fields of a `FansPredictionSystem` instance. -/
structure FansPredictionSystem (F : Type) where
  chart : FansChart F
  currentMethod : String

/-- The expression `this.data[0].timestamp`; it is only evaluated after a length
check, the value on the empty list is a placeholder. -/
def firstTimestamp (data : List (DataPoint F)) : F :=
  match data with
  | [] => 0
  | d :: _ => d.timestamp

/-- The expression `this.data[this.data.length - 1].timestamp`. -/
def lastTimestamp (data : List (DataPoint F)) : F :=
  match data.getLast? with
  | none => 0
  | some d => d.timestamp

/-- The call `Math.min(...y)` on a non-empty array (placeholder `0` on the empty one). -/
def jsMin (y : List F) : F :=
  match y with
  | [] => 0
  | v :: vs => vs.foldl min v

/-- The elapsed-days conversion `(timestamp - startTime) / (1000 * 60 * 60 * 24)`. -/
def toDays (startTime timestamp : F) : F :=
  (timestamp - startTime) / msPerDay

/-- The closure `predict` of the linear model (chart.js lines 159-163). -/
def linearPredict (slope intercept startTime : F) (timestamp : F) : F :=
  let days := (timestamp - startTime) / msPerDay
  let result := slope * days + intercept
  max 0 result

/-- The closure `predict` of the offset model (chart.js lines 279-283). -/
def exponentialPredict (exp : F → F) (a lam c startTime : F) (timestamp : F) : F :=
  let days := (timestamp - startTime) / msPerDay
  let result := a * exp (-lam * days) + c
  max 0 result

/-- The closure `predict` of the offset-free model (chart.js lines 248-252). -/
def exponentialPredictNoOffset (exp : F → F) (a lam startTime : F) (timestamp : F) : F :=
  let days := (timestamp - startTime) / msPerDay
  let result := a * exp (-lam * days)
  max 0 result

namespace FansChart

/-- The array `points` of `calculateLinearRegression` (chart.js lines 115-118). -/
def regressionPoints (data : List (DataPoint F)) : List (Point F) :=
  let startTime := firstTimestamp data
  data.map (fun d => { x := (d.timestamp - startTime) / msPerDay, y := d.fans })

/-- The method `calculateLinearRegression` (chart.js lines 104-171). -/
def calculateLinearRegression (self : FansChart F) : FansChart F :=
  if self.data.length < 2 then self
  else
    let n : F := (self.data.length : F)
    let startTime := firstTimestamp self.data
    let points := regressionPoints self.data
    let sumX := points.foldl (fun sum p => sum + p.x) 0
    let sumY := points.foldl (fun sum p => sum + p.y) 0
    let sumXY := points.foldl (fun sum p => sum + p.x * p.y) 0
    let sumXX := points.foldl (fun sum p => sum + p.x * p.x) 0
    let denominator := n * sumXX - sumX * sumX
    if |denominator| < denomEps then self
    else
      let slope := (n * sumXY - sumX * sumY) / denominator
      let intercept := (sumY - slope * sumX) / n
      let yMean := sumY / n
      let ssTotal := points.foldl (fun sum p => sum + (p.y - yMean) ^ 2) 0
      let ssResidual := points.foldl (fun sum p =>
        let predicted := slope * p.x + intercept
        sum + (p.y - predicted) ^ 2) 0
      let r2 := if ssTotal > 0 then 1 - ssResidual / ssTotal else 0
      { self with
        linearModel := some
          { slope := slope
            intercept := intercept
            r2 := max 0 r2
            startTime := startTime
            predict := linearPredict slope intercept startTime } }

/-- The method `simpleExponentialFit(x, y)` (chart.js lines 295-349); `x` and `y`
are parallel arrays, indexed access `lnY[i]`, `yPred[i]` is a zip. -/
def simpleExponentialFit (exp log : F → F) (x y : List F) : Option (OffsetFit F) :=
  let c := jsMin y * (9 / 10)
  let yAdjusted := y.map (fun yi => yi - c)
  if yAdjusted.any (fun v => decide (v ≤ 0)) then none
  else
    let lnY := yAdjusted.map (fun v => log v)
    let n : F := (x.length : F)
    let sumX := x.foldl (fun a b => a + b) 0
    let sumLnY := lnY.foldl (fun a b => a + b) 0
    let sumXLnY := (x.zip lnY).foldl (fun sum p => sum + p.1 * p.2) 0
    let sumXX := x.foldl (fun sum xi => sum + xi * xi) 0
    let denominator := n * sumXX - sumX * sumX
    if |denominator| < denomEps then none
    else
      let slope := (n * sumXLnY - sumX * sumLnY) / denominator
      let intercept := (sumLnY - slope * sumX) / n
      let a := exp intercept
      let lam := -slope
      let yPred := x.map (fun xi => a * exp (-lam * xi) + c)
      let yMean := y.foldl (fun a b => a + b) 0 / n
      let ssTotal := y.foldl (fun sum yi => sum + (yi - yMean) ^ 2) 0
      let ssResidual := (y.zip yPred).foldl (fun sum p => sum + (p.1 - p.2) ^ 2) 0
      let r2 := if ssTotal > 0 then 1 - ssResidual / ssTotal else 0
      if lam ≤ 0 ∨ a ≤ 0 ∨ r2 < 1 / 10 then none
      else some { a := a, lam := lam, c := c, r2 := r2 }

/-- The method `simpleExponentialFitNoOffset(x, y)` (chart.js lines 352-398). -/
def simpleExponentialFitNoOffset (exp log : F → F) (x y : List F) : Option (NoOffsetFit F) :=
  if y.any (fun v => decide (v ≤ 0)) then none
  else
    let lnY := y.map (fun v => log v)
    let n : F := (x.length : F)
    let sumX := x.foldl (fun a b => a + b) 0
    let sumLnY := lnY.foldl (fun a b => a + b) 0
    let sumXLnY := (x.zip lnY).foldl (fun sum p => sum + p.1 * p.2) 0
    let sumXX := x.foldl (fun sum xi => sum + xi * xi) 0
    let denominator := n * sumXX - sumX * sumX
    if |denominator| < denomEps then none
    else
      let slope := (n * sumXLnY - sumX * sumLnY) / denominator
      let intercept := (sumLnY - slope * sumX) / n
      let a := exp intercept
      let lam := -slope
      let yPred := x.map (fun xi => a * exp (-lam * xi))
      let yMean := y.foldl (fun a b => a + b) 0 / n
      let ssTotal := y.foldl (fun sum yi => sum + (yi - yMean) ^ 2) 0
      let ssResidual := (y.zip yPred).foldl (fun sum p => sum + (p.1 - p.2) ^ 2) 0
      let r2 := if ssTotal > 0 then 1 - ssResidual / ssTotal else 0
      if lam ≤ 0 ∨ a ≤ 0 ∨ r2 < 1 / 10 then none
      else some { a := a, lam := lam, r2 := r2 }

/-- The test `zScore <= threshold` of the outlier loop (chart.js lines 200-201) with
`zScore = Math.abs((y[i] - yMean) / yStd)` and `threshold = 4`.  When `yStd = 0`
the quotient is `NaN` (or infinite) and the comparison is false. -/
def zScoreWithinThreshold (yMean yStd yi : F) : Bool :=
  decide (yStd ≠ 0 ∧ |(yi - yMean) / yStd| ≤ 4)

/-- The outlier step of `calculateExponentialDecay` (chart.js lines 191-219): from
the arrays `x`, `y` to the arrays handed to the fitters and `outlierCount`. -/
def outlierStep (sqrt : F → F) (x y : List F) : List F × List F × Nat :=
  let yMean := y.foldl (fun sum val => sum + val) 0 / (y.length : F)
  let yStd := sqrt (y.foldl (fun sum val => sum + (val - yMean) ^ 2) 0 / (y.length : F))
  let cleanData := (x.zip y).filter (fun p => zScoreWithinThreshold yMean yStd p.2)
  let outlierCount := ((x.zip y).filter (fun p => !zScoreWithinThreshold yMean yStd p.2)).length
  if cleanData.length < 10 then (x, y, 0)
  else (cleanData.map (fun d => d.1), cleanData.map (fun d => d.2), outlierCount)

/-- The model object built in the offset branch (chart.js lines 260-284). -/
def offsetModel (exp log : F → F) (startTime : F) (x : List F) (outlierCount : Nat)
    (result : OffsetFit F) : ExponentialModel F :=
  let halfLife := log 2 / result.lam
  let currentTime := x.getLastD 0
  let currentDecayRate := -result.a * result.lam * exp (-result.lam * currentTime)
  { a := result.a
    lam := result.lam
    c := result.c
    r2 := result.r2
    halfLife := halfLife
    currentDecayRate := currentDecayRate
    startTime := startTime
    dataPoints := x.length
    outlierCount := outlierCount
    predict := exponentialPredict exp result.a result.lam result.c startTime }

/-- The model object built in the offset-free branch (chart.js lines 231-253). -/
def noOffsetModel (exp log : F → F) (startTime : F) (x : List F) (outlierCount : Nat)
    (simpleResult : NoOffsetFit F) : ExponentialModel F :=
  let halfLife := log 2 / simpleResult.lam
  let currentTime := x.getLastD 0
  let currentDecayRate :=
    -simpleResult.a * simpleResult.lam * exp (-simpleResult.lam * currentTime)
  { a := simpleResult.a
    lam := simpleResult.lam
    c := 0
    r2 := simpleResult.r2
    halfLife := halfLife
    currentDecayRate := currentDecayRate
    startTime := startTime
    dataPoints := x.length
    outlierCount := outlierCount
    predict := exponentialPredictNoOffset exp simpleResult.a simpleResult.lam startTime }

/-- The method `calculateExponentialDecay` (chart.js lines 173-292). -/
def calculateExponentialDecay (sqrt exp log : F → F) (self : FansChart F) : FansChart F :=
  if self.data.length < 3 then self
  else
    let startTime := firstTimestamp self.data
    let x := self.data.map (fun d => (d.timestamp - startTime) / msPerDay)
    let y := self.data.map (fun d => d.fans)
    let cleaned := outlierStep sqrt x y
    let x := cleaned.1
    let y := cleaned.2.1
    let outlierCount := cleaned.2.2
    match simpleExponentialFit exp log x y with
    | none =>
      match simpleExponentialFitNoOffset exp log x y with
      | some simpleResult =>
        { self with
          exponentialModel := some (noOffsetModel exp log startTime x outlierCount simpleResult) }
      | none => self
    | some result =>
      { self with
        exponentialModel := some (offsetModel exp log startTime x outlierCount result) }

end FansChart

/-- A JavaScript `Date` object: its time value in milliseconds, or an Invalid Date
(whose time value is `NaN`). -/
inductive JsDate (F : Type) where
  | valid (time : F)
  | invalid

/-- The largest absolute time value of a `Date`, `8.64e15` milliseconds. -/
def maxTimeValue : F := 8640000000000000

/-- The constructor call `new Date(v)` on a number `v` (ECMAScript `TimeClip`): an
Invalid Date when `|v| > 8.64e15`, otherwise the date whose time value is `v`
truncated toward zero to a whole number of milliseconds.  A computation that
overflows to `±Infinity` in doubles has an exact value beyond `8.64e15`, and gives an
Invalid Date in both readings. -/
def newDate [FloorRing F] (v : F) : JsDate F :=
  if |v| > maxTimeValue then JsDate.invalid
  else if 0 ≤ v then JsDate.valid ((⌊v⌋ : ℤ) : F)
  else JsDate.valid ((⌈v⌉ : ℤ) : F)

/-- The number a `Date` stands for in arithmetic (`valueOf`, `getTime`); `none` is
`NaN`. -/
def JsDate.getTime : JsDate F → Option F
  | JsDate.valid t => some t
  | JsDate.invalid => none

/-- The call `predict(date)` of a stored closure on a `Date`: the date enters the
subtraction `timestamp - startTime` through its time value, and a `NaN` there makes
every later operation, `Math.max(0, result)` included, `NaN` (`none`). -/
def predictAt (predict : F → F) (date : JsDate F) : Option F :=
  date.getTime.map predict

namespace FansPredictionSystem

/-- The method `reversePredictLinear(targetFans)` (main.js lines 275-286): the
returned `Date` (or `none` for `null`) together with the object after the call. -/
def reversePredictLinear [FloorRing F] (self : FansPredictionSystem F) (targetFans : F) :
    Option (JsDate F) × FansPredictionSystem F :=
  match self.chart.linearModel with
  | none => (none, self)
  | some m =>
    if m.slope = 0 then (none, self)
    else
      let days := (targetFans - m.intercept) / m.slope
      let timestamp := m.startTime + days * 24 * 60 * 60 * 1000
      (some (newDate timestamp), self)

/-- The method `reversePredictExponential(targetFans)` (main.js lines 288-302): the
returned `Date` (or `none` for `null`) together with the object after the call. -/
def reversePredictExponential [FloorRing F] (log : F → F) (self : FansPredictionSystem F)
    (targetFans : F) : Option (JsDate F) × FansPredictionSystem F :=
  match self.chart.exponentialModel with
  | none => (none, self)
  | some m =>
    if m.lam ≤ 0 then (none, self)
    else
      let value := targetFans - m.c
      if value ≤ 0 ∨ value > m.a * 2 then (none, self)
      else
        let days := -log (value / m.a) / m.lam
        let timestamp := m.startTime + days * 24 * 60 * 60 * 1000
        (some (newDate timestamp), self)

end FansPredictionSystem

/-! ## The confidence score and the loader -/

/-- The JavaScript function `Math.round`: the nearest integer, a tie going up
(`Math.round(v) = floor(v + 0.5)`). -/
def jsRound [FloorRing F] (v : F) : ℤ := ⌊v + 1 / 2⌋

namespace FansPredictionSystem

/-- The method `calculateConfidence(targetDate)` (main.js lines 304-313); it only
reads fields.  `targetDate` is a `Date`; the first and the last timestamp of the
series pass through `new Date(...)`, and the two subtractions are on time values, so
an Invalid Date makes the result `NaN` (`none`).  The quotient
`predictionRange / dataRange` is guarded by no test of the source: with
`dataRange = 0` it is `NaN` (result `NaN`), `+Infinity` (result
`Math.max(30, -Infinity) = 30`) or `-Infinity` (result
`Math.min(95, Infinity) = 95`).  On an empty series the source throws; the
placeholders of `firstTimestamp` and `lastTimestamp` then stand in. -/
def calculateConfidence [FloorRing F] (self : FansPredictionSystem F)
    (targetDate : JsDate F) : Option ℤ :=
  match (newDate (lastTimestamp self.chart.data)).getTime,
      (newDate (firstTimestamp self.chart.data)).getTime, targetDate.getTime with
  | some lastDataDate, some firstDataDate, some target =>
    let dataRange := lastDataDate - firstDataDate
    let predictionRange := target - lastDataDate
    if dataRange = 0 then
      if predictionRange = 0 then none
      else if predictionRange > 0 then some 30
      else some 95
    else
      let confidence := 100 - (predictionRange / dataRange) * 50
      some (max 30 (min 95 (jsRound confidence)))
  | _, _, _ => none

end FansPredictionSystem

/-- A JavaScript value of type `number`: a finite number, `NaN`, `Infinity` or
`-Infinity`. -/
inductive JsNumber (F : Type) where
  | finite (v : F)
  | nan
  | posInf
  | negInf
  deriving DecidableEq

/-- A JavaScript value as the loader sees it: a number, or a value whose `typeof` is
not `'number'` (`undefined`, a string, `null`, an object, ...). -/
inductive JsValue (F : Type) where
  | number (n : JsNumber F)
  | notNumber
  deriving DecidableEq

/-- A truthy item of `FANS_DATA`, seen through its properties `time` and `fans` (the
property `timestamp`, a display string, is not represented). -/
structure RawRecord (F : Type) where
  time : JsValue F
  fans : JsValue F
  deriving DecidableEq

/-- The errors thrown by `loadData`, in the order of the three `throw` statements. -/
inductive LoadError where
  | dataFileNotLoaded
  | noValidData
  | tooFewPoints (count : Nat)
  deriving DecidableEq

namespace JsNumber

/-- The call `isNaN(n)` on a number. -/
def isNaN : JsNumber F → Bool
  | nan => true
  | _ => false

/-- The comparison `n > 0` on a number (false on `NaN`). -/
def isPositive : JsNumber F → Bool
  | finite v => decide (v > 0)
  | posInf => true
  | _ => false

/-- The subtraction `a - b` of two numbers. -/
def sub : JsNumber F → JsNumber F → JsNumber F
  | finite a, finite b => finite (a - b)
  | nan, _ => nan
  | _, nan => nan
  | posInf, posInf => nan
  | negInf, negInf => nan
  | posInf, _ => posInf
  | negInf, _ => negInf
  | finite _, posInf => negInf
  | finite _, negInf => posInf

end JsNumber

/-- The test `typeof v === 'number' && !isNaN(v) && v > 0` of the loader's filter. -/
def hasPositiveNumber (v : JsValue F) : Bool :=
  match v with
  | JsValue.number n => !n.isNaN && n.isPositive
  | JsValue.notNumber => false

/-- The filter callback of `loadData` (chart.js lines 46-59) on an item; `none` is a
falsy item. -/
def keepItem (item : Option (RawRecord F)) : Bool :=
  match item with
  | none => false
  | some r =>
    let hasTime := hasPositiveNumber r.time
    let hasFans := hasPositiveNumber r.fans
    if !hasTime || !hasFans then false else true

/-- The filter callback followed by the map callback of `loadData` (chart.js lines
46-64) on one item: the data point of a kept item, `none` for a dropped one. -/
def toDataPoint (item : Option (RawRecord F)) : Option (DataPoint (JsNumber F)) :=
  if keepItem item then
    match item with
    | some { time := JsValue.number t, fans := JsValue.number f } =>
      some { timestamp := t, fans := f }
    | _ => none
  else none

/-- The comparator `(a, b) => a.timestamp - b.timestamp` does not ask for `a` after
`b`: its result is not positive (a `NaN` result counts as `0`). -/
def comparatorLe (a b : DataPoint (JsNumber F)) : Prop :=
  (JsNumber.sub a.timestamp b.timestamp).isPositive = false

instance comparatorLe_decidable : DecidableRel (comparatorLe (F := F)) :=
  fun a b => inferInstanceAs (Decidable ((JsNumber.sub a.timestamp b.timestamp).isPositive = false))

/-- The outcome of `loadData`: the value assigned to `this.data` (`none` when the
assignment is not reached) and the error thrown, if any. -/
structure LoadOutcome (F : Type) where
  data : Option (List (DataPoint (JsNumber F)))
  error : Option LoadError

/-- The method `loadData()` (chart.js lines 34-105) as a function of the global
`FANS_DATA` (`none` when it is undefined).  `Array.prototype.sort` is stable and the
comparator is a consistent ordering of the kept records, so the sorted array is the
stable sort by timestamp. -/
def loadData (fansData : Option (List (Option (RawRecord F)))) : LoadOutcome F :=
  match fansData with
  | none => { data := none, error := some LoadError.dataFileNotLoaded }
  | some items =>
    let data := (items.filterMap toDataPoint).insertionSort comparatorLe
    if data.length > 0 then
      if data.length < 10 then
        { data := some data, error := some (LoadError.tooFewPoints data.length) }
      else { data := some data, error := none }
    else { data := some data, error := some LoadError.noValidData }

/-! ## Doubles as far as their range goes -/

/-- The overflow bound of the doubles: a real result of absolute value at least
`2^1024 - 2^970` rounds to an infinity. -/
def overflowBound : F := 2 ^ 1024 - 2 ^ 970

/-- The underflow bound of the doubles: a real result of absolute value at most
`2^-1075` rounds to zero. -/
def underflowBound : F := 1 / 2 ^ 1075

namespace JsNumber

/-- The double that a real sum or difference becomes: an infinity beyond the overflow
bound (sums and differences of doubles do not underflow). -/
def clipSum (v : F) : JsNumber F :=
  if overflowBound ≤ v then posInf
  else if v ≤ -overflowBound then negInf
  else finite v

/-- The double that a real product, quotient or exponential becomes: an infinity beyond
the overflow bound, zero within the underflow bound. -/
def clip (v : F) : JsNumber F :=
  if overflowBound ≤ v then posInf
  else if v ≤ -overflowBound then negInf
  else if |v| ≤ underflowBound then finite 0
  else finite v

/-- The unary minus `-a`. -/
def neg : JsNumber F → JsNumber F
  | finite a => finite (-a)
  | nan => nan
  | posInf => negInf
  | negInf => posInf

/-- The sum `a + b`. -/
def add : JsNumber F → JsNumber F → JsNumber F
  | finite a, finite b => clipSum (a + b)
  | nan, _ => nan
  | _, nan => nan
  | posInf, negInf => nan
  | negInf, posInf => nan
  | posInf, _ => posInf
  | _, posInf => posInf
  | negInf, _ => negInf
  | _, negInf => negInf

/-- The product `a * b`. -/
def mul : JsNumber F → JsNumber F → JsNumber F
  | finite a, finite b => clip (a * b)
  | nan, _ => nan
  | _, nan => nan
  | finite a, posInf => if a = 0 then nan else if 0 < a then posInf else negInf
  | finite a, negInf => if a = 0 then nan else if 0 < a then negInf else posInf
  | posInf, finite b => if b = 0 then nan else if 0 < b then posInf else negInf
  | negInf, finite b => if b = 0 then nan else if 0 < b then negInf else posInf
  | posInf, posInf => posInf
  | negInf, negInf => posInf
  | posInf, negInf => negInf
  | negInf, posInf => negInf

/-- The quotient `a / b`.  The zero divisors that occur in the source (a standard
deviation, a difference of two equal time values) are positive zeros. -/
def div : JsNumber F → JsNumber F → JsNumber F
  | finite a, finite b =>
    if b = 0 then
      if a = 0 then nan else if 0 < a then posInf else negInf
    else clip (a / b)
  | nan, _ => nan
  | _, nan => nan
  | finite _, posInf => finite 0
  | finite _, negInf => finite 0
  | posInf, finite b => if 0 ≤ b then posInf else negInf
  | negInf, finite b => if 0 ≤ b then negInf else posInf
  | posInf, posInf => nan
  | posInf, negInf => nan
  | negInf, posInf => nan
  | negInf, negInf => nan

/-- The call `Math.abs(a)`. -/
def abs : JsNumber F → JsNumber F
  | finite a => finite |a|
  | nan => nan
  | posInf => posInf
  | negInf => posInf

/-- The comparison `a < b` (false when an operand is `NaN`). -/
def lt : JsNumber F → JsNumber F → Bool
  | finite a, finite b => decide (a < b)
  | nan, _ => false
  | _, nan => false
  | negInf, negInf => false
  | negInf, _ => true
  | posInf, _ => false
  | finite _, posInf => true
  | finite _, negInf => false

/-- The comparison `a <= b` (false when an operand is `NaN`). -/
def le : JsNumber F → JsNumber F → Bool
  | finite a, finite b => decide (a ≤ b)
  | nan, _ => false
  | _, nan => false
  | negInf, _ => true
  | posInf, posInf => true
  | posInf, _ => false
  | finite _, posInf => true
  | finite _, negInf => false

/-- The call `Math.max(a, b)` (`NaN` when an argument is `NaN`). -/
def max (a b : JsNumber F) : JsNumber F :=
  if a.isNaN || b.isNaN then nan else if lt a b then b else a

/-- The call `Math.min(a, b)` (`NaN` when an argument is `NaN`). -/
def min (a b : JsNumber F) : JsNumber F :=
  if a.isNaN || b.isNaN then nan else if lt b a then b else a

/-- The call `Math.min(...y)`; `Math.min()` of no argument is `Infinity`. -/
def minOf (y : List (JsNumber F)) : JsNumber F :=
  y.foldl min posInf

/-- The call `Math.sqrt(a)`. -/
def sqrt (sqrt : F → F) : JsNumber F → JsNumber F
  | finite a => if a < 0 then nan else finite (sqrt a)
  | nan => nan
  | posInf => posInf
  | negInf => nan

/-- The call `Math.exp(a)`. -/
def exp (exp : F → F) : JsNumber F → JsNumber F
  | finite a => clip (exp a)
  | nan => nan
  | posInf => posInf
  | negInf => finite 0

/-- The call `Math.log(a)`. -/
def log (log : F → F) : JsNumber F → JsNumber F
  | finite a => if a < 0 then nan else if a = 0 then negInf else finite (log a)
  | nan => nan
  | posInf => posInf
  | negInf => nan

/-- The number of elements of an array as a number. -/
def ofNat (n : Nat) : JsNumber F := finite (n : F)

instance instAdd : Add (JsNumber F) := ⟨add⟩

instance instMul : Mul (JsNumber F) := ⟨mul⟩

instance instDiv : Div (JsNumber F) := ⟨div⟩

instance instNeg : Neg (JsNumber F) := ⟨neg⟩

instance instSub : Sub (JsNumber F) := ⟨fun a b => add a (neg b)⟩

end JsNumber

/-! The fitting code once more, now on doubles as far as their range goes: every
operation is exact unless its result leaves the range of the doubles, where it becomes
`±Infinity` or `0`, and `NaN` and the infinities propagate as in IEEE arithmetic.  The
rounding of results within the range is not represented. -/

namespace Js

/-- The expression `this.data[0].timestamp`; it is only evaluated after a length
check. -/
def firstTimestamp (data : List (DataPoint (JsNumber F))) : JsNumber F :=
  match data with
  | [] => JsNumber.nan
  | d :: _ => d.timestamp

/-- The conversion `(timestamp - startTime) / (1000 * 60 * 60 * 24)`. -/
def toDays (startTime timestamp : JsNumber F) : JsNumber F :=
  (timestamp - startTime) / JsNumber.finite 86400000

/-- The closure `predict` of the linear model (chart.js lines 159-163). -/
def linearPredict (slope intercept startTime : JsNumber F) (timestamp : JsNumber F) :
    JsNumber F :=
  let days := (timestamp - startTime) / JsNumber.finite 86400000
  let result := slope * days + intercept
  JsNumber.max (JsNumber.finite 0) result

/-- The closure `predict` of the offset model (chart.js lines 279-283). -/
def exponentialPredict (exp : F → F) (a lam c startTime : JsNumber F)
    (timestamp : JsNumber F) : JsNumber F :=
  let days := (timestamp - startTime) / JsNumber.finite 86400000
  let result := a * JsNumber.exp exp (-lam * days) + c
  JsNumber.max (JsNumber.finite 0) result

/-- The closure `predict` of the offset-free model (chart.js lines 248-252). -/
def exponentialPredictNoOffset (exp : F → F) (a lam startTime : JsNumber F)
    (timestamp : JsNumber F) : JsNumber F :=
  let days := (timestamp - startTime) / JsNumber.finite 86400000
  let result := a * JsNumber.exp exp (-lam * days)
  JsNumber.max (JsNumber.finite 0) result

/-- The value `r2 = ssTotal > 0 ? 1 - (ssResidual / ssTotal) : 0`. -/
def rSquared (ssTotal ssResidual : JsNumber F) : JsNumber F :=
  if JsNumber.lt (JsNumber.finite 0) ssTotal then JsNumber.finite 1 - ssResidual / ssTotal
  else JsNumber.finite 0

/-- The method `calculateLinearRegression` (chart.js lines 104-171). -/
def calculateLinearRegression (self : FansChart (JsNumber F)) : FansChart (JsNumber F) :=
  if self.data.length < 2 then self
  else
    let n : JsNumber F := JsNumber.ofNat self.data.length
    let startTime := firstTimestamp self.data
    let points := self.data.map (fun d =>
      ({ x := (d.timestamp - startTime) / JsNumber.finite 86400000, y := d.fans }
        : Point (JsNumber F)))
    let sumX := points.foldl (fun sum p => sum + p.x) (JsNumber.finite 0)
    let sumY := points.foldl (fun sum p => sum + p.y) (JsNumber.finite 0)
    let sumXY := points.foldl (fun sum p => sum + p.x * p.y) (JsNumber.finite 0)
    let sumXX := points.foldl (fun sum p => sum + p.x * p.x) (JsNumber.finite 0)
    let denominator := n * sumXX - sumX * sumX
    if JsNumber.lt (JsNumber.abs denominator) (JsNumber.finite (1 / 10 ^ 10)) then self
    else
      let slope := (n * sumXY - sumX * sumY) / denominator
      let intercept := (sumY - slope * sumX) / n
      if slope.isNaN || intercept.isNaN then self
      else
        let yMean := sumY / n
        let ssTotal := points.foldl (fun sum p => sum + (p.y - yMean) * (p.y - yMean))
          (JsNumber.finite 0)
        let ssResidual := points.foldl (fun sum p =>
          let predicted := slope * p.x + intercept
          sum + (p.y - predicted) * (p.y - predicted)) (JsNumber.finite 0)
        let r2 := rSquared ssTotal ssResidual
        { self with
          linearModel := some
            { slope := slope
              intercept := intercept
              r2 := JsNumber.max (JsNumber.finite 0) r2
              startTime := startTime
              predict := linearPredict slope intercept startTime } }

/-- The method `simpleExponentialFit(x, y)` (chart.js lines 295-349); `x` and `y`
are parallel arrays, indexed access `lnY[i]`, `yPred[i]` is a zip. -/
def simpleExponentialFit (exp log : F → F) (x y : List (JsNumber F)) :
    Option (OffsetFit (JsNumber F)) :=
  let c := JsNumber.minOf y * JsNumber.finite (9 / 10)
  let yAdjusted := y.map (fun yi => yi - c)
  if yAdjusted.any (fun v => JsNumber.le v (JsNumber.finite 0)) then none
  else
    let lnY := yAdjusted.map (fun v => JsNumber.log log v)
    let n : JsNumber F := JsNumber.ofNat x.length
    let sumX := x.foldl (fun a b => a + b) (JsNumber.finite 0)
    let sumLnY := lnY.foldl (fun a b => a + b) (JsNumber.finite 0)
    let sumXLnY := (x.zip lnY).foldl (fun sum p => sum + p.1 * p.2) (JsNumber.finite 0)
    let sumXX := x.foldl (fun sum xi => sum + xi * xi) (JsNumber.finite 0)
    let denominator := n * sumXX - sumX * sumX
    if JsNumber.lt (JsNumber.abs denominator) (JsNumber.finite (1 / 10 ^ 10)) then none
    else
      let slope := (n * sumXLnY - sumX * sumLnY) / denominator
      let intercept := (sumLnY - slope * sumX) / n
      let a := JsNumber.exp exp intercept
      let lam := -slope
      let yPred := x.map (fun xi => a * JsNumber.exp exp (-lam * xi) + c)
      let yMean := y.foldl (fun a b => a + b) (JsNumber.finite 0) / n
      let ssTotal := y.foldl (fun sum yi => sum + (yi - yMean) * (yi - yMean))
        (JsNumber.finite 0)
      let ssResidual := (y.zip yPred).foldl (fun sum p => sum + (p.1 - p.2) * (p.1 - p.2))
        (JsNumber.finite 0)
      let r2 := rSquared ssTotal ssResidual
      if a.isNaN || lam.isNaN || JsNumber.le lam (JsNumber.finite 0)
          || JsNumber.le a (JsNumber.finite 0) || JsNumber.lt r2 (JsNumber.finite (1 / 10))
      then none
      else some { a := a, lam := lam, c := c, r2 := r2 }

/-- The method `simpleExponentialFitNoOffset(x, y)` (chart.js lines 352-398). -/
def simpleExponentialFitNoOffset (exp log : F → F) (x y : List (JsNumber F)) :
    Option (NoOffsetFit (JsNumber F)) :=
  if y.any (fun v => JsNumber.le v (JsNumber.finite 0)) then none
  else
    let lnY := y.map (fun v => JsNumber.log log v)
    let n : JsNumber F := JsNumber.ofNat x.length
    let sumX := x.foldl (fun a b => a + b) (JsNumber.finite 0)
    let sumLnY := lnY.foldl (fun a b => a + b) (JsNumber.finite 0)
    let sumXLnY := (x.zip lnY).foldl (fun sum p => sum + p.1 * p.2) (JsNumber.finite 0)
    let sumXX := x.foldl (fun sum xi => sum + xi * xi) (JsNumber.finite 0)
    let denominator := n * sumXX - sumX * sumX
    if JsNumber.lt (JsNumber.abs denominator) (JsNumber.finite (1 / 10 ^ 10)) then none
    else
      let slope := (n * sumXLnY - sumX * sumLnY) / denominator
      let intercept := (sumLnY - slope * sumX) / n
      let a := JsNumber.exp exp intercept
      let lam := -slope
      let yPred := x.map (fun xi => a * JsNumber.exp exp (-lam * xi))
      let yMean := y.foldl (fun a b => a + b) (JsNumber.finite 0) / n
      let ssTotal := y.foldl (fun sum yi => sum + (yi - yMean) * (yi - yMean))
        (JsNumber.finite 0)
      let ssResidual := (y.zip yPred).foldl (fun sum p => sum + (p.1 - p.2) * (p.1 - p.2))
        (JsNumber.finite 0)
      let r2 := rSquared ssTotal ssResidual
      if a.isNaN || lam.isNaN || JsNumber.le lam (JsNumber.finite 0)
          || JsNumber.le a (JsNumber.finite 0) || JsNumber.lt r2 (JsNumber.finite (1 / 10))
      then none
      else some { a := a, lam := lam, r2 := r2 }

/-- The outlier step of `calculateExponentialDecay` (chart.js lines 191-219): from
the arrays `x`, `y` to the arrays handed to the fitters and `outlierCount`. -/
def outlierStep (sqrt : F → F) (x y : List (JsNumber F)) :
    List (JsNumber F) × List (JsNumber F) × Nat :=
  let yMean := y.foldl (fun sum val => sum + val) (JsNumber.finite 0) / JsNumber.ofNat y.length
  let yStd := JsNumber.sqrt sqrt
    (y.foldl (fun sum val => sum + (val - yMean) * (val - yMean)) (JsNumber.finite 0)
      / JsNumber.ofNat y.length)
  let keep : JsNumber F → Bool := fun yi =>
    JsNumber.le (JsNumber.abs ((yi - yMean) / yStd)) (JsNumber.finite 4)
  let cleanData := (x.zip y).filter (fun p => keep p.2)
  let outlierCount := ((x.zip y).filter (fun p => !keep p.2)).length
  if cleanData.length < 10 then (x, y, 0)
  else (cleanData.map (fun d => d.1), cleanData.map (fun d => d.2), outlierCount)

/-- The model object built in the offset branch (chart.js lines 260-284). -/
def offsetModel (exp log : F → F) (startTime : JsNumber F) (x : List (JsNumber F))
    (outlierCount : Nat) (result : OffsetFit (JsNumber F)) : ExponentialModel (JsNumber F) :=
  let halfLife := JsNumber.log log (JsNumber.finite 2) / result.lam
  let currentTime := x.getLastD JsNumber.nan
  let currentDecayRate :=
    -result.a * result.lam * JsNumber.exp exp (-result.lam * currentTime)
  { a := result.a
    lam := result.lam
    c := result.c
    r2 := result.r2
    halfLife := halfLife
    currentDecayRate := currentDecayRate
    startTime := startTime
    dataPoints := x.length
    outlierCount := outlierCount
    predict := exponentialPredict exp result.a result.lam result.c startTime }

/-- The model object built in the offset-free branch (chart.js lines 231-253). -/
def noOffsetModel (exp log : F → F) (startTime : JsNumber F) (x : List (JsNumber F))
    (outlierCount : Nat) (simpleResult : NoOffsetFit (JsNumber F)) :
    ExponentialModel (JsNumber F) :=
  let halfLife := JsNumber.log log (JsNumber.finite 2) / simpleResult.lam
  let currentTime := x.getLastD JsNumber.nan
  let currentDecayRate :=
    -simpleResult.a * simpleResult.lam * JsNumber.exp exp (-simpleResult.lam * currentTime)
  { a := simpleResult.a
    lam := simpleResult.lam
    c := JsNumber.finite 0
    r2 := simpleResult.r2
    halfLife := halfLife
    currentDecayRate := currentDecayRate
    startTime := startTime
    dataPoints := x.length
    outlierCount := outlierCount
    predict := exponentialPredictNoOffset exp simpleResult.a simpleResult.lam startTime }

/-- The method `calculateExponentialDecay` (chart.js lines 173-292). -/
def calculateExponentialDecay (sqrt exp log : F → F) (self : FansChart (JsNumber F)) :
    FansChart (JsNumber F) :=
  if self.data.length < 3 then self
  else
    let startTime := firstTimestamp self.data
    let x := self.data.map (fun d => (d.timestamp - startTime) / JsNumber.finite 86400000)
    let y := self.data.map (fun d => d.fans)
    let cleaned := outlierStep sqrt x y
    let x := cleaned.1
    let y := cleaned.2.1
    let outlierCount := cleaned.2.2
    match simpleExponentialFit exp log x y with
    | none =>
      match simpleExponentialFitNoOffset exp log x y with
      | some simpleResult =>
        { self with
          exponentialModel := some (noOffsetModel exp log startTime x outlierCount simpleResult) }
      | none => self
    | some result =>
      { self with
        exponentialModel := some (offsetModel exp log startTime x outlierCount result) }

end Js

/-- The outcome of `init()`: the error rethrown, or normal completion, each with the
object at that moment. -/
inductive InitOutcome (F : Type) where
  | thrown (error : LoadError) (chart : FansChart (JsNumber F))
  | completed (chart : FansChart (JsNumber F))

/-- The constructor of `FansChart` (chart.js lines 2-7). -/
def FansChart.new {N : Type} : FansChart N :=
  { data := [], linearModel := none, exponentialModel := none }

/-- The method `init()` (chart.js lines 9-32) up to the call of `createChart`, which
only draws: `loadData`, which assigns `this.data` before its length checks, then the
two fitters; an error of `loadData` is rethrown at once. -/
def Js.init (sqrt exp log : F → F) (self : FansChart (JsNumber F))
    (fansData : Option (List (Option (RawRecord F)))) : InitOutcome F :=
  let loaded := loadData fansData
  let afterLoad : FansChart (JsNumber F) :=
    match loaded.data with
    | some data => { self with data := data }
    | none => self
  match loaded.error with
  | some e => InitOutcome.thrown e afterLoad
  | none =>
    InitOutcome.completed
      (Js.calculateExponentialDecay sqrt exp log (Js.calculateLinearRegression afterLoad))

/-! ## Specification-side vocabulary

The quantities below follow the wording of the specification (sums over the
sample, the closed-form least-squares solution, the residual sum of squares);
the theorems compare them with the definitions translated from the source. -/

/-- The sample of the linear fit: `x_i = (t_i - t_0) / 86400000`, `y_i = value`. -/
def sample (data : List (DataPoint F)) : List (Point F) :=
  data.map (fun d => { x := (d.timestamp - firstTimestamp data) / 86400000, y := d.fans })

/-- The sum `Σ x` over a sample. -/
def sumX (pts : List (Point F)) : F := (pts.map (fun p => p.x)).sum

/-- The sum `Σ y` over a sample. -/
def sumY (pts : List (Point F)) : F := (pts.map (fun p => p.y)).sum

/-- The sum `Σ xy` over a sample. -/
def sumXY (pts : List (Point F)) : F := (pts.map (fun p => p.x * p.y)).sum

/-- The sum `Σ x²` over a sample. -/
def sumXX (pts : List (Point F)) : F := (pts.map (fun p => p.x ^ 2)).sum

/-- The regression denominator `n·Σx² - (Σx)²`. -/
def olsDenominator (pts : List (Point F)) : F :=
  (pts.length : F) * sumXX pts - (sumX pts) ^ 2

/-- The closed-form slope `(n·Σxy - Σx·Σy) / (n·Σx² - (Σx)²)`. -/
def olsSlope (pts : List (Point F)) : F :=
  ((pts.length : F) * sumXY pts - sumX pts * sumY pts) / olsDenominator pts

/-- The closed-form intercept `(Σy - slope·Σx) / n`. -/
def olsIntercept (pts : List (Point F)) : F :=
  (sumY pts - olsSlope pts * sumX pts) / (pts.length : F)

/-- The residual sum of squares `Σ_i (y_i - (s·x_i + b))²` of the line `s·x + b`. -/
def squaredError (pts : List (Point F)) (s b : F) : F :=
  (pts.map (fun p => (p.y - (s * p.x + b)) ^ 2)).sum

/-- The total sum of squares `Σ_i (y_i - mean y)²`. -/
def totalSquares (pts : List (Point F)) : F :=
  (pts.map (fun p => (p.y - sumY pts / (pts.length : F)) ^ 2)).sum

/-- The goodness of fit `r2 = 1 - SS_res/SS_tot` when `SS_tot > 0`, else `0`. -/
def rSquared (ssTotal ssResidual : F) : F :=
  if ssTotal > 0 then 1 - ssResidual / ssTotal else 0

/-- The post-filter data of `calculateExponentialDecay`: the arrays `x` (elapsed days)
and `y` (values) handed to the fitters, and `outlierCount`. -/
def postFilterData (sqrt : F → F) (data : List (DataPoint F)) : List F × List F × Nat :=
  FansChart.outlierStep sqrt
    (data.map (fun d => (d.timestamp - firstTimestamp data) / 86400000))
    (data.map (fun d => d.fans))

/-- The elapsed days of a data point: `(t - t_0) / 86400000`. -/
def elapsedDays (data : List (DataPoint F)) (d : DataPoint F) : F :=
  (d.timestamp - firstTimestamp data) / 86400000

/-- The mean of the values. -/
def mean (y : List F) : F := y.sum / (y.length : F)

/-- The population standard deviation of the values (over all points). -/
def populationStd (sqrt : F → F) (y : List F) : F :=
  sqrt ((y.map (fun v => (v - mean y) ^ 2)).sum / (y.length : F))

/-- The z-score test `|v - mean| / stddev ≤ 4`.  When the standard deviation is `0`
the quotient is not a number and the test fails, as every comparison with `NaN`. -/
def withinFourSigma (sqrt : F → F) (y : List F) (v : F) : Bool :=
  decide (populationStd sqrt y ≠ 0 ∧ |v - mean y| / populationStd sqrt y ≤ 4)

/-- The sub-sequence, in original order, of the points whose z-score is at most 4. -/
def keptPoints (sqrt : F → F) (data : List (DataPoint F)) : List (DataPoint F) :=
  data.filter (fun d => withinFourSigma sqrt (data.map (fun e => e.fans)) d.fans)

/-- The log-linearised sample of the offset model: the points `(x_i, ln(y_i - c))`. -/
def logPoints (log : F → F) (x y : List F) (c : F) : List (Point F) :=
  List.zipWith (fun xi yi => { x := xi, y := log (yi - c) }) x y

/-- The residual sum of squares `Σ_i (y_i - (a·e^(-lam·x_i) + c))²` of the curve
against the original values. -/
def curveSquaredError (exp : F → F) (a lam c : F) (x y : List F) : F :=
  (List.zipWith (fun xi yi => (yi - (a * exp (-lam * xi) + c)) ^ 2) x y).sum

/-- The total sum of squares `Σ_i (y_i - mean y)²` of the values. -/
def valueSquares (y : List F) : F :=
  (y.map (fun v => (v - mean y) ^ 2)).sum

/-- The scenario of the specification for the linear fit: 10 daily points whose
values grow linearly from 100 to 1000 over 9 days. -/
def linearScenario : FansChart ℚ :=
  { data :=
      [⟨1700000000000, 100⟩, ⟨1700086400000, 200⟩, ⟨1700172800000, 300⟩,
       ⟨1700259200000, 400⟩, ⟨1700345600000, 500⟩, ⟨1700432000000, 600⟩,
       ⟨1700518400000, 700⟩, ⟨1700604800000, 800⟩, ⟨1700691200000, 900⟩,
       ⟨1700777600000, 1000⟩]
    linearModel := none
    exponentialModel := none }

/-- The scenario of the specification for the exponential fit: 10 daily points
(elapsed days 0, 1, ..., 9) with the noise-free values `500·e^(-0.1·day)`. -/
def decayScenario (exp : F → F) : FansChart F :=
  { data :=
      [⟨1700000000000, 500 * exp (-(1 / 10) * 0)⟩, ⟨1700086400000, 500 * exp (-(1 / 10) * 1)⟩,
       ⟨1700172800000, 500 * exp (-(1 / 10) * 2)⟩, ⟨1700259200000, 500 * exp (-(1 / 10) * 3)⟩,
       ⟨1700345600000, 500 * exp (-(1 / 10) * 4)⟩, ⟨1700432000000, 500 * exp (-(1 / 10) * 5)⟩,
       ⟨1700518400000, 500 * exp (-(1 / 10) * 6)⟩, ⟨1700604800000, 500 * exp (-(1 / 10) * 7)⟩,
       ⟨1700691200000, 500 * exp (-(1 / 10) * 8)⟩, ⟨1700777600000, 500 * exp (-(1 / 10) * 9)⟩]
    linearModel := none
    exponentialModel := none }

/-- The Taylor polynomial of degree 6 of the exponential; a lower bound of `e^t`
for `t ≥ 0`. -/
def expLower (t : F) : F :=
  1 + t + t ^ 2 / 2 + t ^ 3 / 6 + t ^ 4 / 24 + t ^ 5 / 120 + t ^ 6 / 720

/-- The Taylor polynomial of degree 6 plus the remainder bound `t⁷·8/(7!·7)`; an
upper bound of `e^t` for `0 ≤ t ≤ 1`. -/
def expUpper (t : F) : F :=
  expLower t + t ^ 7 * 8 / (5040 * 7)

/-- Ten points with pairwise distinct timestamps, 10 ms apart. -/
def closeTimestampsScenario : FansChart ℚ :=
  { data :=
      [⟨1700000000000, 100⟩, ⟨1700000000010, 101⟩, ⟨1700000000020, 102⟩,
       ⟨1700000000030, 103⟩, ⟨1700000000040, 104⟩, ⟨1700000000050, 105⟩,
       ⟨1700000000060, 106⟩, ⟨1700000000070, 107⟩, ⟨1700000000080, 108⟩,
       ⟨1700000000090, 109⟩]
    linearModel := none
    exponentialModel := none }

/-- The records the specification keeps: a field is a finite positive number. -/
def isFinitePositive (v : JsValue F) : Bool :=
  match v with
  | JsValue.number (JsNumber.finite x) => decide (x > 0)
  | _ => false

/-- The series of the specification: the records whose `time` and `fans` are both
finite positive numbers. -/
def finitePositiveRecords (items : List (Option (RawRecord F))) : List (RawRecord F) :=
  items.filterMap (fun item =>
    match item with
    | some r => if isFinitePositive r.time && isFinitePositive r.fans then some r else none
    | none => none)

/-- The records kept by the source: `time` and `fans` are numbers, not `NaN`, and
greater than zero (`Infinity` included). -/
def positiveRecords (items : List (Option (RawRecord F))) : List (RawRecord F) :=
  items.filterMap (fun item =>
    match item with
    | some r => if hasPositiveNumber r.time && hasPositiveNumber r.fans then some r else none
    | none => none)

/-- A raw input of ten records, timestamps `1 .. 10`, the last value `Infinity`. -/
def infiniteValueScenario : List (Option (RawRecord ℚ)) :=
  [ some { time := JsValue.number (JsNumber.finite 1), fans := JsValue.number (JsNumber.finite 100) },
    some { time := JsValue.number (JsNumber.finite 2), fans := JsValue.number (JsNumber.finite 100) },
    some { time := JsValue.number (JsNumber.finite 3), fans := JsValue.number (JsNumber.finite 100) },
    some { time := JsValue.number (JsNumber.finite 4), fans := JsValue.number (JsNumber.finite 100) },
    some { time := JsValue.number (JsNumber.finite 5), fans := JsValue.number (JsNumber.finite 100) },
    some { time := JsValue.number (JsNumber.finite 6), fans := JsValue.number (JsNumber.finite 100) },
    some { time := JsValue.number (JsNumber.finite 7), fans := JsValue.number (JsNumber.finite 100) },
    some { time := JsValue.number (JsNumber.finite 8), fans := JsValue.number (JsNumber.finite 100) },
    some { time := JsValue.number (JsNumber.finite 9), fans := JsValue.number (JsNumber.finite 100) },
    some { time := JsValue.number (JsNumber.finite 10), fans := JsValue.number JsNumber.posInf } ]

/-- A raw input with exactly five valid records among eight items. -/
def fiveValidScenario : List (Option (RawRecord ℚ)) :=
  [ some { time := JsValue.number (JsNumber.finite 3), fans := JsValue.number (JsNumber.finite 30) },
    none,
    some { time := JsValue.number (JsNumber.finite 1), fans := JsValue.number (JsNumber.finite 10) },
    some { time := JsValue.notNumber, fans := JsValue.number (JsNumber.finite 10) },
    some { time := JsValue.number (JsNumber.finite 5), fans := JsValue.number (JsNumber.finite 50) },
    some { time := JsValue.number (JsNumber.finite 2), fans := JsValue.number JsNumber.nan },
    some { time := JsValue.number (JsNumber.finite 4), fans := JsValue.number (JsNumber.finite 40) },
    some { time := JsValue.number (JsNumber.finite 2), fans := JsValue.number (JsNumber.finite 20) } ]

/-- A system whose series runs from timestamp `0` to timestamp `1000`. -/
def confidenceScenario : FansPredictionSystem ℚ :=
  { chart := { data := [⟨0, 500⟩, ⟨400, 450⟩, ⟨1000, 400⟩], linearModel := none,
               exponentialModel := none },
    currentMethod := "linear" }

/-- A system whose linear model has the slope `1e-8` per day and the intercept `100`. -/
def slowGrowthSystem : FansPredictionSystem ℚ :=
  { chart :=
      { data := []
        linearModel := some
          { slope := 1 / 10 ^ 8, intercept := 100, r2 := 1, startTime := 1700000000000,
            predict := linearPredict (1 / 10 ^ 8) 100 1700000000000 }
        exponentialModel := none }
    currentMethod := "linear" }

/-- A system whose linear model has the slope `1` per day, the intercept `0` and the
start time `0`. -/
def unitSlopeSystem : FansPredictionSystem ℚ :=
  { chart :=
      { data := []
        linearModel := some
          { slope := 1, intercept := 0, r2 := 1, startTime := 0, predict := linearPredict 1 0 0 }
        exponentialModel := none }
    currentMethod := "linear" }

/-- A system whose exponential model is `a = 0.28`, `lam = 1e-16`, `c = 2.52`. -/
def slowDecaySystem (exp log : F → F) : FansPredictionSystem F :=
  { chart :=
      { data := []
        linearModel := none
        exponentialModel := some
          { a := 28 / 100, lam := 1 / 10 ^ 16, c := 252 / 100, r2 := 1,
            halfLife := log 2 / (1 / 10 ^ 16),
            currentDecayRate := -(28 / 100) * (1 / 10 ^ 16) * exp (-(1 / 10 ^ 16) * 9),
            startTime := 0, dataPoints := 10, outlierCount := 0,
            predict := exponentialPredict exp (28 / 100) (1 / 10 ^ 16) (252 / 100) 0 } }
    currentMethod := "exponential" }

/-- A system whose series has the timestamps `1.9` and `3.1`. -/
def fractionalTimesSystem : FansPredictionSystem ℚ :=
  { chart := { data := [⟨19 / 10, 500⟩, ⟨31 / 10, 400⟩], linearModel := none,
               exponentialModel := none },
    currentMethod := "linear" }

/-- A system whose series has the timestamps `0.5` and `1.9`. -/
def halfMillisecondSystem : FansPredictionSystem ℚ :=
  { chart := { data := [⟨1 / 2, 500⟩, ⟨19 / 10, 400⟩], linearModel := none,
               exponentialModel := none },
    currentMethod := "linear" }

/-! ## Vocabulary and scenarios on doubles as far as their range goes -/

/-- A number that is not negative: a finite number `≥ 0`, `Infinity` or `NaN`. -/
def JsNumber.notNegative : JsNumber F → Bool
  | JsNumber.finite v => decide (0 ≤ v)
  | JsNumber.posInf => true
  | JsNumber.nan => true
  | JsNumber.negInf => false

/-- The post-filter data of `calculateExponentialDecay` on doubles: the arrays `x`
(elapsed days) and `y` (values) handed to the fitters, and `outlierCount`. -/
def Js.postFilterData (sqrt : F → F) (data : List (DataPoint (JsNumber F))) :
    List (JsNumber F) × List (JsNumber F) × Nat :=
  Js.outlierStep sqrt
    (data.map (fun d => (d.timestamp - Js.firstTimestamp data) / JsNumber.finite 86400000))
    (data.map (fun d => d.fans))

/-- A value that a double can hold: `NaN`, an infinity, or a finite number that is below
the overflow bound in absolute value and is zero or at least `2^-1074` in absolute
value. -/
def JsNumber.isDouble : JsNumber F → Bool
  | JsNumber.finite v => decide (|v| < overflowBound ∧ (v = 0 ∨ 1 / 2 ^ 1074 ≤ |v|))
  | JsNumber.nan => true
  | JsNumber.posInf => true
  | JsNumber.negInf => true

/-- The sum `Σ v` of an array of doubles, accumulated from `0` in array order. -/
def Js.sum (l : List (JsNumber F)) : JsNumber F :=
  l.foldl (fun a b => a + b) (JsNumber.finite 0)

/-- The offset `c = 0.9·min(y)` of the offset tier. -/
def Js.offsetOf (y : List (JsNumber F)) : JsNumber F :=
  JsNumber.minOf y * JsNumber.finite (9 / 10)

/-- The logarithms `ln(y_i - c)`. -/
def Js.logValues (log : F → F) (y : List (JsNumber F)) (c : JsNumber F) :
    List (JsNumber F) :=
  y.map (fun yi => JsNumber.log log (yi - c))

/-- The regression denominator `n·Σx² - (Σx)²`. -/
def Js.olsDenominator (x : List (JsNumber F)) : JsNumber F :=
  JsNumber.ofNat x.length * Js.sum (x.map (fun xi => xi * xi)) - Js.sum x * Js.sum x

/-- The closed-form slope `(n·Σxl - Σx·Σl) / (n·Σx² - (Σx)²)` of the points
`(x_i, l_i)`. -/
def Js.olsSlope (x l : List (JsNumber F)) : JsNumber F :=
  (JsNumber.ofNat x.length * Js.sum (List.zipWith (fun xi li => xi * li) x l)
    - Js.sum x * Js.sum l) / Js.olsDenominator x

/-- The closed-form intercept `(Σl - slope·Σx) / n`. -/
def Js.olsIntercept (x l : List (JsNumber F)) : JsNumber F :=
  (Js.sum l - Js.olsSlope x l * Js.sum x) / JsNumber.ofNat x.length

/-- The residual sum of squares `Σ_i (y_i - (a·e^(-lam·x_i) + c))²` of the curve against
the original values. -/
def Js.curveSquaredError (exp : F → F) (a lam c : JsNumber F) (x y : List (JsNumber F)) :
    JsNumber F :=
  Js.sum (List.zipWith (fun xi yi =>
    (yi - (a * JsNumber.exp exp (-lam * xi) + c))
      * (yi - (a * JsNumber.exp exp (-lam * xi) + c))) x y)

/-- The total sum of squares `Σ_i (y_i - mean y)²` of the values. -/
def Js.valueSquares (y : List (JsNumber F)) : JsNumber F :=
  Js.sum (y.map (fun yi =>
    (yi - Js.sum y / JsNumber.ofNat y.length) * (yi - Js.sum y / JsNumber.ofNat y.length)))

/-- A series of ten daily points with values of the order `1e160`. -/
def hugeValuesScenario : FansChart (JsNumber ℚ) :=
  { data :=
      [ ⟨JsNumber.finite 1700000000000, JsNumber.finite (9 * 10 ^ 160)⟩,
        ⟨JsNumber.finite 1700086400000, JsNumber.finite (7 * 10 ^ 160)⟩,
        ⟨JsNumber.finite 1700172800000, JsNumber.finite (8 * 10 ^ 160)⟩,
        ⟨JsNumber.finite 1700259200000, JsNumber.finite (5 * 10 ^ 160)⟩,
        ⟨JsNumber.finite 1700345600000, JsNumber.finite (6 * 10 ^ 160)⟩,
        ⟨JsNumber.finite 1700432000000, JsNumber.finite (4 * 10 ^ 160)⟩,
        ⟨JsNumber.finite 1700518400000, JsNumber.finite (3 * 10 ^ 160)⟩,
        ⟨JsNumber.finite 1700604800000, JsNumber.finite (25 * 10 ^ 159)⟩,
        ⟨JsNumber.finite 1700691200000, JsNumber.finite (2 * 10 ^ 160)⟩,
        ⟨JsNumber.finite 1700777600000, JsNumber.finite (1 * 10 ^ 160)⟩ ]
    linearModel := none
    exponentialModel := none }

/-- The elapsed days `0, 1, ..., 9` of ten daily points. -/
def tenDays : List F := [0, 1, 2, 3, 4, 5, 6, 7, 8, 9]

/-- Ten values of the order `2^541` (about `7e162`): `c + 2^540·2^e` with the offset
`c = 9·2^531` and the exponents `e = 1, -3, -1, -3, -4, -5, -6, -7, -8, -9`. -/
def overflowValues : List F :=
  [9 * 2 ^ 531 + 2 ^ 541, 9 * 2 ^ 531 + 2 ^ 537, 9 * 2 ^ 531 + 2 ^ 539, 9 * 2 ^ 531 + 2 ^ 537, 9 * 2 ^ 531 + 2 ^ 536, 9 * 2 ^ 531 + 2 ^ 535, 9 * 2 ^ 531 + 2 ^ 534, 9 * 2 ^ 531 + 2 ^ 533, 9 * 2 ^ 531 + 2 ^ 532, 9 * 2 ^ 531 + 2 ^ 531]

/-- The series of ten daily points with the values `overflowValues`. -/
def overflowScenario : FansChart (JsNumber F) :=
  { data :=
      [ ⟨JsNumber.finite 1700000000000, JsNumber.finite (9 * 2 ^ 531 + 2 ^ 541)⟩,
        ⟨JsNumber.finite 1700086400000, JsNumber.finite (9 * 2 ^ 531 + 2 ^ 537)⟩,
        ⟨JsNumber.finite 1700172800000, JsNumber.finite (9 * 2 ^ 531 + 2 ^ 539)⟩,
        ⟨JsNumber.finite 1700259200000, JsNumber.finite (9 * 2 ^ 531 + 2 ^ 537)⟩,
        ⟨JsNumber.finite 1700345600000, JsNumber.finite (9 * 2 ^ 531 + 2 ^ 536)⟩,
        ⟨JsNumber.finite 1700432000000, JsNumber.finite (9 * 2 ^ 531 + 2 ^ 535)⟩,
        ⟨JsNumber.finite 1700518400000, JsNumber.finite (9 * 2 ^ 531 + 2 ^ 534)⟩,
        ⟨JsNumber.finite 1700604800000, JsNumber.finite (9 * 2 ^ 531 + 2 ^ 533)⟩,
        ⟨JsNumber.finite 1700691200000, JsNumber.finite (9 * 2 ^ 531 + 2 ^ 532)⟩,
        ⟨JsNumber.finite 1700777600000, JsNumber.finite (9 * 2 ^ 531 + 2 ^ 531)⟩ ]
    linearModel := none
    exponentialModel := none }

/-! ## Auxiliary lemmas on sums -/

theorem foldl_add_eq_sum {α : Type} (f : α → F) (l : List α) (a : F) :
    l.foldl (fun sum p => sum + f p) a = a + (l.map f).sum := by
  induction l generalizing a with
  | nil => simp
  | cons h t ih => simp [ih, add_assoc]

theorem sum_sq_residual_expand {α : Type} (fx fy : α → F) (l : List α) (s b : F) :
    (l.map (fun p => (fy p - (s * fx p + b)) ^ 2)).sum
      = (l.map (fun p => fy p * fy p)).sum - 2 * s * (l.map (fun p => fx p * fy p)).sum
        - 2 * b * (l.map fy).sum + s ^ 2 * (l.map (fun p => fx p * fx p)).sum
        + 2 * s * b * (l.map fx).sum + (l.length : F) * b ^ 2 := by
  induction l with
  | nil => simp
  | cons h t ih =>
    simp only [List.map_cons, List.sum_cons, List.length_cons, Nat.cast_succ, ih]
    ring

theorem sum_sq_line_expand {α : Type} (fx : α → F) (l : List α) (d e : F) :
    (l.map (fun p => (d * fx p + e) ^ 2)).sum
      = d ^ 2 * (l.map (fun p => fx p * fx p)).sum + 2 * d * e * (l.map fx).sum
        + (l.length : F) * e ^ 2 := by
  induction l with
  | nil => simp
  | cons h t ih =>
    simp only [List.map_cons, List.sum_cons, List.length_cons, Nat.cast_succ, ih]
    ring

theorem sum_sq_nonneg {α : Type} (g : α → F) (l : List α) :
    0 ≤ (l.map (fun p => (g p) ^ 2)).sum := by
  apply List.sum_nonneg
  intro v hv
  simp only [List.mem_map] at hv
  obtain ⟨p, _, rfl⟩ := hv
  positivity

theorem line_sums {α : Type} (fx : α → F) (l : List α) (m b : F) :
    (l.map (fun p => m * fx p + b)).sum = m * (l.map fx).sum + (l.length : F) * b
    ∧ (l.map (fun p => fx p * (m * fx p + b))).sum
        = m * (l.map (fun p => fx p * fx p)).sum + b * (l.map fx).sum := by
  induction l with
  | nil => simp
  | cons h t ih =>
    obtain ⟨ih1, ih2⟩ := ih
    simp only [List.map_cons, List.sum_cons, List.length_cons, Nat.cast_succ, ih1, ih2]
    constructor <;> ring

/-- The identity `n·Σ(f - mean f)² = n·Σf² - (Σf)²`. -/
theorem centered_squares {α : Type} (f : α → F) (l : List α) (hn : (l.length : F) ≠ 0) :
    (l.length : F) * (l.map (fun p => (f p - (l.map f).sum / (l.length : F)) ^ 2)).sum
      = (l.length : F) * (l.map (fun p => f p * f p)).sum - (l.map f).sum * (l.map f).sum := by
  have h := sum_sq_residual_expand (fun _ => (0 : F)) f l 0 ((l.map f).sum / (l.length : F))
  simp only [zero_mul, zero_add, mul_zero, sub_zero, add_zero] at h
  rw [h]
  field_simp
  ring

theorem length_cast_ne_zero {α : Type} (l : List α) (h : 0 < l.length) :
    (l.length : F) ≠ 0 := by
  exact_mod_cast h.ne'

/-- The regression denominator `n·Σf² - (Σf)²` is never negative. -/
theorem denominator_nonneg {α : Type} (f : α → F) (l : List α) :
    0 ≤ (l.length : F) * (l.map (fun p => f p * f p)).sum - (l.map f).sum * (l.map f).sum := by
  by_cases hn : (l.length : F) = 0
  · have : l = [] := by
      have : l.length = 0 := by exact_mod_cast hn
      exact List.length_eq_zero.mp this
    subst this
    simp
  · rw [← centered_squares f l hn]
    exact mul_nonneg (Nat.cast_nonneg _) (sum_sq_nonneg _ l)

/-- On data lying exactly on the line `m·x + b` the power sums are those of the line. -/
theorem exact_line_sums {α : Type} (fx fy : α → F) (l : List α) (m b : F)
    (h : ∀ p ∈ l, fy p = m * fx p + b) :
    (l.map fy).sum = m * (l.map fx).sum + (l.length : F) * b
    ∧ (l.map (fun p => fx p * fy p)).sum
        = m * (l.map (fun p => fx p * fx p)).sum + b * (l.map fx).sum
    ∧ (l.map (fun p => fy p * fy p)).sum
        = m ^ 2 * (l.map (fun p => fx p * fx p)).sum + 2 * m * b * (l.map fx).sum
          + (l.length : F) * b ^ 2 := by
  have e1 : l.map fy = l.map (fun p => m * fx p + b) := List.map_congr_left h
  have e2 : l.map (fun p => fx p * fy p) = l.map (fun p => fx p * (m * fx p + b)) :=
    List.map_congr_left (fun p hp => by rw [h p hp])
  have e3 : l.map (fun p => fy p * fy p) = l.map (fun p => (m * fx p + b) ^ 2) :=
    List.map_congr_left (fun p hp => by rw [h p hp, pow_two])
  rw [e1, e2, e3, sum_sq_line_expand]
  exact ⟨(line_sums fx l m b).1, (line_sums fx l m b).2, rfl⟩

/-- On data lying exactly on a line the closed-form solution is that line. -/
theorem exact_line_recovery {α : Type} (fx fy : α → F) (l : List α) (m b : F)
    (h : ∀ p ∈ l, fy p = m * fx p + b) (hn : (l.length : F) ≠ 0)
    (hden : (l.length : F) * (l.map (fun p => fx p * fx p)).sum
      - (l.map fx).sum * (l.map fx).sum ≠ 0) :
    ((l.length : F) * (l.map (fun p => fx p * fy p)).sum - (l.map fx).sum * (l.map fy).sum)
        / ((l.length : F) * (l.map (fun p => fx p * fx p)).sum
          - (l.map fx).sum * (l.map fx).sum) = m
    ∧ ((l.map fy).sum - m * (l.map fx).sum) / (l.length : F) = b := by
  obtain ⟨h1, h2, _⟩ := exact_line_sums fx fy l m b h
  constructor
  · rw [div_eq_iff hden, h1, h2]
    ring
  · rw [div_eq_iff hn, h1]
    ring

/-- The normal equations of the closed-form solution, on power sums. -/
theorem ols_normal_equations (n Sx Sy Sxy Sxx : F) (hn : n ≠ 0)
    (hden : n * Sxx - Sx * Sx ≠ 0) :
    Sy = (n * Sxy - Sx * Sy) / (n * Sxx - Sx * Sx) * Sx
          + n * ((Sy - (n * Sxy - Sx * Sy) / (n * Sxx - Sx * Sx) * Sx) / n)
      ∧ n * Sxy = n * ((n * Sxy - Sx * Sy) / (n * Sxx - Sx * Sx) * Sxx
          + (Sy - (n * Sxy - Sx * Sy) / (n * Sxx - Sx * Sx) * Sx) / n * Sx) := by
  constructor
  · field_simp
    ring
  · field_simp
    ring

/-- Least squares: the closed-form pair is a minimiser of the residual sum of
squares of any list, for any way of reading `x` and `y` off its elements. -/
theorem ols_minimises {α : Type} (fx fy : α → F) (l : List α)
    (hn : (l.length : F) ≠ 0)
    (hden : (l.length : F) * (l.map (fun p => fx p * fx p)).sum
      - (l.map fx).sum * (l.map fx).sum ≠ 0) (s b : F) :
    (l.map (fun p => (fy p -
        (((l.length : F) * (l.map (fun p => fx p * fy p)).sum
            - (l.map fx).sum * (l.map fy).sum)
          / ((l.length : F) * (l.map (fun p => fx p * fx p)).sum
            - (l.map fx).sum * (l.map fx).sum) * fx p
        + ((l.map fy).sum - ((l.length : F) * (l.map (fun p => fx p * fy p)).sum
            - (l.map fx).sum * (l.map fy).sum)
          / ((l.length : F) * (l.map (fun p => fx p * fx p)).sum
            - (l.map fx).sum * (l.map fx).sum) * (l.map fx).sum) / (l.length : F))) ^ 2)).sum
      ≤ (l.map (fun p => (fy p - (s * fx p + b)) ^ 2)).sum := by
  obtain ⟨h1, h2⟩ := ols_normal_equations (l.length : F) (l.map fx).sum (l.map fy).sum
    (l.map (fun p => fx p * fy p)).sum (l.map (fun p => fx p * fx p)).sum hn hden
  have h2x := mul_left_cancel₀ hn h2
  generalize ((l.length : F) * (l.map (fun p => fx p * fy p)).sum
            - (l.map fx).sum * (l.map fy).sum)
          / ((l.length : F) * (l.map (fun p => fx p * fx p)).sum
            - (l.map fx).sum * (l.map fx).sum) = sh at h1 h2x ⊢
  generalize ((l.map fy).sum - sh * (l.map fx).sum) / (l.length : F) = bh at h1 h2x ⊢
  have key := sum_sq_nonneg (fun p => (sh - s) * fx p + (bh - b)) l
  rw [sum_sq_line_expand] at key
  rw [sum_sq_residual_expand, sum_sq_residual_expand]
  have hdiff : ((l.map (fun p => fy p * fy p)).sum - 2 * s * (l.map (fun p => fx p * fy p)).sum
        - 2 * b * (l.map fy).sum + s ^ 2 * (l.map (fun p => fx p * fx p)).sum
        + 2 * s * b * (l.map fx).sum + (l.length : F) * b ^ 2)
      - ((l.map (fun p => fy p * fy p)).sum - 2 * sh * (l.map (fun p => fx p * fy p)).sum
        - 2 * bh * (l.map fy).sum + sh ^ 2 * (l.map (fun p => fx p * fx p)).sum
        + 2 * sh * bh * (l.map fx).sum + (l.length : F) * bh ^ 2)
      = (sh - s) ^ 2 * (l.map (fun p => fx p * fx p)).sum
        + 2 * (sh - s) * (bh - b) * (l.map fx).sum + (l.length : F) * (bh - b) ^ 2 := by
    linear_combination (-2 * (s - sh)) * h2x + (-2 * (b - bh)) * h1
  linarith

/-! ## The linear fit -/

theorem regressionPoints_eq_sample (data : List (DataPoint F)) :
    FansChart.regressionPoints data = sample data := by
  have h : (msPerDay : F) = 86400000 := by
    unfold msPerDay
    norm_num
  simp only [FansChart.regressionPoints, sample, h]

theorem sample_length (data : List (DataPoint F)) : (sample data).length = data.length := by
  simp [sample]

/-- The r² value stored by the linear fit, in the vocabulary of the specification. -/
theorem calculateLinearRegression_eq (self : FansChart F) (hlen : 2 ≤ self.data.length)
    (hden : denomEps ≤ |olsDenominator (sample self.data)|) :
    FansChart.calculateLinearRegression self =
      { self with
        linearModel := some
          { slope := olsSlope (sample self.data)
            intercept := olsIntercept (sample self.data)
            r2 := max 0 (if totalSquares (sample self.data) > 0 then
                1 - squaredError (sample self.data) (olsSlope (sample self.data))
                      (olsIntercept (sample self.data)) / totalSquares (sample self.data)
              else 0)
            startTime := firstTimestamp self.data
            predict := linearPredict (olsSlope (sample self.data))
              (olsIntercept (sample self.data)) (firstTimestamp self.data) } } := by
  have hl : ¬ self.data.length < 2 := by omega
  have hd : ¬ |olsDenominator (sample self.data)| < denomEps := not_lt.mpr hden
  unfold FansChart.calculateLinearRegression
  simp only [regressionPoints_eq_sample, foldl_add_eq_sum, zero_add]
  simp only [olsDenominator, olsSlope, olsIntercept, totalSquares, squaredError, sumX, sumY,
    sumXY, sumXX, sample_length, pow_two] at hd ⊢
  rw [if_neg hl, if_neg hd]

theorem denomEps_pos : (0 : F) < denomEps := by
  unfold denomEps
  positivity

theorem olsDenominator_ne_zero (pts : List (Point F))
    (hden : denomEps ≤ |olsDenominator pts|) : olsDenominator pts ≠ 0 := by
  intro h
  rw [h, abs_zero] at hden
  exact absurd hden (not_le.mpr denomEps_pos)

/-- The closed-form pair minimises the residual sum of squares of a sample. -/
theorem olsPair_minimises (pts : List (Point F)) (hn : (pts.length : F) ≠ 0)
    (hden : olsDenominator pts ≠ 0) (s b : F) :
    squaredError pts (olsSlope pts) (olsIntercept pts) ≤ squaredError pts s b := by
  have h := ols_minimises (fun p : Point F => p.x) (fun p : Point F => p.y) pts hn
    (by simpa only [olsDenominator, sumXX, sumX, pow_two] using hden) s b
  simpa only [squaredError, olsSlope, olsIntercept, olsDenominator, sumX, sumY, sumXY, sumXX,
    pow_two] using h

/-- C1: for every series of length at least 2 whose regression denominator
`n·Σx² - (Σx)²` is not near zero (`x_i = (t_i - t_0)/86400000`, `y_i = value`),
`calculateLinearRegression` stores a model whose slope is
`(n·Σxy - Σx·Σy) / (n·Σx² - (Σx)²)`, whose intercept is `(Σy - slope·Σx)/n`, and
this pair minimises `Σ_i (y_i - (s·x_i + b))²` over all pairs `(s, b)`. -/
theorem linear_fit_is_ordinary_least_squares (self : FansChart F)
    (hlen : 2 ≤ self.data.length)
    (hden : denomEps ≤ |olsDenominator (sample self.data)|) :
    ∃ m : LinearModel F,
      (FansChart.calculateLinearRegression self).linearModel = some m ∧
      m.slope = ((self.data.length : F) * sumXY (sample self.data)
          - sumX (sample self.data) * sumY (sample self.data))
        / ((self.data.length : F) * sumXX (sample self.data) - (sumX (sample self.data)) ^ 2) ∧
      m.intercept = (sumY (sample self.data) - m.slope * sumX (sample self.data))
        / (self.data.length : F) ∧
      ∀ s b : F, squaredError (sample self.data) m.slope m.intercept
        ≤ squaredError (sample self.data) s b := by
  rw [calculateLinearRegression_eq self hlen hden]
  refine ⟨_, rfl, ?_, ?_, ?_⟩
  · simp only [olsSlope, olsDenominator, sample_length]
  · simp only [olsIntercept, sample_length]
  · intro s b
    apply olsPair_minimises
    · rw [sample_length]
      have : 0 < self.data.length := by omega
      exact_mod_cast this.ne'
    · exact olsDenominator_ne_zero _ hden

/-- C1 at a concrete series over `ℚ`: three daily points with values 1, 3, 4. -/
theorem linear_fit_is_ordinary_least_squares_witness :
    ∃ m : LinearModel ℚ,
      (FansChart.calculateLinearRegression
        ({ data := [⟨1000, 1⟩, ⟨86401000, 3⟩, ⟨172801000, 4⟩],
           linearModel := none, exponentialModel := none } : FansChart ℚ)).linearModel
        = some m ∧
      m.slope = 3 / 2 ∧ m.intercept = 7 / 6 ∧
      ∀ s b : ℚ, squaredError [⟨0, 1⟩, ⟨1, 3⟩, ⟨2, 4⟩] m.slope m.intercept
        ≤ squaredError [⟨0, 1⟩, ⟨1, 3⟩, ⟨2, 4⟩] s b := by
  obtain ⟨m, hm, hs, hi, hmin⟩ := linear_fit_is_ordinary_least_squares (F := ℚ)
    ({ data := [⟨1000, 1⟩, ⟨86401000, 3⟩, ⟨172801000, 4⟩],
       linearModel := none, exponentialModel := none } : FansChart ℚ)
    (by decide)
    (by norm_num [denomEps, olsDenominator, sample, sumXX, sumX, firstTimestamp])
  have hsample : sample (F := ℚ) [⟨1000, 1⟩, ⟨86401000, 3⟩, ⟨172801000, 4⟩]
      = [⟨0, 1⟩, ⟨1, 3⟩, ⟨2, 4⟩] := by
    norm_num [sample, firstTimestamp]
  have hs2 : m.slope = 3 / 2 := by
    rw [hs]
    norm_num [sample, sumXY, sumXX, sumX, sumY, firstTimestamp]
  have hi2 : m.intercept = 7 / 6 := by
    rw [hi, hs2]
    norm_num [sample, sumXY, sumXX, sumX, sumY, firstTimestamp]
  refine ⟨m, hm, hs2, hi2, ?_⟩
  rw [← hsample]
  exact hmin

theorem olsDenominator_pos (pts : List (Point F))
    (hden : denomEps ≤ |olsDenominator pts|) : 0 < olsDenominator pts := by
  have h0 : 0 ≤ olsDenominator pts := by
    have := denominator_nonneg (fun p : Point F => p.x) pts
    simpa only [olsDenominator, sumXX, sumX, pow_two] using this
  exact lt_of_le_of_ne h0 (olsDenominator_ne_zero pts hden).symm

/-- On a sample lying exactly on the line `m·x + b`: the closed-form pair is `(m, b)`,
the residual sum of squares vanishes and `n` times the total sum of squares is
`m²` times the denominator. -/
theorem exact_line_sample (pts : List (Point F)) (m b : F)
    (h : ∀ p ∈ pts, p.y = m * p.x + b) (hn : (pts.length : F) ≠ 0)
    (hden : olsDenominator pts ≠ 0) :
    olsSlope pts = m ∧ olsIntercept pts = b ∧ squaredError pts m b = 0
      ∧ (pts.length : F) * totalSquares pts = m ^ 2 * olsDenominator pts := by
  have hden2 : (pts.length : F) * (pts.map (fun p => p.x * p.x)).sum
      - (pts.map (fun p => p.x)).sum * (pts.map (fun p => p.x)).sum ≠ 0 := by
    simpa only [olsDenominator, sumXX, sumX, pow_two] using hden
  obtain ⟨r1, r2⟩ := exact_line_recovery (fun p : Point F => p.x) (fun p : Point F => p.y)
    pts m b h hn hden2
  obtain ⟨s1, _, s3⟩ := exact_line_sums (fun p : Point F => p.x) (fun p : Point F => p.y)
    pts m b h
  have hslope : olsSlope pts = m := by
    simpa only [olsSlope, olsDenominator, sumX, sumY, sumXY, sumXX, pow_two] using r1
  refine ⟨hslope, ?_, ?_, ?_⟩
  · simp only [olsIntercept, hslope]
    simpa only [sumX, sumY] using r2
  · unfold squaredError
    have : pts.map (fun p => (p.y - (m * p.x + b)) ^ 2) = pts.map (fun _ => (0 : F)) :=
      List.map_congr_left (fun p hp => by rw [h p hp]; ring)
    rw [this]
    simp
  · have hc := centered_squares (fun p : Point F => p.y) pts hn
    simp only [totalSquares, olsDenominator, sumX, sumY, sumXX, pow_two] at hc ⊢
    rw [hc, s1, s3]
    ring

/-- C2: for every series of length at least 2 whose values lie exactly on a line
`value = m·days + b` with `m ≠ 0` and positive values, and which passes the
denominator check, `calculateLinearRegression` stores slope `m`, intercept `b`,
`r2 = 1`, and the stored `predict` returns the training value at every training
timestamp. -/
theorem linear_fit_recovers_exact_line (self : FansChart F) (m b : F)
    (hlen : 2 ≤ self.data.length)
    (hden : denomEps ≤ |olsDenominator (sample self.data)|)
    (hline : ∀ d ∈ self.data,
      d.fans = m * ((d.timestamp - firstTimestamp self.data) / 86400000) + b)
    (hm : m ≠ 0) (hpos : ∀ d ∈ self.data, 0 < d.fans) :
    ∃ model : LinearModel F,
      (FansChart.calculateLinearRegression self).linearModel = some model ∧
      model.slope = m ∧ model.intercept = b ∧ model.r2 = 1 ∧
      ∀ d ∈ self.data, model.predict d.timestamp = d.fans := by
  have hn : ((sample self.data).length : F) ≠ 0 :=
    length_cast_ne_zero _ (by rw [sample_length]; omega)
  have hpts : ∀ p ∈ sample self.data, p.y = m * p.x + b := by
    intro p hp
    simp only [sample, List.mem_map] at hp
    obtain ⟨d, hd, rfl⟩ := hp
    exact hline d hd
  obtain ⟨hs, hi, hres, htot⟩ := exact_line_sample (sample self.data) m b hpts hn
    (olsDenominator_ne_zero _ hden)
  have hnpos : (0 : F) < ((sample self.data).length : F) :=
    lt_of_le_of_ne (Nat.cast_nonneg _) hn.symm
  have htpos : 0 < totalSquares (sample self.data) := by
    have h1 : 0 < m ^ 2 * olsDenominator (sample self.data) :=
      mul_pos (by positivity) (olsDenominator_pos _ hden)
    rw [← htot] at h1
    exact (pos_iff_pos_of_mul_pos h1).mp hnpos
  rw [calculateLinearRegression_eq self hlen hden]
  refine ⟨_, rfl, hs, hi, ?_, ?_⟩
  · simp only [hs, hi, hres, if_pos htpos, zero_div, sub_zero]
    exact max_eq_right zero_le_one
  · intro d hd
    have hmd : (msPerDay : F) = 86400000 := by
      unfold msPerDay
      norm_num
    simp only [hs, hi, linearPredict, hmd, ← hline d hd]
    exact max_eq_right (hpos d hd).le

/-- C2 at the scenario of the specification: 10 daily points with values
100, 200, ..., 1000 give slope 100 per day, intercept 100 and `r2 = 1`. -/
theorem linear_fit_recovers_exact_line_witness :
    ∃ model : LinearModel ℚ,
      (FansChart.calculateLinearRegression linearScenario).linearModel = some model ∧
      model.slope = 100 ∧ model.intercept = 100 ∧ model.r2 = 1 ∧
      ∀ d ∈ linearScenario.data, model.predict d.timestamp = d.fans :=
  linear_fit_recovers_exact_line linearScenario 100 100
    (by decide)
    (by norm_num [denomEps, olsDenominator, sample, sumXX, sumX, firstTimestamp, linearScenario])
    (by norm_num [linearScenario, firstTimestamp])
    (by norm_num)
    (by norm_num [linearScenario])

/-! ## The range of r² -/

theorem foldl_sq_nonneg {α : Type} (g : α → F) (l : List α) :
    0 ≤ l.foldl (fun sum p => sum + (g p) ^ 2) 0 := by
  rw [foldl_add_eq_sum, zero_add]
  exact sum_sq_nonneg g l

theorem rSquared_fold (ssTotal ssResidual : F) :
    (if ssTotal > 0 then 1 - ssResidual / ssTotal else 0) = rSquared ssTotal ssResidual := rfl

/-- The value `rSquared` never exceeds 1 when the residual sum is non-negative. -/
theorem rSquared_le_one (ssTotal ssResidual : F) (h : 0 ≤ ssResidual) :
    rSquared ssTotal ssResidual ≤ 1 := by
  unfold rSquared
  split_ifs with hpos
  · have : 0 ≤ ssResidual / ssTotal := div_nonneg h hpos.le
    linarith
  · exact zero_le_one

/-- An accepted offset fit has `0.1 ≤ r2 ≤ 1`. -/
theorem simpleExponentialFit_r2_bounds (exp log : F → F) (x y : List F) (r : OffsetFit F)
    (h : FansChart.simpleExponentialFit exp log x y = some r) :
    1 / 10 ≤ r.r2 ∧ r.r2 ≤ 1 := by
  simp only [FansChart.simpleExponentialFit, rSquared_fold] at h
  split_ifs at h with h1 h2 h3
  simp only [Option.some.injEq] at h
  subst h
  simp only [not_or, not_lt] at h3
  exact ⟨h3.2.2, rSquared_le_one _ _ (foldl_sq_nonneg (fun p : F × F => p.1 - p.2) _)⟩

/-- An accepted offset-free fit has `0.1 ≤ r2 ≤ 1`. -/
theorem simpleExponentialFitNoOffset_r2_bounds (exp log : F → F) (x y : List F)
    (r : NoOffsetFit F)
    (h : FansChart.simpleExponentialFitNoOffset exp log x y = some r) :
    1 / 10 ≤ r.r2 ∧ r.r2 ≤ 1 := by
  simp only [FansChart.simpleExponentialFitNoOffset, rSquared_fold] at h
  split_ifs at h with h1 h2 h3
  simp only [Option.some.injEq] at h
  subst h
  simp only [not_or, not_lt] at h3
  exact ⟨h3.2.2, rSquared_le_one _ _ (foldl_sq_nonneg (fun p : F × F => p.1 - p.2) _)⟩

/-- The linear fit either leaves the object as it is or stores a model with r² in `[0, 1]`. -/
theorem calculateLinearRegression_r2 (self : FansChart F) :
    FansChart.calculateLinearRegression self = self ∨
      ∃ m : LinearModel F, (FansChart.calculateLinearRegression self).linearModel = some m
        ∧ 0 ≤ m.r2 ∧ m.r2 ≤ 1 := by
  simp only [FansChart.calculateLinearRegression, rSquared_fold]
  split_ifs with h1 h2
  · exact Or.inl rfl
  · exact Or.inl rfl
  · refine Or.inr ⟨_, rfl, le_max_left _ _, ?_⟩
    apply max_le zero_le_one
    exact rSquared_le_one _ _ (foldl_sq_nonneg (fun p : Point F => p.y - _) _)

/-- The exponential fit either leaves the object as it is or stores a model whose r²
is the one of an accepted tier, hence in `[0, 1]`. -/
theorem calculateExponentialDecay_r2 (sqrt exp log : F → F) (self : FansChart F) :
    FansChart.calculateExponentialDecay sqrt exp log self = self ∨
      ∃ m : ExponentialModel F,
        (FansChart.calculateExponentialDecay sqrt exp log self).exponentialModel = some m
        ∧ 0 ≤ m.r2 ∧ m.r2 ≤ 1 := by
  unfold FansChart.calculateExponentialDecay
  split_ifs with h1
  · exact Or.inl rfl
  · simp only []
    split
    · rename_i hoff
      split
      · rename_i r hno
        obtain ⟨hlo, hhi⟩ := simpleExponentialFitNoOffset_r2_bounds exp log _ _ r hno
        refine Or.inr ⟨_, rfl, ?_, hhi⟩
        simp only [FansChart.noOffsetModel]
        linarith
      · exact Or.inl rfl
    · rename_i r hoff
      obtain ⟨hlo, hhi⟩ := simpleExponentialFit_r2_bounds exp log _ _ r hoff
      refine Or.inr ⟨_, rfl, ?_, hhi⟩
      simp only [FansChart.offsetModel]
      linarith

/-- In exact arithmetic every model produced has its stored r² in `[0, 1]`: starting
from an object without a linear (exponential) model, any model present after
`calculateLinearRegression` (`calculateExponentialDecay`) has `0 ≤ r2 ≤ 1`, and so
has every result accepted by the offset tier `simpleExponentialFit` and by the
offset-free tier `simpleExponentialFitNoOffset`. -/
theorem stored_r2_in_unit_interval (sqrt exp log : F → F) (data : List (DataPoint F))
    (lm : Option (LinearModel F)) (em : Option (ExponentialModel F)) :
    (∀ m : LinearModel F,
      (FansChart.calculateLinearRegression
        { data := data, linearModel := none, exponentialModel := em }).linearModel = some m →
      0 ≤ m.r2 ∧ m.r2 ≤ 1) ∧
    (∀ m : ExponentialModel F,
      (FansChart.calculateExponentialDecay sqrt exp log
        { data := data, linearModel := lm, exponentialModel := none }).exponentialModel = some m →
      0 ≤ m.r2 ∧ m.r2 ≤ 1) ∧
    (∀ (x y : List F) (r : OffsetFit F),
      FansChart.simpleExponentialFit exp log x y = some r → 0 ≤ r.r2 ∧ r.r2 ≤ 1) ∧
    (∀ (x y : List F) (r : NoOffsetFit F),
      FansChart.simpleExponentialFitNoOffset exp log x y = some r → 0 ≤ r.r2 ∧ r.r2 ≤ 1) := by
  refine ⟨?_, ?_, ?_, ?_⟩
  · intro m hm
    rcases calculateLinearRegression_r2
      ({ data := data, linearModel := none, exponentialModel := em } : FansChart F) with h | h
    · rw [h] at hm
      exact absurd hm (by simp)
    · obtain ⟨m', hm', hb⟩ := h
      rw [hm] at hm'
      cases hm'
      exact hb
  · intro m hm
    rcases calculateExponentialDecay_r2 sqrt exp log
      ({ data := data, linearModel := lm, exponentialModel := none } : FansChart F) with h | h
    · rw [h] at hm
      exact absurd hm (by simp)
    · obtain ⟨m', hm', hb⟩ := h
      rw [hm] at hm'
      cases hm'
      exact hb
  · intro x y r h
    obtain ⟨hlo, hhi⟩ := simpleExponentialFit_r2_bounds exp log x y r h
    exact ⟨by linarith, hhi⟩
  · intro x y r h
    obtain ⟨hlo, hhi⟩ := simpleExponentialFitNoOffset_r2_bounds exp log x y r h
    exact ⟨by linarith, hhi⟩

/-! ## The tiered exponential fit -/

theorem msPerDay_eq : (msPerDay : F) = 86400000 := by
  unfold msPerDay
  norm_num

/-- The exponential fit in terms of the post-filter data: the three outcomes. -/
theorem calculateExponentialDecay_eq (sqrt exp log : F → F) (self : FansChart F)
    (hlen : 3 ≤ self.data.length) :
    FansChart.calculateExponentialDecay sqrt exp log self =
      match FansChart.simpleExponentialFit exp log (postFilterData sqrt self.data).1
          (postFilterData sqrt self.data).2.1 with
      | some result =>
        { self with
          exponentialModel := some (FansChart.offsetModel exp log (firstTimestamp self.data)
            (postFilterData sqrt self.data).1 (postFilterData sqrt self.data).2.2 result) }
      | none =>
        match FansChart.simpleExponentialFitNoOffset exp log (postFilterData sqrt self.data).1
            (postFilterData sqrt self.data).2.1 with
        | some simpleResult =>
          { self with
            exponentialModel := some (FansChart.noOffsetModel exp log (firstTimestamp self.data)
              (postFilterData sqrt self.data).1 (postFilterData sqrt self.data).2.2
              simpleResult) }
        | none => self := by
  have hl : ¬ self.data.length < 3 := by omega
  unfold FansChart.calculateExponentialDecay
  rw [if_neg hl]
  simp only [postFilterData, msPerDay_eq]
  split <;> simp only [*]

/-- C4: the exponential fit is a tiered decision chain.  For every series of length
at least 3, with `(x, y)` the post-filter data: when `simpleExponentialFit x y` is
accepted its result is stored (same `a`, `lam`, `c`, `r2`); when it is rejected and
`simpleExponentialFitNoOffset x y` is accepted, that result is stored with `c = 0`;
when both are rejected the object is left as it was (no model is produced). -/
theorem exponential_fit_is_tiered (sqrt exp log : F → F) (self : FansChart F)
    (hlen : 3 ≤ self.data.length) :
    (∀ r : OffsetFit F,
      FansChart.simpleExponentialFit exp log (postFilterData sqrt self.data).1
        (postFilterData sqrt self.data).2.1 = some r →
      ∃ m : ExponentialModel F,
        FansChart.calculateExponentialDecay sqrt exp log self
          = { self with exponentialModel := some m }
        ∧ m.a = r.a ∧ m.lam = r.lam ∧ m.c = r.c ∧ m.r2 = r.r2) ∧
    (FansChart.simpleExponentialFit exp log (postFilterData sqrt self.data).1
        (postFilterData sqrt self.data).2.1 = none →
      ∀ r : NoOffsetFit F,
        FansChart.simpleExponentialFitNoOffset exp log (postFilterData sqrt self.data).1
          (postFilterData sqrt self.data).2.1 = some r →
        ∃ m : ExponentialModel F,
          FansChart.calculateExponentialDecay sqrt exp log self
            = { self with exponentialModel := some m }
          ∧ m.a = r.a ∧ m.lam = r.lam ∧ m.c = 0 ∧ m.r2 = r.r2) ∧
    (FansChart.simpleExponentialFit exp log (postFilterData sqrt self.data).1
        (postFilterData sqrt self.data).2.1 = none →
      FansChart.simpleExponentialFitNoOffset exp log (postFilterData sqrt self.data).1
        (postFilterData sqrt self.data).2.1 = none →
      FansChart.calculateExponentialDecay sqrt exp log self = self) := by
  rw [calculateExponentialDecay_eq sqrt exp log self hlen]
  refine ⟨?_, ?_, ?_⟩
  · intro r hr
    rw [hr]
    exact ⟨_, rfl, rfl, rfl, rfl, rfl⟩
  · intro hnone r hr
    rw [hnone]
    simp only [hr]
    exact ⟨_, rfl, rfl, rfl, rfl, rfl⟩
  · intro h1 h2
    rw [h1]
    simp only [h2]

/-- C4 at the decay scenario of the specification, over the reals. -/
theorem exponential_fit_is_tiered_witness :
    (∀ r : OffsetFit ℝ,
      FansChart.simpleExponentialFit Real.exp Real.log
        (postFilterData Real.sqrt (decayScenario Real.exp).data).1
        (postFilterData Real.sqrt (decayScenario Real.exp).data).2.1 = some r →
      ∃ m : ExponentialModel ℝ,
        FansChart.calculateExponentialDecay Real.sqrt Real.exp Real.log (decayScenario Real.exp)
          = { decayScenario Real.exp with exponentialModel := some m }
        ∧ m.a = r.a ∧ m.lam = r.lam ∧ m.c = r.c ∧ m.r2 = r.r2) ∧
    (FansChart.simpleExponentialFit Real.exp Real.log
        (postFilterData Real.sqrt (decayScenario Real.exp).data).1
        (postFilterData Real.sqrt (decayScenario Real.exp).data).2.1 = none →
      ∀ r : NoOffsetFit ℝ,
        FansChart.simpleExponentialFitNoOffset Real.exp Real.log
          (postFilterData Real.sqrt (decayScenario Real.exp).data).1
          (postFilterData Real.sqrt (decayScenario Real.exp).data).2.1 = some r →
        ∃ m : ExponentialModel ℝ,
          FansChart.calculateExponentialDecay Real.sqrt Real.exp Real.log
              (decayScenario Real.exp)
            = { decayScenario Real.exp with exponentialModel := some m }
          ∧ m.a = r.a ∧ m.lam = r.lam ∧ m.c = 0 ∧ m.r2 = r.r2) ∧
    (FansChart.simpleExponentialFit Real.exp Real.log
        (postFilterData Real.sqrt (decayScenario Real.exp).data).1
        (postFilterData Real.sqrt (decayScenario Real.exp).data).2.1 = none →
      FansChart.simpleExponentialFitNoOffset Real.exp Real.log
        (postFilterData Real.sqrt (decayScenario Real.exp).data).1
        (postFilterData Real.sqrt (decayScenario Real.exp).data).2.1 = none →
      FansChart.calculateExponentialDecay Real.sqrt Real.exp Real.log (decayScenario Real.exp)
        = decayScenario Real.exp) :=
  exponential_fit_is_tiered Real.sqrt Real.exp Real.log (decayScenario Real.exp) (by decide)

/-! ## The offset-free fit on exactly exponential data -/

theorem foldl_add_eq_sum_id (l : List F) : l.foldl (fun a b => a + b) 0 = l.sum := by
  have h := foldl_add_eq_sum (fun b : F => b) l 0
  simpa using h

theorem zip_map_map {α β γ : Type} (f : α → β) (g : α → γ) (l : List α) :
    (l.map f).zip (l.map g) = l.map (fun t => (f t, g t)) := by
  induction l with
  | nil => rfl
  | cons h t ih => simp [ih]

theorem zip_self_map {α γ : Type} (g : α → γ) (l : List α) :
    l.zip (l.map g) = l.map (fun t => (t, g t)) := by
  induction l with
  | nil => rfl
  | cons h t ih => simp [ih]

/-- A list all of whose elements are equal has a vanishing regression denominator. -/
theorem denominator_eq_zero_of_constant (l : List F) (c : F) (h : ∀ v ∈ l, v = c) :
    (l.length : F) * (l.map (fun v => v * v)).sum - l.sum * l.sum = 0 := by
  induction l with
  | nil => simp
  | cons a t ih =>
    have ha : a = c := h a (List.mem_cons_self _ _)
    have ht : ∀ v ∈ t, v = c := fun v hv => h v (List.mem_cons_of_mem _ hv)
    have e1 : t.sum = (t.length : F) * c := by
      clear ih h
      induction t with
      | nil => simp
      | cons b u ihu =>
        have hb : b = c := ht b (List.mem_cons_self _ _)
        have hu : ∀ v ∈ u, v = c := fun v hv => ht v (List.mem_cons_of_mem _ hv)
        simp only [List.sum_cons, List.length_cons, Nat.cast_succ, ihu hu, hb]
        ring
    have e2 : (t.map (fun v => v * v)).sum = (t.length : F) * (c * c) := by
      clear ih h e1
      induction t with
      | nil => simp
      | cons b u ihu =>
        have hb : b = c := ht b (List.mem_cons_self _ _)
        have hu : ∀ v ∈ u, v = c := fun v hv => ht v (List.mem_cons_of_mem _ hv)
        simp only [List.map_cons, List.sum_cons, List.length_cons, Nat.cast_succ, ihu hu, hb]
        ring
    simp only [List.map_cons, List.sum_cons, List.length_cons, Nat.cast_succ, e1, e2, ha]
    ring

/-- A vanishing sum of squared deviations forces every element to equal the centre. -/
theorem eq_of_sum_sq_eq_zero {α : Type} (g : α → F) (l : List α) (mu : F)
    (h : (l.map (fun p => (g p - mu) ^ 2)).sum = 0) : ∀ p ∈ l, g p = mu := by
  induction l with
  | nil => intro p hp; cases hp
  | cons a t ih =>
    simp only [List.map_cons, List.sum_cons] at h
    have h1 : 0 ≤ (g a - mu) ^ 2 := sq_nonneg _
    have h2 : 0 ≤ (t.map (fun p => (g p - mu) ^ 2)).sum := sum_sq_nonneg (fun p => g p - mu) t
    have h3 : (g a - mu) ^ 2 = 0 := by linarith
    have h4 : (t.map (fun p => (g p - mu) ^ 2)).sum = 0 := by linarith
    intro p hp
    rcases List.mem_cons.mp hp with rfl | hp
    · have := pow_eq_zero_iff (two_ne_zero) |>.mp h3
      linarith
    · exact ih h4 p hp

/-- The total sum of squares of exactly exponential values over a list that passes
the denominator check is positive. -/
theorem totalSquares_exp_pos (a lam : ℝ) (ha : 0 < a) (hlam : 0 < lam) (x : List ℝ)
    (hden : (x.length : ℝ) * (x.map (fun p => p * p)).sum - x.sum * x.sum ≠ 0) (mu : ℝ) :
    0 < (x.map (fun t => (a * Real.exp (-lam * t) - mu) ^ 2)).sum := by
  have h0 := sum_sq_nonneg (fun t => a * Real.exp (-lam * t) - mu) x
  rcases h0.lt_or_eq with h | h
  · exact h
  · exfalso
    have hall := eq_of_sum_sq_eq_zero (fun t => a * Real.exp (-lam * t)) x mu h.symm
    have hmu : 0 < mu := by
      cases x with
      | nil => simp at hden
      | cons t0 _ =>
        rw [← hall t0 (List.mem_cons_self _ _)]
        positivity
    apply hden
    apply denominator_eq_zero_of_constant x (-(Real.log (mu / a)) / lam)
    intro v hv
    have hv' : a * Real.exp (-lam * v) = mu := hall v hv
    have hexp : Real.exp (-lam * v) = mu / a := by
      rw [eq_div_iff ha.ne']
      linarith
    have h2 : -lam * v = Real.log (mu / a) := by
      rw [← hexp, Real.log_exp]
    rw [eq_div_iff hlam.ne']
    linarith

theorem noOffset_fit_exact_core (a lam : ℝ) (ha : 0 < a) (hlam : 0 < lam) (x : List ℝ)
    (hlen : 2 ≤ x.length)
    (hden : denomEps ≤ |(x.length : ℝ) * (x.map (fun t => t ^ 2)).sum - x.sum ^ 2|) :
    FansChart.simpleExponentialFitNoOffset Real.exp Real.log x
        (x.map (fun t => a * Real.exp (-lam * t)))
      = some { a := a, lam := lam, r2 := 1 } := by
  have hany : ¬ ((x.map (fun t => a * Real.exp (-lam * t))).any
      (fun v => decide (v ≤ 0)) = true) := by
    simp only [List.any_eq_true, List.mem_map, decide_eq_true_eq, not_exists, not_and, not_le]
    rintro v ⟨t, _, rfl⟩
    positivity
  have hln : (x.map (fun t => a * Real.exp (-lam * t))).map (fun v => Real.log v)
      = x.map (fun t => -lam * t + Real.log a) := by
    rw [List.map_map]
    apply List.map_congr_left
    intro t _
    simp only [Function.comp]
    rw [Real.log_mul ha.ne' (Real.exp_pos _).ne', Real.log_exp]
    ring
  have hn : ((x.length : ℝ)) ≠ 0 := length_cast_ne_zero x (by omega)
  have hd : ¬ |(x.length : ℝ) * (x.map (fun p => p * p)).sum - x.sum * x.sum| < denomEps := by
    simpa only [pow_two, not_lt] using hden
  have hd0 : (x.length : ℝ) * (x.map (fun p => p * p)).sum - x.sum * x.sum ≠ 0 := by
    intro h0
    rw [h0, abs_zero] at hd
    exact hd denomEps_pos
  obtain ⟨hs, hi⟩ := exact_line_recovery (fun t : ℝ => t) (fun t => -lam * t + Real.log a) x
    (-lam) (Real.log a) (fun _ _ => rfl) hn (by simpa only [List.map_id'] using hd0)
  simp only [List.map_id'] at hs hi
  simp only [FansChart.simpleExponentialFitNoOffset, rSquared_fold, foldl_add_eq_sum,
    foldl_add_eq_sum_id, zero_add]
  rw [if_neg hany, hln, zip_self_map, if_neg hd]
  simp only [List.map_map, Function.comp_def, hs, hi, neg_neg, Real.exp_log ha, zip_map_map,
    sub_self]
  have htot := totalSquares_exp_pos a lam ha hlam x hd0 ((x.map (fun t => a * Real.exp (-lam * t))).sum / (x.length : ℝ))
  have hres : (x.map (fun _ : ℝ => (0 : ℝ) ^ 2)).sum = 0 := by simp
  have hr : rSquared (x.map (fun t => (a * Real.exp (-lam * t)
      - (x.map (fun t => a * Real.exp (-lam * t))).sum / (x.length : ℝ)) ^ 2)).sum
      (x.map (fun _ : ℝ => (0 : ℝ) ^ 2)).sum = 1 := by
    rw [hres]
    unfold rSquared
    rw [if_pos htot]
    simp
  rw [hr]
  have hcond : ¬ (lam ≤ 0 ∨ a ≤ 0 ∨ (1 : ℝ) < 1 / 10) := by
    intro h
    rcases h with h | h | h
    · linarith
    · linarith
    · norm_num at h
  rw [if_neg hcond]

/-- C6: for every `a > 0`, `lam > 0` and every list `x` of at least two elapsed-day
values that passes the denominator check, `simpleExponentialFitNoOffset x y` applied
to `y_i = a·e^(-lam·x_i)` is accepted and returns exactly that `a` and that `lam`
with `r2 = 1` (exact real arithmetic). -/
theorem offset_free_fit_recovers_exponential (a lam : ℝ) (ha : 0 < a) (hlam : 0 < lam)
    (x : List ℝ) (hlen : 2 ≤ x.length)
    (hden : denomEps ≤ |(x.length : ℝ) * (x.map (fun t => t ^ 2)).sum - x.sum ^ 2|) :
    FansChart.simpleExponentialFitNoOffset Real.exp Real.log x
        (x.map (fun t => a * Real.exp (-lam * t)))
      = some { a := a, lam := lam, r2 := 1 } :=
  noOffset_fit_exact_core a lam ha hlam x hlen hden

/-- C6 at `a = 500`, `lam = 0.1` and the elapsed days 0, 1, ..., 9. -/
theorem offset_free_fit_recovers_exponential_witness :
    FansChart.simpleExponentialFitNoOffset Real.exp Real.log
        [0, 1, 2, 3, 4, 5, 6, 7, 8, 9]
        ([0, 1, 2, 3, 4, 5, 6, 7, 8, 9].map (fun t => 500 * Real.exp (-(1 / 10) * t)))
      = some { a := 500, lam := 1 / 10, r2 := 1 } :=
  offset_free_fit_recovers_exponential 500 (1 / 10) (by norm_num) (by norm_num)
    [0, 1, 2, 3, 4, 5, 6, 7, 8, 9] (by decide) (by norm_num [denomEps])

/-! ## The outlier step -/

theorem zScoreWithinThreshold_eq (y : List ℝ) (v : ℝ) :
    FansChart.zScoreWithinThreshold
        (y.foldl (fun sum val => sum + val) 0 / (y.length : ℝ))
        (Real.sqrt (y.foldl (fun sum val => sum
          + (val - y.foldl (fun sum val => sum + val) 0 / (y.length : ℝ)) ^ 2) 0 / (y.length : ℝ)))
        v
      = withinFourSigma Real.sqrt y v := by
  simp only [FansChart.zScoreWithinThreshold, withinFourSigma, populationStd, mean,
    foldl_add_eq_sum, foldl_add_eq_sum_id, zero_add]
  rw [abs_div, abs_of_nonneg (Real.sqrt_nonneg _)]

theorem zip_days_fans_filter (data : List (DataPoint ℝ)) (f : DataPoint ℝ → ℝ)
    (p : ℝ → Bool) :
    ((data.map f).zip (data.map (fun d => d.fans))).filter (fun q => p q.2)
      = (data.filter (fun d => p d.fans)).map (fun d => (f d, d.fans)) := by
  rw [zip_map_map, List.filter_map]
  rfl

/-- The outlier step on the arrays of a series, in the vocabulary of the specification. -/
theorem postFilterData_eq (data : List (DataPoint ℝ)) :
    postFilterData Real.sqrt data =
      if (keptPoints Real.sqrt data).length < 10 then
        (data.map (elapsedDays data), data.map (fun d => d.fans), 0)
      else
        ((keptPoints Real.sqrt data).map (elapsedDays data),
         (keptPoints Real.sqrt data).map (fun d => d.fans),
         data.length - (keptPoints Real.sqrt data).length) := by
  unfold postFilterData FansChart.outlierStep
  simp only [zScoreWithinThreshold_eq]
  rw [zip_days_fans_filter data _ (fun v => withinFourSigma Real.sqrt (data.map (fun e => e.fans)) v),
    zip_days_fans_filter data _
      (fun v => !withinFourSigma Real.sqrt (data.map (fun e => e.fans)) v)]
  have hcount : (data.filter (fun d =>
      !withinFourSigma Real.sqrt (data.map (fun e => e.fans)) d.fans)).length
      = data.length - (keptPoints Real.sqrt data).length := by
    have h := List.length_eq_length_filter_add (l := data)
      (fun d => withinFourSigma Real.sqrt (data.map (fun e => e.fans)) d.fans)
    unfold keptPoints
    omega
  simp only [List.length_map, List.map_map, Function.comp_def, hcount]
  rfl

theorem postFilterData_length_add (data : List (DataPoint ℝ)) :
    (postFilterData Real.sqrt data).1.length + (postFilterData Real.sqrt data).2.2
      = data.length := by
  rw [postFilterData_eq]
  have hle : (keptPoints Real.sqrt data).length ≤ data.length := List.length_filter_le _ _
  split_ifs with h
  · simp
  · simp only [List.length_map]
    omega

/-- The model stored by the exponential fit carries the post-filter counts. -/
theorem calculateExponentialDecay_counts (sqrt exp log : F → F) (self : FansChart F)
    (m : ExponentialModel F) (hnone : self.exponentialModel = none)
    (hm : (FansChart.calculateExponentialDecay sqrt exp log self).exponentialModel = some m) :
    m.dataPoints = (postFilterData sqrt self.data).1.length
      ∧ m.outlierCount = (postFilterData sqrt self.data).2.2 := by
  by_cases hlen : 3 ≤ self.data.length
  · rw [calculateExponentialDecay_eq sqrt exp log self hlen] at hm
    split at hm
    · simp only [Option.some.injEq] at hm
      subst hm
      exact ⟨rfl, rfl⟩
    · split at hm
      · simp only [Option.some.injEq] at hm
        subst hm
        exact ⟨rfl, rfl⟩
      · rw [hnone] at hm
        exact absurd hm (by simp)
  · have hl : self.data.length < 3 := by omega
    unfold FansChart.calculateExponentialDecay at hm
    rw [if_pos hl, hnone] at hm
    exact absurd hm (by simp)

/-- C7: after the outlier step of `calculateExponentialDecay` the data handed to the
fitters is (i) the sub-sequence, in original order, of the points whose z-score
`|y_i - mean| / stddev` (population standard deviation) is at most 4, with
`outlierCount` the number of points removed, when that sub-sequence has at least
10 points, and (ii) the original data with `outlierCount = 0` exactly when it has
fewer than 10 points; in both cases `dataPoints + outlierCount` is the original
number of points, also in the stored model. -/
theorem outlier_step_contract (exp log : ℝ → ℝ) (self : FansChart ℝ) :
    (10 ≤ (keptPoints Real.sqrt self.data).length →
      postFilterData Real.sqrt self.data =
        ((keptPoints Real.sqrt self.data).map (elapsedDays self.data),
         (keptPoints Real.sqrt self.data).map (fun d => d.fans),
         self.data.length - (keptPoints Real.sqrt self.data).length)) ∧
    ((keptPoints Real.sqrt self.data).length < 10 →
      postFilterData Real.sqrt self.data =
        (self.data.map (elapsedDays self.data), self.data.map (fun d => d.fans), 0)) ∧
    ((postFilterData Real.sqrt self.data).1.length + (postFilterData Real.sqrt self.data).2.2
      = self.data.length) ∧
    (∀ m : ExponentialModel ℝ, self.exponentialModel = none →
      (FansChart.calculateExponentialDecay Real.sqrt exp log self).exponentialModel = some m →
      m.dataPoints = (postFilterData Real.sqrt self.data).1.length ∧
      m.outlierCount = (postFilterData Real.sqrt self.data).2.2 ∧
      m.dataPoints + m.outlierCount = self.data.length) := by
  refine ⟨?_, ?_, postFilterData_length_add self.data, ?_⟩
  · intro h
    rw [postFilterData_eq, if_neg (by omega)]
  · intro h
    rw [postFilterData_eq, if_pos h]
  · intro m hnone hm
    obtain ⟨h1, h2⟩ := calculateExponentialDecay_counts Real.sqrt exp log self m hnone hm
    refine ⟨h1, h2, ?_⟩
    rw [h1, h2]
    exact postFilterData_length_add self.data

/-! ## Inverse prediction -/

theorem days_to_ms_to_days (startTime days : F) :
    (startTime + days * 24 * 60 * 60 * 1000 - startTime) / msPerDay = days := by
  rw [msPerDay_eq]
  field_simp
  ring

/-- The linear model stored for the scenario of the specification. -/
theorem linearScenario_model :
    (FansChart.calculateLinearRegression linearScenario).linearModel
      = some { slope := 100, intercept := 100, r2 := 1, startTime := 1700000000000,
               predict := linearPredict 100 100 1700000000000 } := by
  have hlen : 2 ≤ linearScenario.data.length := by decide
  have hden : denomEps ≤ |olsDenominator (sample linearScenario.data)| := by
    norm_num [denomEps, olsDenominator, sample, sumXX, sumX, firstTimestamp, linearScenario]
  have hpts : ∀ p ∈ sample linearScenario.data, p.y = 100 * p.x + 100 := by
    norm_num [sample, linearScenario, firstTimestamp]
  have hn : ((sample linearScenario.data).length : ℚ) ≠ 0 := by
    norm_num [sample, linearScenario]
  obtain ⟨hs, hi, hres, htot⟩ := exact_line_sample (sample linearScenario.data) 100 100 hpts hn
    (olsDenominator_ne_zero _ hden)
  have htpos : 0 < totalSquares (sample linearScenario.data) := by
    have h1 : 0 < (100 : ℚ) ^ 2 * olsDenominator (sample linearScenario.data) :=
      mul_pos (by positivity) (olsDenominator_pos _ hden)
    rw [← htot] at h1
    exact (pos_iff_pos_of_mul_pos h1).mp (lt_of_le_of_ne (Nat.cast_nonneg _) hn.symm)
  rw [calculateLinearRegression_eq linearScenario hlen hden]
  simp only [hs, hi, hres, if_pos htpos, zero_div, sub_zero]
  have hst : firstTimestamp linearScenario.data = 1700000000000 := rfl
  rw [hst, max_eq_right (zero_le_one : (0 : ℚ) ≤ 1)]

/-- The value of the offset curve at the inverse solution is the target. -/
theorem exp_curve_at_inverse (a lam c v : ℝ) (hlam : 0 < lam) (hu : 0 < v - c) (ha : 0 < a) :
    a * Real.exp (-lam * (-Real.log ((v - c) / a) / lam)) + c = v := by
  have h1 : -lam * (-Real.log ((v - c) / a) / lam) = Real.log ((v - c) / a) := by
    field_simp
  rw [h1, Real.exp_log (div_pos hu ha)]
  field_simp

/-! ## The offset tier in the vocabulary of the specification -/

theorem logPoints_facts (g : F → F) (x y : List F) (hlen : x.length = y.length) :
    (List.zipWith (fun xi yi => ({ x := xi, y := g yi } : Point F)) x y).length = x.length
    ∧ sumX (List.zipWith (fun xi yi => ({ x := xi, y := g yi } : Point F)) x y) = x.sum
    ∧ sumY (List.zipWith (fun xi yi => ({ x := xi, y := g yi } : Point F)) x y)
        = (y.map g).sum
    ∧ sumXY (List.zipWith (fun xi yi => ({ x := xi, y := g yi } : Point F)) x y)
        = ((x.zip (y.map g)).map (fun p => p.1 * p.2)).sum
    ∧ sumXX (List.zipWith (fun xi yi => ({ x := xi, y := g yi } : Point F)) x y)
        = (x.map (fun xi => xi * xi)).sum := by
  induction x generalizing y with
  | nil => simp [sumX, sumY, sumXY, sumXX] at hlen ⊢; simp [List.length_eq_zero.mp hlen.symm]
  | cons a t ih =>
    cases y with
    | nil => simp at hlen
    | cons b u =>
      have hl : t.length = u.length := by simpa using hlen
      obtain ⟨h1, h2, h3, h4, h5⟩ := ih u hl
      simp only [sumX, sumY, sumXY, sumXX, pow_two] at h2 h3 h4 h5 ⊢
      simp only [List.zipWith_cons_cons, List.length_cons, List.map_cons, List.sum_cons,
        List.zip_cons_cons, h1, h2, h3, h4, h5, and_self]

theorem zip_residuals (f : F → F) (x y : List F) :
    ((y.zip (x.map f)).map (fun p => (p.1 - p.2) ^ 2)).sum
      = (List.zipWith (fun xi yi => (yi - f xi) ^ 2) x y).sum := by
  induction x generalizing y with
  | nil => simp
  | cons a t ih =>
    cases y with
    | nil => simp
    | cons b u =>
      simp only [List.map_cons, List.zip_cons_cons, List.sum_cons, List.zipWith_cons_cons, ih]

/-- The offset tier `simpleExponentialFit` on parallel arrays, in the vocabulary of
the specification. -/
theorem simpleExponentialFit_eq (exp log : F → F) (x y : List F)
    (hlen : x.length = y.length) :
    FansChart.simpleExponentialFit exp log x y =
      if ∃ v ∈ y, v - jsMin y * (9 / 10) ≤ 0 then none
      else if |olsDenominator (logPoints log x y (jsMin y * (9 / 10)))| < denomEps then none
      else if -olsSlope (logPoints log x y (jsMin y * (9 / 10))) ≤ 0
          ∨ exp (olsIntercept (logPoints log x y (jsMin y * (9 / 10)))) ≤ 0
          ∨ rSquared (valueSquares y)
              (curveSquaredError exp
                (exp (olsIntercept (logPoints log x y (jsMin y * (9 / 10)))))
                (-olsSlope (logPoints log x y (jsMin y * (9 / 10))))
                (jsMin y * (9 / 10)) x y) < 1 / 10 then none
      else some
        { a := exp (olsIntercept (logPoints log x y (jsMin y * (9 / 10))))
          lam := -olsSlope (logPoints log x y (jsMin y * (9 / 10)))
          c := jsMin y * (9 / 10)
          r2 := rSquared (valueSquares y)
              (curveSquaredError exp
                (exp (olsIntercept (logPoints log x y (jsMin y * (9 / 10)))))
                (-olsSlope (logPoints log x y (jsMin y * (9 / 10))))
                (jsMin y * (9 / 10)) x y) } := by
  obtain ⟨h1, h2, h3, h4, h5⟩ :=
    logPoints_facts (fun v => log (v - jsMin y * (9 / 10))) x y hlen
  have hany : ((y.map (fun yi => yi - jsMin y * (9 / 10))).any (fun v => decide (v ≤ 0)) = true)
      ↔ ∃ v ∈ y, v - jsMin y * (9 / 10) ≤ 0 := by
    simp only [List.any_eq_true, List.mem_map, decide_eq_true_eq]
    constructor
    · rintro ⟨w, ⟨v, hv, rfl⟩, hw⟩
      exact ⟨v, hv, hw⟩
    · rintro ⟨v, hv, hw⟩
      exact ⟨_, ⟨v, hv, rfl⟩, hw⟩
  simp only [FansChart.simpleExponentialFit, rSquared_fold, foldl_add_eq_sum,
    foldl_add_eq_sum_id, zero_add, hany, List.map_map, Function.comp_def, zip_residuals]
  simp only [olsDenominator, olsSlope, olsIntercept, logPoints, h1, h2, h3, h4, h5,
    valueSquares, mean, curveSquaredError, pow_two, hlen]

/-! ## Numerical bounds on the exponential and the logarithm -/

theorem expLower_le_exp (t : ℝ) (h0 : 0 ≤ t) : expLower t ≤ Real.exp t := by
  have h := Real.sum_le_exp_of_nonneg h0 7
  simp only [Finset.sum_range_succ, Finset.sum_range_zero, Nat.factorial] at h
  unfold expLower
  norm_num at h ⊢
  linarith

theorem exp_le_expUpper (t : ℝ) (h0 : 0 ≤ t) (h1 : t ≤ 1) : Real.exp t ≤ expUpper t := by
  have h := Real.exp_bound' h0 h1 (n := 7) (by norm_num)
  simp only [Finset.sum_range_succ, Finset.sum_range_zero, Nat.factorial] at h
  unfold expUpper expLower
  norm_num at h ⊢
  linarith

theorem expLower_pos (t : ℝ) (h0 : 0 ≤ t) : 0 < expLower t := by
  unfold expLower
  positivity

/-- An upper bound of `e^(8t)` from the Taylor bound at `t`. -/
theorem exp_eight_le (t B : ℝ) (h0 : 0 ≤ t) (h1 : t ≤ 1) (hB : expUpper t ^ 8 ≤ B) :
    Real.exp (8 * t) ≤ B := by
  have h : Real.exp (8 * t) = Real.exp t ^ 8 := by
    rw [← Real.exp_nat_mul]
    norm_num
  rw [h]
  exact le_trans (pow_le_pow_left₀ (Real.exp_pos t).le (exp_le_expUpper t h0 h1) 8) hB

/-- A lower bound of `e^(8t)` from the Taylor bound at `t`. -/
theorem le_exp_eight (t B : ℝ) (h0 : 0 ≤ t) (hB : B ≤ expLower t ^ 8) :
    B ≤ Real.exp (8 * t) := by
  have h : Real.exp (8 * t) = Real.exp t ^ 8 := by
    rw [← Real.exp_nat_mul]
    norm_num
  rw [h]
  exact le_trans hB (pow_le_pow_left₀ (expLower_pos t h0).le (expLower_le_exp t h0) 8)

theorem exp_neg_le (t B : ℝ) (h0 : 0 ≤ t) (hB : 1 ≤ B * expLower t) : Real.exp (-t) ≤ B := by
  have hp := expLower_pos t h0
  have he := expLower_le_exp t h0
  have hBpos : 0 < B := by
    by_contra hneg
    have : B * expLower t ≤ 0 := mul_nonpos_of_nonpos_of_nonneg (not_lt.mp hneg) hp.le
    linarith
  rw [Real.exp_neg, inv_le_comm₀ (Real.exp_pos t) hBpos]
  rw [inv_le_iff_one_le_mul₀ hBpos]
  nlinarith

theorem le_exp_neg (t B : ℝ) (h0 : 0 ≤ t) (h1 : t ≤ 1) (hB0 : 0 ≤ B)
    (hB : B * expUpper t ≤ 1) : B ≤ Real.exp (-t) := by
  have he := exp_le_expUpper t h0 h1
  have hpos := Real.exp_pos t
  have h2 : B * Real.exp t ≤ 1 := le_trans (mul_le_mul_of_nonneg_left he hB0) hB
  rw [Real.exp_neg, ← one_div, le_div_iff₀ hpos]
  exact h2

theorem exp_neg_mul_numeral (u : ℝ) (n : ℕ) :
    Real.exp (u * (n : ℝ)) = Real.exp u ^ n := by
  rw [← Real.exp_nat_mul, mul_comm]

/-- The closed-form fit of ten points at `x = 0, 1, ..., 9`. -/
theorem ols_ten_points (l0 l1 l2 l3 l4 l5 l6 l7 l8 l9 : F) :
    olsDenominator ([⟨0, l0⟩, ⟨1, l1⟩, ⟨2, l2⟩, ⟨3, l3⟩, ⟨4, l4⟩, ⟨5, l5⟩, ⟨6, l6⟩,
        ⟨7, l7⟩, ⟨8, l8⟩, ⟨9, l9⟩] : List (Point F)) = 825
    ∧ olsSlope ([⟨0, l0⟩, ⟨1, l1⟩, ⟨2, l2⟩, ⟨3, l3⟩, ⟨4, l4⟩, ⟨5, l5⟩, ⟨6, l6⟩,
        ⟨7, l7⟩, ⟨8, l8⟩, ⟨9, l9⟩] : List (Point F))
      = (-45 * l0 - 35 * l1 - 25 * l2 - 15 * l3 - 5 * l4 + 5 * l5 + 15 * l6 + 25 * l7
          + 35 * l8 + 45 * l9) / 825
    ∧ olsIntercept ([⟨0, l0⟩, ⟨1, l1⟩, ⟨2, l2⟩, ⟨3, l3⟩, ⟨4, l4⟩, ⟨5, l5⟩, ⟨6, l6⟩,
        ⟨7, l7⟩, ⟨8, l8⟩, ⟨9, l9⟩] : List (Point F))
      = (285 * l0 + 240 * l1 + 195 * l2 + 150 * l3 + 105 * l4 + 60 * l5 + 15 * l6
          - 30 * l7 - 75 * l8 - 120 * l9) / 825 := by
  have hd : olsDenominator ([⟨0, l0⟩, ⟨1, l1⟩, ⟨2, l2⟩, ⟨3, l3⟩, ⟨4, l4⟩, ⟨5, l5⟩, ⟨6, l6⟩,
        ⟨7, l7⟩, ⟨8, l8⟩, ⟨9, l9⟩] : List (Point F)) = 825 := by
    simp only [olsDenominator, sumXX, sumX, List.map_cons, List.map_nil, List.sum_cons,
      List.sum_nil, List.length_cons, List.length_nil]
    norm_num
  have hs : olsSlope ([⟨0, l0⟩, ⟨1, l1⟩, ⟨2, l2⟩, ⟨3, l3⟩, ⟨4, l4⟩, ⟨5, l5⟩, ⟨6, l6⟩,
        ⟨7, l7⟩, ⟨8, l8⟩, ⟨9, l9⟩] : List (Point F))
      = (-45 * l0 - 35 * l1 - 25 * l2 - 15 * l3 - 5 * l4 + 5 * l5 + 15 * l6 + 25 * l7
          + 35 * l8 + 45 * l9) / 825 := by
    rw [olsSlope, hd]
    simp only [sumXY, sumY, sumX, List.map_cons, List.map_nil, List.sum_cons,
      List.sum_nil, List.length_cons, List.length_nil]
    norm_num
    ring
  refine ⟨hd, hs, ?_⟩
  rw [olsIntercept, hs]
  simp only [sumY, sumX, List.map_cons, List.map_nil, List.sum_cons,
    List.sum_nil, List.length_cons, List.length_nil]
  norm_num
  ring
/-- Bounds of `q = e^(-0.1)`. -/
theorem decay_q_bounds :
    (4524187 / 5000000 : ℝ) ≤ Real.exp (-(1 / 10)) ∧ Real.exp (-(1 / 10)) ≤ (72387 / 80000 : ℝ) := by
  constructor
  · exact le_exp_neg (1 / 10) _ (by norm_num) (by norm_num) (by norm_num)
      (by norm_num [expUpper, expLower])
  · exact exp_neg_le (1 / 10) _ (by norm_num) (by norm_num [expLower])

/-- Bounds of the powers of `q`. -/
theorem decay_q_powers (q : ℝ) (hlo : (4524187 / 5000000 : ℝ) ≤ q) (hhi : q ≤ (72387 / 80000 : ℝ)) :
    ((4524187 / 5000000 : ℝ) ≤ q ^ 1 ∧ q ^ 1 ≤ (72387 / 80000 : ℝ)) ∧
    ((8187307 / 10000000 : ℝ) ≤ q ^ 2 ∧ q ^ 2 ≤ (818731 / 1000000 : ℝ)) ∧
    ((7408181 / 10000000 : ℝ) ≤ q ^ 3 ∧ q ^ 3 ≤ (1481637 / 2000000 : ℝ)) ∧
    ((6703199 / 10000000 : ℝ) ≤ q ^ 4 ∧ q ^ 4 ≤ (6703203 / 10000000 : ℝ)) ∧
    ((1213061 / 2000000 : ℝ) ≤ q ^ 5 ∧ q ^ 5 ≤ (606531 / 1000000 : ℝ)) ∧
    ((1097623 / 2000000 : ℝ) ≤ q ^ 6 ∧ q ^ 6 ≤ (137203 / 250000 : ℝ)) ∧
    ((1241463 / 2500000 : ℝ) ≤ q ^ 7 ∧ q ^ 7 ≤ (4965857 / 10000000 : ℝ)) ∧
    ((561661 / 1250000 : ℝ) ≤ q ^ 8 ∧ q ^ 8 ≤ (4493293 / 10000000 : ℝ)) ∧
    ((813139 / 2000000 : ℝ) ≤ q ^ 9 ∧ q ^ 9 ≤ (40657 / 100000 : ℝ)) := by
  have h0 : (0 : ℝ) ≤ (4524187 / 5000000 : ℝ) := by norm_num
  have hq0 : 0 ≤ q := le_trans h0 hlo
  refine ⟨⟨?_, ?_⟩, ⟨?_, ?_⟩, ⟨?_, ?_⟩, ⟨?_, ?_⟩, ⟨?_, ?_⟩, ⟨?_, ?_⟩, ⟨?_, ?_⟩, ⟨?_, ?_⟩, ⟨?_, ?_⟩⟩
  · exact le_trans (by norm_num) (pow_le_pow_left₀ h0 hlo 1)
  · exact le_trans (pow_le_pow_left₀ hq0 hhi 1) (by norm_num)
  · exact le_trans (by norm_num) (pow_le_pow_left₀ h0 hlo 2)
  · exact le_trans (pow_le_pow_left₀ hq0 hhi 2) (by norm_num)
  · exact le_trans (by norm_num) (pow_le_pow_left₀ h0 hlo 3)
  · exact le_trans (pow_le_pow_left₀ hq0 hhi 3) (by norm_num)
  · exact le_trans (by norm_num) (pow_le_pow_left₀ h0 hlo 4)
  · exact le_trans (pow_le_pow_left₀ hq0 hhi 4) (by norm_num)
  · exact le_trans (by norm_num) (pow_le_pow_left₀ h0 hlo 5)
  · exact le_trans (pow_le_pow_left₀ hq0 hhi 5) (by norm_num)
  · exact le_trans (by norm_num) (pow_le_pow_left₀ h0 hlo 6)
  · exact le_trans (pow_le_pow_left₀ hq0 hhi 6) (by norm_num)
  · exact le_trans (by norm_num) (pow_le_pow_left₀ h0 hlo 7)
  · exact le_trans (pow_le_pow_left₀ hq0 hhi 7) (by norm_num)
  · exact le_trans (by norm_num) (pow_le_pow_left₀ h0 hlo 8)
  · exact le_trans (pow_le_pow_left₀ hq0 hhi 8) (by norm_num)
  · exact le_trans (by norm_num) (pow_le_pow_left₀ h0 hlo 9)
  · exact le_trans (pow_le_pow_left₀ hq0 hhi 9) (by norm_num)

/-- Bounds of the logarithm `ln(y_0 - c)` of the decay scenario. -/
theorem decay_log_bounds_0 (q : ℝ) (hlo : (4524187 / 5000000 : ℝ) ≤ q) (hhi : q ≤ (72387 / 80000 : ℝ)) :
    (5759 / 1000 : ℝ) ≤ Real.log (500 * q ^ 0 - 450 * q ^ 9) ∧ Real.log (500 * q ^ 0 - 450 * q ^ 9) ≤ (7199 / 1250 : ℝ) := by
  obtain ⟨⟨hl1, hh1⟩, ⟨hl2, hh2⟩, ⟨hl3, hh3⟩, ⟨hl4, hh4⟩, ⟨hl5, hh5⟩, ⟨hl6, hh6⟩, ⟨hl7, hh7⟩, ⟨hl8, hh8⟩, ⟨hl9, hh9⟩⟩ := decay_q_powers q hlo hhi
  have hl0 : (1 : ℝ) ≤ q ^ 0 := by norm_num
  have hh0 : q ^ 0 ≤ (1 : ℝ) := by norm_num
  have hpos : 0 < 500 * q ^ 0 - 450 * q ^ 9 := by linarith only [hl0, hh9]
  constructor
  · have hA : expUpper ((5759 / 8000 : ℝ)) ^ 8 ≤ 500 * q ^ 0 - 450 * q ^ 9 :=
      le_trans (by norm_num [expUpper, expLower] :
        expUpper ((5759 / 8000 : ℝ)) ^ 8 ≤ (634087 / 2000 : ℝ)) (by linarith only [hl0, hh9])
    have h := (Real.le_log_iff_exp_le hpos).mpr
      (exp_eight_le ((5759 / 8000 : ℝ)) _ (by norm_num) (by norm_num) hA)
    linarith only [h]
  · have hA : 500 * q ^ 0 - 450 * q ^ 9 ≤ expLower ((7199 / 10000 : ℝ)) ^ 8 :=
      le_trans (by linarith only [hh0, hl9]) (by norm_num [expLower] :
        (12681749 / 40000 : ℝ) ≤ expLower ((7199 / 10000 : ℝ)) ^ 8)
    have h := (Real.log_le_iff_le_exp hpos).mpr
      (le_exp_eight ((7199 / 10000 : ℝ)) _ (by norm_num) hA)
    linarith only [h]

/-- Bounds of the logarithm `ln(y_1 - c)` of the decay scenario. -/
theorem decay_log_bounds_1 (q : ℝ) (hlo : (4524187 / 5000000 : ℝ) ≤ q) (hhi : q ≤ (72387 / 80000 : ℝ)) :
    (13991 / 2500 : ℝ) ≤ Real.log (500 * q ^ 1 - 450 * q ^ 9) ∧ Real.log (500 * q ^ 1 - 450 * q ^ 9) ≤ (11193 / 2000 : ℝ) := by
  obtain ⟨⟨hl1, hh1⟩, ⟨hl2, hh2⟩, ⟨hl3, hh3⟩, ⟨hl4, hh4⟩, ⟨hl5, hh5⟩, ⟨hl6, hh6⟩, ⟨hl7, hh7⟩, ⟨hl8, hh8⟩, ⟨hl9, hh9⟩⟩ := decay_q_powers q hlo hhi
  have hl0 : (1 : ℝ) ≤ q ^ 0 := by norm_num
  have hh0 : q ^ 0 ≤ (1 : ℝ) := by norm_num
  have hpos : 0 < 500 * q ^ 1 - 450 * q ^ 9 := by linarith only [hl1, hh9]
  constructor
  · have hA : expUpper ((13991 / 20000 : ℝ)) ^ 8 ≤ 500 * q ^ 1 - 450 * q ^ 9 :=
      le_trans (by norm_num [expUpper, expLower] :
        expUpper ((13991 / 20000 : ℝ)) ^ 8 ≤ (1347311 / 5000 : ℝ)) (by linarith only [hl1, hh9])
    have h := (Real.le_log_iff_exp_le hpos).mpr
      (exp_eight_le ((13991 / 20000 : ℝ)) _ (by norm_num) (by norm_num) hA)
    linarith only [h]
  · have hA : 500 * q ^ 1 - 450 * q ^ 9 ≤ expLower ((11193 / 16000 : ℝ)) ^ 8 :=
      le_trans (by linarith only [hh1, hl9]) (by norm_num [expLower] :
        (10778499 / 40000 : ℝ) ≤ expLower ((11193 / 16000 : ℝ)) ^ 8)
    have h := (Real.log_le_iff_le_exp hpos).mpr
      (le_exp_eight ((11193 / 16000 : ℝ)) _ (by norm_num) hA)
    linarith only [h]

/-- Bounds of the logarithm `ln(y_2 - c)` of the decay scenario. -/
theorem decay_log_bounds_2 (q : ℝ) (hlo : (4524187 / 5000000 : ℝ) ≤ q) (hhi : q ≤ (72387 / 80000 : ℝ)) :
    (54223 / 10000 : ℝ) ≤ Real.log (500 * q ^ 2 - 450 * q ^ 9) ∧ Real.log (500 * q ^ 2 - 450 * q ^ 9) ≤ (2169 / 400 : ℝ) := by
  obtain ⟨⟨hl1, hh1⟩, ⟨hl2, hh2⟩, ⟨hl3, hh3⟩, ⟨hl4, hh4⟩, ⟨hl5, hh5⟩, ⟨hl6, hh6⟩, ⟨hl7, hh7⟩, ⟨hl8, hh8⟩, ⟨hl9, hh9⟩⟩ := decay_q_powers q hlo hhi
  have hl0 : (1 : ℝ) ≤ q ^ 0 := by norm_num
  have hh0 : q ^ 0 ≤ (1 : ℝ) := by norm_num
  have hpos : 0 < 500 * q ^ 2 - 450 * q ^ 9 := by linarith only [hl2, hh9]
  constructor
  · have hA : expUpper ((54223 / 80000 : ℝ)) ^ 8 ≤ 500 * q ^ 2 - 450 * q ^ 9 :=
      le_trans (by norm_num [expUpper, expLower] :
        expUpper ((54223 / 80000 : ℝ)) ^ 8 ≤ (4528177 / 20000 : ℝ)) (by linarith only [hl2, hh9])
    have h := (Real.le_log_iff_exp_le hpos).mpr
      (exp_eight_le ((54223 / 80000 : ℝ)) _ (by norm_num) (by norm_num) hA)
    linarith only [h]
  · have hA : 500 * q ^ 2 - 450 * q ^ 9 ≤ expLower ((2169 / 3200 : ℝ)) ^ 8 :=
      le_trans (by linarith only [hh2, hl9]) (by norm_num [expLower] :
        (9056369 / 40000 : ℝ) ≤ expLower ((2169 / 3200 : ℝ)) ^ 8)
    have h := (Real.log_le_iff_le_exp hpos).mpr
      (le_exp_eight ((2169 / 3200 : ℝ)) _ (by norm_num) hA)
    linarith only [h]

/-- Bounds of the logarithm `ln(y_3 - c)` of the decay scenario. -/
theorem decay_log_bounds_3 (q : ℝ) (hlo : (4524187 / 5000000 : ℝ) ≤ q) (hhi : q ≤ (72387 / 80000 : ℝ)) :
    (10467 / 2000 : ℝ) ≤ Real.log (500 * q ^ 3 - 450 * q ^ 9) ∧ Real.log (500 * q ^ 3 - 450 * q ^ 9) ≤ (3271 / 625 : ℝ) := by
  obtain ⟨⟨hl1, hh1⟩, ⟨hl2, hh2⟩, ⟨hl3, hh3⟩, ⟨hl4, hh4⟩, ⟨hl5, hh5⟩, ⟨hl6, hh6⟩, ⟨hl7, hh7⟩, ⟨hl8, hh8⟩, ⟨hl9, hh9⟩⟩ := decay_q_powers q hlo hhi
  have hl0 : (1 : ℝ) ≤ q ^ 0 := by norm_num
  have hh0 : q ^ 0 ≤ (1 : ℝ) := by norm_num
  have hpos : 0 < 500 * q ^ 3 - 450 * q ^ 9 := by linarith only [hl3, hh9]
  constructor
  · have hA : expUpper ((10467 / 16000 : ℝ)) ^ 8 ≤ 500 * q ^ 3 - 450 * q ^ 9 :=
      le_trans (by norm_num [expUpper, expLower] :
        expUpper ((10467 / 16000 : ℝ)) ^ 8 ≤ (3749051 / 20000 : ℝ)) (by linarith only [hl3, hh9])
    have h := (Real.le_log_iff_exp_le hpos).mpr
      (exp_eight_le ((10467 / 16000 : ℝ)) _ (by norm_num) (by norm_num) hA)
    linarith only [h]
  · have hA : 500 * q ^ 3 - 450 * q ^ 9 ≤ expLower ((3271 / 5000 : ℝ)) ^ 8 :=
      le_trans (by linarith only [hh3, hl9]) (by norm_num [expLower] :
        (7498119 / 40000 : ℝ) ≤ expLower ((3271 / 5000 : ℝ)) ^ 8)
    have h := (Real.log_le_iff_le_exp hpos).mpr
      (le_exp_eight ((3271 / 5000 : ℝ)) _ (by norm_num) hA)
    linarith only [h]

/-- Bounds of the logarithm `ln(y_4 - c)` of the decay scenario. -/
theorem decay_log_bounds_4 (q : ℝ) (hlo : (4524187 / 5000000 : ℝ) ≤ q) (hhi : q ≤ (72387 / 80000 : ℝ)) :
    (12563 / 2500 : ℝ) ≤ Real.log (500 * q ^ 4 - 450 * q ^ 9) ∧ Real.log (500 * q ^ 4 - 450 * q ^ 9) ≤ (50253 / 10000 : ℝ) := by
  obtain ⟨⟨hl1, hh1⟩, ⟨hl2, hh2⟩, ⟨hl3, hh3⟩, ⟨hl4, hh4⟩, ⟨hl5, hh5⟩, ⟨hl6, hh6⟩, ⟨hl7, hh7⟩, ⟨hl8, hh8⟩, ⟨hl9, hh9⟩⟩ := decay_q_powers q hlo hhi
  have hl0 : (1 : ℝ) ≤ q ^ 0 := by norm_num
  have hh0 : q ^ 0 ≤ (1 : ℝ) := by norm_num
  have hpos : 0 < 500 * q ^ 4 - 450 * q ^ 9 := by linarith only [hl4, hh9]
  constructor
  · have hA : expUpper ((12563 / 20000 : ℝ)) ^ 8 ≤ 500 * q ^ 4 - 450 * q ^ 9 :=
      le_trans (by norm_num [expUpper, expLower] :
        expUpper ((12563 / 20000 : ℝ)) ^ 8 ≤ (3044069 / 20000 : ℝ)) (by linarith only [hl4, hh9])
    have h := (Real.le_log_iff_exp_le hpos).mpr
      (exp_eight_le ((12563 / 20000 : ℝ)) _ (by norm_num) (by norm_num) hA)
    linarith only [h]
  · have hA : 500 * q ^ 4 - 450 * q ^ 9 ≤ expLower ((50253 / 80000 : ℝ)) ^ 8 :=
      le_trans (by linarith only [hh4, hl9]) (by norm_num [expLower] :
        (1217631 / 8000 : ℝ) ≤ expLower ((50253 / 80000 : ℝ)) ^ 8)
    have h := (Real.log_le_iff_le_exp hpos).mpr
      (le_exp_eight ((50253 / 80000 : ℝ)) _ (by norm_num) hA)
    linarith only [h]

/-- Bounds of the logarithm `ln(y_5 - c)` of the decay scenario. -/
theorem decay_log_bounds_5 (q : ℝ) (hlo : (4524187 / 5000000 : ℝ) ≤ q) (hhi : q ≤ (72387 / 80000 : ℝ)) :
    (479 / 100 : ℝ) ≤ Real.log (500 * q ^ 5 - 450 * q ^ 9) ∧ Real.log (500 * q ^ 5 - 450 * q ^ 9) ≤ (47901 / 10000 : ℝ) := by
  obtain ⟨⟨hl1, hh1⟩, ⟨hl2, hh2⟩, ⟨hl3, hh3⟩, ⟨hl4, hh4⟩, ⟨hl5, hh5⟩, ⟨hl6, hh6⟩, ⟨hl7, hh7⟩, ⟨hl8, hh8⟩, ⟨hl9, hh9⟩⟩ := decay_q_powers q hlo hhi
  have hl0 : (1 : ℝ) ≤ q ^ 0 := by norm_num
  have hh0 : q ^ 0 ≤ (1 : ℝ) := by norm_num
  have hpos : 0 < 500 * q ^ 5 - 450 * q ^ 9 := by linarith only [hl5, hh9]
  constructor
  · have hA : expUpper ((479 / 800 : ℝ)) ^ 8 ≤ 500 * q ^ 5 - 450 * q ^ 9 :=
      le_trans (by norm_num [expUpper, expLower] :
        expUpper ((479 / 800 : ℝ)) ^ 8 ≤ (96247 / 800 : ℝ)) (by linarith only [hl5, hh9])
    have h := (Real.le_log_iff_exp_le hpos).mpr
      (exp_eight_le ((479 / 800 : ℝ)) _ (by norm_num) (by norm_num) hA)
    linarith only [h]
  · have hA : 500 * q ^ 5 - 450 * q ^ 9 ≤ expLower ((47901 / 80000 : ℝ)) ^ 8 :=
      le_trans (by linarith only [hh5, hl9]) (by norm_num [expLower] :
        (4812369 / 40000 : ℝ) ≤ expLower ((47901 / 80000 : ℝ)) ^ 8)
    have h := (Real.log_le_iff_le_exp hpos).mpr
      (le_exp_eight ((47901 / 80000 : ℝ)) _ (by norm_num) hA)
    linarith only [h]

/-- Bounds of the logarithm `ln(y_6 - c)` of the decay scenario. -/
theorem decay_log_bounds_6 (q : ℝ) (hlo : (4524187 / 5000000 : ℝ) ≤ q) (hhi : q ≤ (72387 / 80000 : ℝ)) :
    (45157 / 10000 : ℝ) ≤ Real.log (500 * q ^ 6 - 450 * q ^ 9) ∧ Real.log (500 * q ^ 6 - 450 * q ^ 9) ≤ (45159 / 10000 : ℝ) := by
  obtain ⟨⟨hl1, hh1⟩, ⟨hl2, hh2⟩, ⟨hl3, hh3⟩, ⟨hl4, hh4⟩, ⟨hl5, hh5⟩, ⟨hl6, hh6⟩, ⟨hl7, hh7⟩, ⟨hl8, hh8⟩, ⟨hl9, hh9⟩⟩ := decay_q_powers q hlo hhi
  have hl0 : (1 : ℝ) ≤ q ^ 0 := by norm_num
  have hh0 : q ^ 0 ≤ (1 : ℝ) := by norm_num
  have hpos : 0 < 500 * q ^ 6 - 450 * q ^ 9 := by linarith only [hl6, hh9]
  constructor
  · have hA : expUpper ((45157 / 80000 : ℝ)) ^ 8 ≤ 500 * q ^ 6 - 450 * q ^ 9 :=
      le_trans (by norm_num [expUpper, expLower] :
        expUpper ((45157 / 80000 : ℝ)) ^ 8 ≤ (365797 / 4000 : ℝ)) (by linarith only [hl6, hh9])
    have h := (Real.le_log_iff_exp_le hpos).mpr
      (exp_eight_le ((45157 / 80000 : ℝ)) _ (by norm_num) (by norm_num) hA)
    linarith only [h]
  · have hA : 500 * q ^ 6 - 450 * q ^ 9 ≤ expLower ((45159 / 80000 : ℝ)) ^ 8 :=
      le_trans (by linarith only [hh6, hl9]) (by norm_num [expLower] :
        (3657989 / 40000 : ℝ) ≤ expLower ((45159 / 80000 : ℝ)) ^ 8)
    have h := (Real.log_le_iff_le_exp hpos).mpr
      (le_exp_eight ((45159 / 80000 : ℝ)) _ (by norm_num) hA)
    linarith only [h]

/-- Bounds of the logarithm `ln(y_7 - c)` of the decay scenario. -/
theorem decay_log_bounds_7 (q : ℝ) (hlo : (4524187 / 5000000 : ℝ) ≤ q) (hhi : q ≤ (72387 / 80000 : ℝ)) :
    (8359 / 2000 : ℝ) ≤ Real.log (500 * q ^ 7 - 450 * q ^ 9) ∧ Real.log (500 * q ^ 7 - 450 * q ^ 9) ≤ (10449 / 2500 : ℝ) := by
  obtain ⟨⟨hl1, hh1⟩, ⟨hl2, hh2⟩, ⟨hl3, hh3⟩, ⟨hl4, hh4⟩, ⟨hl5, hh5⟩, ⟨hl6, hh6⟩, ⟨hl7, hh7⟩, ⟨hl8, hh8⟩, ⟨hl9, hh9⟩⟩ := decay_q_powers q hlo hhi
  have hl0 : (1 : ℝ) ≤ q ^ 0 := by norm_num
  have hh0 : q ^ 0 ≤ (1 : ℝ) := by norm_num
  have hpos : 0 < 500 * q ^ 7 - 450 * q ^ 9 := by linarith only [hl7, hh9]
  constructor
  · have hA : expUpper ((8359 / 16000 : ℝ)) ^ 8 ≤ 500 * q ^ 7 - 450 * q ^ 9 :=
      le_trans (by norm_num [expUpper, expLower] :
        expUpper ((8359 / 16000 : ℝ)) ^ 8 ≤ (653361 / 10000 : ℝ)) (by linarith only [hl7, hh9])
    have h := (Real.le_log_iff_exp_le hpos).mpr
      (exp_eight_le ((8359 / 16000 : ℝ)) _ (by norm_num) (by norm_num) hA)
    linarith only [h]
  · have hA : 500 * q ^ 7 - 450 * q ^ 9 ≤ expLower ((10449 / 20000 : ℝ)) ^ 8 :=
      le_trans (by linarith only [hh7, hl9]) (by norm_num [expLower] :
        (2613463 / 40000 : ℝ) ≤ expLower ((10449 / 20000 : ℝ)) ^ 8)
    have h := (Real.log_le_iff_le_exp hpos).mpr
      (le_exp_eight ((10449 / 20000 : ℝ)) _ (by norm_num) hA)
    linarith only [h]

/-- Bounds of the logarithm `ln(y_8 - c)` of the decay scenario. -/
theorem decay_log_bounds_8 (q : ℝ) (hlo : (4524187 / 5000000 : ℝ) ≤ q) (hhi : q ≤ (72387 / 80000 : ℝ)) :
    (18653 / 5000 : ℝ) ≤ Real.log (500 * q ^ 8 - 450 * q ^ 9) ∧ Real.log (500 * q ^ 8 - 450 * q ^ 9) ≤ (9327 / 2500 : ℝ) := by
  obtain ⟨⟨hl1, hh1⟩, ⟨hl2, hh2⟩, ⟨hl3, hh3⟩, ⟨hl4, hh4⟩, ⟨hl5, hh5⟩, ⟨hl6, hh6⟩, ⟨hl7, hh7⟩, ⟨hl8, hh8⟩, ⟨hl9, hh9⟩⟩ := decay_q_powers q hlo hhi
  have hl0 : (1 : ℝ) ≤ q ^ 0 := by norm_num
  have hh0 : q ^ 0 ≤ (1 : ℝ) := by norm_num
  have hpos : 0 < 500 * q ^ 8 - 450 * q ^ 9 := by linarith only [hl8, hh9]
  constructor
  · have hA : expUpper ((18653 / 40000 : ℝ)) ^ 8 ≤ 500 * q ^ 8 - 450 * q ^ 9 :=
      le_trans (by norm_num [expUpper, expLower] :
        expUpper ((18653 / 40000 : ℝ)) ^ 8 ≤ (417079 / 10000 : ℝ)) (by linarith only [hl8, hh9])
    have h := (Real.le_log_iff_exp_le hpos).mpr
      (exp_eight_le ((18653 / 40000 : ℝ)) _ (by norm_num) (by norm_num) hA)
    linarith only [h]
  · have hA : 500 * q ^ 8 - 450 * q ^ 9 ≤ expLower ((9327 / 20000 : ℝ)) ^ 8 :=
      le_trans (by linarith only [hh8, hl9]) (by norm_num [expLower] :
        (333667 / 8000 : ℝ) ≤ expLower ((9327 / 20000 : ℝ)) ^ 8)
    have h := (Real.log_le_iff_le_exp hpos).mpr
      (le_exp_eight ((9327 / 20000 : ℝ)) _ (by norm_num) hA)
    linarith only [h]

/-- Bounds of the logarithm `ln(y_9 - c)` of the decay scenario. -/
theorem decay_log_bounds_9 (q : ℝ) (hlo : (4524187 / 5000000 : ℝ) ≤ q) (hhi : q ≤ (72387 / 80000 : ℝ)) :
    (753 / 250 : ℝ) ≤ Real.log (500 * q ^ 9 - 450 * q ^ 9) ∧ Real.log (500 * q ^ 9 - 450 * q ^ 9) ≤ (30121 / 10000 : ℝ) := by
  obtain ⟨⟨hl1, hh1⟩, ⟨hl2, hh2⟩, ⟨hl3, hh3⟩, ⟨hl4, hh4⟩, ⟨hl5, hh5⟩, ⟨hl6, hh6⟩, ⟨hl7, hh7⟩, ⟨hl8, hh8⟩, ⟨hl9, hh9⟩⟩ := decay_q_powers q hlo hhi
  have hl0 : (1 : ℝ) ≤ q ^ 0 := by norm_num
  have hh0 : q ^ 0 ≤ (1 : ℝ) := by norm_num
  have hpos : 0 < 500 * q ^ 9 - 450 * q ^ 9 := by linarith only [hl9, hh9]
  constructor
  · have hA : expUpper ((753 / 2000 : ℝ)) ^ 8 ≤ 500 * q ^ 9 - 450 * q ^ 9 :=
      le_trans (by norm_num [expUpper, expLower] :
        expUpper ((753 / 2000 : ℝ)) ^ 8 ≤ (81313 / 4000 : ℝ)) (by linarith only [hl9, hh9])
    have h := (Real.le_log_iff_exp_le hpos).mpr
      (exp_eight_le ((753 / 2000 : ℝ)) _ (by norm_num) (by norm_num) hA)
    linarith only [h]
  · have hA : 500 * q ^ 9 - 450 * q ^ 9 ≤ expLower ((30121 / 80000 : ℝ)) ^ 8 :=
      le_trans (by linarith only [hh9, hl9]) (by norm_num [expLower] :
        (813149 / 40000 : ℝ) ≤ expLower ((30121 / 80000 : ℝ)) ^ 8)
    have h := (Real.log_le_iff_le_exp hpos).mpr
      (le_exp_eight ((30121 / 80000 : ℝ)) _ (by norm_num) hA)
    linarith only [h]

/-- Bounds of the slope and the intercept of the log-linear fit of the decay scenario. -/
theorem decay_fit_bounds (l0 l1 l2 l3 l4 l5 l6 l7 l8 l9 : ℝ)
    (a0 : (5759 / 1000 : ℝ) ≤ l0) (b0 : l0 ≤ (7199 / 1250 : ℝ)) (a1 : (13991 / 2500 : ℝ) ≤ l1) (b1 : l1 ≤ (11193 / 2000 : ℝ)) (a2 : (54223 / 10000 : ℝ) ≤ l2) (b2 : l2 ≤ (2169 / 400 : ℝ)) (a3 : (10467 / 2000 : ℝ) ≤ l3) (b3 : l3 ≤ (3271 / 625 : ℝ)) (a4 : (12563 / 2500 : ℝ) ≤ l4) (b4 : l4 ≤ (50253 / 10000 : ℝ)) (a5 : (479 / 100 : ℝ) ≤ l5) (b5 : l5 ≤ (47901 / 10000 : ℝ)) (a6 : (45157 / 10000 : ℝ) ≤ l6) (b6 : l6 ≤ (45159 / 10000 : ℝ)) (a7 : (8359 / 2000 : ℝ) ≤ l7) (b7 : l7 ≤ (10449 / 2500 : ℝ)) (a8 : (18653 / 5000 : ℝ) ≤ l8) (b8 : l8 ≤ (9327 / 2500 : ℝ)) (a9 : (753 / 250 : ℝ) ≤ l9) (b9 : l9 ≤ (30121 / 10000 : ℝ)) :
    ((-7029 / 25000 : ℝ) ≤ (-45 * l0 - 35 * l1 - 25 * l2 - 15 * l3 - 5 * l4 + 5 * l5 + 15 * l6 + 25 * l7 + 35 * l8 + 45 * l9) / 825
      ∧ (-45 * l0 - 35 * l1 - 25 * l2 - 15 * l3 - 5 * l4 + 5 * l5 + 15 * l6 + 25 * l7 + 35 * l8 + 45 * l9) / 825 ≤ (-2811 / 10000 : ℝ))
    ∧ ((299573 / 50000 : ℝ) ≤ (285 * l0 + 240 * l1 + 195 * l2 + 150 * l3 + 105 * l4 + 60 * l5 + 15 * l6 - 30 * l7 - 75 * l8 - 120 * l9) / 825
      ∧ (285 * l0 + 240 * l1 + 195 * l2 + 150 * l3 + 105 * l4 + 60 * l5 + 15 * l6 - 30 * l7 - 75 * l8 - 120 * l9) / 825 ≤ (599169 / 100000 : ℝ)) := by
  refine ⟨⟨?_, ?_⟩, ⟨?_, ?_⟩⟩
  · rw [le_div_iff₀ (by norm_num)]
    linarith
  · rw [div_le_iff₀ (by norm_num)]
    linarith
  · rw [le_div_iff₀ (by norm_num)]
    linarith
  · rw [div_le_iff₀ (by norm_num)]
    linarith

/-- Bounds of `a = e^intercept` and of `e^slope` for the decay scenario. -/
theorem decay_parameter_bounds (s ic : ℝ) (hs1 : (-7029 / 25000 : ℝ) ≤ s) (hs2 : s ≤ (-2811 / 10000 : ℝ))
    (hi1 : (299573 / 50000 : ℝ) ≤ ic) (hi2 : ic ≤ (599169 / 100000 : ℝ)) :
    ((199977 / 500 : ℝ) ≤ Real.exp ic ∧ Real.exp ic ≤ (100023 / 250 : ℝ))
    ∧ ((301963 / 400000 : ℝ) ≤ Real.exp s ∧ Real.exp s ≤ (7549529 / 10000000 : ℝ)) := by
  refine ⟨⟨?_, ?_⟩, ⟨?_, ?_⟩⟩
  · have h := le_exp_eight ((299573 / 400000 : ℝ)) (199977 / 500 : ℝ) (by norm_num) (by norm_num [expLower])
    have h2 : Real.exp (8 * (299573 / 400000 : ℝ)) ≤ Real.exp ic := Real.exp_le_exp.mpr (by linarith)
    linarith
  · have h := exp_eight_le ((599169 / 800000 : ℝ)) (100023 / 250 : ℝ) (by norm_num) (by norm_num)
      (by norm_num [expUpper, expLower])
    have h2 : Real.exp ic ≤ Real.exp (8 * (599169 / 800000 : ℝ)) := Real.exp_le_exp.mpr (by linarith)
    linarith
  · have h := le_exp_neg (7029 / 25000 : ℝ) (301963 / 400000 : ℝ) (by norm_num) (by norm_num) (by norm_num)
      (by norm_num [expUpper, expLower])
    have h2 : Real.exp (-(7029 / 25000 : ℝ)) ≤ Real.exp s := Real.exp_le_exp.mpr (by linarith)
    linarith
  · have h := exp_neg_le (2811 / 10000 : ℝ) (7549529 / 10000000 : ℝ) (by norm_num) (by norm_num [expLower])
    have h2 : Real.exp s ≤ Real.exp (-(2811 / 10000 : ℝ)) := Real.exp_le_exp.mpr (by linarith)
    linarith

theorem sq_le_of_bounds (x lo hi M : ℝ) (h1 : lo ≤ x) (h2 : x ≤ hi) (hM1 : lo ^ 2 ≤ M)
    (hM2 : hi ^ 2 ≤ M) : x ^ 2 ≤ M := by
  rcases le_total 0 x with hx | hx
  · exact le_trans (pow_le_pow_left₀ hx h2 2) hM2
  · have h3 : (-x) ^ 2 ≤ (-lo) ^ 2 := pow_le_pow_left₀ (by linarith) (by linarith) 2
    rw [neg_sq, neg_sq] at h3
    exact le_trans h3 hM1

theorem le_sq_of_nonneg (x lo m : ℝ) (h1 : lo ≤ x) (h0 : 0 ≤ lo) (hm : m ≤ lo ^ 2) :
    m ≤ x ^ 2 :=
  le_trans hm (pow_le_pow_left₀ h0 h1 2)

theorem le_sq_of_nonpos (x hi m : ℝ) (h1 : x ≤ hi) (h0 : hi ≤ 0) (hm : m ≤ hi ^ 2) :
    m ≤ x ^ 2 := by
  have h3 : (-hi) ^ 2 ≤ (-x) ^ 2 := pow_le_pow_left₀ (by linarith) (by linarith) 2
  rw [neg_sq, neg_sq] at h3
  exact le_trans hm h3

/-- Bounds of the squared residual of the fitted offset curve at day 0. -/
theorem decay_residual_bounds_0 (q a r : ℝ) (hlo : (4524187 / 5000000 : ℝ) ≤ q) (hhi : q ≤ (72387 / 80000 : ℝ))
    (ha1 : (199977 / 500 : ℝ) ≤ a) (ha2 : a ≤ (100023 / 250 : ℝ)) (hr1 : (301963 / 400000 : ℝ) ≤ r) (hr2 : r ≤ (7549529 / 10000000 : ℝ)) :
    (687411 / 100 : ℝ) ≤ (500 * q ^ 0 - (a * r ^ 0 + 450 * q ^ 9)) ^ 2 ∧ (500 * q ^ 0 - (a * r ^ 0 + 450 * q ^ 9)) ^ 2 ≤ (344853 / 50 : ℝ) := by
  obtain ⟨⟨hl1, hh1⟩, ⟨hl2, hh2⟩, ⟨hl3, hh3⟩, ⟨hl4, hh4⟩, ⟨hl5, hh5⟩, ⟨hl6, hh6⟩, ⟨hl7, hh7⟩, ⟨hl8, hh8⟩, ⟨hl9, hh9⟩⟩ := decay_q_powers q hlo hhi
  have hl0 : (1 : ℝ) ≤ q ^ 0 := by norm_num
  have hh0 : q ^ 0 ≤ (1 : ℝ) := by norm_num
  have hr0 : (0 : ℝ) ≤ (301963 / 400000 : ℝ) := by norm_num
  have hrpos : 0 ≤ r := le_trans hr0 hr1
  have ha0 : (0 : ℝ) ≤ a := le_trans (by norm_num) ha1
  have rl : (1 : ℝ) ≤ r ^ 0 := le_trans (by norm_num) (pow_le_pow_left₀ hr0 hr1 0)
  have rh : r ^ 0 ≤ (1 : ℝ) := le_trans (pow_le_pow_left₀ hrpos hr2 0) (by norm_num)
  have pl : (199977 / 500 : ℝ) ≤ a * r ^ 0 :=
    le_trans (by norm_num) (mul_le_mul ha1 rl (by norm_num) ha0)
  have ph : a * r ^ 0 ≤ (100023 / 250 : ℝ) :=
    le_trans (mul_le_mul ha2 rh (pow_nonneg hrpos 0) (by norm_num)) (by norm_num)
  constructor
  · exact le_sq_of_nonpos _ (-3316411 / 40000 : ℝ) _ (by linarith only [hh0, hl9, pl]) (by norm_num)
      (by norm_num)
  · exact sq_le_of_bounds _ (-166097 / 2000 : ℝ) (-3316411 / 40000 : ℝ) _ (by linarith only [hl0, hh9, ph])
      (by linarith only [hh0, hl9, pl]) (by norm_num) (by norm_num)

/-- Bounds of the squared residual of the fitted offset curve at day 1. -/
theorem decay_residual_bounds_1 (q a r : ℝ) (hlo : (4524187 / 5000000 : ℝ) ≤ q) (hhi : q ≤ (72387 / 80000 : ℝ))
    (ha1 : (199977 / 500 : ℝ) ≤ a) (ha2 : a ≤ (100023 / 250 : ℝ)) (hr1 : (301963 / 400000 : ℝ) ≤ r) (hr2 : r ≤ (7549529 / 10000000 : ℝ)) :
    (105401 / 100 : ℝ) ≤ (500 * q ^ 1 - (a * r ^ 1 + 450 * q ^ 9)) ^ 2 ∧ (500 * q ^ 1 - (a * r ^ 1 + 450 * q ^ 9)) ^ 2 ≤ (106203 / 100 : ℝ) := by
  obtain ⟨⟨hl1, hh1⟩, ⟨hl2, hh2⟩, ⟨hl3, hh3⟩, ⟨hl4, hh4⟩, ⟨hl5, hh5⟩, ⟨hl6, hh6⟩, ⟨hl7, hh7⟩, ⟨hl8, hh8⟩, ⟨hl9, hh9⟩⟩ := decay_q_powers q hlo hhi
  have hl0 : (1 : ℝ) ≤ q ^ 0 := by norm_num
  have hh0 : q ^ 0 ≤ (1 : ℝ) := by norm_num
  have hr0 : (0 : ℝ) ≤ (301963 / 400000 : ℝ) := by norm_num
  have hrpos : 0 ≤ r := le_trans hr0 hr1
  have ha0 : (0 : ℝ) ≤ a := le_trans (by norm_num) ha1
  have rl : (301963 / 400000 : ℝ) ≤ r ^ 1 := le_trans (by norm_num) (pow_le_pow_left₀ hr0 hr1 1)
  have rh : r ^ 1 ≤ (7549529 / 10000000 : ℝ) := le_trans (pow_le_pow_left₀ hrpos hr2 1) (by norm_num)
  have pl : (37741 / 125 : ℝ) ≤ a * r ^ 1 :=
    le_trans (by norm_num) (mul_le_mul ha1 rl (by norm_num) ha0)
  have ph : a * r ^ 1 ≤ (302051 / 1000 : ℝ) :=
    le_trans (mul_le_mul ha2 rh (pow_nonneg hrpos 1) (by norm_num)) (by norm_num)
  constructor
  · exact le_sq_of_nonpos _ (-1298621 / 40000 : ℝ) _ (by linarith only [hh1, hl9, pl]) (by norm_num)
      (by norm_num)
  · exact sq_le_of_bounds _ (-20368 / 625 : ℝ) (-1298621 / 40000 : ℝ) _ (by linarith only [hl1, hh9, ph])
      (by linarith only [hh1, hl9, pl]) (by norm_num) (by norm_num)

/-- Bounds of the squared residual of the fitted offset curve at day 2. -/
theorem decay_residual_bounds_2 (q a r : ℝ) (hlo : (4524187 / 5000000 : ℝ) ≤ q) (hhi : q ≤ (72387 / 80000 : ℝ))
    (ha1 : (199977 / 500 : ℝ) ≤ a) (ha2 : a ≤ (100023 / 250 : ℝ)) (hr1 : (301963 / 400000 : ℝ) ≤ r) (hr2 : r ≤ (7549529 / 10000000 : ℝ)) :
    (23 / 10 : ℝ) ≤ (500 * q ^ 2 - (a * r ^ 2 + 450 * q ^ 9)) ^ 2 ∧ (500 * q ^ 2 - (a * r ^ 2 + 450 * q ^ 9)) ^ 2 ≤ (53 / 20 : ℝ) := by
  obtain ⟨⟨hl1, hh1⟩, ⟨hl2, hh2⟩, ⟨hl3, hh3⟩, ⟨hl4, hh4⟩, ⟨hl5, hh5⟩, ⟨hl6, hh6⟩, ⟨hl7, hh7⟩, ⟨hl8, hh8⟩, ⟨hl9, hh9⟩⟩ := decay_q_powers q hlo hhi
  have hl0 : (1 : ℝ) ≤ q ^ 0 := by norm_num
  have hh0 : q ^ 0 ≤ (1 : ℝ) := by norm_num
  have hr0 : (0 : ℝ) ≤ (301963 / 400000 : ℝ) := by norm_num
  have hrpos : 0 ≤ r := le_trans hr0 hr1
  have ha0 : (0 : ℝ) ≤ a := le_trans (by norm_num) ha1
  have rl : (5698853 / 10000000 : ℝ) ≤ r ^ 2 := le_trans (by norm_num) (pow_le_pow_left₀ hr0 hr1 2)
  have rh : r ^ 2 ≤ (5699539 / 10000000 : ℝ) := le_trans (pow_le_pow_left₀ hrpos hr2 2) (by norm_num)
  have pl : (227927 / 1000 : ℝ) ≤ a * r ^ 2 :=
    le_trans (by norm_num) (mul_le_mul ha1 rl (by norm_num) ha0)
  have ph : a * r ^ 2 ≤ (114017 / 500 : ℝ) :=
    le_trans (mul_le_mul ha2 rh (pow_nonneg hrpos 2) (by norm_num)) (by norm_num)
  constructor
  · exact le_sq_of_nonpos _ (-60711 / 40000 : ℝ) _ (by linarith only [hh2, hl9, pl]) (by norm_num)
      (by norm_num)
  · exact sq_le_of_bounds _ (-32503 / 20000 : ℝ) (-60711 / 40000 : ℝ) _ (by linarith only [hl2, hh9, ph])
      (by linarith only [hh2, hl9, pl]) (by norm_num) (by norm_num)

/-- Bounds of the squared residual of the fitted offset curve at day 3. -/
theorem decay_residual_bounds_3 (q a r : ℝ) (hlo : (4524187 / 5000000 : ℝ) ≤ q) (hhi : q ≤ (72387 / 80000 : ℝ))
    (ha1 : (199977 / 500 : ℝ) ≤ a) (ha2 : a ≤ (100023 / 250 : ℝ)) (hr1 : (301963 / 400000 : ℝ) ≤ r) (hr2 : r ≤ (7549529 / 10000000 : ℝ)) :
    (23401 / 100 : ℝ) ≤ (500 * q ^ 3 - (a * r ^ 3 + 450 * q ^ 9)) ^ 2 ∧ (500 * q ^ 3 - (a * r ^ 3 + 450 * q ^ 9)) ^ 2 ≤ (23683 / 100 : ℝ) := by
  obtain ⟨⟨hl1, hh1⟩, ⟨hl2, hh2⟩, ⟨hl3, hh3⟩, ⟨hl4, hh4⟩, ⟨hl5, hh5⟩, ⟨hl6, hh6⟩, ⟨hl7, hh7⟩, ⟨hl8, hh8⟩, ⟨hl9, hh9⟩⟩ := decay_q_powers q hlo hhi
  have hl0 : (1 : ℝ) ≤ q ^ 0 := by norm_num
  have hh0 : q ^ 0 ≤ (1 : ℝ) := by norm_num
  have hr0 : (0 : ℝ) ≤ (301963 / 400000 : ℝ) := by norm_num
  have hrpos : 0 ≤ r := le_trans hr0 hr1
  have ha0 : (0 : ℝ) ≤ a := le_trans (by norm_num) ha1
  have rl : (4302107 / 10000000 : ℝ) ≤ r ^ 3 := le_trans (by norm_num) (pow_le_pow_left₀ hr0 hr1 3)
  have rh : r ^ 3 ≤ (1075721 / 2500000 : ℝ) := le_trans (pow_le_pow_left₀ hrpos hr2 3) (by norm_num)
  have pl : (21508 / 125 : ℝ) ≤ a * r ^ 3 :=
    le_trans (by norm_num) (mul_le_mul ha1 rl (by norm_num) ha0)
  have ph : a * r ^ 3 ≤ (34431 / 200 : ℝ) :=
    le_trans (mul_le_mul ha2 rh (pow_nonneg hrpos 3) (by norm_num)) (by norm_num)
  constructor
  · exact le_sq_of_nonneg _ (305951 / 20000 : ℝ) _ (by linarith only [hl3, hh9, ph]) (by norm_num)
      (by norm_num)
  · exact sq_le_of_bounds _ (305951 / 20000 : ℝ) (615559 / 40000 : ℝ) _ (by linarith only [hl3, hh9, ph])
      (by linarith only [hh3, hl9, pl]) (by norm_num) (by norm_num)

/-- Bounds of the squared residual of the fitted offset curve at day 4. -/
theorem decay_residual_bounds_4 (q a r : ℝ) (hlo : (4524187 / 5000000 : ℝ) ≤ q) (hhi : q ≤ (72387 / 80000 : ℝ))
    (ha1 : (199977 / 500 : ℝ) ≤ a) (ha2 : a ≤ (100023 / 250 : ℝ)) (hr1 : (301963 / 400000 : ℝ) ≤ r) (hr2 : r ≤ (7549529 / 10000000 : ℝ)) :
    (49437 / 100 : ℝ) ≤ (500 * q ^ 4 - (a * r ^ 4 + 450 * q ^ 9)) ^ 2 ∧ (500 * q ^ 4 - (a * r ^ 4 + 450 * q ^ 9)) ^ 2 ≤ (24891 / 50 : ℝ) := by
  obtain ⟨⟨hl1, hh1⟩, ⟨hl2, hh2⟩, ⟨hl3, hh3⟩, ⟨hl4, hh4⟩, ⟨hl5, hh5⟩, ⟨hl6, hh6⟩, ⟨hl7, hh7⟩, ⟨hl8, hh8⟩, ⟨hl9, hh9⟩⟩ := decay_q_powers q hlo hhi
  have hl0 : (1 : ℝ) ≤ q ^ 0 := by norm_num
  have hh0 : q ^ 0 ≤ (1 : ℝ) := by norm_num
  have hr0 : (0 : ℝ) ≤ (301963 / 400000 : ℝ) := by norm_num
  have hrpos : 0 ≤ r := le_trans hr0 hr1
  have ha0 : (0 : ℝ) ≤ a := le_trans (by norm_num) ha1
  have rl : (811923 / 2500000 : ℝ) ≤ r ^ 4 := le_trans (by norm_num) (pow_le_pow_left₀ hr0 hr1 4)
  have rh : r ^ 4 ≤ (129939 / 400000 : ℝ) := le_trans (pow_le_pow_left₀ hrpos hr2 4) (by norm_num)
  have pl : (32473 / 250 : ℝ) ≤ a * r ^ 4 :=
    le_trans (by norm_num) (mul_le_mul ha1 rl (by norm_num) ha0)
  have ph : a * r ^ 4 ≤ (129969 / 1000 : ℝ) :=
    le_trans (mul_le_mul ha2 rh (pow_nonneg hrpos 4) (by norm_num)) (by norm_num)
  constructor
  · exact le_sq_of_nonneg _ (444689 / 20000 : ℝ) _ (by linarith only [hl4, hh9, ph]) (by norm_num)
      (by norm_num)
  · exact sq_le_of_bounds _ (444689 / 20000 : ℝ) (35699 / 1600 : ℝ) _ (by linarith only [hl4, hh9, ph])
      (by linarith only [hh4, hl9, pl]) (by norm_num) (by norm_num)

/-- Bounds of the squared residual of the fitted offset curve at day 5. -/
theorem decay_residual_bounds_5 (q a r : ℝ) (hlo : (4524187 / 5000000 : ℝ) ≤ q) (hhi : q ≤ (72387 / 80000 : ℝ))
    (ha1 : (199977 / 500 : ℝ) ≤ a) (ha2 : a ≤ (100023 / 250 : ℝ)) (hr1 : (301963 / 400000 : ℝ) ≤ r) (hr2 : r ≤ (7549529 / 10000000 : ℝ)) :
    (49229 / 100 : ℝ) ≤ (500 * q ^ 5 - (a * r ^ 5 + 450 * q ^ 9)) ^ 2 ∧ (500 * q ^ 5 - (a * r ^ 5 + 450 * q ^ 9)) ^ 2 ≤ (49517 / 100 : ℝ) := by
  obtain ⟨⟨hl1, hh1⟩, ⟨hl2, hh2⟩, ⟨hl3, hh3⟩, ⟨hl4, hh4⟩, ⟨hl5, hh5⟩, ⟨hl6, hh6⟩, ⟨hl7, hh7⟩, ⟨hl8, hh8⟩, ⟨hl9, hh9⟩⟩ := decay_q_powers q hlo hhi
  have hl0 : (1 : ℝ) ≤ q ^ 0 := by norm_num
  have hh0 : q ^ 0 ≤ (1 : ℝ) := by norm_num
  have hr0 : (0 : ℝ) ≤ (301963 / 400000 : ℝ) := by norm_num
  have hrpos : 0 ≤ r := le_trans hr0 hr1
  have ha0 : (0 : ℝ) ≤ a := le_trans (by norm_num) ha1
  have rl : (2451707 / 10000000 : ℝ) ≤ r ^ 5 := le_trans (by norm_num) (pow_le_pow_left₀ hr0 hr1 5)
  have rh : r ^ 5 ≤ (1226223 / 5000000 : ℝ) := le_trans (pow_le_pow_left₀ hrpos hr2 5) (by norm_num)
  have pl : (98057 / 1000 : ℝ) ≤ a * r ^ 5 :=
    le_trans (by norm_num) (mul_le_mul ha1 rl (by norm_num) ha0)
  have ph : a * r ^ 5 ≤ (98121 / 1000 : ℝ) :=
    le_trans (mul_le_mul ha2 rh (pow_nonneg hrpos 5) (by norm_num)) (by norm_num)
  constructor
  · exact le_sq_of_nonneg _ (88751 / 4000 : ℝ) _ (by linarith only [hl5, hh9, ph]) (by norm_num)
      (by norm_num)
  · exact sq_le_of_bounds _ (88751 / 4000 : ℝ) (890089 / 40000 : ℝ) _ (by linarith only [hl5, hh9, ph])
      (by linarith only [hh5, hl9, pl]) (by norm_num) (by norm_num)

/-- Bounds of the squared residual of the fitted offset curve at day 6. -/
theorem decay_residual_bounds_6 (q a r : ℝ) (hlo : (4524187 / 5000000 : ℝ) ≤ q) (hhi : q ≤ (72387 / 80000 : ℝ))
    (ha1 : (199977 / 500 : ℝ) ≤ a) (ha2 : a ≤ (100023 / 250 : ℝ)) (hr1 : (301963 / 400000 : ℝ) ≤ r) (hr2 : r ≤ (7549529 / 10000000 : ℝ)) :
    (30179 / 100 : ℝ) ≤ (500 * q ^ 6 - (a * r ^ 6 + 450 * q ^ 9)) ^ 2 ∧ (500 * q ^ 6 - (a * r ^ 6 + 450 * q ^ 9)) ^ 2 ≤ (3037 / 10 : ℝ) := by
  obtain ⟨⟨hl1, hh1⟩, ⟨hl2, hh2⟩, ⟨hl3, hh3⟩, ⟨hl4, hh4⟩, ⟨hl5, hh5⟩, ⟨hl6, hh6⟩, ⟨hl7, hh7⟩, ⟨hl8, hh8⟩, ⟨hl9, hh9⟩⟩ := decay_q_powers q hlo hhi
  have hl0 : (1 : ℝ) ≤ q ^ 0 := by norm_num
  have hh0 : q ^ 0 ≤ (1 : ℝ) := by norm_num
  have hr0 : (0 : ℝ) ≤ (301963 / 400000 : ℝ) := by norm_num
  have hrpos : 0 ≤ r := le_trans hr0 hr1
  have ha0 : (0 : ℝ) ≤ a := le_trans (by norm_num) ha1
  have rl : (462703 / 2500000 : ℝ) ≤ r ^ 6 := le_trans (by norm_num) (pow_le_pow_left₀ hr0 hr1 6)
  have rh : r ^ 6 ≤ (1851481 / 10000000 : ℝ) := le_trans (pow_le_pow_left₀ hrpos hr2 6) (by norm_num)
  have pl : (74023 / 1000 : ℝ) ≤ a * r ^ 6 :=
    le_trans (by norm_num) (mul_le_mul ha1 rl (by norm_num) ha0)
  have ph : a * r ^ 6 ≤ (74077 / 1000 : ℝ) :=
    le_trans (mul_le_mul ha2 rh (pow_nonneg hrpos 6) (by norm_num)) (by norm_num)
  constructor
  · exact le_sq_of_nonneg _ (69489 / 4000 : ℝ) _ (by linarith only [hl6, hh9, ph]) (by norm_num)
      (by norm_num)
  · exact sq_le_of_bounds _ (69489 / 4000 : ℝ) (697069 / 40000 : ℝ) _ (by linarith only [hl6, hh9, ph])
      (by linarith only [hh6, hl9, pl]) (by norm_num) (by norm_num)

/-- Bounds of the squared residual of the fitted offset curve at day 7. -/
theorem decay_residual_bounds_7 (q a r : ℝ) (hlo : (4524187 / 5000000 : ℝ) ≤ q) (hhi : q ≤ (72387 / 80000 : ℝ))
    (ha1 : (199977 / 500 : ℝ) ≤ a) (ha2 : a ≤ (100023 / 250 : ℝ)) (hr1 : (301963 / 400000 : ℝ) ≤ r) (hr2 : r ≤ (7549529 / 10000000 : ℝ)) :
    (2214 / 25 : ℝ) ≤ (500 * q ^ 7 - (a * r ^ 7 + 450 * q ^ 9)) ^ 2 ∧ (500 * q ^ 7 - (a * r ^ 7 + 450 * q ^ 9)) ^ 2 ≤ (8941 / 100 : ℝ) := by
  obtain ⟨⟨hl1, hh1⟩, ⟨hl2, hh2⟩, ⟨hl3, hh3⟩, ⟨hl4, hh4⟩, ⟨hl5, hh5⟩, ⟨hl6, hh6⟩, ⟨hl7, hh7⟩, ⟨hl8, hh8⟩, ⟨hl9, hh9⟩⟩ := decay_q_powers q hlo hhi
  have hl0 : (1 : ℝ) ≤ q ^ 0 := by norm_num
  have hh0 : q ^ 0 ≤ (1 : ℝ) := by norm_num
  have hr0 : (0 : ℝ) ≤ (301963 / 400000 : ℝ) := by norm_num
  have hrpos : 0 ≤ r := le_trans hr0 hr1
  have ha0 : (0 : ℝ) ≤ a := le_trans (by norm_num) ha1
  have rl : (174649 / 1250000 : ℝ) ≤ r ^ 7 := le_trans (by norm_num) (pow_le_pow_left₀ hr0 hr1 7)
  have rh : r ^ 7 ≤ (1397781 / 10000000 : ℝ) := le_trans (pow_le_pow_left₀ hrpos hr2 7) (by norm_num)
  have pl : (55881 / 1000 : ℝ) ≤ a * r ^ 7 :=
    le_trans (by norm_num) (mul_le_mul ha1 rl (by norm_num) ha0)
  have ph : a * r ^ 7 ≤ (2237 / 40 : ℝ) :=
    le_trans (mul_le_mul ha2 rh (pow_nonneg hrpos 7) (by norm_num)) (by norm_num)
  constructor
  · exact le_sq_of_nonneg _ (94111 / 10000 : ℝ) _ (by linarith only [hl7, hh9, ph]) (by norm_num)
      (by norm_num)
  · exact sq_le_of_bounds _ (94111 / 10000 : ℝ) (378223 / 40000 : ℝ) _ (by linarith only [hl7, hh9, ph])
      (by linarith only [hh7, hl9, pl]) (by norm_num) (by norm_num)

/-- Bounds of the squared residual of the fitted offset curve at day 8. -/
theorem decay_residual_bounds_8 (q a r : ℝ) (hlo : (4524187 / 5000000 : ℝ) ≤ q) (hhi : q ≤ (72387 / 80000 : ℝ))
    (ha1 : (199977 / 500 : ℝ) ≤ a) (ha2 : a ≤ (100023 / 250 : ℝ)) (hr1 : (301963 / 400000 : ℝ) ≤ r) (hr2 : r ≤ (7549529 / 10000000 : ℝ)) :
    (11 / 50 : ℝ) ≤ (500 * q ^ 8 - (a * r ^ 8 + 450 * q ^ 9)) ^ 2 ∧ (500 * q ^ 8 - (a * r ^ 8 + 450 * q ^ 9)) ^ 2 ≤ (27 / 100 : ℝ) := by
  obtain ⟨⟨hl1, hh1⟩, ⟨hl2, hh2⟩, ⟨hl3, hh3⟩, ⟨hl4, hh4⟩, ⟨hl5, hh5⟩, ⟨hl6, hh6⟩, ⟨hl7, hh7⟩, ⟨hl8, hh8⟩, ⟨hl9, hh9⟩⟩ := decay_q_powers q hlo hhi
  have hl0 : (1 : ℝ) ≤ q ^ 0 := by norm_num
  have hh0 : q ^ 0 ≤ (1 : ℝ) := by norm_num
  have hr0 : (0 : ℝ) ≤ (301963 / 400000 : ℝ) := by norm_num
  have hrpos : 0 ≤ r := le_trans hr0 hr1
  have ha0 : (0 : ℝ) ≤ a := le_trans (by norm_num) ha1
  have rl : (4219 / 40000 : ℝ) ≤ r ^ 8 := le_trans (by norm_num) (pow_le_pow_left₀ hr0 hr1 8)
  have rh : r ^ 8 ≤ (1055259 / 10000000 : ℝ) := le_trans (pow_le_pow_left₀ hrpos hr2 8) (by norm_num)
  have pl : (8437 / 200 : ℝ) ≤ a * r ^ 8 :=
    le_trans (by norm_num) (mul_le_mul ha1 rl (by norm_num) ha0)
  have ph : a * r ^ 8 ≤ (42221 / 1000 : ℝ) :=
    le_trans (mul_le_mul ha2 rh (pow_nonneg hrpos 8) (by norm_num)) (by norm_num)
  constructor
  · exact le_sq_of_nonpos _ (-3813 / 8000 : ℝ) _ (by linarith only [hh8, hl9, pl]) (by norm_num)
      (by norm_num)
  · exact sq_le_of_bounds _ (-5131 / 10000 : ℝ) (-3813 / 8000 : ℝ) _ (by linarith only [hl8, hh9, ph])
      (by linarith only [hh8, hl9, pl]) (by norm_num) (by norm_num)

/-- Bounds of the squared residual of the fitted offset curve at day 9. -/
theorem decay_residual_bounds_9 (q a r : ℝ) (hlo : (4524187 / 5000000 : ℝ) ≤ q) (hhi : q ≤ (72387 / 80000 : ℝ))
    (ha1 : (199977 / 500 : ℝ) ≤ a) (ha2 : a ≤ (100023 / 250 : ℝ)) (hr1 : (301963 / 400000 : ℝ) ≤ r) (hr2 : r ≤ (7549529 / 10000000 : ℝ)) :
    (6631 / 50 : ℝ) ≤ (500 * q ^ 9 - (a * r ^ 9 + 450 * q ^ 9)) ^ 2 ∧ (500 * q ^ 9 - (a * r ^ 9 + 450 * q ^ 9)) ^ 2 ≤ (13333 / 100 : ℝ) := by
  obtain ⟨⟨hl1, hh1⟩, ⟨hl2, hh2⟩, ⟨hl3, hh3⟩, ⟨hl4, hh4⟩, ⟨hl5, hh5⟩, ⟨hl6, hh6⟩, ⟨hl7, hh7⟩, ⟨hl8, hh8⟩, ⟨hl9, hh9⟩⟩ := decay_q_powers q hlo hhi
  have hl0 : (1 : ℝ) ≤ q ^ 0 := by norm_num
  have hh0 : q ^ 0 ≤ (1 : ℝ) := by norm_num
  have hr0 : (0 : ℝ) ≤ (301963 / 400000 : ℝ) := by norm_num
  have hrpos : 0 ≤ r := le_trans hr0 hr1
  have ha0 : (0 : ℝ) ≤ a := le_trans (by norm_num) ha1
  have rl : (796239 / 10000000 : ℝ) ≤ r ^ 9 := le_trans (by norm_num) (pow_le_pow_left₀ hr0 hr1 9)
  have rh : r ^ 9 ≤ (796671 / 10000000 : ℝ) := le_trans (pow_le_pow_left₀ hrpos hr2 9) (by norm_num)
  have pl : (6369 / 200 : ℝ) ≤ a * r ^ 9 :=
    le_trans (by norm_num) (mul_le_mul ha1 rl (by norm_num) ha0)
  have ph : a * r ^ 9 ≤ (255 / 8 : ℝ) :=
    le_trans (mul_le_mul ha2 rh (pow_nonneg hrpos 9) (by norm_num)) (by norm_num)
  constructor
  · exact le_sq_of_nonpos _ (-460651 / 40000 : ℝ) _ (by linarith only [hh9, hl9, pl]) (by norm_num)
      (by norm_num)
  · exact sq_le_of_bounds _ (-46187 / 4000 : ℝ) (-460651 / 40000 : ℝ) _ (by linarith only [hl9, hh9, ph])
      (by linarith only [hh9, hl9, pl]) (by norm_num) (by norm_num)

/-- Bounds of the mean value of the decay scenario. -/
theorem decay_mean_bounds (q : ℝ) (hlo : (4524187 / 5000000 : ℝ) ≤ q) (hhi : q ≤ (72387 / 80000 : ℝ)) :
    (16606329 / 50000 : ℝ) ≤ (500 * q ^ 0 + 500 * q ^ 1 + 500 * q ^ 2 + 500 * q ^ 3 + 500 * q ^ 4 + 500 * q ^ 5 + 500 * q ^ 6 + 500 * q ^ 7 + 500 * q ^ 8 + 500 * q ^ 9) / 10
    ∧ (500 * q ^ 0 + 500 * q ^ 1 + 500 * q ^ 2 + 500 * q ^ 3 + 500 * q ^ 4 + 500 * q ^ 5 + 500 * q ^ 6 + 500 * q ^ 7 + 500 * q ^ 8 + 500 * q ^ 9) / 10 ≤ (33212677 / 100000 : ℝ) := by
  obtain ⟨⟨hl1, hh1⟩, ⟨hl2, hh2⟩, ⟨hl3, hh3⟩, ⟨hl4, hh4⟩, ⟨hl5, hh5⟩, ⟨hl6, hh6⟩, ⟨hl7, hh7⟩, ⟨hl8, hh8⟩, ⟨hl9, hh9⟩⟩ := decay_q_powers q hlo hhi
  have hl0 : (1 : ℝ) ≤ q ^ 0 := by norm_num
  have hh0 : q ^ 0 ≤ (1 : ℝ) := by norm_num
  constructor
  · rw [le_div_iff₀ (by norm_num)]
    linarith
  · rw [div_le_iff₀ (by norm_num)]
    linarith

/-- Bounds of the squared deviation from the mean at day 0. -/
theorem decay_total_bounds_0 (q ybar : ℝ) (hlo : (4524187 / 5000000 : ℝ) ≤ q) (hhi : q ≤ (72387 / 80000 : ℝ))
    (hy1 : (16606329 / 50000 : ℝ) ≤ ybar) (hy2 : ybar ≤ (33212677 / 100000 : ℝ)) :
    (1409071 / 50 : ℝ) ≤ (500 * q ^ 0 - ybar) ^ 2 ∧ (500 * q ^ 0 - ybar) ^ 2 ≤ (2818149 / 100 : ℝ) := by
  obtain ⟨⟨hl1, hh1⟩, ⟨hl2, hh2⟩, ⟨hl3, hh3⟩, ⟨hl4, hh4⟩, ⟨hl5, hh5⟩, ⟨hl6, hh6⟩, ⟨hl7, hh7⟩, ⟨hl8, hh8⟩, ⟨hl9, hh9⟩⟩ := decay_q_powers q hlo hhi
  have hl0 : (1 : ℝ) ≤ q ^ 0 := by norm_num
  have hh0 : q ^ 0 ≤ (1 : ℝ) := by norm_num
  constructor
  · exact le_sq_of_nonneg _ (16787323 / 100000 : ℝ) _ (by linarith only [hl0, hy2]) (by norm_num)
      (by norm_num)
  · exact sq_le_of_bounds _ (16787323 / 100000 : ℝ) (8393671 / 50000 : ℝ) _ (by linarith only [hl0, hy2])
      (by linarith only [hh0, hy1]) (by norm_num) (by norm_num)

/-- Bounds of the squared deviation from the mean at day 1. -/
theorem decay_total_bounds_1 (q ybar : ℝ) (hlo : (4524187 / 5000000 : ℝ) ≤ q) (hhi : q ≤ (72387 / 80000 : ℝ))
    (hy1 : (16606329 / 50000 : ℝ) ≤ ybar) (hy2 : ybar ≤ (33212677 / 100000 : ℝ)) :
    (723507 / 50 : ℝ) ≤ (500 * q ^ 1 - ybar) ^ 2 ∧ (500 * q ^ 1 - ybar) ^ 2 ≤ (1447021 / 100 : ℝ) := by
  obtain ⟨⟨hl1, hh1⟩, ⟨hl2, hh2⟩, ⟨hl3, hh3⟩, ⟨hl4, hh4⟩, ⟨hl5, hh5⟩, ⟨hl6, hh6⟩, ⟨hl7, hh7⟩, ⟨hl8, hh8⟩, ⟨hl9, hh9⟩⟩ := decay_q_powers q hlo hhi
  have hl0 : (1 : ℝ) ≤ q ^ 0 := by norm_num
  have hh0 : q ^ 0 ≤ (1 : ℝ) := by norm_num
  constructor
  · exact le_sq_of_nonneg _ (12029193 / 100000 : ℝ) _ (by linarith only [hl1, hy2]) (by norm_num)
      (by norm_num)
  · exact sq_le_of_bounds _ (12029193 / 100000 : ℝ) (12029217 / 100000 : ℝ) _ (by linarith only [hl1, hy2])
      (by linarith only [hh1, hy1]) (by norm_num) (by norm_num)

/-- Bounds of the squared deviation from the mean at day 2. -/
theorem decay_total_bounds_2 (q ybar : ℝ) (hlo : (4524187 / 5000000 : ℝ) ≤ q) (hhi : q ≤ (72387 / 80000 : ℝ))
    (hy1 : (16606329 / 50000 : ℝ) ≤ ybar) (hy2 : ybar ≤ (33212677 / 100000 : ℝ)) :
    (596579 / 100 : ℝ) ≤ (500 * q ^ 2 - ybar) ^ 2 ∧ (500 * q ^ 2 - ybar) ^ 2 ≤ (298293 / 50 : ℝ) := by
  obtain ⟨⟨hl1, hh1⟩, ⟨hl2, hh2⟩, ⟨hl3, hh3⟩, ⟨hl4, hh4⟩, ⟨hl5, hh5⟩, ⟨hl6, hh6⟩, ⟨hl7, hh7⟩, ⟨hl8, hh8⟩, ⟨hl9, hh9⟩⟩ := decay_q_powers q hlo hhi
  have hl0 : (1 : ℝ) ≤ q ^ 0 := by norm_num
  have hh0 : q ^ 0 ≤ (1 : ℝ) := by norm_num
  constructor
  · exact le_sq_of_nonneg _ (3861929 / 50000 : ℝ) _ (by linarith only [hl2, hy2]) (by norm_num)
      (by norm_num)
  · exact sq_le_of_bounds _ (3861929 / 50000 : ℝ) (1930973 / 25000 : ℝ) _ (by linarith only [hl2, hy2])
      (by linarith only [hh2, hy1]) (by norm_num) (by norm_num)

/-- Bounds of the squared deviation from the mean at day 3. -/
theorem decay_total_bounds_3 (q ybar : ℝ) (hlo : (4524187 / 5000000 : ℝ) ≤ q) (hhi : q ≤ (72387 / 80000 : ℝ))
    (hy1 : (16606329 / 50000 : ℝ) ≤ ybar) (hy2 : ybar ≤ (33212677 / 100000 : ℝ)) :
    (146553 / 100 : ℝ) ≤ (500 * q ^ 3 - ybar) ^ 2 ∧ (500 * q ^ 3 - ybar) ^ 2 ≤ (146557 / 100 : ℝ) := by
  obtain ⟨⟨hl1, hh1⟩, ⟨hl2, hh2⟩, ⟨hl3, hh3⟩, ⟨hl4, hh4⟩, ⟨hl5, hh5⟩, ⟨hl6, hh6⟩, ⟨hl7, hh7⟩, ⟨hl8, hh8⟩, ⟨hl9, hh9⟩⟩ := decay_q_powers q hlo hhi
  have hl0 : (1 : ℝ) ≤ q ^ 0 := by norm_num
  have hh0 : q ^ 0 ≤ (1 : ℝ) := by norm_num
  constructor
  · exact le_sq_of_nonneg _ (957057 / 25000 : ℝ) _ (by linarith only [hl3, hy2]) (by norm_num)
      (by norm_num)
  · exact sq_le_of_bounds _ (957057 / 25000 : ℝ) (3828267 / 100000 : ℝ) _ (by linarith only [hl3, hy2])
      (by linarith only [hh3, hy1]) (by norm_num) (by norm_num)

/-- Bounds of the squared deviation from the mean at day 4. -/
theorem decay_total_bounds_4 (q ybar : ℝ) (hlo : (4524187 / 5000000 : ℝ) ≤ q) (hhi : q ≤ (72387 / 80000 : ℝ))
    (hy1 : (16606329 / 50000 : ℝ) ≤ ybar) (hy2 : ybar ≤ (33212677 / 100000 : ℝ)) :
    (46 / 5 : ℝ) ≤ (500 * q ^ 4 - ybar) ^ 2 ∧ (500 * q ^ 4 - ybar) ^ 2 ≤ (921 / 100 : ℝ) := by
  obtain ⟨⟨hl1, hh1⟩, ⟨hl2, hh2⟩, ⟨hl3, hh3⟩, ⟨hl4, hh4⟩, ⟨hl5, hh5⟩, ⟨hl6, hh6⟩, ⟨hl7, hh7⟩, ⟨hl8, hh8⟩, ⟨hl9, hh9⟩⟩ := decay_q_powers q hlo hhi
  have hl0 : (1 : ℝ) ≤ q ^ 0 := by norm_num
  have hh0 : q ^ 0 ≤ (1 : ℝ) := by norm_num
  constructor
  · exact le_sq_of_nonneg _ (151659 / 50000 : ℝ) _ (by linarith only [hl4, hy2]) (by norm_num)
      (by norm_num)
  · exact sq_le_of_bounds _ (151659 / 50000 : ℝ) (303357 / 100000 : ℝ) _ (by linarith only [hl4, hy2])
      (by linarith only [hh4, hy1]) (by norm_num) (by norm_num)

/-- Bounds of the squared deviation from the mean at day 5. -/
theorem decay_total_bounds_5 (q ybar : ℝ) (hlo : (4524187 / 5000000 : ℝ) ≤ q) (hhi : q ≤ (72387 / 80000 : ℝ))
    (hy1 : (16606329 / 50000 : ℝ) ≤ ybar) (hy2 : ybar ≤ (33212677 / 100000 : ℝ)) :
    (20824 / 25 : ℝ) ≤ (500 * q ^ 5 - ybar) ^ 2 ∧ (500 * q ^ 5 - ybar) ^ 2 ≤ (83299 / 100 : ℝ) := by
  obtain ⟨⟨hl1, hh1⟩, ⟨hl2, hh2⟩, ⟨hl3, hh3⟩, ⟨hl4, hh4⟩, ⟨hl5, hh5⟩, ⟨hl6, hh6⟩, ⟨hl7, hh7⟩, ⟨hl8, hh8⟩, ⟨hl9, hh9⟩⟩ := decay_q_powers q hlo hhi
  have hl0 : (1 : ℝ) ≤ q ^ 0 := by norm_num
  have hh0 : q ^ 0 ≤ (1 : ℝ) := by norm_num
  constructor
  · exact le_sq_of_nonpos _ (-721527 / 25000 : ℝ) _ (by linarith only [hh5, hy1]) (by norm_num)
      (by norm_num)
  · exact sq_le_of_bounds _ (-360769 / 12500 : ℝ) (-721527 / 25000 : ℝ) _ (by linarith only [hl5, hy2])
      (by linarith only [hh5, hy1]) (by norm_num) (by norm_num)

/-- Bounds of the squared deviation from the mean at day 6. -/
theorem decay_total_bounds_6 (q ybar : ℝ) (hlo : (4524187 / 5000000 : ℝ) ≤ q) (hhi : q ≤ (72387 / 80000 : ℝ))
    (hy1 : (16606329 / 50000 : ℝ) ≤ ybar) (hy2 : ybar ≤ (33212677 / 100000 : ℝ)) :
    (166583 / 50 : ℝ) ≤ (500 * q ^ 6 - ybar) ^ 2 ∧ (500 * q ^ 6 - ybar) ^ 2 ≤ (83293 / 25 : ℝ) := by
  obtain ⟨⟨hl1, hh1⟩, ⟨hl2, hh2⟩, ⟨hl3, hh3⟩, ⟨hl4, hh4⟩, ⟨hl5, hh5⟩, ⟨hl6, hh6⟩, ⟨hl7, hh7⟩, ⟨hl8, hh8⟩, ⟨hl9, hh9⟩⟩ := decay_q_powers q hlo hhi
  have hl0 : (1 : ℝ) ≤ q ^ 0 := by norm_num
  have hh0 : q ^ 0 ≤ (1 : ℝ) := by norm_num
  constructor
  · exact le_sq_of_nonpos _ (-2886029 / 50000 : ℝ) _ (by linarith only [hh6, hy1]) (by norm_num)
      (by norm_num)
  · exact sq_le_of_bounds _ (-2886051 / 50000 : ℝ) (-2886029 / 50000 : ℝ) _ (by linarith only [hl6, hy2])
      (by linarith only [hh6, hy1]) (by norm_num) (by norm_num)

/-- Bounds of the squared deviation from the mean at day 7. -/
theorem decay_total_bounds_7 (q ybar : ℝ) (hlo : (4524187 / 5000000 : ℝ) ≤ q) (hhi : q ≤ (72387 / 80000 : ℝ))
    (hy1 : (16606329 / 50000 : ℝ) ≤ ybar) (hy2 : ybar ≤ (33212677 / 100000 : ℝ)) :
    (702809 / 100 : ℝ) ≤ (500 * q ^ 7 - ybar) ^ 2 ∧ (500 * q ^ 7 - ybar) ^ 2 ≤ (702817 / 100 : ℝ) := by
  obtain ⟨⟨hl1, hh1⟩, ⟨hl2, hh2⟩, ⟨hl3, hh3⟩, ⟨hl4, hh4⟩, ⟨hl5, hh5⟩, ⟨hl6, hh6⟩, ⟨hl7, hh7⟩, ⟨hl8, hh8⟩, ⟨hl9, hh9⟩⟩ := decay_q_powers q hlo hhi
  have hl0 : (1 : ℝ) ≤ q ^ 0 := by norm_num
  have hh0 : q ^ 0 ≤ (1 : ℝ) := by norm_num
  constructor
  · exact le_sq_of_nonpos _ (-8383373 / 100000 : ℝ) _ (by linarith only [hh7, hy1]) (by norm_num)
      (by norm_num)
  · exact sq_le_of_bounds _ (-8383417 / 100000 : ℝ) (-8383373 / 100000 : ℝ) _ (by linarith only [hl7, hy2])
      (by linarith only [hh7, hy1]) (by norm_num) (by norm_num)

/-- Bounds of the squared deviation from the mean at day 8. -/
theorem decay_total_bounds_8 (q ybar : ℝ) (hlo : (4524187 / 5000000 : ℝ) ≤ q) (hhi : q ≤ (72387 / 80000 : ℝ))
    (hy1 : (16606329 / 50000 : ℝ) ≤ ybar) (hy2 : ybar ≤ (33212677 / 100000 : ℝ)) :
    (577403 / 50 : ℝ) ≤ (500 * q ^ 8 - ybar) ^ 2 ∧ (500 * q ^ 8 - ybar) ^ 2 ≤ (1154817 / 100 : ℝ) := by
  obtain ⟨⟨hl1, hh1⟩, ⟨hl2, hh2⟩, ⟨hl3, hh3⟩, ⟨hl4, hh4⟩, ⟨hl5, hh5⟩, ⟨hl6, hh6⟩, ⟨hl7, hh7⟩, ⟨hl8, hh8⟩, ⟨hl9, hh9⟩⟩ := decay_q_powers q hlo hhi
  have hl0 : (1 : ℝ) ≤ q ^ 0 := by norm_num
  have hh0 : q ^ 0 ≤ (1 : ℝ) := by norm_num
  constructor
  · exact le_sq_of_nonpos _ (-10746193 / 100000 : ℝ) _ (by linarith only [hh8, hy1]) (by norm_num)
      (by norm_num)
  · exact sq_le_of_bounds _ (-10746237 / 100000 : ℝ) (-10746193 / 100000 : ℝ) _ (by linarith only [hl8, hy2])
      (by linarith only [hh8, hy1]) (by norm_num) (by norm_num)

/-- Bounds of the squared deviation from the mean at day 9. -/
theorem decay_total_bounds_9 (q ybar : ℝ) (hlo : (4524187 / 5000000 : ℝ) ≤ q) (hhi : q ≤ (72387 / 80000 : ℝ))
    (hy1 : (16606329 / 50000 : ℝ) ≤ ybar) (hy2 : ybar ≤ (33212677 / 100000 : ℝ)) :
    (332003 / 20 : ℝ) ≤ (500 * q ^ 9 - ybar) ^ 2 ∧ (500 * q ^ 9 - ybar) ^ 2 ≤ (1660027 / 100 : ℝ) := by
  obtain ⟨⟨hl1, hh1⟩, ⟨hl2, hh2⟩, ⟨hl3, hh3⟩, ⟨hl4, hh4⟩, ⟨hl5, hh5⟩, ⟨hl6, hh6⟩, ⟨hl7, hh7⟩, ⟨hl8, hh8⟩, ⟨hl9, hh9⟩⟩ := decay_q_powers q hlo hhi
  have hl0 : (1 : ℝ) ≤ q ^ 0 := by norm_num
  have hh0 : q ^ 0 ≤ (1 : ℝ) := by norm_num
  constructor
  · exact le_sq_of_nonpos _ (-6442079 / 50000 : ℝ) _ (by linarith only [hh9, hy1]) (by norm_num)
      (by norm_num)
  · exact sq_le_of_bounds _ (-6442101 / 50000 : ℝ) (-6442079 / 50000 : ℝ) _ (by linarith only [hl9, hy2])
      (by linarith only [hh9, hy1]) (by norm_num) (by norm_num)

/-! ## The offset tier on the decay scenario -/

theorem exp_neg_neg_mul_numeral (s : ℝ) :
    Real.exp (-(-s) * 0) = Real.exp s ^ 0 ∧ Real.exp (-(-s) * 1) = Real.exp s ^ 1
    ∧ Real.exp (-(-s) * 2) = Real.exp s ^ 2 ∧ Real.exp (-(-s) * 3) = Real.exp s ^ 3
    ∧ Real.exp (-(-s) * 4) = Real.exp s ^ 4 ∧ Real.exp (-(-s) * 5) = Real.exp s ^ 5
    ∧ Real.exp (-(-s) * 6) = Real.exp s ^ 6 ∧ Real.exp (-(-s) * 7) = Real.exp s ^ 7
    ∧ Real.exp (-(-s) * 8) = Real.exp s ^ 8 ∧ Real.exp (-(-s) * 9) = Real.exp s ^ 9 := by
  refine ⟨?_, ?_, ?_, ?_, ?_, ?_, ?_, ?_, ?_, ?_⟩ <;>
  · rw [← Real.exp_nat_mul]
    congr 1
    push_cast
    ring

/-- The minimum of the values of the decay scenario is the last one. -/
theorem decay_values_min (q : ℝ) (hlo : (4524187 / 5000000 : ℝ) ≤ q) (hhi : q ≤ (72387 / 80000 : ℝ)) :
    jsMin ([500 * q ^ 0, 500 * q ^ 1, 500 * q ^ 2, 500 * q ^ 3, 500 * q ^ 4, 500 * q ^ 5,
          500 * q ^ 6, 500 * q ^ 7, 500 * q ^ 8, 500 * q ^ 9] : List ℝ) = 500 * q ^ 9 := by
  obtain ⟨⟨hl1, hh1⟩, ⟨hl2, hh2⟩, ⟨hl3, hh3⟩, ⟨hl4, hh4⟩, ⟨hl5, hh5⟩, ⟨hl6, hh6⟩, ⟨hl7, hh7⟩, ⟨hl8, hh8⟩, ⟨hl9, hh9⟩⟩ := decay_q_powers q hlo hhi
  have hl0 : (1 : ℝ) ≤ q ^ 0 := by norm_num
  have hh0 : q ^ 0 ≤ (1 : ℝ) := by norm_num
  simp only [jsMin, List.foldl_cons, List.foldl_nil]
  have m1 : 500 * q ^ 1 ≤ 500 * q ^ 0 := by linarith only [hl0, hh1]
  have m2 : 500 * q ^ 2 ≤ 500 * q ^ 1 := by linarith only [hl1, hh2]
  have m3 : 500 * q ^ 3 ≤ 500 * q ^ 2 := by linarith only [hl2, hh3]
  have m4 : 500 * q ^ 4 ≤ 500 * q ^ 3 := by linarith only [hl3, hh4]
  have m5 : 500 * q ^ 5 ≤ 500 * q ^ 4 := by linarith only [hl4, hh5]
  have m6 : 500 * q ^ 6 ≤ 500 * q ^ 5 := by linarith only [hl5, hh6]
  have m7 : 500 * q ^ 7 ≤ 500 * q ^ 6 := by linarith only [hl6, hh7]
  have m8 : 500 * q ^ 8 ≤ 500 * q ^ 7 := by linarith only [hl7, hh8]
  have m9 : 500 * q ^ 9 ≤ 500 * q ^ 8 := by linarith only [hl8, hh9]
  rw [min_eq_right m1, min_eq_right m2, min_eq_right m3, min_eq_right m4, min_eq_right m5, min_eq_right m6, min_eq_right m7, min_eq_right m8, min_eq_right m9]

/-- The residual sum of squares of a curve on the decay scenario, written out. -/
theorem decay_curve_error (q ic s : ℝ) :
    curveSquaredError Real.exp (Real.exp ic) (-s) (450 * q ^ 9) [0, 1, 2, 3, 4, 5, 6, 7, 8, 9]
        [500 * q ^ 0, 500 * q ^ 1, 500 * q ^ 2, 500 * q ^ 3, 500 * q ^ 4, 500 * q ^ 5,
          500 * q ^ 6, 500 * q ^ 7, 500 * q ^ 8, 500 * q ^ 9]
      = (500 * q ^ 0 - (Real.exp ic * Real.exp s ^ 0 + 450 * q ^ 9)) ^ 2
        + ((500 * q ^ 1 - (Real.exp ic * Real.exp s ^ 1 + 450 * q ^ 9)) ^ 2
        + ((500 * q ^ 2 - (Real.exp ic * Real.exp s ^ 2 + 450 * q ^ 9)) ^ 2
        + ((500 * q ^ 3 - (Real.exp ic * Real.exp s ^ 3 + 450 * q ^ 9)) ^ 2
        + ((500 * q ^ 4 - (Real.exp ic * Real.exp s ^ 4 + 450 * q ^ 9)) ^ 2
        + ((500 * q ^ 5 - (Real.exp ic * Real.exp s ^ 5 + 450 * q ^ 9)) ^ 2
        + ((500 * q ^ 6 - (Real.exp ic * Real.exp s ^ 6 + 450 * q ^ 9)) ^ 2
        + ((500 * q ^ 7 - (Real.exp ic * Real.exp s ^ 7 + 450 * q ^ 9)) ^ 2
        + ((500 * q ^ 8 - (Real.exp ic * Real.exp s ^ 8 + 450 * q ^ 9)) ^ 2
        + (500 * q ^ 9 - (Real.exp ic * Real.exp s ^ 9 + 450 * q ^ 9)) ^ 2)))))))) := by
  obtain ⟨e0, e1, e2, e3, e4, e5, e6, e7, e8, e9⟩ := exp_neg_neg_mul_numeral s
  simp only [curveSquaredError, List.zipWith_cons_cons, List.zipWith_nil_right, List.sum_cons,
    List.sum_nil, add_zero, e0, e1, e2, e3, e4, e5, e6, e7, e8, e9]

/-- The total sum of squares of the decay scenario, written out. -/
theorem decay_value_squares (q : ℝ) :
    valueSquares ([500 * q ^ 0, 500 * q ^ 1, 500 * q ^ 2, 500 * q ^ 3, 500 * q ^ 4, 500 * q ^ 5,
          500 * q ^ 6, 500 * q ^ 7, 500 * q ^ 8, 500 * q ^ 9] : List ℝ)
      = (500 * q ^ 0 - (500 * q ^ 0 + 500 * q ^ 1 + 500 * q ^ 2 + 500 * q ^ 3 + 500 * q ^ 4 + 500 * q ^ 5 + 500 * q ^ 6 + 500 * q ^ 7 + 500 * q ^ 8 + 500 * q ^ 9) / 10) ^ 2
        + ((500 * q ^ 1 - (500 * q ^ 0 + 500 * q ^ 1 + 500 * q ^ 2 + 500 * q ^ 3 + 500 * q ^ 4 + 500 * q ^ 5 + 500 * q ^ 6 + 500 * q ^ 7 + 500 * q ^ 8 + 500 * q ^ 9) / 10) ^ 2
        + ((500 * q ^ 2 - (500 * q ^ 0 + 500 * q ^ 1 + 500 * q ^ 2 + 500 * q ^ 3 + 500 * q ^ 4 + 500 * q ^ 5 + 500 * q ^ 6 + 500 * q ^ 7 + 500 * q ^ 8 + 500 * q ^ 9) / 10) ^ 2
        + ((500 * q ^ 3 - (500 * q ^ 0 + 500 * q ^ 1 + 500 * q ^ 2 + 500 * q ^ 3 + 500 * q ^ 4 + 500 * q ^ 5 + 500 * q ^ 6 + 500 * q ^ 7 + 500 * q ^ 8 + 500 * q ^ 9) / 10) ^ 2
        + ((500 * q ^ 4 - (500 * q ^ 0 + 500 * q ^ 1 + 500 * q ^ 2 + 500 * q ^ 3 + 500 * q ^ 4 + 500 * q ^ 5 + 500 * q ^ 6 + 500 * q ^ 7 + 500 * q ^ 8 + 500 * q ^ 9) / 10) ^ 2
        + ((500 * q ^ 5 - (500 * q ^ 0 + 500 * q ^ 1 + 500 * q ^ 2 + 500 * q ^ 3 + 500 * q ^ 4 + 500 * q ^ 5 + 500 * q ^ 6 + 500 * q ^ 7 + 500 * q ^ 8 + 500 * q ^ 9) / 10) ^ 2
        + ((500 * q ^ 6 - (500 * q ^ 0 + 500 * q ^ 1 + 500 * q ^ 2 + 500 * q ^ 3 + 500 * q ^ 4 + 500 * q ^ 5 + 500 * q ^ 6 + 500 * q ^ 7 + 500 * q ^ 8 + 500 * q ^ 9) / 10) ^ 2
        + ((500 * q ^ 7 - (500 * q ^ 0 + 500 * q ^ 1 + 500 * q ^ 2 + 500 * q ^ 3 + 500 * q ^ 4 + 500 * q ^ 5 + 500 * q ^ 6 + 500 * q ^ 7 + 500 * q ^ 8 + 500 * q ^ 9) / 10) ^ 2
        + ((500 * q ^ 8 - (500 * q ^ 0 + 500 * q ^ 1 + 500 * q ^ 2 + 500 * q ^ 3 + 500 * q ^ 4 + 500 * q ^ 5 + 500 * q ^ 6 + 500 * q ^ 7 + 500 * q ^ 8 + 500 * q ^ 9) / 10) ^ 2
        + (500 * q ^ 9 - (500 * q ^ 0 + 500 * q ^ 1 + 500 * q ^ 2 + 500 * q ^ 3 + 500 * q ^ 4 + 500 * q ^ 5 + 500 * q ^ 6 + 500 * q ^ 7 + 500 * q ^ 8 + 500 * q ^ 9) / 10) ^ 2)))))))) := by
  have hm : mean ([500 * q ^ 0, 500 * q ^ 1, 500 * q ^ 2, 500 * q ^ 3, 500 * q ^ 4, 500 * q ^ 5,
          500 * q ^ 6, 500 * q ^ 7, 500 * q ^ 8, 500 * q ^ 9] : List ℝ)
      = (500 * q ^ 0 + 500 * q ^ 1 + 500 * q ^ 2 + 500 * q ^ 3 + 500 * q ^ 4 + 500 * q ^ 5 + 500 * q ^ 6 + 500 * q ^ 7 + 500 * q ^ 8 + 500 * q ^ 9) / 10 := by
    simp only [mean, List.sum_cons, List.sum_nil, List.length_cons, List.length_nil]
    norm_num
    ring
  simp only [valueSquares, hm, List.map_cons, List.map_nil, List.sum_cons, List.sum_nil, add_zero]
/-- The offset tier accepts the decay scenario (stated for any `q` within the bounds
of `e^(-0.1)`), with `c = 450·q⁹` and bounds on `a`, `lam` and `r2`. -/
theorem decay_fit_on_powers (q : ℝ) (hlo : (4524187 / 5000000 : ℝ) ≤ q) (hhi : q ≤ (72387 / 80000 : ℝ)) :
    ∃ r : OffsetFit ℝ,
      FansChart.simpleExponentialFit Real.exp Real.log [0, 1, 2, 3, 4, 5, 6, 7, 8, 9]
          [500 * q ^ 0, 500 * q ^ 1, 500 * q ^ 2, 500 * q ^ 3, 500 * q ^ 4, 500 * q ^ 5,
          500 * q ^ 6, 500 * q ^ 7, 500 * q ^ 8, 500 * q ^ 9] = some r
      ∧ r.c = 450 * q ^ 9
      ∧ (199977 / 500 : ℝ) ≤ r.a ∧ r.a ≤ (100023 / 250 : ℝ)
      ∧ (2811 / 10000 : ℝ) ≤ r.lam ∧ r.lam ≤ (7029 / 25000 : ℝ)
      ∧ (891 / 1000 : ℝ) ≤ r.r2 ∧ r.r2 ≤ (892 / 1000 : ℝ) := by
  obtain ⟨⟨hl1, hh1⟩, ⟨hl2, hh2⟩, ⟨hl3, hh3⟩, ⟨hl4, hh4⟩, ⟨hl5, hh5⟩, ⟨hl6, hh6⟩, ⟨hl7, hh7⟩, ⟨hl8, hh8⟩, ⟨hl9, hh9⟩⟩ := decay_q_powers q hlo hhi
  have hl0 : (1 : ℝ) ≤ q ^ 0 := by norm_num
  have hh0 : q ^ 0 ≤ (1 : ℝ) := by norm_num
  have hc : jsMin ([500 * q ^ 0, 500 * q ^ 1, 500 * q ^ 2, 500 * q ^ 3, 500 * q ^ 4, 500 * q ^ 5,
          500 * q ^ 6, 500 * q ^ 7, 500 * q ^ 8, 500 * q ^ 9] : List ℝ) * (9 / 10) = 450 * q ^ 9 := by
    rw [decay_values_min q hlo hhi]
    ring
  have hpts : logPoints Real.log [0, 1, 2, 3, 4, 5, 6, 7, 8, 9]
        [500 * q ^ 0, 500 * q ^ 1, 500 * q ^ 2, 500 * q ^ 3, 500 * q ^ 4, 500 * q ^ 5,
          500 * q ^ 6, 500 * q ^ 7, 500 * q ^ 8, 500 * q ^ 9] (450 * q ^ 9)
      = [⟨0, Real.log (500 * q ^ 0 - 450 * q ^ 9)⟩, ⟨1, Real.log (500 * q ^ 1 - 450 * q ^ 9)⟩, ⟨2, Real.log (500 * q ^ 2 - 450 * q ^ 9)⟩, ⟨3, Real.log (500 * q ^ 3 - 450 * q ^ 9)⟩, ⟨4, Real.log (500 * q ^ 4 - 450 * q ^ 9)⟩, ⟨5, Real.log (500 * q ^ 5 - 450 * q ^ 9)⟩, ⟨6, Real.log (500 * q ^ 6 - 450 * q ^ 9)⟩, ⟨7, Real.log (500 * q ^ 7 - 450 * q ^ 9)⟩, ⟨8, Real.log (500 * q ^ 8 - 450 * q ^ 9)⟩, ⟨9, Real.log (500 * q ^ 9 - 450 * q ^ 9)⟩] := rfl
  obtain ⟨hd, hs, hi⟩ := ols_ten_points (F := ℝ) (Real.log (500 * q ^ 0 - 450 * q ^ 9)) (Real.log (500 * q ^ 1 - 450 * q ^ 9)) (Real.log (500 * q ^ 2 - 450 * q ^ 9)) (Real.log (500 * q ^ 3 - 450 * q ^ 9)) (Real.log (500 * q ^ 4 - 450 * q ^ 9)) (Real.log (500 * q ^ 5 - 450 * q ^ 9)) (Real.log (500 * q ^ 6 - 450 * q ^ 9)) (Real.log (500 * q ^ 7 - 450 * q ^ 9)) (Real.log (500 * q ^ 8 - 450 * q ^ 9)) (Real.log (500 * q ^ 9 - 450 * q ^ 9))
  obtain ⟨a0, b0⟩ := decay_log_bounds_0 q hlo hhi
  obtain ⟨a1, b1⟩ := decay_log_bounds_1 q hlo hhi
  obtain ⟨a2, b2⟩ := decay_log_bounds_2 q hlo hhi
  obtain ⟨a3, b3⟩ := decay_log_bounds_3 q hlo hhi
  obtain ⟨a4, b4⟩ := decay_log_bounds_4 q hlo hhi
  obtain ⟨a5, b5⟩ := decay_log_bounds_5 q hlo hhi
  obtain ⟨a6, b6⟩ := decay_log_bounds_6 q hlo hhi
  obtain ⟨a7, b7⟩ := decay_log_bounds_7 q hlo hhi
  obtain ⟨a8, b8⟩ := decay_log_bounds_8 q hlo hhi
  obtain ⟨a9, b9⟩ := decay_log_bounds_9 q hlo hhi
  have hfit := simpleExponentialFit_eq Real.exp Real.log [0, 1, 2, 3, 4, 5, 6, 7, 8, 9]
    ([500 * q ^ 0, 500 * q ^ 1, 500 * q ^ 2, 500 * q ^ 3, 500 * q ^ 4, 500 * q ^ 5,
          500 * q ^ 6, 500 * q ^ 7, 500 * q ^ 8, 500 * q ^ 9] : List ℝ) (by rfl)
  rw [hfit, hc, hpts, hd]
  clear hfit hpts hd hc
  obtain ⟨⟨hs1, hs2⟩, ⟨hi1, hi2⟩⟩ := decay_fit_bounds (Real.log (500 * q ^ 0 - 450 * q ^ 9)) (Real.log (500 * q ^ 1 - 450 * q ^ 9)) (Real.log (500 * q ^ 2 - 450 * q ^ 9)) (Real.log (500 * q ^ 3 - 450 * q ^ 9)) (Real.log (500 * q ^ 4 - 450 * q ^ 9)) (Real.log (500 * q ^ 5 - 450 * q ^ 9)) (Real.log (500 * q ^ 6 - 450 * q ^ 9)) (Real.log (500 * q ^ 7 - 450 * q ^ 9)) (Real.log (500 * q ^ 8 - 450 * q ^ 9)) (Real.log (500 * q ^ 9 - 450 * q ^ 9))
    a0 b0 a1 b1 a2 b2 a3 b3 a4 b4 a5 b5 a6 b6 a7 b7 a8 b8 a9 b9
  rw [← hs] at hs1 hs2
  rw [← hi] at hi1 hi2
  clear hs hi
  generalize olsSlope ([⟨0, Real.log (500 * q ^ 0 - 450 * q ^ 9)⟩, ⟨1, Real.log (500 * q ^ 1 - 450 * q ^ 9)⟩, ⟨2, Real.log (500 * q ^ 2 - 450 * q ^ 9)⟩, ⟨3, Real.log (500 * q ^ 3 - 450 * q ^ 9)⟩, ⟨4, Real.log (500 * q ^ 4 - 450 * q ^ 9)⟩, ⟨5, Real.log (500 * q ^ 5 - 450 * q ^ 9)⟩, ⟨6, Real.log (500 * q ^ 6 - 450 * q ^ 9)⟩, ⟨7, Real.log (500 * q ^ 7 - 450 * q ^ 9)⟩, ⟨8, Real.log (500 * q ^ 8 - 450 * q ^ 9)⟩, ⟨9, Real.log (500 * q ^ 9 - 450 * q ^ 9)⟩] : List (Point ℝ)) = s at hs1 hs2 ⊢
  generalize olsIntercept ([⟨0, Real.log (500 * q ^ 0 - 450 * q ^ 9)⟩, ⟨1, Real.log (500 * q ^ 1 - 450 * q ^ 9)⟩, ⟨2, Real.log (500 * q ^ 2 - 450 * q ^ 9)⟩, ⟨3, Real.log (500 * q ^ 3 - 450 * q ^ 9)⟩, ⟨4, Real.log (500 * q ^ 4 - 450 * q ^ 9)⟩, ⟨5, Real.log (500 * q ^ 5 - 450 * q ^ 9)⟩, ⟨6, Real.log (500 * q ^ 6 - 450 * q ^ 9)⟩, ⟨7, Real.log (500 * q ^ 7 - 450 * q ^ 9)⟩, ⟨8, Real.log (500 * q ^ 8 - 450 * q ^ 9)⟩, ⟨9, Real.log (500 * q ^ 9 - 450 * q ^ 9)⟩] : List (Point ℝ)) = ic at hi1 hi2 ⊢
  rw [decay_curve_error, decay_value_squares]
  obtain ⟨⟨ha1, ha2⟩, ⟨hr1, hr2⟩⟩ := decay_parameter_bounds s ic hs1 hs2 hi1 hi2
  obtain ⟨hy1, hy2⟩ := decay_mean_bounds q hlo hhi
  obtain ⟨u0, v0⟩ := decay_residual_bounds_0 q (Real.exp ic) (Real.exp s) hlo hhi ha1 ha2 hr1 hr2
  obtain ⟨u1, v1⟩ := decay_residual_bounds_1 q (Real.exp ic) (Real.exp s) hlo hhi ha1 ha2 hr1 hr2
  obtain ⟨u2, v2⟩ := decay_residual_bounds_2 q (Real.exp ic) (Real.exp s) hlo hhi ha1 ha2 hr1 hr2
  obtain ⟨u3, v3⟩ := decay_residual_bounds_3 q (Real.exp ic) (Real.exp s) hlo hhi ha1 ha2 hr1 hr2
  obtain ⟨u4, v4⟩ := decay_residual_bounds_4 q (Real.exp ic) (Real.exp s) hlo hhi ha1 ha2 hr1 hr2
  obtain ⟨u5, v5⟩ := decay_residual_bounds_5 q (Real.exp ic) (Real.exp s) hlo hhi ha1 ha2 hr1 hr2
  obtain ⟨u6, v6⟩ := decay_residual_bounds_6 q (Real.exp ic) (Real.exp s) hlo hhi ha1 ha2 hr1 hr2
  obtain ⟨u7, v7⟩ := decay_residual_bounds_7 q (Real.exp ic) (Real.exp s) hlo hhi ha1 ha2 hr1 hr2
  obtain ⟨u8, v8⟩ := decay_residual_bounds_8 q (Real.exp ic) (Real.exp s) hlo hhi ha1 ha2 hr1 hr2
  obtain ⟨u9, v9⟩ := decay_residual_bounds_9 q (Real.exp ic) (Real.exp s) hlo hhi ha1 ha2 hr1 hr2
  obtain ⟨w0, z0⟩ := decay_total_bounds_0 q _ hlo hhi hy1 hy2
  obtain ⟨w1, z1⟩ := decay_total_bounds_1 q _ hlo hhi hy1 hy2
  obtain ⟨w2, z2⟩ := decay_total_bounds_2 q _ hlo hhi hy1 hy2
  obtain ⟨w3, z3⟩ := decay_total_bounds_3 q _ hlo hhi hy1 hy2
  obtain ⟨w4, z4⟩ := decay_total_bounds_4 q _ hlo hhi hy1 hy2
  obtain ⟨w5, z5⟩ := decay_total_bounds_5 q _ hlo hhi hy1 hy2
  obtain ⟨w6, z6⟩ := decay_total_bounds_6 q _ hlo hhi hy1 hy2
  obtain ⟨w7, z7⟩ := decay_total_bounds_7 q _ hlo hhi hy1 hy2
  obtain ⟨w8, z8⟩ := decay_total_bounds_8 q _ hlo hhi hy1 hy2
  obtain ⟨w9, z9⟩ := decay_total_bounds_9 q _ hlo hhi hy1 hy2
  have hc1 : ¬ ∃ v ∈ ([500 * q ^ 0, 500 * q ^ 1, 500 * q ^ 2, 500 * q ^ 3, 500 * q ^ 4, 500 * q ^ 5,
          500 * q ^ 6, 500 * q ^ 7, 500 * q ^ 8, 500 * q ^ 9] : List ℝ), v - 450 * q ^ 9 ≤ 0 := by
    simp only [List.mem_cons, List.mem_singleton, List.not_mem_nil, or_false, not_exists, not_and, not_le]
    intro v hv
    rcases hv with rfl | rfl | rfl | rfl | rfl | rfl | rfl | rfl | rfl | rfl
    · linarith only [hl0, hh9]
    · linarith only [hl1, hh9]
    · linarith only [hl2, hh9]
    · linarith only [hl3, hh9]
    · linarith only [hl4, hh9]
    · linarith only [hl5, hh9]
    · linarith only [hl6, hh9]
    · linarith only [hl7, hh9]
    · linarith only [hl8, hh9]
    · linarith only [hl9, hh9]
  clear hl1 hh1 hl2 hh2 hl3 hh3 hl4 hh4 hl5 hh5 hl6 hh6 hl7 hh7 hl8 hh8 hl9 hh9 hl0 hh0 a0 b0 a1 b1 a2 b2 a3 b3 a4 b4 a5 b5
    a6 b6 a7 b7 a8 b8 a9 b9 hi1 hi2 hr1 hr2
  generalize (500 * q ^ 0 + 500 * q ^ 1 + 500 * q ^ 2 + 500 * q ^ 3 + 500 * q ^ 4 + 500 * q ^ 5 + 500 * q ^ 6 + 500 * q ^ 7 + 500 * q ^ 8 + 500 * q ^ 9) / 10 = ybar at hy1 hy2 w0 z0 w1 z1 w2 z2 w3 z3 w4 z4 w5 z5 w6 z6 w7 z7 w8 z8 w9 z9 ⊢
  generalize (500 * q ^ 0 - (Real.exp ic * Real.exp s ^ 0 + 450 * q ^ 9)) ^ 2 = R0 at u0 v0 ⊢
  generalize (500 * q ^ 1 - (Real.exp ic * Real.exp s ^ 1 + 450 * q ^ 9)) ^ 2 = R1 at u1 v1 ⊢
  generalize (500 * q ^ 2 - (Real.exp ic * Real.exp s ^ 2 + 450 * q ^ 9)) ^ 2 = R2 at u2 v2 ⊢
  generalize (500 * q ^ 3 - (Real.exp ic * Real.exp s ^ 3 + 450 * q ^ 9)) ^ 2 = R3 at u3 v3 ⊢
  generalize (500 * q ^ 4 - (Real.exp ic * Real.exp s ^ 4 + 450 * q ^ 9)) ^ 2 = R4 at u4 v4 ⊢
  generalize (500 * q ^ 5 - (Real.exp ic * Real.exp s ^ 5 + 450 * q ^ 9)) ^ 2 = R5 at u5 v5 ⊢
  generalize (500 * q ^ 6 - (Real.exp ic * Real.exp s ^ 6 + 450 * q ^ 9)) ^ 2 = R6 at u6 v6 ⊢
  generalize (500 * q ^ 7 - (Real.exp ic * Real.exp s ^ 7 + 450 * q ^ 9)) ^ 2 = R7 at u7 v7 ⊢
  generalize (500 * q ^ 8 - (Real.exp ic * Real.exp s ^ 8 + 450 * q ^ 9)) ^ 2 = R8 at u8 v8 ⊢
  generalize (500 * q ^ 9 - (Real.exp ic * Real.exp s ^ 9 + 450 * q ^ 9)) ^ 2 = R9 at u9 v9 ⊢
  generalize (500 * q ^ 0 - ybar) ^ 2 = T0 at w0 z0 ⊢
  generalize (500 * q ^ 1 - ybar) ^ 2 = T1 at w1 z1 ⊢
  generalize (500 * q ^ 2 - ybar) ^ 2 = T2 at w2 z2 ⊢
  generalize (500 * q ^ 3 - ybar) ^ 2 = T3 at w3 z3 ⊢
  generalize (500 * q ^ 4 - ybar) ^ 2 = T4 at w4 z4 ⊢
  generalize (500 * q ^ 5 - ybar) ^ 2 = T5 at w5 z5 ⊢
  generalize (500 * q ^ 6 - ybar) ^ 2 = T6 at w6 z6 ⊢
  generalize (500 * q ^ 7 - ybar) ^ 2 = T7 at w7 z7 ⊢
  generalize (500 * q ^ 8 - ybar) ^ 2 = T8 at w8 z8 ⊢
  generalize (500 * q ^ 9 - ybar) ^ 2 = T9 at w9 z9 ⊢
  have hR1 : (241857 / 25 : ℝ) ≤ R0 + (R1 + (R2 + (R3 + (R4 + (R5 + (R6 + (R7 + (R8 + R9)))))))) := by linarith only [u0, u1, u2, u3, u4, u5, u6, u7, u8, u9]
  have hR2 : R0 + (R1 + (R2 + (R3 + (R4 + (R5 + (R6 + (R7 + (R8 + R9)))))))) ≤ (971827 / 100 : ℝ) := by linarith only [v0, v1, v2, v3, v4, v5, v6, v7, v8, v9]
  have hT1 : (89433 : ℝ) ≤ T0 + (T1 + (T2 + (T3 + (T4 + (T5 + (T6 + (T7 + (T8 + T9)))))))) := by linarith only [w0, w1, w2, w3, w4, w5, w6, w7, w8, w9]
  have hT2 : T0 + (T1 + (T2 + (T3 + (T4 + (T5 + (T6 + (T7 + (T8 + T9)))))))) ≤ (4471683 / 50 : ℝ) := by linarith only [z0, z1, z2, z3, z4, z5, z6, z7, z8, z9]
  clear u0 u1 u2 u3 u4 u5 u6 u7 u8 u9 v0 v1 v2 v3 v4 v5 v6 v7 v8 v9 w0 w1 w2 w3 w4 w5 w6 w7 w8 w9
    z0 z1 z2 z3 z4 z5 z6 z7 z8 z9 hy1 hy2
  generalize R0 + (R1 + (R2 + (R3 + (R4 + (R5 + (R6 + (R7 + (R8 + R9)))))))) = R at hR1 hR2 ⊢
  generalize T0 + (T1 + (T2 + (T3 + (T4 + (T5 + (T6 + (T7 + (T8 + T9)))))))) = T at hT1 hT2 ⊢
  have hTpos : 0 < T := by linarith only [hT1]
  have hr2 : rSquared T R = 1 - R / T := by
    unfold rSquared
    rw [if_pos hTpos]
  have hq1 : R / T ≤ 109 / 1000 := by
    rw [div_le_iff₀ hTpos]
    linarith only [hR2, hT1]
  have hq2 : 108 / 1000 ≤ R / T := by
    rw [le_div_iff₀ hTpos]
    linarith only [hR1, hT2]
  have hc2 : ¬ |(825 : ℝ)| < denomEps := by
    unfold denomEps
    norm_num
  have hc3 : ¬ (-s ≤ 0 ∨ Real.exp ic ≤ 0 ∨ rSquared T R < 1 / 10) := by
    rw [hr2]
    intro h
    rcases h with h | h | h
    · linarith only [h, hs2]
    · linarith only [h, Real.exp_pos ic]
    · linarith only [h, hq1]
  rw [if_neg hc1, if_neg hc2, if_neg hc3]
  refine ⟨_, rfl, rfl, ha1, ha2, ?_, ?_, ?_, ?_⟩
  · show _ ≤ -s
    linarith only [hs2]
  · show -s ≤ _
    linarith only [hs1]
  · show _ ≤ rSquared T R
    rw [hr2]
    linarith only [hq1]
  · show rSquared T R ≤ _
    rw [hr2]
    linarith only [hq2]
/-- A series of at most 10 points reaches the fitters unfiltered. -/
theorem postFilterData_of_length_le (data : List (DataPoint ℝ)) (h : data.length ≤ 10) :
    postFilterData Real.sqrt data
      = (data.map (elapsedDays data), data.map (fun d => d.fans), 0) := by
  rw [postFilterData_eq]
  split_ifs with hk
  · rfl
  · have hle : (keptPoints Real.sqrt data).length ≤ data.length := List.length_filter_le _ _
    have heq : (keptPoints Real.sqrt data).length = data.length := by omega
    have hall : keptPoints Real.sqrt data = data := by
      unfold keptPoints at heq ⊢
      exact List.filter_eq_self.mpr (List.filter_length_eq_length.mp heq)
    rw [hall, Nat.sub_self]

/-- The arrays of the decay scenario handed to the fitters. -/
theorem decayScenario_postFilter :
    postFilterData Real.sqrt (decayScenario Real.exp).data
      = ([0, 1, 2, 3, 4, 5, 6, 7, 8, 9],
         [500 * Real.exp (-(1 / 10)) ^ 0, 500 * Real.exp (-(1 / 10)) ^ 1,
          500 * Real.exp (-(1 / 10)) ^ 2, 500 * Real.exp (-(1 / 10)) ^ 3,
          500 * Real.exp (-(1 / 10)) ^ 4, 500 * Real.exp (-(1 / 10)) ^ 5,
          500 * Real.exp (-(1 / 10)) ^ 6, 500 * Real.exp (-(1 / 10)) ^ 7,
          500 * Real.exp (-(1 / 10)) ^ 8, 500 * Real.exp (-(1 / 10)) ^ 9], 0) := by
  rw [postFilterData_of_length_le _ (by decide)]
  have hx : (decayScenario Real.exp).data.map (elapsedDays (decayScenario Real.exp).data)
      = [0, 1, 2, 3, 4, 5, 6, 7, 8, 9] := by
    simp only [decayScenario, List.map_cons, List.map_nil, elapsedDays, firstTimestamp]
    norm_num
  have hy : (decayScenario Real.exp).data.map (fun d => d.fans)
      = [500 * Real.exp (-(1 / 10)) ^ 0, 500 * Real.exp (-(1 / 10)) ^ 1,
          500 * Real.exp (-(1 / 10)) ^ 2, 500 * Real.exp (-(1 / 10)) ^ 3,
          500 * Real.exp (-(1 / 10)) ^ 4, 500 * Real.exp (-(1 / 10)) ^ 5,
          500 * Real.exp (-(1 / 10)) ^ 6, 500 * Real.exp (-(1 / 10)) ^ 7,
          500 * Real.exp (-(1 / 10)) ^ 8, 500 * Real.exp (-(1 / 10)) ^ 9] := by
    have e : ∀ n : ℕ, Real.exp (-(1 / 10) * (n : ℝ)) = Real.exp (-(1 / 10)) ^ n :=
      fun n => exp_neg_mul_numeral _ n
    have e0 := e 0
    have e1 := e 1
    have e2 := e 2
    have e3 := e 3
    have e4 := e 4
    have e5 := e 5
    have e6 := e 6
    have e7 := e 7
    have e8 := e 8
    have e9 := e 9
    simp only [Nat.cast_zero, Nat.cast_one, Nat.cast_ofNat] at e0 e1 e2 e3 e4 e5 e6 e7 e8 e9
    simp only [decayScenario, List.map_cons, List.map_nil, e0, e1, e2, e3, e4, e5, e6, e7, e8,
      e9]
  rw [hx, hy]

/-- The model stored by `calculateExponentialDecay` for the decay scenario: it comes
from the offset tier. -/
theorem decayScenario_model :
    ∃ r : OffsetFit ℝ,
      FansChart.simpleExponentialFit Real.exp Real.log
          (postFilterData Real.sqrt (decayScenario Real.exp).data).1
          (postFilterData Real.sqrt (decayScenario Real.exp).data).2.1 = some r
      ∧ (FansChart.calculateExponentialDecay Real.sqrt Real.exp Real.log
          (decayScenario Real.exp)).exponentialModel
        = some (FansChart.offsetModel Real.exp Real.log 1700000000000
            [0, 1, 2, 3, 4, 5, 6, 7, 8, 9] 0 r)
      ∧ r.c = 450 * Real.exp (-(1 / 10)) ^ 9
      ∧ (199977 / 500 : ℝ) ≤ r.a ∧ r.a ≤ (100023 / 250 : ℝ)
      ∧ (2811 / 10000 : ℝ) ≤ r.lam ∧ r.lam ≤ (7029 / 25000 : ℝ)
      ∧ (891 / 1000 : ℝ) ≤ r.r2 ∧ r.r2 ≤ (892 / 1000 : ℝ) := by
  obtain ⟨hq1, hq2⟩ := decay_q_bounds
  obtain ⟨r, hr, hrest⟩ := decay_fit_on_powers (Real.exp (-(1 / 10))) hq1 hq2
  refine ⟨r, ?_, ?_, hrest⟩
  · rw [decayScenario_postFilter]
    exact hr
  · rw [calculateExponentialDecay_eq Real.sqrt Real.exp Real.log _ (by decide),
      decayScenario_postFilter]
    simp only [hr]
    rfl
/-- The values of the decay scenario are the curve `500·e^(-0.1·t)` at the days 0..9. -/
theorem decay_values_as_curve :
    ([500 * Real.exp (-(1 / 10)) ^ 0, 500 * Real.exp (-(1 / 10)) ^ 1,
      500 * Real.exp (-(1 / 10)) ^ 2, 500 * Real.exp (-(1 / 10)) ^ 3,
      500 * Real.exp (-(1 / 10)) ^ 4, 500 * Real.exp (-(1 / 10)) ^ 5,
      500 * Real.exp (-(1 / 10)) ^ 6, 500 * Real.exp (-(1 / 10)) ^ 7,
      500 * Real.exp (-(1 / 10)) ^ 8, 500 * Real.exp (-(1 / 10)) ^ 9] : List ℝ)
      = ([0, 1, 2, 3, 4, 5, 6, 7, 8, 9] : List ℝ).map
          (fun t => 500 * Real.exp (-(1 / 10) * t)) := by
  have e : ∀ n : ℕ, Real.exp (-(1 / 10) * (n : ℝ)) = Real.exp (-(1 / 10)) ^ n :=
    fun n => exp_neg_mul_numeral _ n
  have e0 := e 0
  have e1 := e 1
  have e2 := e 2
  have e3 := e 3
  have e4 := e 4
  have e5 := e 5
  have e6 := e 6
  have e7 := e 7
  have e8 := e 8
  have e9 := e 9
  simp only [Nat.cast_zero, Nat.cast_one, Nat.cast_ofNat] at e0 e1 e2 e3 e4 e5 e6 e7 e8 e9
  simp only [List.map_cons, List.map_nil, e0, e1, e2, e3, e4, e5, e6, e7, e8, e9]

/-- The offset-free tier on the post-filter data of the decay scenario. -/
theorem decayScenario_noOffset :
    FansChart.simpleExponentialFitNoOffset Real.exp Real.log
        (postFilterData Real.sqrt (decayScenario Real.exp).data).1
        (postFilterData Real.sqrt (decayScenario Real.exp).data).2.1
      = some { a := 500, lam := 1 / 10, r2 := 1 } := by
  rw [decayScenario_postFilter]
  simp only []
  rw [decay_values_as_curve]
  exact noOffset_fit_exact_core 500 (1 / 10) (by norm_num) (by norm_num)
    [0, 1, 2, 3, 4, 5, 6, 7, 8, 9] (by decide) (by norm_num [denomEps])

/-- C5 fails as stated: on the noise-free series `500·e^(-0.1·day)`, day = 0..9, the
offset tier is accepted, so the stored model has `c ≠ 0`, and its `a` and `lam` are
not within 5% of 500 and 0.1. -/
theorem decay_scenario_counterexample :
    ∃ m : ExponentialModel ℝ,
      (FansChart.calculateExponentialDecay Real.sqrt Real.exp Real.log
        (decayScenario Real.exp)).exponentialModel = some m
      ∧ m.c ≠ 0
      ∧ ¬ (|m.a - 500| ≤ 5 / 100 * 500)
      ∧ ¬ (|m.lam - 1 / 10| ≤ 5 / 100 * (1 / 10)) := by
  obtain ⟨r, _, hm, hc, ha1, ha2, hl1, hl2, _, _⟩ := decayScenario_model
  obtain ⟨hq1, hq2⟩ := decay_q_bounds
  have hq9 := (decay_q_powers _ hq1 hq2).2.2.2.2.2.2.2.2
  refine ⟨_, hm, ?_, ?_, ?_⟩
  · show r.c ≠ 0
    rw [hc]
    linarith [hq9.1]
  · show ¬ (|r.a - 500| ≤ 5 / 100 * 500)
    rw [abs_le]
    intro h
    linarith [h.1]
  · show ¬ (|r.lam - 1 / 10| ≤ 5 / 100 * (1 / 10))
    rw [abs_le]
    intro h
    linarith [h.2]

/-- C5 (amended): on the noise-free series `500·e^(-0.1·day)`, day = 0..9,
`calculateExponentialDecay` succeeds through the offset tier: the stored model has
`c = 0.9·min(y) = 450·e^(-0.9)` (about 183), `a` between 399.9 and 400.1, `lam`
between 0.2811 and 0.2812, `r2` between 0.891 and 0.892 and
`halfLife = ln 2 / lam` between 2.465 and 2.466.  The offset-free fitter applied to
the same post-filter data returns `a = 500`, `lam = 0.1`, `r2 = 1` (half-life
`ln 2 / 0.1`, between 6.93 and 6.94), and more generally it returns exactly `a` and
`lam` on every series generated by `a·e^(-lam·t)` that passes the denominator check. -/
theorem decay_scenario_fit :
    (∃ m : ExponentialModel ℝ,
      (FansChart.calculateExponentialDecay Real.sqrt Real.exp Real.log
        (decayScenario Real.exp)).exponentialModel = some m
      ∧ m.c = 9 / 10 * (500 * Real.exp (-(1 / 10) * 9))
      ∧ m.c = 450 * Real.exp (-(9 / 10))
      ∧ (1829 / 10 : ℝ) < m.c ∧ m.c < 183
      ∧ (3999 / 10 : ℝ) < m.a ∧ m.a < 4001 / 10
      ∧ (2811 / 10000 : ℝ) ≤ m.lam ∧ m.lam < 2812 / 10000
      ∧ (891 / 1000 : ℝ) ≤ m.r2 ∧ m.r2 ≤ 892 / 1000
      ∧ m.halfLife = Real.log 2 / m.lam
      ∧ (2465 / 1000 : ℝ) < m.halfLife ∧ m.halfLife < 2466 / 1000)
    ∧ FansChart.simpleExponentialFitNoOffset Real.exp Real.log
        (postFilterData Real.sqrt (decayScenario Real.exp).data).1
        (postFilterData Real.sqrt (decayScenario Real.exp).data).2.1
      = some { a := 500, lam := 1 / 10, r2 := 1 }
    ∧ ((693 / 100 : ℝ) < Real.log 2 / (1 / 10) ∧ Real.log 2 / (1 / 10) < 694 / 100)
    ∧ (∀ (a lam : ℝ) (x : List ℝ), 0 < a → 0 < lam → 2 ≤ x.length →
        denomEps ≤ |(x.length : ℝ) * (x.map (fun t => t ^ 2)).sum - x.sum ^ 2| →
        FansChart.simpleExponentialFitNoOffset Real.exp Real.log x
            (x.map (fun t => a * Real.exp (-lam * t)))
          = some { a := a, lam := lam, r2 := 1 }) := by
  have hlog1 := Real.log_two_gt_d9
  have hlog2 := Real.log_two_lt_d9
  refine ⟨?_, decayScenario_noOffset, ⟨?_, ?_⟩, ?_⟩
  · obtain ⟨r, _, hm, hc, ha1, ha2, hl1, hl2, hr1, hr2⟩ := decayScenario_model
    obtain ⟨hq1, hq2⟩ := decay_q_bounds
    have hq9 := (decay_q_powers _ hq1 hq2).2.2.2.2.2.2.2.2
    have e9 : Real.exp (-(1 / 10) * 9) = Real.exp (-(1 / 10)) ^ 9 := by
      have h := exp_neg_mul_numeral (-(1 / 10)) 9
      simpa only [Nat.cast_ofNat] using h
    have e9' : Real.exp (-(9 / 10)) = Real.exp (-(1 / 10)) ^ 9 := by
      rw [← e9]
      congr 1
      norm_num
    have hlam : 0 < r.lam := by linarith
    refine ⟨_, hm, ?_, ?_, ?_, ?_, ?_, ?_, hl1, ?_, hr1, hr2, rfl, ?_, ?_⟩
    · show r.c = _
      rw [hc, e9]
      ring
    · show r.c = _
      rw [hc, e9']
    · show _ < r.c
      rw [hc]
      linarith [hq9.1]
    · show r.c < _
      rw [hc]
      linarith [hq9.2]
    · show _ < r.a
      linarith
    · show r.a < _
      linarith
    · show r.lam < _
      linarith
    · show _ < Real.log 2 / r.lam
      rw [lt_div_iff₀ hlam]
      nlinarith
    · show Real.log 2 / r.lam < _
      rw [div_lt_iff₀ hlam]
      nlinarith
  · rw [lt_div_iff₀ (by norm_num)]
    linarith
  · rw [div_lt_iff₀ (by norm_num)]
    linarith
  · intro a lam x ha hlam hlen hden
    exact noOffset_fit_exact_core a lam ha hlam x hlen hden
/-! ## Facts about accepted fits and stored models -/

theorem jsMin_mem_and_le (y : List F) (hy : y ≠ []) :
    jsMin y ∈ y ∧ ∀ v ∈ y, jsMin y ≤ v := by
  cases y with
  | nil => exact absurd rfl hy
  | cons a t =>
    have key : ∀ (l : List F) (b : F),
        (l.foldl min b = b ∨ l.foldl min b ∈ l) ∧ l.foldl min b ≤ b
          ∧ ∀ v ∈ l, l.foldl min b ≤ v := by
      intro l
      induction l with
      | nil =>
        intro b
        exact ⟨Or.inl rfl, le_refl _, fun v hv => absurd hv (List.not_mem_nil v)⟩
      | cons c u ih =>
        intro b
        obtain ⟨h1, h2, h3⟩ := ih (min b c)
        simp only [List.foldl_cons]
        refine ⟨?_, le_trans h2 (min_le_left _ _), ?_⟩
        · rcases h1 with h | h
          · rcases min_choice b c with hb | hc
            · exact Or.inl (by rw [h, hb])
            · exact Or.inr (by rw [h, hc]; exact List.mem_cons_self _ _)
          · exact Or.inr (List.mem_cons_of_mem _ h)
        · intro v hv
          rcases List.mem_cons.mp hv with rfl | hv
          · exact le_trans h2 (min_le_right _ _)
          · exact h3 v hv
    obtain ⟨h1, h2, h3⟩ := key t a
    simp only [jsMin]
    refine ⟨?_, ?_⟩
    · rcases h1 with h | h
      · rw [h]
        exact List.mem_cons_self _ _
      · exact List.mem_cons_of_mem _ h
    · intro v hv
      rcases List.mem_cons.mp hv with rfl | hv
      · exact h2
      · exact h3 v hv

/-- What acceptance by the offset tier entails. -/
theorem simpleExponentialFit_accepted (exp log : F → F) (x y : List F) (r : OffsetFit F)
    (h : FansChart.simpleExponentialFit exp log x y = some r) :
    0 < r.lam ∧ 0 < r.a ∧ 1 / 10 ≤ r.r2 ∧ r.c = jsMin y * (9 / 10)
      ∧ ∀ v ∈ y, 0 < v - jsMin y * (9 / 10) := by
  simp only [FansChart.simpleExponentialFit, rSquared_fold] at h
  split_ifs at h with h1 h2 h3
  simp only [Option.some.injEq] at h
  subst h
  simp only [not_or, not_le, not_lt] at h3
  refine ⟨h3.1, h3.2.1, h3.2.2, rfl, ?_⟩
  intro v hv
  by_contra hneg
  apply h1
  simp only [List.any_eq_true, List.mem_map, decide_eq_true_eq]
  exact ⟨_, ⟨v, hv, rfl⟩, not_lt.mp hneg⟩

/-- What acceptance by the offset-free tier entails. -/
theorem simpleExponentialFitNoOffset_accepted (exp log : F → F) (x y : List F)
    (r : NoOffsetFit F)
    (h : FansChart.simpleExponentialFitNoOffset exp log x y = some r) :
    0 < r.lam ∧ 0 < r.a ∧ 1 / 10 ≤ r.r2 ∧ ∀ v ∈ y, 0 < v := by
  simp only [FansChart.simpleExponentialFitNoOffset, rSquared_fold] at h
  split_ifs at h with h1 h2 h3
  simp only [Option.some.injEq] at h
  subst h
  simp only [not_or, not_le, not_lt] at h3
  refine ⟨h3.1, h3.2.1, h3.2.2, ?_⟩
  intro v hv
  by_contra hneg
  apply h1
  simp only [List.any_eq_true, decide_eq_true_eq]
  exact ⟨v, hv, not_lt.mp hneg⟩

/-- A model found after the exponential fit on an object that had none was built by
one of the two tiers from the post-filter data. -/
theorem calculateExponentialDecay_stored (sqrt exp log : F → F) (self : FansChart F)
    (m : ExponentialModel F) (hnone : self.exponentialModel = none)
    (hm : (FansChart.calculateExponentialDecay sqrt exp log self).exponentialModel = some m) :
    3 ≤ self.data.length ∧
    ((∃ r : OffsetFit F,
        FansChart.simpleExponentialFit exp log (postFilterData sqrt self.data).1
          (postFilterData sqrt self.data).2.1 = some r
        ∧ m = FansChart.offsetModel exp log (firstTimestamp self.data)
            (postFilterData sqrt self.data).1 (postFilterData sqrt self.data).2.2 r)
      ∨ (FansChart.simpleExponentialFit exp log (postFilterData sqrt self.data).1
          (postFilterData sqrt self.data).2.1 = none
        ∧ ∃ r : NoOffsetFit F,
          FansChart.simpleExponentialFitNoOffset exp log (postFilterData sqrt self.data).1
            (postFilterData sqrt self.data).2.1 = some r
          ∧ m = FansChart.noOffsetModel exp log (firstTimestamp self.data)
              (postFilterData sqrt self.data).1 (postFilterData sqrt self.data).2.2 r)) := by
  by_cases hlen : 3 ≤ self.data.length
  · refine ⟨hlen, ?_⟩
    rw [calculateExponentialDecay_eq sqrt exp log self hlen] at hm
    cases h1 : FansChart.simpleExponentialFit exp log (postFilterData sqrt self.data).1
        (postFilterData sqrt self.data).2.1 with
    | some r =>
      rw [h1] at hm
      simp only [Option.some.injEq] at hm
      exact Or.inl ⟨r, rfl, hm.symm⟩
    | none =>
      rw [h1] at hm
      cases h2 : FansChart.simpleExponentialFitNoOffset exp log (postFilterData sqrt self.data).1
          (postFilterData sqrt self.data).2.1 with
      | some r =>
        rw [h2] at hm
        simp only [Option.some.injEq] at hm
        exact Or.inr ⟨rfl, r, rfl, hm.symm⟩
      | none =>
        rw [h2] at hm
        simp only [] at hm
        rw [hnone] at hm
        exact absurd hm (by simp)
  · have hl : self.data.length < 3 := by omega
    unfold FansChart.calculateExponentialDecay at hm
    rw [if_pos hl, hnone] at hm
    exact absurd hm (by simp)

/-- A model found after the linear fit on an object that had none is the one built
from the closed-form solution. -/
theorem calculateLinearRegression_stored (self : FansChart F) (m : LinearModel F)
    (hnone : self.linearModel = none)
    (hm : (FansChart.calculateLinearRegression self).linearModel = some m) :
    2 ≤ self.data.length ∧ denomEps ≤ |olsDenominator (sample self.data)|
      ∧ m.slope = olsSlope (sample self.data)
      ∧ m.intercept = olsIntercept (sample self.data)
      ∧ m.startTime = firstTimestamp self.data
      ∧ m.predict = linearPredict m.slope m.intercept m.startTime := by
  by_cases hlen : 2 ≤ self.data.length
  · by_cases hden : denomEps ≤ |olsDenominator (sample self.data)|
    · rw [calculateLinearRegression_eq self hlen hden] at hm
      simp only [Option.some.injEq] at hm
      subst hm
      exact ⟨hlen, hden, rfl, rfl, rfl, rfl⟩
    · exfalso
      have hd : |olsDenominator (sample self.data)| < denomEps := not_le.mp hden
      have hl : ¬ self.data.length < 2 := by omega
      unfold FansChart.calculateLinearRegression at hm
      simp only [regressionPoints_eq_sample, foldl_add_eq_sum, zero_add] at hm
      simp only [olsDenominator, sumX, sumXX, sample_length, pow_two] at hd
      rw [if_neg hl, if_pos hd, hnone] at hm
      exact absurd hm (by simp)
  · exfalso
    have hl : self.data.length < 2 := by omega
    unfold FansChart.calculateLinearRegression at hm
    rw [if_pos hl, hnone] at hm
    exact absurd hm (by simp)

/-! ## The prediction closures and the invariants of stored models -/

theorem outlierStep_values_ne_nil (sqrt : F → F) (x y : List F) (hy : y ≠ []) :
    (FansChart.outlierStep sqrt x y).2.1 ≠ [] := by
  unfold FansChart.outlierStep
  simp only []
  split_ifs with hk
  · exact hy
  · intro hnil
    apply hk
    simp only [List.map_eq_nil_iff] at hnil
    rw [hnil]
    simp

theorem postFilterData_values_ne_nil (sqrt : F → F) (data : List (DataPoint F))
    (h : data ≠ []) : (postFilterData sqrt data).2.1 ≠ [] := by
  unfold postFilterData
  apply outlierStep_values_ne_nil
  simpa using h

/-- The `predict` closure of a stored exponential model, as a formula. -/
theorem predict_is_clamped_curve_aux (sqrt exp log : F → F) (self : FansChart F) (t : F)
    (m : ExponentialModel F) (hnone : self.exponentialModel = none)
    (hm : (FansChart.calculateExponentialDecay sqrt exp log self).exponentialModel = some m) :
    m.startTime = firstTimestamp self.data
    ∧ m.predict t = max 0 (m.a * exp (-m.lam * ((t - m.startTime) / 86400000)) + m.c)
    ∧ (FansChart.simpleExponentialFit exp log (postFilterData sqrt self.data).1
          (postFilterData sqrt self.data).2.1 = none →
        m.c = 0 ∧ m.predict t = max 0 (m.a * exp (-m.lam * ((t - m.startTime) / 86400000))))
    ∧ 0 ≤ m.predict t := by
  obtain ⟨_, hcase⟩ := calculateExponentialDecay_stored sqrt exp log self m hnone hm
  rcases hcase with ⟨r, hr, rfl⟩ | ⟨hoff, r, hr, rfl⟩
  · refine ⟨rfl, ?_, ?_, le_max_left _ _⟩
    · simp only [FansChart.offsetModel, exponentialPredict, msPerDay_eq]
    · intro hn
      rw [hn] at hr
      exact absurd hr (by simp)
  · refine ⟨rfl, ?_, ?_, le_max_left _ _⟩
    · simp only [FansChart.noOffsetModel, exponentialPredictNoOffset, msPerDay_eq, add_zero]
    · intro _
      refine ⟨rfl, ?_⟩
      simp only [FansChart.noOffsetModel, exponentialPredictNoOffset, msPerDay_eq]

/-- C12: for every model produced by a fit and every query timestamp `t`, `predict`
returns the model curve clamped below at 0, with
`days = (t - startTime)/86400000` and `startTime` the first series timestamp:
`max(0, slope·days + intercept)` for the linear model,
`max(0, a·e^(-lam·days) + c)` for the exponential model, which for the offset-free one
(`c = 0`) is `max(0, a·e^(-lam·days))`; hence no prediction is negative. -/
theorem predict_is_clamped_curve (sqrt exp log : F → F) (self : FansChart F) (t : F) :
    (∀ m : LinearModel F, self.linearModel = none →
      (FansChart.calculateLinearRegression self).linearModel = some m →
      m.startTime = firstTimestamp self.data
      ∧ m.predict t = max 0 (m.slope * ((t - m.startTime) / 86400000) + m.intercept)
      ∧ 0 ≤ m.predict t) ∧
    (∀ m : ExponentialModel F, self.exponentialModel = none →
      (FansChart.calculateExponentialDecay sqrt exp log self).exponentialModel = some m →
      m.startTime = firstTimestamp self.data
      ∧ m.predict t = max 0 (m.a * exp (-m.lam * ((t - m.startTime) / 86400000)) + m.c)
      ∧ (FansChart.simpleExponentialFit exp log (postFilterData sqrt self.data).1
            (postFilterData sqrt self.data).2.1 = none →
          m.c = 0 ∧ m.predict t = max 0 (m.a * exp (-m.lam * ((t - m.startTime) / 86400000))))
      ∧ 0 ≤ m.predict t) := by
  refine ⟨?_, ?_⟩
  · intro m hnone hm
    obtain ⟨_, _, _, _, hst, hp⟩ := calculateLinearRegression_stored self m hnone hm
    refine ⟨hst, ?_, ?_⟩
    · rw [hp]
      simp only [linearPredict, msPerDay_eq]
    · rw [hp]
      exact le_max_left _ _
  · intro m hnone hm
    exact predict_is_clamped_curve_aux sqrt exp log self t m hnone hm

/-- The invariants of a stored exponential model. -/
theorem stored_exponential_model_facts (sqrt exp log : F → F) (self : FansChart F)
    (m : ExponentialModel F) (hnone : self.exponentialModel = none)
    (hm : (FansChart.calculateExponentialDecay sqrt exp log self).exponentialModel = some m) :
    0 < m.a ∧ 0 < m.lam ∧ 0 ≤ m.c ∧ 1 / 10 ≤ m.r2
    ∧ (m.c = 0 ↔ FansChart.simpleExponentialFit exp log (postFilterData sqrt self.data).1
          (postFilterData sqrt self.data).2.1 = none)
    ∧ (∀ r : OffsetFit F,
        FansChart.simpleExponentialFit exp log (postFilterData sqrt self.data).1
          (postFilterData sqrt self.data).2.1 = some r →
        m.c = 9 / 10 * jsMin (postFilterData sqrt self.data).2.1
        ∧ jsMin (postFilterData sqrt self.data).2.1 ∈ (postFilterData sqrt self.data).2.1
        ∧ ∀ v ∈ (postFilterData sqrt self.data).2.1,
            jsMin (postFilterData sqrt self.data).2.1 ≤ v) := by
  obtain ⟨hlen, hcase⟩ := calculateExponentialDecay_stored sqrt exp log self m hnone hm
  have hdata : self.data ≠ [] := by
    intro h
    rw [h] at hlen
    simp at hlen
  have hne := postFilterData_values_ne_nil sqrt self.data hdata
  obtain ⟨hmem, hle⟩ := jsMin_mem_and_le _ hne
  rcases hcase with ⟨r, hr, rfl⟩ | ⟨hoff, r, hr, rfl⟩
  · obtain ⟨hlam, ha, hr2, hc, hpos⟩ := simpleExponentialFit_accepted exp log _ _ r hr
    have hmin : 0 < jsMin (postFilterData sqrt self.data).2.1 := by
      have := hpos _ hmem
      linarith
    have hcpos : 0 < r.c := by
      rw [hc]
      linarith
    refine ⟨ha, hlam, hcpos.le, hr2, ?_, ?_⟩
    · constructor
      · intro h0
        exact absurd h0 hcpos.ne'
      · intro hn
        rw [hn] at hr
        exact absurd hr (by simp)
    · intro r' _
      refine ⟨?_, hmem, hle⟩
      show r.c = _
      rw [hc]
      ring
  · obtain ⟨hlam, ha, hr2, _⟩ := simpleExponentialFitNoOffset_accepted exp log _ _ r hr
    refine ⟨ha, hlam, le_refl _, hr2, ⟨fun _ => hoff, fun _ => rfl⟩, ?_⟩
    intro r' hr'
    rw [hoff] at hr'
    exact absurd hr' (by simp)

/-- In exact arithmetic every exponential model produced by `calculateExponentialDecay`
has `a > 0`, `lam > 0`, `c ≥ 0` and `r2 ≥ 0.1`; `c = 0` exactly when the offset-free
fallback produced it, and `c = 0.9·min(post-filter values)` when the offset tier
produced it. -/
theorem exponential_model_invariants (sqrt exp log : F → F) (self : FansChart F)
    (m : ExponentialModel F) (hnone : self.exponentialModel = none)
    (hm : (FansChart.calculateExponentialDecay sqrt exp log self).exponentialModel = some m) :
    0 < m.a ∧ 0 < m.lam ∧ 0 ≤ m.c ∧ 1 / 10 ≤ m.r2
    ∧ (m.c = 0 ↔ FansChart.simpleExponentialFit exp log (postFilterData sqrt self.data).1
          (postFilterData sqrt self.data).2.1 = none)
    ∧ (∀ r : OffsetFit F,
        FansChart.simpleExponentialFit exp log (postFilterData sqrt self.data).1
          (postFilterData sqrt self.data).2.1 = some r →
        m.c = 9 / 10 * jsMin (postFilterData sqrt self.data).2.1
        ∧ jsMin (postFilterData sqrt self.data).2.1 ∈ (postFilterData sqrt self.data).2.1
        ∧ ∀ v ∈ (postFilterData sqrt self.data).2.1,
            jsMin (postFilterData sqrt self.data).2.1 ≤ v) :=
  stored_exponential_model_facts sqrt exp log self m hnone hm

/-- The invariants of the stored model at the decay scenario of the specification, in
exact arithmetic. -/
theorem exponential_model_invariants_witness :
    ∃ m : ExponentialModel ℝ,
      (FansChart.calculateExponentialDecay Real.sqrt Real.exp Real.log
        (decayScenario Real.exp)).exponentialModel = some m
      ∧ 0 < m.a ∧ 0 < m.lam ∧ 0 ≤ m.c ∧ 1 / 10 ≤ m.r2
      ∧ (m.c = 0 ↔ FansChart.simpleExponentialFit Real.exp Real.log
            (postFilterData Real.sqrt (decayScenario Real.exp).data).1
            (postFilterData Real.sqrt (decayScenario Real.exp).data).2.1 = none)
      ∧ (∀ r : OffsetFit ℝ,
          FansChart.simpleExponentialFit Real.exp Real.log
            (postFilterData Real.sqrt (decayScenario Real.exp).data).1
            (postFilterData Real.sqrt (decayScenario Real.exp).data).2.1 = some r →
          m.c = 9 / 10 * jsMin (postFilterData Real.sqrt (decayScenario Real.exp).data).2.1
          ∧ jsMin (postFilterData Real.sqrt (decayScenario Real.exp).data).2.1
              ∈ (postFilterData Real.sqrt (decayScenario Real.exp).data).2.1
          ∧ ∀ v ∈ (postFilterData Real.sqrt (decayScenario Real.exp).data).2.1,
              jsMin (postFilterData Real.sqrt (decayScenario Real.exp).data).2.1 ≤ v) := by
  obtain ⟨r, _, hm, _⟩ := decayScenario_model
  exact ⟨_, hm, exponential_model_invariants Real.sqrt Real.exp Real.log
    (decayScenario Real.exp) _ rfl hm⟩

/-- C19: every exponential model produced by either tier has `halfLife = ln 2 / lam`
and `currentDecayRate = -a·lam·e^(-lam·x_last)`, with `x_last` the last elapsed-days
value of the post-filter data; consequently `halfLife > 0` and
`currentDecayRate < 0`. -/
theorem exponential_model_diagnostics (self : FansChart ℝ) (m : ExponentialModel ℝ)
    (hnone : self.exponentialModel = none)
    (hm : (FansChart.calculateExponentialDecay Real.sqrt Real.exp Real.log
      self).exponentialModel = some m) :
    m.halfLife = Real.log 2 / m.lam
    ∧ m.currentDecayRate = -m.a * m.lam
        * Real.exp (-m.lam * (postFilterData Real.sqrt self.data).1.getLastD 0)
    ∧ 0 < m.halfLife ∧ m.currentDecayRate < 0 := by
  obtain ⟨ha, hlam, _, _, _, _⟩ :=
    stored_exponential_model_facts Real.sqrt Real.exp Real.log self m hnone hm
  obtain ⟨_, hcase⟩ :=
    calculateExponentialDecay_stored Real.sqrt Real.exp Real.log self m hnone hm
  have h1 : m.halfLife = Real.log 2 / m.lam := by
    rcases hcase with ⟨r, _, rfl⟩ | ⟨_, r, _, rfl⟩ <;> rfl
  have h2 : m.currentDecayRate = -m.a * m.lam
      * Real.exp (-m.lam * (postFilterData Real.sqrt self.data).1.getLastD 0) := by
    rcases hcase with ⟨r, _, rfl⟩ | ⟨_, r, _, rfl⟩ <;> rfl
  refine ⟨h1, h2, ?_, ?_⟩
  · rw [h1]
    exact div_pos (Real.log_pos (by norm_num)) hlam
  · rw [h2]
    have hpos : 0 < m.a * m.lam
        * Real.exp (-m.lam * (postFilterData Real.sqrt self.data).1.getLastD 0) :=
      mul_pos (mul_pos ha hlam) (Real.exp_pos _)
    linarith

/-- C19 at the decay scenario of the specification. -/
theorem exponential_model_diagnostics_witness :
    ∃ m : ExponentialModel ℝ,
      (FansChart.calculateExponentialDecay Real.sqrt Real.exp Real.log
        (decayScenario Real.exp)).exponentialModel = some m
      ∧ m.halfLife = Real.log 2 / m.lam
      ∧ m.currentDecayRate = -m.a * m.lam
          * Real.exp (-m.lam
            * (postFilterData Real.sqrt (decayScenario Real.exp).data).1.getLastD 0)
      ∧ 0 < m.halfLife ∧ m.currentDecayRate < 0 := by
  obtain ⟨r, _, hm, _⟩ := decayScenario_model
  exact ⟨_, hm, exponential_model_diagnostics (decayScenario Real.exp) _ rfl hm⟩

/-- In exact arithmetic, for every produced exponential model `predict` is strictly
decreasing in the query timestamp and stays strictly above the asymptote `c`: for
`t1 < t2`, `predict t1 > predict t2 > c`, and `predict startTime = a + c`. -/
theorem exponential_predict_decreasing (self : FansChart ℝ) (m : ExponentialModel ℝ)
    (hnone : self.exponentialModel = none)
    (hm : (FansChart.calculateExponentialDecay Real.sqrt Real.exp Real.log
      self).exponentialModel = some m) :
    (∀ t1 t2 : ℝ, t1 < t2 → m.predict t2 < m.predict t1 ∧ m.c < m.predict t2)
    ∧ m.predict m.startTime = m.a + m.c := by
  obtain ⟨ha, hlam, hc, _, _, _⟩ :=
    stored_exponential_model_facts Real.sqrt Real.exp Real.log self m hnone hm
  have hp : ∀ t : ℝ, m.predict t
      = m.a * Real.exp (-m.lam * ((t - m.startTime) / 86400000)) + m.c := by
    intro t
    obtain ⟨_, h, _, _⟩ :=
      (predict_is_clamped_curve_aux Real.sqrt Real.exp Real.log self t m hnone hm)
    rw [h]
    apply max_eq_right
    have := mul_pos ha (Real.exp_pos (-m.lam * ((t - m.startTime) / 86400000)))
    linarith
  refine ⟨?_, ?_⟩
  · intro t1 t2 ht
    rw [hp t1, hp t2]
    have hexp : Real.exp (-m.lam * ((t2 - m.startTime) / 86400000))
        < Real.exp (-m.lam * ((t1 - m.startTime) / 86400000)) := by
      apply Real.exp_lt_exp.mpr
      have hd : (t1 - m.startTime) / 86400000 < (t2 - m.startTime) / 86400000 := by
        apply div_lt_div_of_pos_right _ (by norm_num)
        linarith
      nlinarith
    constructor
    · have := mul_lt_mul_of_pos_left hexp ha
      linarith
    · have := mul_pos ha (Real.exp_pos (-m.lam * ((t2 - m.startTime) / 86400000)))
      linarith
  · rw [hp]
    simp

/-- The strict decrease of `predict` at the decay scenario of the specification, in
exact arithmetic. -/
theorem exponential_predict_decreasing_witness :
    ∃ m : ExponentialModel ℝ,
      (FansChart.calculateExponentialDecay Real.sqrt Real.exp Real.log
        (decayScenario Real.exp)).exponentialModel = some m
      ∧ (∀ t1 t2 : ℝ, t1 < t2 → m.predict t2 < m.predict t1 ∧ m.c < m.predict t2)
      ∧ m.predict m.startTime = m.a + m.c := by
  obtain ⟨r, _, hm, _⟩ := decayScenario_model
  exact ⟨_, hm, exponential_predict_decreasing (decayScenario Real.exp) _ rfl hm⟩

/-! ## Failed fits, positivity of the adjusted values, and the raw r² of the linear fit -/

theorem calculateLinearRegression_of_small_denominator (self : FansChart F)
    (hden : |olsDenominator (sample self.data)| < denomEps) :
    FansChart.calculateLinearRegression self = self := by
  unfold FansChart.calculateLinearRegression
  simp only [regressionPoints_eq_sample, foldl_add_eq_sum, zero_add]
  simp only [olsDenominator, sumX, sumXX, sample_length, pow_two] at hden
  split_ifs with h1
  · rfl
  · rfl

/-- C20: when both exponential tiers are rejected (or the series has fewer than 3
points) `calculateExponentialDecay` returns the object exactly as it found it, so
`exponentialModel`, `linearModel` and `data` keep their values; likewise a failed
`calculateLinearRegression` (fewer than 2 points, or near-zero denominator) returns
the object unchanged. -/
theorem failed_fit_leaves_state (sqrt exp log : F → F) (self : FansChart F) :
    ((self.data.length < 3 ∨
        (FansChart.simpleExponentialFit exp log (postFilterData sqrt self.data).1
            (postFilterData sqrt self.data).2.1 = none
          ∧ FansChart.simpleExponentialFitNoOffset exp log (postFilterData sqrt self.data).1
            (postFilterData sqrt self.data).2.1 = none)) →
      FansChart.calculateExponentialDecay sqrt exp log self = self) ∧
    ((self.data.length < 2 ∨ |olsDenominator (sample self.data)| < denomEps) →
      FansChart.calculateLinearRegression self = self) := by
  refine ⟨?_, ?_⟩
  · intro h
    by_cases hlen : 3 ≤ self.data.length
    · rcases h with h | ⟨h1, h2⟩
      · omega
      · rw [calculateExponentialDecay_eq sqrt exp log self hlen, h1]
        simp only [h2]
    · have hl : self.data.length < 3 := by omega
      unfold FansChart.calculateExponentialDecay
      rw [if_pos hl]
  · intro h
    rcases h with h | h
    · unfold FansChart.calculateLinearRegression
      rw [if_pos h]
    · exact calculateLinearRegression_of_small_denominator self h

/-- C23: for every non-empty list `y` of strictly positive values, every adjusted
value `y_i - 0.9·min(y)` is at least `0.1·min(y)`, hence strictly positive, so neither
the test `yAdjusted.some(v => v <= 0)` of `simpleExponentialFit` nor the test
`y.some(v => v <= 0)` of `simpleExponentialFitNoOffset` fires. -/
theorem adjusted_values_positive (y : List F) (hy : y ≠ []) (hpos : ∀ v ∈ y, 0 < v) :
    0 < jsMin y
    ∧ (∀ v ∈ y, 1 / 10 * jsMin y ≤ v - jsMin y * (9 / 10) ∧ 0 < v - jsMin y * (9 / 10))
    ∧ (y.map (fun yi => yi - jsMin y * (9 / 10))).any (fun v => decide (v ≤ 0)) = false
    ∧ y.any (fun v => decide (v ≤ 0)) = false := by
  obtain ⟨hmem, hle⟩ := jsMin_mem_and_le y hy
  have hmin : 0 < jsMin y := hpos _ hmem
  have hadj : ∀ v ∈ y, 1 / 10 * jsMin y ≤ v - jsMin y * (9 / 10)
      ∧ 0 < v - jsMin y * (9 / 10) := by
    intro v hv
    have := hle v hv
    constructor <;> linarith
  refine ⟨hmin, hadj, ?_, ?_⟩
  · rw [Bool.eq_false_iff]
    intro h
    simp only [List.any_eq_true, List.mem_map, decide_eq_true_eq] at h
    obtain ⟨w, ⟨v, hv, rfl⟩, hw⟩ := h
    exact absurd (hadj v hv).2 (not_lt.mpr hw)
  · rw [Bool.eq_false_iff]
    intro h
    simp only [List.any_eq_true, decide_eq_true_eq] at h
    obtain ⟨v, hv, hw⟩ := h
    exact absurd (hpos v hv) (not_lt.mpr hw)

/-- C23 at the values 3, 1, 2. -/
theorem adjusted_values_positive_witness :
    0 < jsMin ([3, 1, 2] : List ℚ)
    ∧ (∀ v ∈ ([3, 1, 2] : List ℚ),
        1 / 10 * jsMin ([3, 1, 2] : List ℚ) ≤ v - jsMin ([3, 1, 2] : List ℚ) * (9 / 10)
        ∧ 0 < v - jsMin ([3, 1, 2] : List ℚ) * (9 / 10))
    ∧ (([3, 1, 2] : List ℚ).map (fun yi => yi - jsMin ([3, 1, 2] : List ℚ) * (9 / 10))).any
        (fun v => decide (v ≤ 0)) = false
    ∧ ([3, 1, 2] : List ℚ).any (fun v => decide (v ≤ 0)) = false :=
  adjusted_values_positive [3, 1, 2] (by simp) (by norm_num)

/-- The total sum of squares is the residual sum of squares of the horizontal line
through the mean. -/
theorem totalSquares_eq_squaredError (pts : List (Point F)) :
    totalSquares pts = squaredError pts 0 (sumY pts / (pts.length : F)) := by
  simp only [totalSquares, squaredError, zero_mul, zero_add]

/-- The residuals of the closed-form line sum to zero. -/
theorem ols_residuals_sum_zero (pts : List (Point F)) (hn : (pts.length : F) ≠ 0) :
    (pts.map (fun p => p.y - (olsSlope pts * p.x + olsIntercept pts))).sum = 0 := by
  have h : ∀ (l : List (Point F)) (s b : F),
      (l.map (fun p => p.y - (s * p.x + b))).sum
        = (l.map (fun p => p.y)).sum - s * (l.map (fun p => p.x)).sum - (l.length : F) * b := by
    intro l s b
    induction l with
    | nil => simp
    | cons a t ih =>
      simp only [List.map_cons, List.sum_cons, List.length_cons, Nat.cast_succ, ih]
      ring
  rw [h]
  simp only [olsIntercept, sumX, sumY]
  field_simp

/-- C24: for the linear fit, whenever `SS_tot > 0` and the denominator check passes,
`SS_res ≤ SS_tot` and the residuals sum to zero, so the raw value
`1 - SS_res/SS_tot` is already in `[0, 1]` and the stored `r2` (after
`Math.max(0, r2)`) equals it. -/
theorem linear_r2_clamp_is_identity (self : FansChart F) (hlen : 2 ≤ self.data.length)
    (hden : denomEps ≤ |olsDenominator (sample self.data)|)
    (htot : 0 < totalSquares (sample self.data)) :
    squaredError (sample self.data) (olsSlope (sample self.data))
        (olsIntercept (sample self.data)) ≤ totalSquares (sample self.data)
    ∧ ((sample self.data).map (fun p => p.y
        - (olsSlope (sample self.data) * p.x + olsIntercept (sample self.data)))).sum = 0
    ∧ 0 ≤ 1 - squaredError (sample self.data) (olsSlope (sample self.data))
        (olsIntercept (sample self.data)) / totalSquares (sample self.data)
    ∧ 1 - squaredError (sample self.data) (olsSlope (sample self.data))
        (olsIntercept (sample self.data)) / totalSquares (sample self.data) ≤ 1
    ∧ ∃ m : LinearModel F,
        (FansChart.calculateLinearRegression self).linearModel = some m
        ∧ m.r2 = 1 - squaredError (sample self.data) m.slope m.intercept
            / totalSquares (sample self.data) := by
  have hn : ((sample self.data).length : F) ≠ 0 :=
    length_cast_ne_zero _ (by rw [sample_length]; omega)
  have hle : squaredError (sample self.data) (olsSlope (sample self.data))
      (olsIntercept (sample self.data)) ≤ totalSquares (sample self.data) := by
    rw [totalSquares_eq_squaredError]
    exact olsPair_minimises _ hn (olsDenominator_ne_zero _ hden) _ _
  have h0 : 0 ≤ squaredError (sample self.data) (olsSlope (sample self.data))
      (olsIntercept (sample self.data)) :=
    sum_sq_nonneg (fun p : Point F => p.y - _) _
  have hq1 : squaredError (sample self.data) (olsSlope (sample self.data))
      (olsIntercept (sample self.data)) / totalSquares (sample self.data) ≤ 1 :=
    (div_le_one htot).mpr hle
  have hq0 : 0 ≤ squaredError (sample self.data) (olsSlope (sample self.data))
      (olsIntercept (sample self.data)) / totalSquares (sample self.data) :=
    div_nonneg h0 htot.le
  refine ⟨hle, ols_residuals_sum_zero _ hn, by linarith, by linarith, ?_⟩
  rw [calculateLinearRegression_eq self hlen hden]
  refine ⟨_, rfl, ?_⟩
  simp only [if_pos htot]
  exact max_eq_right (by linarith)

/-- C24 at three daily points with values 1, 3, 4. -/
theorem linear_r2_clamp_is_identity_witness :
    ∃ m : LinearModel ℚ,
      (FansChart.calculateLinearRegression
        ({ data := [⟨1000, 1⟩, ⟨86401000, 3⟩, ⟨172801000, 4⟩],
           linearModel := none, exponentialModel := none } : FansChart ℚ)).linearModel
        = some m
      ∧ m.r2 = 1 - squaredError (sample [⟨1000, 1⟩, ⟨86401000, 3⟩, ⟨172801000, 4⟩])
          m.slope m.intercept
          / totalSquares (sample [⟨1000, 1⟩, ⟨86401000, 3⟩, ⟨172801000, 4⟩]) :=
  (linear_r2_clamp_is_identity
    ({ data := [⟨1000, 1⟩, ⟨86401000, 3⟩, ⟨172801000, 4⟩],
       linearModel := none, exponentialModel := none } : FansChart ℚ)
    (by decide)
    (by norm_num [denomEps, olsDenominator, sample, sumXX, sumX, firstTimestamp])
    (by norm_num [totalSquares, sample, sumY, firstTimestamp])).2.2.2.2

/-! ## The denominator check of the linear fit -/

/-- The denominator check fails on ten points 10 ms apart. -/
theorem closeTimestamps_denominator :
    |olsDenominator (sample closeTimestampsScenario.data)| < denomEps := by
  norm_num [denomEps, olsDenominator, sample, sumXX, sumX, firstTimestamp, abs_lt,
    closeTimestampsScenario]

/-- C17 fails as stated: ten points with pairwise distinct timestamps (10 ms apart)
fail the denominator check, and no linear model is produced. -/
theorem denominator_check_counterexample :
    closeTimestampsScenario.data.Pairwise (fun d e => d.timestamp ≠ e.timestamp)
    ∧ 2 ≤ closeTimestampsScenario.data.length
    ∧ |olsDenominator (sample closeTimestampsScenario.data)| < denomEps
    ∧ (FansChart.calculateLinearRegression closeTimestampsScenario).linearModel = none := by
  refine ⟨?_, by decide, closeTimestamps_denominator, ?_⟩
  · simp only [closeTimestampsScenario, List.pairwise_cons, List.mem_cons, List.mem_singleton,
      List.not_mem_nil, forall_eq_or_imp, forall_eq, List.Pairwise.nil]
    norm_num
  · rw [calculateLinearRegression_of_small_denominator closeTimestampsScenario
      closeTimestamps_denominator]
    rfl

theorem sample_of_constant_timestamps (data : List (DataPoint F))
    (h : ∀ d ∈ data, d.timestamp = firstTimestamp data) :
    ∀ v ∈ (sample data).map (fun p => p.x), v = 0 := by
  intro v hv
  simp only [sample, List.map_map, List.mem_map, Function.comp] at hv
  obtain ⟨d, hd, rfl⟩ := hv
  rw [h d hd, sub_self, zero_div]

/-- C17 (amended): for every series of length at least 2 (on an object without a
linear model), `calculateLinearRegression` produces no model exactly when
`|n·Σx² - (Σx)²| < 1e-10` (`x` in elapsed days); this is the case whenever all
timestamps are identical (the denominator is then 0), and then the object is
returned unchanged. -/
theorem denominator_check_failure (self : FansChart F) (hlen : 2 ≤ self.data.length)
    (hnone : self.linearModel = none) :
    ((FansChart.calculateLinearRegression self).linearModel = none
      ↔ |olsDenominator (sample self.data)| < denomEps)
    ∧ ((∀ d ∈ self.data, d.timestamp = firstTimestamp self.data) →
        olsDenominator (sample self.data) = 0
        ∧ |olsDenominator (sample self.data)| < denomEps
        ∧ FansChart.calculateLinearRegression self = self) := by
  refine ⟨⟨?_, ?_⟩, ?_⟩
  · intro h
    by_contra hden
    rw [calculateLinearRegression_eq self hlen (not_lt.mp hden)] at h
    exact absurd h (by simp)
  · intro hden
    rw [calculateLinearRegression_of_small_denominator self hden, hnone]
  · intro hall
    have h0 : olsDenominator (sample self.data) = 0 := by
      have := denominator_eq_zero_of_constant ((sample self.data).map (fun p => p.x)) 0
        (sample_of_constant_timestamps self.data hall)
      simp only [List.map_map, List.length_map, Function.comp_def] at this
      simpa only [olsDenominator, sumXX, sumX, pow_two] using this
    have hlt : |olsDenominator (sample self.data)| < denomEps := by
      rw [h0, abs_zero]
      exact denomEps_pos
    exact ⟨h0, hlt, calculateLinearRegression_of_small_denominator self hlt⟩

/-- C17 (amended) at three points with identical timestamps. -/
theorem denominator_check_failure_witness :
    ((FansChart.calculateLinearRegression
        ({ data := [⟨1000, 1⟩, ⟨1000, 3⟩, ⟨1000, 4⟩],
           linearModel := none, exponentialModel := none } : FansChart ℚ)).linearModel = none
      ↔ |olsDenominator (sample ([⟨1000, 1⟩, ⟨1000, 3⟩, ⟨1000, 4⟩] : List (DataPoint ℚ)))|
          < denomEps)
    ∧ ((∀ d ∈ ([⟨1000, 1⟩, ⟨1000, 3⟩, ⟨1000, 4⟩] : List (DataPoint ℚ)),
          d.timestamp = firstTimestamp ([⟨1000, 1⟩, ⟨1000, 3⟩, ⟨1000, 4⟩] : List (DataPoint ℚ))) →
        olsDenominator (sample ([⟨1000, 1⟩, ⟨1000, 3⟩, ⟨1000, 4⟩] : List (DataPoint ℚ))) = 0
        ∧ |olsDenominator (sample ([⟨1000, 1⟩, ⟨1000, 3⟩, ⟨1000, 4⟩] : List (DataPoint ℚ)))|
            < denomEps
        ∧ FansChart.calculateLinearRegression
            ({ data := [⟨1000, 1⟩, ⟨1000, 3⟩, ⟨1000, 4⟩],
               linearModel := none, exponentialModel := none } : FansChart ℚ)
          = { data := [⟨1000, 1⟩, ⟨1000, 3⟩, ⟨1000, 4⟩],
              linearModel := none, exponentialModel := none }) :=
  denominator_check_failure
    ({ data := [⟨1000, 1⟩, ⟨1000, 3⟩, ⟨1000, 4⟩],
       linearModel := none, exponentialModel := none } : FansChart ℚ) (by decide) rfl

/-! ## The offset tier, as the specification describes it -/

/-- In exact arithmetic, on parallel arrays `simpleExponentialFit x y` computes
`c = 0.9·min(y)`, runs the closed-form least squares of `ln(y_i - c)` against `x_i`,
sets `a = e^intercept` and `lam = -slope`, and takes `r2 = 1 - SS_res/SS_tot` (`0` when `SS_tot = 0`) with the
residuals `y_i - (a·e^(-lam·x_i) + c)` against the original values; it is rejected if
and only if some `y_i - c ≤ 0`, or the denominator has absolute value below `1e-10`,
or `a ≤ 0`, or `lam ≤ 0`, or `r2 < 0.1`. -/
theorem offset_fit_characterisation (exp log : F → F) (x y : List F)
    (hlen : x.length = y.length) :
    (FansChart.simpleExponentialFit exp log x y = none ↔
      ((∃ v ∈ y, v - 9 / 10 * jsMin y ≤ 0)
        ∨ |olsDenominator (logPoints log x y (9 / 10 * jsMin y))| < 1 / 10 ^ 10
        ∨ exp (olsIntercept (logPoints log x y (9 / 10 * jsMin y))) ≤ 0
        ∨ -olsSlope (logPoints log x y (9 / 10 * jsMin y)) ≤ 0
        ∨ rSquared (valueSquares y)
            (curveSquaredError exp (exp (olsIntercept (logPoints log x y (9 / 10 * jsMin y))))
              (-olsSlope (logPoints log x y (9 / 10 * jsMin y))) (9 / 10 * jsMin y) x y)
          < 1 / 10))
    ∧ (∀ r : OffsetFit F, FansChart.simpleExponentialFit exp log x y = some r →
        r.c = 9 / 10 * jsMin y
        ∧ r.a = exp (olsIntercept (logPoints log x y r.c))
        ∧ r.lam = -olsSlope (logPoints log x y r.c)
        ∧ r.r2 = rSquared (valueSquares y) (curveSquaredError exp r.a r.lam r.c x y)) := by
  have hc : jsMin y * (9 / 10) = 9 / 10 * jsMin y := mul_comm _ _
  rw [simpleExponentialFit_eq exp log x y hlen, hc]
  have heps : (denomEps : F) = 1 / 10 ^ 10 := rfl
  rw [heps]
  by_cases h1 : ∃ v ∈ y, v - 9 / 10 * jsMin y ≤ 0
  · rw [if_pos h1]
    exact ⟨⟨fun _ => Or.inl h1, fun _ => rfl⟩, fun r hr => absurd hr (by simp)⟩
  · rw [if_neg h1]
    by_cases h2 : |olsDenominator (logPoints log x y (9 / 10 * jsMin y))| < 1 / 10 ^ 10
    · rw [if_pos h2]
      exact ⟨⟨fun _ => Or.inr (Or.inl h2), fun _ => rfl⟩, fun r hr => absurd hr (by simp)⟩
    · rw [if_neg h2]
      by_cases h3 : -olsSlope (logPoints log x y (9 / 10 * jsMin y)) ≤ 0
          ∨ exp (olsIntercept (logPoints log x y (9 / 10 * jsMin y))) ≤ 0
          ∨ rSquared (valueSquares y)
              (curveSquaredError exp
                (exp (olsIntercept (logPoints log x y (9 / 10 * jsMin y))))
                (-olsSlope (logPoints log x y (9 / 10 * jsMin y))) (9 / 10 * jsMin y) x y)
            < 1 / 10
      · rw [if_pos h3]
        refine ⟨⟨fun _ => ?_, fun _ => rfl⟩, fun r hr => absurd hr (by simp)⟩
        rcases h3 with h | h | h
        · exact Or.inr (Or.inr (Or.inr (Or.inl h)))
        · exact Or.inr (Or.inr (Or.inl h))
        · exact Or.inr (Or.inr (Or.inr (Or.inr h)))
      · rw [if_neg h3]
        refine ⟨⟨fun h => absurd h (by simp), fun h => ?_⟩, ?_⟩
        · exfalso
          rcases h with h | h | h | h | h
          · exact h1 h
          · exact h2 h
          · exact h3 (Or.inr (Or.inl h))
          · exact h3 (Or.inl h)
          · exact h3 (Or.inr (Or.inr h))
        · intro r hr
          simp only [Option.some.injEq] at hr
          subst hr
          exact ⟨rfl, rfl, rfl, rfl⟩

/-- The rejection criterion of the offset tier at the days 0, 1, 2 and the values 4, 2,
1, over the reals. -/
theorem offset_fit_characterisation_witness :
    ([0, 1, 2] : List ℝ).length = ([4, 2, 1] : List ℝ).length
    ∧ (FansChart.simpleExponentialFit Real.exp Real.log [0, 1, 2] [4, 2, 1] = none ↔
      ((∃ v ∈ ([4, 2, 1] : List ℝ), v - 9 / 10 * jsMin ([4, 2, 1] : List ℝ) ≤ 0)
        ∨ |olsDenominator (logPoints Real.log [0, 1, 2] [4, 2, 1]
            (9 / 10 * jsMin ([4, 2, 1] : List ℝ)))| < 1 / 10 ^ 10
        ∨ Real.exp (olsIntercept (logPoints Real.log [0, 1, 2] [4, 2, 1]
            (9 / 10 * jsMin ([4, 2, 1] : List ℝ)))) ≤ 0
        ∨ -olsSlope (logPoints Real.log [0, 1, 2] [4, 2, 1]
            (9 / 10 * jsMin ([4, 2, 1] : List ℝ))) ≤ 0
        ∨ rSquared (valueSquares ([4, 2, 1] : List ℝ))
            (curveSquaredError Real.exp
              (Real.exp (olsIntercept (logPoints Real.log [0, 1, 2] [4, 2, 1]
                (9 / 10 * jsMin ([4, 2, 1] : List ℝ)))))
              (-olsSlope (logPoints Real.log [0, 1, 2] [4, 2, 1]
                (9 / 10 * jsMin ([4, 2, 1] : List ℝ))))
              (9 / 10 * jsMin ([4, 2, 1] : List ℝ)) [0, 1, 2] [4, 2, 1])
          < 1 / 10)) :=
  ⟨rfl, (offset_fit_characterisation Real.exp Real.log [0, 1, 2] [4, 2, 1] rfl).1⟩

/-! ## How many points the four-sigma test can remove -/

theorem sum_filter_le_sum {α : Type} (f : α → ℝ) (p : α → Bool) (l : List α)
    (hf : ∀ a ∈ l, 0 ≤ f a) : ((l.filter p).map f).sum ≤ (l.map f).sum := by
  induction l with
  | nil => simp
  | cons a t ih =>
    have ht : ∀ b ∈ t, 0 ≤ f b := fun b hb => hf b (List.mem_cons_of_mem _ hb)
    have ha : 0 ≤ f a := hf a (List.mem_cons_self _ _)
    have := ih ht
    by_cases hp : p a = true
    · simp only [List.filter_cons, hp, if_true, List.map_cons, List.sum_cons]
      linarith
    · simp only [List.filter_cons, hp, List.map_cons, List.sum_cons]
      simp only [Bool.false_eq_true, if_false]
      linarith

theorem length_mul_lt_sum {α : Type} (f : α → ℝ) (c : ℝ) (l : List α) (hne : l ≠ [])
    (hf : ∀ a ∈ l, c < f a) : (l.length : ℝ) * c < (l.map f).sum := by
  induction l with
  | nil => exact absurd rfl hne
  | cons a t ih =>
    have ha : c < f a := hf a (List.mem_cons_self _ _)
    have ht : ∀ b ∈ t, c < f b := fun b hb => hf b (List.mem_cons_of_mem _ hb)
    simp only [List.length_cons, Nat.cast_succ, List.map_cons, List.sum_cons]
    by_cases hnil : t = []
    · subst hnil
      simp only [List.length_nil, Nat.cast_zero, List.map_nil, List.sum_nil]
      linarith
    · have := ih hnil ht
      linarith

/-- A value that fails the four-sigma test of a list with positive spread lies more
than `16·V/n` (squared) away from the mean, `V` the sum of squared deviations. -/
theorem outlier_deviation (y : List ℝ) (v : ℝ)
    (hV : 0 < (y.map (fun w => (w - mean y) ^ 2)).sum) (hn : 0 < (y.length : ℝ))
    (hv : withinFourSigma Real.sqrt y v = false) :
    16 * ((y.map (fun w => (w - mean y) ^ 2)).sum / (y.length : ℝ)) < (v - mean y) ^ 2 := by
  have hvar : 0 < (y.map (fun w => (w - mean y) ^ 2)).sum / (y.length : ℝ) := div_pos hV hn
  have hstd : 0 < populationStd Real.sqrt y := by
    unfold populationStd
    exact Real.sqrt_pos.mpr hvar
  have hsq : populationStd Real.sqrt y ^ 2
      = (y.map (fun w => (w - mean y) ^ 2)).sum / (y.length : ℝ) := by
    unfold populationStd
    exact Real.sq_sqrt hvar.le
  simp only [withinFourSigma, decide_eq_false_iff_not, not_and, not_le] at hv
  have h4 := hv hstd.ne'
  rw [lt_div_iff₀ hstd] at h4
  rw [← hsq, ← sq_abs (v - mean y)]
  have h0 : 0 ≤ 4 * populationStd Real.sqrt y := by positivity
  nlinarith [abs_nonneg (v - mean y)]

/-- The Chebyshev count: the four-sigma test removes fewer than `n/16` values of a
non-constant list. -/
theorem outlier_count_bound (y : List ℝ) (hne : ∃ a ∈ y, ∃ b ∈ y, a ≠ b) :
    16 * (y.filter (fun v => !withinFourSigma Real.sqrt y v)).length < y.length := by
  obtain ⟨a, ha, b, hb, hab⟩ := hne
  have hpos : 0 < y.length := List.length_pos_of_mem ha
  have hn : 0 < (y.length : ℝ) := by exact_mod_cast hpos
  have hV : 0 < (y.map (fun w => (w - mean y) ^ 2)).sum := by
    rcases (sum_sq_nonneg (fun w => w - mean y) y).lt_or_eq with h | h
    · exact h
    · exfalso
      have hall := eq_of_sum_sq_eq_zero (fun w : ℝ => w) y (mean y) h.symm
      exact hab ((hall a ha).trans (hall b hb).symm)
  by_cases hk : y.filter (fun v => !withinFourSigma Real.sqrt y v) = []
  · rw [hk]
    simpa using hpos
  · have h1 := length_mul_lt_sum (fun w => (w - mean y) ^ 2)
      (16 * ((y.map (fun w => (w - mean y) ^ 2)).sum / (y.length : ℝ)))
      (y.filter (fun v => !withinFourSigma Real.sqrt y v)) hk (by
        intro w hw
        have hw2 := (List.mem_filter.mp hw).2
        simp only [Bool.not_eq_true', Bool.not_eq_eq_eq_not, Bool.not_true] at hw2
        exact outlier_deviation y w hV hn hw2)
    have h2 := sum_filter_le_sum (fun w => (w - mean y) ^ 2)
      (fun v => !withinFourSigma Real.sqrt y v) y (fun w _ => sq_nonneg _)
    have h3 : ((y.filter (fun v => !withinFourSigma Real.sqrt y v)).length : ℝ)
        * (16 * ((y.map (fun w => (w - mean y) ^ 2)).sum / (y.length : ℝ)))
        < (y.map (fun w => (w - mean y) ^ 2)).sum := lt_of_lt_of_le h1 h2
    generalize (y.map (fun w => (w - mean y) ^ 2)).sum = V at hV h3
    generalize (y.filter (fun v => !withinFourSigma Real.sqrt y v)).length = k at h3 ⊢
    have h4 : (k : ℝ) * 16 * V < V * (y.length : ℝ) := by
      have := mul_lt_mul_of_pos_right h3 hn
      have e : (k : ℝ) * (16 * (V / (y.length : ℝ))) * (y.length : ℝ) = (k : ℝ) * 16 * V := by
        field_simp
        ring
      rw [e] at this
      exact this
    have h5 : (16 * k : ℝ) < (y.length : ℝ) := by
      have : V * (16 * (k : ℝ)) < V * (y.length : ℝ) := by linarith
      exact lt_of_mul_lt_mul_left this hV.le
    exact_mod_cast h5

theorem removed_count_eq (data : List (DataPoint ℝ)) :
    data.length - (keptPoints Real.sqrt data).length
      = ((data.map (fun d => d.fans)).filter
          (fun v => !withinFourSigma Real.sqrt (data.map (fun d => d.fans)) v)).length := by
  have h := List.length_eq_length_filter_add (l := data)
    (fun d => withinFourSigma Real.sqrt (data.map (fun e => e.fans)) d.fans)
  have h2 : ((data.map (fun d => d.fans)).filter
      (fun v => !withinFourSigma Real.sqrt (data.map (fun d => d.fans)) v)).length
      = (data.filter (fun d =>
          !withinFourSigma Real.sqrt (data.map (fun e => e.fans)) d.fans)).length := by
    rw [List.filter_map, List.length_map]
    rfl
  unfold keptPoints
  omega

/-- C21: for every series of `n` points whose values are not all equal, the number
`k` of points removed by the four-standard-deviation z-score test satisfies
`16·k < n`; so no point is removed when `n ≤ 16`, and for `n ≥ 10` at least 10 points
survive and the data handed to the fitters is the filtered sub-sequence (the
revert-to-unfiltered branch is not taken). -/
theorem four_sigma_removes_few (data : List (DataPoint ℝ))
    (hne : ∃ d ∈ data, ∃ e ∈ data, d.fans ≠ e.fans) :
    16 * (data.length - (keptPoints Real.sqrt data).length) < data.length
    ∧ (data.length ≤ 16 → keptPoints Real.sqrt data = data)
    ∧ (10 ≤ data.length →
        10 ≤ (keptPoints Real.sqrt data).length
        ∧ postFilterData Real.sqrt data =
          ((keptPoints Real.sqrt data).map (elapsedDays data),
           (keptPoints Real.sqrt data).map (fun d => d.fans),
           data.length - (keptPoints Real.sqrt data).length)) := by
  obtain ⟨d, hd, e, he, hde⟩ := hne
  have hb := outlier_count_bound (data.map (fun d => d.fans))
    ⟨d.fans, List.mem_map_of_mem _ hd, e.fans, List.mem_map_of_mem _ he, hde⟩
  rw [← removed_count_eq, List.length_map] at hb
  have hle : (keptPoints Real.sqrt data).length ≤ data.length := List.length_filter_le _ _
  refine ⟨hb, ?_, ?_⟩
  · intro h16
    have heq : (keptPoints Real.sqrt data).length = data.length := by omega
    unfold keptPoints at heq ⊢
    exact List.filter_eq_self.mpr (List.filter_length_eq_length.mp heq)
  · intro h10
    have hk : 10 ≤ (keptPoints Real.sqrt data).length := by omega
    refine ⟨hk, ?_⟩
    rw [postFilterData_eq, if_neg (by omega)]

/-- C21 at a series of two points with different values. -/
theorem four_sigma_removes_few_witness :
    16 * (([⟨1000, 1⟩, ⟨2000, 2⟩] : List (DataPoint ℝ)).length
        - (keptPoints Real.sqrt ([⟨1000, 1⟩, ⟨2000, 2⟩] : List (DataPoint ℝ))).length)
      < ([⟨1000, 1⟩, ⟨2000, 2⟩] : List (DataPoint ℝ)).length :=
  (four_sigma_removes_few [⟨1000, 1⟩, ⟨2000, 2⟩]
    ⟨⟨1000, 1⟩, by simp, ⟨2000, 2⟩, by simp, by norm_num⟩).1

/-! ## Non-decreasing series admit no exponential model -/

/-- For data in which `fx` and `fy` are both non-decreasing along the list, the
numerator `n·Σxy - Σx·Σy` of the closed-form slope is non-negative. -/
theorem covariance_nonneg {α : Type} (fx fy : α → ℝ) (l : List α)
    (h : l.Pairwise (fun p q => fx p ≤ fx q ∧ fy p ≤ fy q)) :
    0 ≤ (l.length : ℝ) * (l.map (fun p => fx p * fy p)).sum
      - (l.map fx).sum * (l.map fy).sum := by
  induction l with
  | nil => simp
  | cons a t ih =>
    rw [List.pairwise_cons] at h
    obtain ⟨ha, ht⟩ := h
    have iht := ih ht
    have hcross : 0 ≤ (t.map (fun p => (fx p - fx a) * (fy p - fy a))).sum := by
      apply List.sum_nonneg
      intro v hv
      simp only [List.mem_map] at hv
      obtain ⟨p, hp, rfl⟩ := hv
      obtain ⟨h1, h2⟩ := ha p hp
      exact mul_nonneg (by linarith) (by linarith)
    have hexp : (t.map (fun p => (fx p - fx a) * (fy p - fy a))).sum
        = (t.map (fun p => fx p * fy p)).sum - fx a * (t.map fy).sum
          - fy a * (t.map fx).sum + (t.length : ℝ) * (fx a * fy a) := by
      clear ih iht hcross ha ht
      induction t with
      | nil => simp
      | cons b u ihu =>
        simp only [List.map_cons, List.sum_cons, List.length_cons, Nat.cast_succ, ihu]
        ring
    simp only [List.map_cons, List.sum_cons, List.length_cons, Nat.cast_succ]
    nlinarith

/-- The closed-form slope is non-negative once numerator and denominator are. -/
theorem slope_nonneg_of (num den : ℝ) (hnum : 0 ≤ num) (hden : 0 ≤ den) : 0 ≤ num / den :=
  div_nonneg hnum hden

/-- The offset-free tier rejects every series whose values do not decrease in time. -/
theorem noOffset_rejects_monotone {α : Type} (gx gy : α → ℝ) (l : List α)
    (hmono : l.Pairwise (fun p q => gx p ≤ gx q ∧ gy p ≤ gy q)) :
    FansChart.simpleExponentialFitNoOffset Real.exp Real.log (l.map gx) (l.map gy) = none := by
  by_cases hany : ((l.map gy).any (fun v => decide (v ≤ 0))) = true
  · simp only [FansChart.simpleExponentialFitNoOffset, rSquared_fold, hany, if_true]
  · have hpos : ∀ p ∈ l, 0 < gy p := by
      intro p hp
      by_contra hneg
      apply hany
      simp only [List.any_eq_true, List.mem_map, decide_eq_true_eq]
      exact ⟨_, ⟨p, hp, rfl⟩, not_lt.mp hneg⟩
    have hmono2 : l.Pairwise (fun p q => gx p ≤ gx q ∧ Real.log (gy p) ≤ Real.log (gy q)) := by
      rw [List.pairwise_iff_forall_sublist] at hmono ⊢
      intro p q hpq
      have hp : p ∈ l := hpq.subset (List.mem_cons_self _ _)
      exact ⟨(hmono hpq).1, Real.log_le_log (hpos p hp) (hmono hpq).2⟩
    have hcov := covariance_nonneg gx (fun p => Real.log (gy p)) l hmono2
    have hden := denominator_nonneg gx l
    have hslope := div_nonneg hcov hden
    simp only [FansChart.simpleExponentialFitNoOffset, rSquared_fold, foldl_add_eq_sum,
      foldl_add_eq_sum_id, zero_add, hany, List.map_map, Function.comp_def, zip_map_map,
      List.length_map]
    simp only [Bool.false_eq_true, if_false]
    split_ifs with h1 h2
    · rfl
    · rfl
    · exfalso
      apply h2
      left
      linarith

/-- On data monotone in both coordinates the least-squares slope of the log-linearised
sample is non-negative. -/
theorem log_slope_nonneg {α : Type} (gx gy : α → ℝ) (l : List α) (c : ℝ)
    (hmono : l.Pairwise (fun p q => gx p ≤ gx q ∧ gy p ≤ gy q))
    (hpos : ∀ v ∈ l.map gy, c < v) :
    0 ≤ olsSlope (logPoints Real.log (l.map gx) (l.map gy) c) := by
  have hmono2 : l.Pairwise (fun p q => gx p ≤ gx q
      ∧ Real.log (gy p - c) ≤ Real.log (gy q - c)) := by
    rw [List.pairwise_iff_forall_sublist] at hmono ⊢
    intro p q hpq
    have hp : p ∈ l := hpq.subset (List.mem_cons_self _ _)
    have hp2 : c < gy p := hpos _ (List.mem_map_of_mem gy hp)
    exact ⟨(hmono hpq).1, Real.log_le_log (by linarith) (by linarith [(hmono hpq).2])⟩
  have hcov := covariance_nonneg gx (fun p => Real.log (gy p - c)) l hmono2
  have hden := denominator_nonneg gx l
  have hpts : logPoints Real.log (l.map gx) (l.map gy) c
      = l.map (fun p => ({ x := gx p, y := Real.log (gy p - c) } : Point ℝ)) := by
    unfold logPoints
    induction l with
    | nil => rfl
    | cons h t ih => simp
  rw [hpts]
  unfold olsSlope olsDenominator sumX sumY sumXY sumXX
  simp only [List.map_map, Function.comp_def, List.length_map]
  apply div_nonneg hcov
  have : (l.map (fun p => gx p ^ 2)).sum = (l.map (fun p => gx p * gx p)).sum := by
    congr 1
    apply List.map_congr_left
    intro p _
    ring
  rw [this, pow_two]
  exact hden

/-- The offset tier rejects every series whose values do not decrease in time. -/
theorem offset_rejects_monotone {α : Type} (gx gy : α → ℝ) (l : List α)
    (hmono : l.Pairwise (fun p q => gx p ≤ gx q ∧ gy p ≤ gy q)) :
    FansChart.simpleExponentialFit Real.exp Real.log (l.map gx) (l.map gy) = none := by
  by_cases hany : (((l.map gy).map (fun yi => yi - jsMin (l.map gy) * (9 / 10))).any
      (fun v => decide (v ≤ 0))) = true
  · simp only [FansChart.simpleExponentialFit, rSquared_fold, hany, if_true]
  · have hpos : ∀ p ∈ l, 0 < gy p - jsMin (l.map gy) * (9 / 10) := by
      intro p hp
      by_contra hneg
      apply hany
      simp only [List.any_eq_true, List.mem_map, decide_eq_true_eq]
      exact ⟨_, ⟨_, ⟨p, hp, rfl⟩, rfl⟩, not_lt.mp hneg⟩
    have hmono2 : l.Pairwise (fun p q => gx p ≤ gx q
        ∧ Real.log (gy p - jsMin (l.map gy) * (9 / 10))
          ≤ Real.log (gy q - jsMin (l.map gy) * (9 / 10))) := by
      rw [List.pairwise_iff_forall_sublist] at hmono ⊢
      intro p q hpq
      have hp : p ∈ l := hpq.subset (List.mem_cons_self _ _)
      exact ⟨(hmono hpq).1, Real.log_le_log (hpos p hp) (by linarith [(hmono hpq).2])⟩
    have hcov := covariance_nonneg gx
      (fun p => Real.log (gy p - jsMin (l.map gy) * (9 / 10))) l hmono2
    have hden := denominator_nonneg gx l
    have hslope := div_nonneg hcov hden
    simp only [FansChart.simpleExponentialFit, rSquared_fold, foldl_add_eq_sum,
      foldl_add_eq_sum_id, zero_add, hany, List.map_map, Function.comp_def, zip_map_map,
      List.length_map]
    split_ifs with h1 h2 h3
    · rfl
    · rfl
    · rfl
    · exfalso
      apply h3
      left
      linarith

/-- In exact arithmetic, for every series whose values are non-decreasing in time (each
point has a timestamp and a value at least those of every earlier point),
`calculateExponentialDecay` produces no exponential model: both the offset tier and
the offset-free tier reject the post-filter data, and the object is returned
unchanged; whenever the values all exceed the offset `c` (so that the logarithms
exist) the least-squares slope of the points `(x_i, ln(y_i - c))` is `≥ 0`, that is
`lam ≤ 0`. -/
theorem nondecreasing_series_has_no_exponential_model (self : FansChart ℝ)
    (hmono : self.data.Pairwise (fun d e => d.timestamp ≤ e.timestamp ∧ d.fans ≤ e.fans)) :
    FansChart.simpleExponentialFit Real.exp Real.log (postFilterData Real.sqrt self.data).1
        (postFilterData Real.sqrt self.data).2.1 = none
    ∧ FansChart.simpleExponentialFitNoOffset Real.exp Real.log
        (postFilterData Real.sqrt self.data).1 (postFilterData Real.sqrt self.data).2.1 = none
    ∧ FansChart.calculateExponentialDecay Real.sqrt Real.exp Real.log self = self
    ∧ ∀ c : ℝ, (∀ v ∈ (postFilterData Real.sqrt self.data).2.1, c < v) →
        0 ≤ olsSlope (logPoints Real.log (postFilterData Real.sqrt self.data).1
          (postFilterData Real.sqrt self.data).2.1 c) := by
  have hdays : self.data.Pairwise (fun d e =>
      elapsedDays self.data d ≤ elapsedDays self.data e ∧ d.fans ≤ e.fans) := by
    apply hmono.imp
    intro d e hde
    refine ⟨?_, hde.2⟩
    unfold elapsedDays
    apply div_le_div_of_nonneg_right _ (by norm_num)
    linarith [hde.1]
  have hkept : (keptPoints Real.sqrt self.data).Pairwise (fun d e =>
      elapsedDays self.data d ≤ elapsedDays self.data e ∧ d.fans ≤ e.fans) := by
    unfold keptPoints
    exact hdays.filter _
  have hboth : FansChart.simpleExponentialFit Real.exp Real.log
        (postFilterData Real.sqrt self.data).1 (postFilterData Real.sqrt self.data).2.1 = none
      ∧ FansChart.simpleExponentialFitNoOffset Real.exp Real.log
        (postFilterData Real.sqrt self.data).1 (postFilterData Real.sqrt self.data).2.1
          = none := by
    rw [postFilterData_eq]
    split_ifs with hk
    · exact ⟨offset_rejects_monotone _ _ _ hdays, noOffset_rejects_monotone _ _ _ hdays⟩
    · exact ⟨offset_rejects_monotone _ _ _ hkept, noOffset_rejects_monotone _ _ _ hkept⟩
  refine ⟨hboth.1, hboth.2, ?_, ?_⟩
  · by_cases hlen : 3 ≤ self.data.length
    · rw [calculateExponentialDecay_eq Real.sqrt Real.exp Real.log self hlen, hboth.1]
      simp only [hboth.2]
    · have hl : self.data.length < 3 := by omega
      unfold FansChart.calculateExponentialDecay
      rw [if_pos hl]
  · intro c
    rw [postFilterData_eq]
    split_ifs with hk
    · exact log_slope_nonneg _ _ _ c hdays
    · exact log_slope_nonneg _ _ _ c hkept

/-- A growing series of four daily points has no exponential model, in exact
arithmetic. -/
theorem nondecreasing_series_has_no_exponential_model_witness :
    FansChart.calculateExponentialDecay Real.sqrt Real.exp Real.log
        ({ data := [⟨86400000, 100⟩, ⟨172800000, 200⟩, ⟨259200000, 200⟩, ⟨345600000, 400⟩],
           linearModel := none, exponentialModel := none } : FansChart ℝ)
      = { data := [⟨86400000, 100⟩, ⟨172800000, 200⟩, ⟨259200000, 200⟩, ⟨345600000, 400⟩],
          linearModel := none, exponentialModel := none } :=
  (nondecreasing_series_has_no_exponential_model
    ({ data := [⟨86400000, 100⟩, ⟨172800000, 200⟩, ⟨259200000, 200⟩, ⟨345600000, 400⟩],
       linearModel := none, exponentialModel := none } : FansChart ℝ)
    (by
      simp only [List.pairwise_cons, List.mem_cons, List.mem_singleton, List.not_mem_nil,
        forall_eq_or_imp, forall_eq, List.Pairwise.nil]
      norm_num)).2.2.1

/-! ## The loader -/

/-- On numbers greater than zero the comparator is a comparison of the numbers. -/
theorem sub_isPositive_eq_false_iff (a b : JsNumber F) (ha : a.isPositive = true)
    (hb : b.isPositive = true) :
    (JsNumber.sub a b).isPositive = false
      ↔ (b = JsNumber.posInf ∨ ∃ s t, a = JsNumber.finite s ∧ b = JsNumber.finite t ∧ s ≤ t) := by
  cases a <;> cases b <;>
    simp [JsNumber.sub, JsNumber.isPositive] at ha hb ⊢

/-- The comparator is total on points with a timestamp greater than zero. -/
theorem comparatorLe_total (a b : DataPoint (JsNumber F)) (ha : a.timestamp.isPositive = true)
    (hb : b.timestamp.isPositive = true) : comparatorLe a b ∨ comparatorLe b a := by
  unfold comparatorLe
  rw [sub_isPositive_eq_false_iff _ _ ha hb, sub_isPositive_eq_false_iff _ _ hb ha]
  cases hta : a.timestamp <;> cases htb : b.timestamp <;>
    simp [hta, htb, JsNumber.isPositive] at ha hb ⊢
  exact le_total _ _

/-- The comparator is transitive on points with a timestamp greater than zero. -/
theorem comparatorLe_trans (a b c : DataPoint (JsNumber F))
    (ha : a.timestamp.isPositive = true) (hb : b.timestamp.isPositive = true)
    (hc : c.timestamp.isPositive = true) (hab : comparatorLe a b) (hbc : comparatorLe b c) :
    comparatorLe a c := by
  unfold comparatorLe at hab hbc ⊢
  rw [sub_isPositive_eq_false_iff _ _ ha hb] at hab
  rw [sub_isPositive_eq_false_iff _ _ hb hc] at hbc
  rw [sub_isPositive_eq_false_iff _ _ ha hc]
  rcases hbc with hbc | ⟨s, t, hs, ht, hst⟩
  · exact Or.inl hbc
  · rcases hab with hab | ⟨u, v, hu, hv, huv⟩
    · rw [hab] at hs
      cases hs
    · rw [hv] at hs
      cases hs
      exact Or.inr ⟨u, t, hu, ht, le_trans huv hst⟩

/-- Insertion into a sorted list keeps it sorted, for a relation that is total and
transitive on the elements at hand. -/
theorem sorted_orderedInsert_of {α : Type} (r : α → α → Prop) [DecidableRel r] (P : α → Prop)
    (htot : ∀ a b, P a → P b → r a b ∨ r b a)
    (htrans : ∀ a b c, P a → P b → P c → r a b → r b c → r a c)
    (a : α) (ha : P a) (l : List α) (hl : ∀ b ∈ l, P b) (hs : l.Sorted r) :
    (l.orderedInsert r a).Sorted r := by
  induction l with
  | nil => simp
  | cons b t ih =>
    have hb : P b := hl b (List.mem_cons_self _ _)
    have ht : ∀ c ∈ t, P c := fun c hc => hl c (List.mem_cons_of_mem _ hc)
    have hs2 := List.sorted_cons.mp hs
    by_cases hab : r a b
    · rw [List.orderedInsert, if_pos hab]
      refine List.sorted_cons.mpr ⟨?_, hs⟩
      intro c hc
      rcases List.mem_cons.mp hc with hcb | hct
      · rw [hcb]
        exact hab
      · exact htrans a b c ha hb (ht c hct) hab (hs2.1 c hct)
    · rw [List.orderedInsert, if_neg hab]
      have hba : r b a := (htot a b ha hb).resolve_left hab
      refine List.sorted_cons.mpr ⟨?_, ih ht hs2.2⟩
      intro c hc
      have hc2 : c ∈ a :: t := (List.perm_orderedInsert r a t).subset hc
      rcases List.mem_cons.mp hc2 with hca | hct
      · rw [hca]
        exact hba
      · exact hs2.1 c hct

/-- Insertion sort sorts, for a relation that is total and transitive on the elements
at hand. -/
theorem sorted_insertionSort_of {α : Type} (r : α → α → Prop) [DecidableRel r] (P : α → Prop)
    (htot : ∀ a b, P a → P b → r a b ∨ r b a)
    (htrans : ∀ a b c, P a → P b → P c → r a b → r b c → r a c)
    (l : List α) (hl : ∀ b ∈ l, P b) : (l.insertionSort r).Sorted r := by
  induction l with
  | nil => simp
  | cons b t ih =>
    have hb : P b := hl b (List.mem_cons_self _ _)
    have ht : ∀ c ∈ t, P c := fun c hc => hl c (List.mem_cons_of_mem _ hc)
    rw [List.insertionSort]
    apply sorted_orderedInsert_of r P htot htrans b hb _ _ (ih ht)
    intro c hc
    exact ht c ((List.perm_insertionSort r t).subset hc)

/-- The map callback is applied to exactly the items the filter callback keeps. -/
theorem toDataPoint_eq_some_iff (item : Option (RawRecord F)) (d : DataPoint (JsNumber F)) :
    toDataPoint item = some d
      ↔ item = some { time := JsValue.number d.timestamp, fans := JsValue.number d.fans }
        ∧ d.timestamp.isNaN = false ∧ d.timestamp.isPositive = true
        ∧ d.fans.isNaN = false ∧ d.fans.isPositive = true := by
  rcases item with _ | ⟨time, fans⟩
  · simp [toDataPoint, keepItem]
  · rcases d with ⟨dt, df⟩
    cases time <;> cases fans <;>
      simp [toDataPoint, keepItem, hasPositiveNumber]
    constructor
    · rintro ⟨⟨h1, h2⟩, ⟨rfl, rfl⟩⟩
      exact ⟨⟨rfl, rfl⟩, h1.1, h1.2, h2.1, h2.2⟩
    · rintro ⟨⟨rfl, rfl⟩, h1, h2, h3, h4⟩
      exact ⟨⟨⟨h1, h2⟩, h3, h4⟩, rfl, rfl⟩

/-- A kept item yields a data point. -/
theorem toDataPoint_isSome (item : Option (RawRecord F)) :
    (toDataPoint item).isSome = keepItem item := by
  rcases item with _ | ⟨time, fans⟩
  · simp [toDataPoint, keepItem]
  · rcases time with t | _ <;> rcases fans with f | _ <;>
      simp [toDataPoint, keepItem, hasPositiveNumber]
    cases t.isNaN <;> cases t.isPositive <;> cases f.isNaN <;> cases f.isPositive <;> simp

/-- The number of data points is the number of kept items. -/
theorem length_filterMap_toDataPoint (items : List (Option (RawRecord F))) :
    (items.filterMap toDataPoint).length = (items.filter keepItem).length := by
  induction items with
  | nil => rfl
  | cons a t ih =>
    have h := toDataPoint_isSome a
    cases hd : toDataPoint a with
    | none =>
      rw [hd] at h
      have hk : keepItem a = false := by simpa using h.symm
      rw [List.filterMap_cons_none hd, List.filter_cons_of_neg (by simp [hk]), ih]
    | some d =>
      rw [hd] at h
      have hk : keepItem a = true := by simpa using h.symm
      rw [List.filterMap_cons_some hd, List.filter_cons_of_pos hk, List.length_cons,
        List.length_cons, ih]

/-- The series assigned by `loadData` when `FANS_DATA` is defined. -/
theorem loadData_data (items : List (Option (RawRecord F))) :
    (loadData (some items)).data
      = some ((items.filterMap toDataPoint).insertionSort comparatorLe) := by
  unfold loadData
  simp only
  split_ifs <;> rfl

/-- With fewer than ten kept items `loadData` throws. -/
theorem loadData_error_of_few (items : List (Option (RawRecord F)))
    (hfew : (items.filter keepItem).length < 10) :
    (loadData (some items)).error
      = some (if (items.filter keepItem).length = 0 then LoadError.noValidData
          else LoadError.tooFewPoints (items.filter keepItem).length) := by
  unfold loadData
  simp only [List.length_insertionSort, length_filterMap_toDataPoint]
  by_cases h0 : (items.filter keepItem).length = 0
  · rw [if_neg (by omega), if_pos h0]
  · rw [if_pos (by omega), if_pos hfew, if_neg h0]

/-- The data point of a kept item carries the item's `time` and `fans`. -/
theorem toDataPoint_map_record (item : Option (RawRecord F)) :
    (toDataPoint item).map
        (fun d => ({ time := JsValue.number d.timestamp, fans := JsValue.number d.fans }
          : RawRecord F))
      = (match item with
        | some r =>
          if hasPositiveNumber r.time && hasPositiveNumber r.fans then some r else none
        | none => none) := by
  rcases item with _ | ⟨time, fans⟩
  · simp [toDataPoint, keepItem]
  · rcases time with t | _ <;> rcases fans with f | _ <;>
      simp [toDataPoint, keepItem, hasPositiveNumber]

/-- C16, counterexample: on ten records with timestamps `1 .. 10` whose last value is
`Infinity`, `loadData` succeeds and the series has ten points, the last one with the
value `Infinity`, although only nine records have finite positive fields. -/
theorem loader_keeps_infinite_value :
    (loadData (some infiniteValueScenario)).error = none
    ∧ (loadData (some infiniteValueScenario)).data
        = some ([ { timestamp := JsNumber.finite 1, fans := JsNumber.finite 100 },
            { timestamp := JsNumber.finite 2, fans := JsNumber.finite 100 },
            { timestamp := JsNumber.finite 3, fans := JsNumber.finite 100 },
            { timestamp := JsNumber.finite 4, fans := JsNumber.finite 100 },
            { timestamp := JsNumber.finite 5, fans := JsNumber.finite 100 },
            { timestamp := JsNumber.finite 6, fans := JsNumber.finite 100 },
            { timestamp := JsNumber.finite 7, fans := JsNumber.finite 100 },
            { timestamp := JsNumber.finite 8, fans := JsNumber.finite 100 },
            { timestamp := JsNumber.finite 9, fans := JsNumber.finite 100 },
            { timestamp := JsNumber.finite 10, fans := JsNumber.posInf } ]
            : List (DataPoint (JsNumber ℚ)))
    ∧ (finitePositiveRecords infiniteValueScenario).length = 9 := by
  have hlen : (infiniteValueScenario.filter keepItem).length = 10 := by
    simp [infiniteValueScenario, keepItem, hasPositiveNumber, JsNumber.isNaN,
      JsNumber.isPositive]
  refine ⟨?_, ?_, ?_⟩
  · unfold loadData
    simp only [List.length_insertionSort, length_filterMap_toDataPoint, hlen]
    rfl
  · rw [loadData_data]
    have hmap : infiniteValueScenario.filterMap toDataPoint
        = ([ { timestamp := JsNumber.finite 1, fans := JsNumber.finite 100 },
            { timestamp := JsNumber.finite 2, fans := JsNumber.finite 100 },
            { timestamp := JsNumber.finite 3, fans := JsNumber.finite 100 },
            { timestamp := JsNumber.finite 4, fans := JsNumber.finite 100 },
            { timestamp := JsNumber.finite 5, fans := JsNumber.finite 100 },
            { timestamp := JsNumber.finite 6, fans := JsNumber.finite 100 },
            { timestamp := JsNumber.finite 7, fans := JsNumber.finite 100 },
            { timestamp := JsNumber.finite 8, fans := JsNumber.finite 100 },
            { timestamp := JsNumber.finite 9, fans := JsNumber.finite 100 },
            { timestamp := JsNumber.finite 10, fans := JsNumber.posInf } ]
            : List (DataPoint (JsNumber ℚ))) := by
      simp [infiniteValueScenario, toDataPoint, keepItem, hasPositiveNumber, JsNumber.isNaN,
        JsNumber.isPositive]
    rw [hmap, List.Sorted.insertionSort_eq]
    simp only [List.Sorted, List.pairwise_cons, List.mem_cons, List.mem_singleton,
      List.not_mem_nil, forall_eq_or_imp, forall_eq, List.Pairwise.nil, comparatorLe,
      JsNumber.sub, JsNumber.isPositive]
    norm_num
  · simp [finitePositiveRecords, infiniteValueScenario, isFinitePositive]

/-- C16, amended: for every list of raw records the series built by `loadData`
consists of exactly the records whose `time` and `fans` are both numbers, not `NaN`
and greater than zero (finite positive numbers or `Infinity`), each kept once and
every other item dropped, ordered non-decreasingly by timestamp; every point of the
series has a timestamp and a value that are greater than zero and not `NaN`, and the
timestamp of `data[0]` is the minimum timestamp.  When no kept record holds
`Infinity` these records are the records with finite positive fields. -/
theorem loader_keeps_positive_numbers (items : List (Option (RawRecord F))) :
    ∃ data : List (DataPoint (JsNumber F)), (loadData (some items)).data = some data
      ∧ (data.map (fun d =>
            ({ time := JsValue.number d.timestamp, fans := JsValue.number d.fans }
              : RawRecord F))).Perm (positiveRecords items)
      ∧ data.Sorted comparatorLe
      ∧ data.Pairwise (fun a b => b.timestamp = JsNumber.posInf
          ∨ ∃ s t, a.timestamp = JsNumber.finite s ∧ b.timestamp = JsNumber.finite t ∧ s ≤ t)
      ∧ (∀ d ∈ data, d.timestamp.isNaN = false ∧ d.timestamp.isPositive = true
          ∧ d.fans.isNaN = false ∧ d.fans.isPositive = true)
      ∧ (∀ d0, data.head? = some d0 → ∀ d ∈ data, d.timestamp = JsNumber.posInf
          ∨ ∃ s t, d0.timestamp = JsNumber.finite s ∧ d.timestamp = JsNumber.finite t ∧ s ≤ t)
      ∧ ((∀ r ∈ positiveRecords items, r.time ≠ JsValue.number JsNumber.posInf
            ∧ r.fans ≠ JsValue.number JsNumber.posInf) →
          positiveRecords items = finitePositiveRecords items) := by
  have hperm := List.perm_insertionSort comparatorLe (items.filterMap toDataPoint)
  have hvalid : ∀ d ∈ (items.filterMap toDataPoint).insertionSort comparatorLe,
      d.timestamp.isNaN = false ∧ d.timestamp.isPositive = true
        ∧ d.fans.isNaN = false ∧ d.fans.isPositive = true := by
    intro d hd
    have hd2 := hperm.subset hd
    rcases List.mem_filterMap.mp hd2 with ⟨item, _, hitem⟩
    exact ((toDataPoint_eq_some_iff item d).mp hitem).2
  have hsorted : ((items.filterMap toDataPoint).insertionSort comparatorLe).Sorted
      comparatorLe := by
    apply sorted_insertionSort_of comparatorLe (fun d => d.timestamp.isPositive = true)
      comparatorLe_total comparatorLe_trans
    intro d hd
    exact (hvalid d ((List.perm_insertionSort _ _).symm.subset hd)).2.1
  have hpair : ((items.filterMap toDataPoint).insertionSort comparatorLe).Pairwise
      (fun a b => b.timestamp = JsNumber.posInf
        ∨ ∃ s t, a.timestamp = JsNumber.finite s ∧ b.timestamp = JsNumber.finite t ∧ s ≤ t) := by
    unfold List.Sorted at hsorted
    rw [List.pairwise_iff_forall_sublist] at hsorted ⊢
    intro a b hab
    have ha := (hvalid a (hab.subset (List.mem_cons_self _ _))).2.1
    have hb := (hvalid b (hab.subset (List.mem_cons_of_mem _ (List.mem_singleton_self _)))).2.1
    exact (sub_isPositive_eq_false_iff _ _ ha hb).mp (hsorted hab)
  refine ⟨_, loadData_data items, ?_, hsorted, hpair, hvalid, ?_, ?_⟩
  · refine (hperm.map _).trans ?_
    rw [List.map_filterMap]
    unfold positiveRecords
    have hfun : (fun x => (toDataPoint x).map (fun d =>
          ({ time := JsValue.number d.timestamp, fans := JsValue.number d.fans }
            : RawRecord F)))
        = (fun item => match item with
          | some r =>
            if hasPositiveNumber r.time && hasPositiveNumber r.fans then some r else none
          | none => none) := by
      funext item
      exact toDataPoint_map_record item
    rw [hfun]
  · intro d0 hd0 d hd
    cases hl : (items.filterMap toDataPoint).insertionSort comparatorLe with
    | nil =>
      rw [hl] at hd
      cases hd
    | cons h t =>
      rw [hl] at hd0 hd hpair
      simp only [List.head?_cons, Option.some.injEq] at hd0
      subst hd0
      rcases List.mem_cons.mp hd with hdh | hdt
      · have hv := (hvalid d (by rw [hl]; exact hd)).2.1
        rw [hdh]
        have := comparatorLe_total h h (by rw [← hdh]; exact hv) (by rw [← hdh]; exact hv)
        have hself : comparatorLe h h := by tauto
        exact (sub_isPositive_eq_false_iff _ _ (by rw [← hdh]; exact hv)
          (by rw [← hdh]; exact hv)).mp hself
      · exact (List.pairwise_cons.mp hpair).1 d hdt
  · intro hfin
    unfold positiveRecords finitePositiveRecords at *
    apply List.filterMap_congr
    intro item hitem
    rcases item with _ | ⟨time, fans⟩
    · rfl
    · by_cases hk : (hasPositiveNumber time && hasPositiveNumber fans) = true
      · have hmem : (⟨time, fans⟩ : RawRecord F) ∈ items.filterMap (fun item =>
            match item with
            | some r =>
              if hasPositiveNumber r.time && hasPositiveNumber r.fans then some r else none
            | none => none) := by
          apply List.mem_filterMap.mpr
          exact ⟨_, hitem, by simp only [hk, if_true]⟩
        have hne := hfin _ hmem
        simp only at hne
        rcases time with t | _ <;> rcases fans with f | _ <;>
          simp [hasPositiveNumber] at hk
        cases t <;> cases f <;>
          simp [hasPositiveNumber, isFinitePositive, JsNumber.isNaN, JsNumber.isPositive]
            at hk hne ⊢
      · have hk2 : (hasPositiveNumber time && hasPositiveNumber fans) = false := by
          simpa using hk
        have hf2 : (isFinitePositive time && isFinitePositive fans) = false := by
          rcases time with t | _ <;> rcases fans with f | _ <;>
            simp [hasPositiveNumber, isFinitePositive] at hk2 ⊢
          cases t <;> cases f <;>
            simp [hasPositiveNumber, isFinitePositive, JsNumber.isNaN, JsNumber.isPositive]
              at hk2 ⊢
          tauto
        simp only [hk2, hf2]

/-- C15 fails as stated: the raw input of ten records whose last value is `Infinity`
contains nine valid records (finite positive `time` and `fans`), fewer than 10, yet
`loadData` raises no error and `init` runs to completion, fitters included, whatever
`Math.sqrt`, `Math.exp` and `Math.log` return. -/
theorem nine_valid_records_load_counterexample :
    (finitePositiveRecords infiniteValueScenario).length = 9
    ∧ (loadData (some infiniteValueScenario)).error = none
    ∧ (∀ sqrt exp log : ℚ → ℚ, ∃ chart : FansChart (JsNumber ℚ),
        Js.init sqrt exp log FansChart.new (some infiniteValueScenario)
          = InitOutcome.completed chart) := by
  have hlen : (infiniteValueScenario.filter keepItem).length = 10 := by
    simp [infiniteValueScenario, keepItem, hasPositiveNumber, JsNumber.isNaN,
      JsNumber.isPositive]
  have herr : (loadData (some infiniteValueScenario)).error = none := by
    unfold loadData
    simp only [List.length_insertionSort, length_filterMap_toDataPoint, hlen]
    rfl
  refine ⟨?_, herr, ?_⟩
  · simp [finitePositiveRecords, infiniteValueScenario, isFinitePositive]
  · intro sqrt exp log
    unfold Js.init
    simp only [herr]
    exact ⟨_, rfl⟩

/-- C15 (amended): when the raw input contains fewer than ten records that pass the
filter of the loader (`time` and `fans` numbers, not `NaN`, greater than zero; a
record holding `Infinity` passes), `loadData` throws (no valid data when there is
none, too few points otherwise) after assigning the kept records to `this.data`,
`init` rethrows that error before either fitter runs, and the fields `linearModel`
and `exponentialModel` keep their values: on a freshly constructed object both are
still `null`. -/
theorem too_few_valid_records_abort_init (sqrt exp log : F → F)
    (self : FansChart (JsNumber F)) (items : List (Option (RawRecord F)))
    (hfew : (items.filter keepItem).length < 10) :
    ∃ (e : LoadError) (data : List (DataPoint (JsNumber F))),
      (loadData (some items)).error = some e
      ∧ (e = LoadError.noValidData
          ∨ e = LoadError.tooFewPoints (items.filter keepItem).length)
      ∧ (loadData (some items)).data = some data
      ∧ Js.init sqrt exp log self (some items)
          = InitOutcome.thrown e { self with data := data }
      ∧ Js.init sqrt exp log FansChart.new (some items)
          = InitOutcome.thrown e
              { data := data, linearModel := none, exponentialModel := none } := by
  have herr := loadData_error_of_few items hfew
  have hdata := loadData_data items
  refine ⟨_, _, herr, ?_, hdata, ?_, ?_⟩
  · by_cases h0 : (items.filter keepItem).length = 0
    · left
      rw [if_pos h0]
    · right
      rw [if_neg h0]
  · unfold Js.init
    simp only [herr, hdata]
  · unfold Js.init
    simp only [herr, hdata]
    rfl

/-- C15 (amended) on a raw input with exactly five valid records. -/
theorem too_few_valid_records_abort_init_witness :
    (fiveValidScenario.filter keepItem).length < 10
    ∧ ∃ (e : LoadError) (data : List (DataPoint (JsNumber ℚ))),
      (loadData (some fiveValidScenario)).error = some e
      ∧ Js.init (fun v => v) (fun v => v) (fun v => v) FansChart.new (some fiveValidScenario)
          = InitOutcome.thrown e
              { data := data, linearModel := none, exponentialModel := none } :=
  ⟨by simp [fiveValidScenario, keepItem, hasPositiveNumber, JsNumber.isNaN,
        JsNumber.isPositive],
    (too_few_valid_records_abort_init (fun v => v) (fun v => v) (fun v => v) FansChart.new
      fiveValidScenario
      (by simp [fiveValidScenario, keepItem, hasPositiveNumber, JsNumber.isNaN,
        JsNumber.isPositive])).imp
      (fun _ h => h.imp (fun _ h2 => ⟨h2.1, h2.2.2.2.2⟩))⟩

/-! ## Dates -/

/-- Within the range of time values `new Date(v)` is a valid date whose time value is a
whole number within one millisecond of `v`, and `v` itself when `v` is whole. -/
theorem newDate_of_le [FloorRing F] (v : F) (h : |v| ≤ maxTimeValue) :
    ∃ t : F, newDate v = JsDate.valid t ∧ |t - v| < 1 ∧ (∃ k : ℤ, t = (k : F))
      ∧ ((∃ k : ℤ, v = (k : F)) → t = v) := by
  unfold newDate
  rw [if_neg (not_lt.mpr h)]
  by_cases h0 : 0 ≤ v
  · rw [if_pos h0]
    refine ⟨_, rfl, ?_, ⟨_, rfl⟩, ?_⟩
    · have h1 := Int.floor_le v
      have h2 := Int.lt_floor_add_one v
      rw [abs_lt]
      constructor <;> linarith
    · rintro ⟨k, rfl⟩
      rw [Int.floor_intCast]
  · rw [if_neg h0]
    refine ⟨_, rfl, ?_, ⟨_, rfl⟩, ?_⟩
    · have h1 := Int.le_ceil v
      have h2 := Int.ceil_lt_add_one v
      rw [abs_lt]
      constructor <;> linarith
    · rintro ⟨k, rfl⟩
      rw [Int.ceil_intCast]

/-- Beyond the range of time values `new Date(v)` is an Invalid Date. -/
theorem newDate_of_gt [FloorRing F] (v : F) (h : maxTimeValue < |v|) :
    newDate v = JsDate.invalid := by
  unfold newDate
  rw [if_pos h]

/-- The clamp at zero does not increase distances. -/
theorem abs_max_zero_sub_le (x y : F) : |max 0 x - max 0 y| ≤ |x - y| := by
  have h := abs_max_sub_max_le_abs x y 0
  rw [max_comm x 0, max_comm y 0] at h
  exact h

/-! ## Inverse prediction on the linear model -/

theorem reversePredictLinear_of_model [FloorRing F] (sys : FansPredictionSystem F) (v : F)
    (m : LinearModel F) (hm : sys.chart.linearModel = some m) :
    FansPredictionSystem.reversePredictLinear sys v =
      if m.slope = 0 then (none, sys)
      else (some (newDate (m.startTime + (v - m.intercept) / m.slope * 24 * 60 * 60 * 1000)),
        sys) := by
  simp only [FansPredictionSystem.reversePredictLinear, hm]

theorem reversePredictLinear_of_none [FloorRing F] (sys : FansPredictionSystem F) (v : F)
    (hm : sys.chart.linearModel = none) :
    FansPredictionSystem.reversePredictLinear sys v = (none, sys) := by
  simp only [FansPredictionSystem.reversePredictLinear, hm]

theorem ms_factor (d : F) : d * 24 * 60 * 60 * 1000 = d * 86400000 := by ring

/-- The linear prediction at a timestamp near the inverse solution is near the
target. -/
theorem linearPredict_near_inverse (slope intercept startTime v t : F) (hslope : slope ≠ 0)
    (hv : 0 ≤ v) :
    |linearPredict slope intercept startTime t - v|
      ≤ |slope| * |t - (startTime + (v - intercept) / slope * 86400000)| / 86400000 := by
  have hcurve : slope * ((startTime + (v - intercept) / slope * 86400000 - startTime)
      / msPerDay) + intercept = v := by
    rw [msPerDay_eq]
    field_simp
    ring
  have hle := abs_max_zero_sub_le (slope * ((t - startTime) / msPerDay) + intercept)
    (slope * ((startTime + (v - intercept) / slope * 86400000 - startTime)
      / msPerDay) + intercept)
  rw [hcurve, max_eq_right hv] at hle
  have hdiff : slope * ((t - startTime) / msPerDay) + intercept - v
      = slope * (t - (startTime + (v - intercept) / slope * 86400000)) / 86400000 := by
    rw [msPerDay_eq]
    field_simp
    ring
  rw [hdiff, abs_div, abs_mul, abs_of_pos (by norm_num : (0 : F) < 86400000)] at hle
  exact hle

/-- C8 fails as stated: for the model with slope `1e-8` per day and intercept `100`
and the target value `200` the solution lies `1e10` days after the start, beyond the
range of a `Date`, so `reversePredictLinear` returns an Invalid Date and `predict` on
it is `NaN`; and for the model fitted to the scenario of the specification (slope
100, intercept 100) and the target value `-100` the returned date is valid and
`predict` gives `0`, not `-100`. -/
theorem linear_round_trip_counterexample :
    (FansPredictionSystem.reversePredictLinear
        slowGrowthSystem 200).1
      = some JsDate.invalid
    ∧ predictAt (linearPredict (1 / 10 ^ 8 : ℚ) 100 1700000000000) JsDate.invalid = none
    ∧ (FansPredictionSystem.reversePredictLinear
          ({ chart := FansChart.calculateLinearRegression linearScenario,
             currentMethod := "linear" } : FansPredictionSystem ℚ) (-100)).1
        = some (JsDate.valid 1699827200000)
    ∧ (FansChart.calculateLinearRegression linearScenario).linearModel
        = some { slope := 100, intercept := 100, r2 := 1, startTime := 1700000000000,
                 predict := linearPredict 100 100 1700000000000 }
    ∧ predictAt (linearPredict (100 : ℚ) 100 1700000000000) (JsDate.valid 1699827200000)
        = some 0 := by
  refine ⟨?_, rfl, ?_, linearScenario_model, ?_⟩
  · rw [reversePredictLinear_of_model _ _ _ rfl, if_neg (by norm_num)]
    simp only [Prod.fst, Option.some.injEq]
    apply newDate_of_gt
    norm_num [maxTimeValue, abs_of_pos]
  · rw [reversePredictLinear_of_model _ _ _ linearScenario_model, if_neg (by norm_num)]
    simp only [Prod.fst, Option.some.injEq]
    obtain ⟨t, ht, -, -, hwhole⟩ := newDate_of_le
      ((1700000000000 : ℚ) + (-100 - 100) / 100 * 24 * 60 * 60 * 1000)
      (by norm_num [maxTimeValue, abs_of_pos])
    have hval : (1700000000000 : ℚ) + (-100 - 100) / 100 * 24 * 60 * 60 * 1000
        = ((1699827200000 : ℤ) : ℚ) := by norm_num
    rw [ht, hwhole ⟨_, hval⟩]
    norm_num
  · simp only [predictAt, JsDate.getTime, Option.map_some', linearPredict, msPerDay]
    norm_num

/-- C8 (amended): for every linear model built by the fit with `slope ≠ 0` and every
target value `v ≥ 0`, `reversePredictLinear v` returns
`new Date(ts)` for `ts = startTime + ((v - intercept)/slope)·86400000`.  When `ts` is
within the range of a `Date` (`|ts| ≤ 8.64e15`) the date is valid, its time value is
`ts` truncated to a whole millisecond, and `predict` on it differs from `v` by less
than `|slope|/86400000` (it equals `v` when `ts` is a whole number of milliseconds);
beyond the range the date is invalid and `predict` on it is `NaN`. -/
theorem linear_round_trip [FloorRing F] (sys : FansPredictionSystem F) (m : LinearModel F)
    (hm : sys.chart.linearModel = some m)
    (hpredict : m.predict = linearPredict m.slope m.intercept m.startTime)
    (hslope : m.slope ≠ 0) (v : F) (hv : 0 ≤ v) :
    (FansPredictionSystem.reversePredictLinear sys v).1
      = some (newDate (m.startTime + (v - m.intercept) / m.slope * 86400000))
    ∧ (|m.startTime + (v - m.intercept) / m.slope * 86400000| ≤ maxTimeValue →
        ∃ t : F, newDate (m.startTime + (v - m.intercept) / m.slope * 86400000)
            = JsDate.valid t
          ∧ |t - (m.startTime + (v - m.intercept) / m.slope * 86400000)| < 1
          ∧ predictAt m.predict
              (newDate (m.startTime + (v - m.intercept) / m.slope * 86400000))
            = some (m.predict t)
          ∧ |m.predict t - v| < |m.slope| / 86400000
          ∧ ((∃ k : ℤ, m.startTime + (v - m.intercept) / m.slope * 86400000 = (k : F)) →
              m.predict t = v))
    ∧ (maxTimeValue < |m.startTime + (v - m.intercept) / m.slope * 86400000| →
        newDate (m.startTime + (v - m.intercept) / m.slope * 86400000) = JsDate.invalid
        ∧ predictAt m.predict
            (newDate (m.startTime + (v - m.intercept) / m.slope * 86400000)) = none) := by
  refine ⟨?_, ?_, ?_⟩
  · rw [reversePredictLinear_of_model sys v m hm, if_neg hslope, ms_factor]
  · intro hle
    obtain ⟨t, ht, hnear, -, hwhole⟩ := newDate_of_le _ hle
    have hlip := linearPredict_near_inverse m.slope m.intercept m.startTime v t hslope hv
    have hspos : 0 < |m.slope| := abs_pos.mpr hslope
    refine ⟨t, ht, hnear, ?_, ?_, ?_⟩
    · rw [ht]
      rfl
    · rw [hpredict]
      refine lt_of_le_of_lt hlip ?_
      apply div_lt_div_of_pos_right _ (by norm_num)
      calc |m.slope| * |t - (m.startTime + (v - m.intercept) / m.slope * 86400000)|
          < |m.slope| * 1 := mul_lt_mul_of_pos_left hnear hspos
        _ = |m.slope| := mul_one _
    · intro hk
      have htv := hwhole hk
      rw [hpredict]
      have h0 : |linearPredict m.slope m.intercept m.startTime t - v| ≤ 0 := by
        refine le_trans hlip ?_
        rw [htv, sub_self, abs_zero, mul_zero, zero_div]
      exact sub_eq_zero.mp (abs_nonpos_iff.mp h0)
  · intro hgt
    have hinv := newDate_of_gt _ hgt
    refine ⟨hinv, ?_⟩
    rw [hinv]
    rfl

/-- C8 (amended) at the model of the scenario and the target value 1500. -/
theorem linear_round_trip_witness :
    (FansPredictionSystem.reversePredictLinear
        ({ chart := FansChart.calculateLinearRegression linearScenario,
           currentMethod := "linear" } : FansPredictionSystem ℚ) 1500).1
      = some (newDate ((1700000000000 : ℚ) + (1500 - 100) / 100 * 86400000)) :=
  (linear_round_trip
    ({ chart := FansChart.calculateLinearRegression linearScenario,
       currentMethod := "linear" } : FansPredictionSystem ℚ)
    { slope := 100, intercept := 100, r2 := 1, startTime := 1700000000000,
      predict := linearPredict 100 100 1700000000000 }
    linearScenario_model rfl (by norm_num) 1500 (by norm_num)).1

/-- C11 fails as stated: with a linear model of slope `1e-8 ≠ 0` and the target 200
the method returns an Invalid Date, which carries no timestamp; and with slope 1,
intercept 0, start 0 and the target `1/172800000` the solution is half a millisecond
and the returned date has the time value 0. -/
theorem reverse_linear_invalid_date :
    (FansPredictionSystem.reversePredictLinear
        slowGrowthSystem 200).1
      = some JsDate.invalid
    ∧ (JsDate.invalid : JsDate ℚ).getTime = none
    ∧ (FansPredictionSystem.reversePredictLinear
        unitSlopeSystem (1 / 172800000)).1
      = some (JsDate.valid 0)
    ∧ (0 : ℚ) + (1 / 172800000 - 0) / 1 * 86400000 = 1 / 2 := by
  refine ⟨?_, rfl, ?_, by norm_num⟩
  · rw [reversePredictLinear_of_model _ _ _ rfl, if_neg (by norm_num)]
    simp only [Prod.fst, Option.some.injEq]
    apply newDate_of_gt
    norm_num [maxTimeValue, abs_of_pos]
  · rw [reversePredictLinear_of_model _ _ _ rfl, if_neg (by norm_num)]
    simp only [Prod.fst, Option.some.injEq]
    have hval : (0 : ℚ) + (1 / 172800000 - 0) / 1 * 24 * 60 * 60 * 1000 = 1 / 2 := by norm_num
    rw [hval]
    unfold newDate
    rw [if_neg (by norm_num [maxTimeValue, abs_of_pos]), if_pos (by norm_num)]
    have hfl : ⌊(1 / 2 : ℚ)⌋ = 0 := by
      rw [Int.floor_eq_iff]
      norm_num
    rw [hfl]
    norm_num

/-- C11 (amended): `reversePredictLinear v` returns `null` if and only if no linear
model exists or `slope == 0`; otherwise it returns
`new Date(startTime + ((v - intercept)/slope)·86400000)`, for every target value `v`:
a valid date whose time value is that timestamp truncated to a whole millisecond when
the timestamp is within `±8.64e15`, an Invalid Date beyond.  The call leaves the
object unchanged. -/
theorem reverse_linear_failure_cases [FloorRing F] (sys : FansPredictionSystem F) (v : F) :
    ((FansPredictionSystem.reversePredictLinear sys v).1 = none ↔
      (sys.chart.linearModel = none ∨
        ∃ m : LinearModel F, sys.chart.linearModel = some m ∧ m.slope = 0))
    ∧ (∀ m : LinearModel F, sys.chart.linearModel = some m → m.slope ≠ 0 →
        (FansPredictionSystem.reversePredictLinear sys v).1
          = some (newDate (m.startTime + (v - m.intercept) / m.slope * 86400000))
        ∧ (|m.startTime + (v - m.intercept) / m.slope * 86400000| ≤ maxTimeValue →
            ∃ t : F, newDate (m.startTime + (v - m.intercept) / m.slope * 86400000)
                = JsDate.valid t
              ∧ |t - (m.startTime + (v - m.intercept) / m.slope * 86400000)| < 1
              ∧ (∃ k : ℤ, t = (k : F))
              ∧ ((∃ k : ℤ, m.startTime + (v - m.intercept) / m.slope * 86400000 = (k : F)) →
                  t = m.startTime + (v - m.intercept) / m.slope * 86400000))
        ∧ (maxTimeValue < |m.startTime + (v - m.intercept) / m.slope * 86400000| →
            newDate (m.startTime + (v - m.intercept) / m.slope * 86400000)
              = JsDate.invalid))
    ∧ (FansPredictionSystem.reversePredictLinear sys v).2 = sys := by
  refine ⟨?_, ?_, ?_⟩
  · cases hmod : sys.chart.linearModel with
    | none =>
      rw [reversePredictLinear_of_none sys v hmod]
      exact ⟨fun _ => Or.inl rfl, fun _ => rfl⟩
    | some m =>
      rw [reversePredictLinear_of_model sys v m hmod]
      by_cases hs : m.slope = 0
      · rw [if_pos hs]
        exact ⟨fun _ => Or.inr ⟨m, rfl, hs⟩, fun _ => rfl⟩
      · rw [if_neg hs]
        constructor
        · intro h
          exact absurd h (by simp)
        · intro h
          rcases h with h | ⟨m', hm', hs'⟩
          · exact absurd h (by simp)
          · have hmm : m' = m := (Option.some.inj hm').symm
            subst hmm
            exact absurd hs' hs
  · intro m hm hs
    refine ⟨?_, fun hle => newDate_of_le _ hle, fun hgt => newDate_of_gt _ hgt⟩
    rw [reversePredictLinear_of_model sys v m hm, if_neg hs, ms_factor]
  · cases hmod : sys.chart.linearModel with
    | none => rw [reversePredictLinear_of_none sys v hmod]
    | some m =>
      rw [reversePredictLinear_of_model sys v m hmod]
      split_ifs <;> rfl

/-! ## Inverse prediction on the exponential model -/

theorem reversePredictExponential_of_model [FloorRing F] (log : F → F)
    (sys : FansPredictionSystem F) (v : F) (m : ExponentialModel F)
    (hm : sys.chart.exponentialModel = some m) :
    FansPredictionSystem.reversePredictExponential log sys v =
      if m.lam ≤ 0 then (none, sys)
      else if v - m.c ≤ 0 ∨ v - m.c > m.a * 2 then (none, sys)
      else (some (newDate
        (m.startTime + -log ((v - m.c) / m.a) / m.lam * 24 * 60 * 60 * 1000)), sys) := by
  simp only [FansPredictionSystem.reversePredictExponential, hm]

theorem reversePredictExponential_of_none [FloorRing F] (log : F → F)
    (sys : FansPredictionSystem F) (v : F) (hm : sys.chart.exponentialModel = none) :
    FansPredictionSystem.reversePredictExponential log sys v = (none, sys) := by
  simp only [FansPredictionSystem.reversePredictExponential, hm]

/-- The inverse solution of the model `a = 0.28`, `lam = 1e-16`, `c = 2.52` for the
target `2.6` lies beyond the range of a `Date`. -/
theorem slow_decay_inverse_out_of_range :
    maxTimeValue
      < |(0 : ℝ) + -Real.log ((26 / 10 - 252 / 100) / (28 / 100)) / (1 / 10 ^ 16)
          * 24 * 60 * 60 * 1000| := by
  have harg : ((26 / 10 - 252 / 100) / (28 / 100) : ℝ) = (7 / 2)⁻¹ := by norm_num
  rw [harg, Real.log_inv]
  have h2 : Real.log 2 ≤ Real.log (7 / 2) :=
    Real.log_le_log (by norm_num) (by norm_num)
  have h3 := Real.log_two_gt_d9
  have hpos : (0 : ℝ) < Real.log (7 / 2) := by linarith
  have hval : (0 : ℝ) + - -Real.log (7 / 2) / (1 / 10 ^ 16) * 24 * 60 * 60 * 1000
      = Real.log (7 / 2) * 864000000000000000000000 := by
    field_simp
    ring
  rw [hval, abs_of_pos (by positivity)]
  unfold maxTimeValue
  nlinarith

/-- The slowly decaying model of the counterexamples returns an Invalid Date for the
target `2.6`. -/
theorem slow_decay_returns_invalid_date :
    (FansPredictionSystem.reversePredictExponential Real.log
        (slowDecaySystem Real.exp Real.log) (26 / 10)).1
      = some JsDate.invalid := by
  rw [reversePredictExponential_of_model _ _ _ _ rfl]
  rw [if_neg (by norm_num), if_neg (by norm_num)]
  simp only [Prod.fst, Option.some.injEq]
  exact newDate_of_gt _ slow_decay_inverse_out_of_range

/-- C9 fails as stated: for the model `a = 0.28`, `lam = 1e-16`, `c = 2.52` (`a > 0`,
`lam > 0`, `c ≥ 0`) and the target `v = 2.6` with `c < v ≤ c + 2a`,
`reversePredictExponential` returns an Invalid Date, and `predict` on it is `NaN`. -/
theorem exponential_round_trip_counterexample :
    ((252 / 100 : ℝ) < 26 / 10 ∧ (26 / 10 : ℝ) ≤ 252 / 100 + 2 * (28 / 100))
    ∧ (FansPredictionSystem.reversePredictExponential Real.log
        (slowDecaySystem Real.exp Real.log) (26 / 10)).1
      = some JsDate.invalid
    ∧ predictAt (exponentialPredict Real.exp (28 / 100) (1 / 10 ^ 16) (252 / 100) 0)
        JsDate.invalid = none :=
  ⟨⟨by norm_num, by norm_num⟩, slow_decay_returns_invalid_date, rfl⟩

/-- The offset curve at a timestamp `e` milliseconds away from the inverse solution. -/
theorem exp_curve_near_inverse (a lam c v startTime e : ℝ) (hlam : 0 < lam) (hu : 0 < v - c)
    (ha : 0 < a) :
    a * Real.exp (-lam * ((startTime + -Real.log ((v - c) / a) / lam * 86400000 + e
        - startTime) / msPerDay)) + c
      = (v - c) * Real.exp (-lam * e / 86400000) + c := by
  have h1 : -lam * ((startTime + -Real.log ((v - c) / a) / lam * 86400000 + e
        - startTime) / msPerDay)
      = Real.log ((v - c) / a) + -lam * e / 86400000 := by
    rw [msPerDay_eq]
    field_simp
    ring
  rw [h1, Real.exp_add, Real.exp_log (div_pos hu ha)]
  field_simp

/-- The exponential of a small number is close to one. -/
theorem abs_exp_sub_one_le (x b : ℝ) (hx : |x| ≤ b) : |Real.exp x - 1| ≤ Real.exp b - 1 := by
  have hb : 0 ≤ b := le_trans (abs_nonneg x) hx
  have hx2 := abs_le.mp hx
  rw [abs_le]
  constructor
  · have h1 : Real.exp (-b) ≤ Real.exp x := Real.exp_le_exp.mpr hx2.1
    have h2 : -b + 1 ≤ Real.exp (-b) := Real.add_one_le_exp _
    have h3 : b + 1 ≤ Real.exp b := Real.add_one_le_exp _
    linarith
  · have h1 : Real.exp x ≤ Real.exp b := Real.exp_le_exp.mpr hx2.2
    linarith

/-- C9 (amended): for every exponential model built by the fit (either `predict`
closure) with `a > 0`, `lam > 0`, `c ≥ 0` and every target `v` with `c < v ≤ c + 2a`,
`reversePredictExponential v` returns `new Date(ts)` for
`ts = startTime + (-ln((v - c)/a)/lam)·86400000`.  When `ts` is within the range of a
`Date` the date is valid, its time value is `ts` truncated to a whole millisecond, and
`predict` on it differs from `v` by at most `(v - c)·(e^(lam/86400000) - 1)` (it equals
`v` when `ts` is a whole number of milliseconds); beyond the range the date is invalid
and `predict` on it is `NaN`. -/
theorem exponential_round_trip (sys : FansPredictionSystem ℝ) (m : ExponentialModel ℝ)
    (hm : sys.chart.exponentialModel = some m)
    (hpredict : m.predict = exponentialPredict Real.exp m.a m.lam m.c m.startTime
      ∨ (m.c = 0 ∧ m.predict = exponentialPredictNoOffset Real.exp m.a m.lam m.startTime))
    (ha : 0 < m.a) (hlam : 0 < m.lam) (hc : 0 ≤ m.c) (v : ℝ)
    (hlo : m.c < v) (hhi : v ≤ m.c + 2 * m.a) :
    (FansPredictionSystem.reversePredictExponential Real.log sys v).1
      = some (newDate (m.startTime + -Real.log ((v - m.c) / m.a) / m.lam * 86400000))
    ∧ (|m.startTime + -Real.log ((v - m.c) / m.a) / m.lam * 86400000| ≤ maxTimeValue →
        ∃ t : ℝ, newDate (m.startTime + -Real.log ((v - m.c) / m.a) / m.lam * 86400000)
            = JsDate.valid t
          ∧ |t - (m.startTime + -Real.log ((v - m.c) / m.a) / m.lam * 86400000)| < 1
          ∧ predictAt m.predict
              (newDate (m.startTime + -Real.log ((v - m.c) / m.a) / m.lam * 86400000))
            = some (m.predict t)
          ∧ |m.predict t - v| ≤ (v - m.c) * (Real.exp (m.lam / 86400000) - 1)
          ∧ ((∃ k : ℤ, m.startTime + -Real.log ((v - m.c) / m.a) / m.lam * 86400000
                = (k : ℝ)) → m.predict t = v))
    ∧ (maxTimeValue < |m.startTime + -Real.log ((v - m.c) / m.a) / m.lam * 86400000| →
        newDate (m.startTime + -Real.log ((v - m.c) / m.a) / m.lam * 86400000)
          = JsDate.invalid
        ∧ predictAt m.predict
            (newDate (m.startTime + -Real.log ((v - m.c) / m.a) / m.lam * 86400000))
          = none) := by
  have hl : ¬ m.lam ≤ 0 := not_le.mpr hlam
  have hu : 0 < v - m.c := by linarith
  have hr : ¬ (v - m.c ≤ 0 ∨ v - m.c > m.a * 2) := by
    intro h
    rcases h with h | h
    · linarith
    · linarith
  have hcurve : ∀ t : ℝ, m.predict t
      = max 0 ((v - m.c) * Real.exp (-m.lam
          * (t - (m.startTime + -Real.log ((v - m.c) / m.a) / m.lam * 86400000))
          / 86400000) + m.c) := by
    intro t
    have hkey := exp_curve_near_inverse m.a m.lam m.c v m.startTime
      (t - (m.startTime + -Real.log ((v - m.c) / m.a) / m.lam * 86400000)) hlam hu ha
    have hts : m.startTime + -Real.log ((v - m.c) / m.a) / m.lam * 86400000
        + (t - (m.startTime + -Real.log ((v - m.c) / m.a) / m.lam * 86400000)) = t := by
      ring
    rw [hts] at hkey
    rcases hpredict with hp | ⟨hc0, hp⟩
    · rw [hp]
      simp only [exponentialPredict]
      rw [hkey]
    · rw [hp]
      simp only [exponentialPredictNoOffset]
      rw [hc0, add_zero, add_zero] at hkey
      rw [hc0, add_zero]
      rw [hkey]
  refine ⟨?_, ?_, ?_⟩
  · rw [reversePredictExponential_of_model Real.log sys v m hm, if_neg hl, if_neg hr,
      ms_factor]
  · intro hle
    obtain ⟨t, ht, hnear, -, hwhole⟩ := newDate_of_le _ hle
    have hpos : 0 ≤ (v - m.c) * Real.exp (-m.lam
        * (t - (m.startTime + -Real.log ((v - m.c) / m.a) / m.lam * 86400000))
        / 86400000) + m.c := by
      have := mul_pos hu (Real.exp_pos (-m.lam
        * (t - (m.startTime + -Real.log ((v - m.c) / m.a) / m.lam * 86400000))
        / 86400000))
      linarith
    refine ⟨t, ht, hnear, ?_, ?_, ?_⟩
    · rw [ht]
      rfl
    · rw [hcurve t, max_eq_right hpos]
      have hsmall : |-m.lam
          * (t - (m.startTime + -Real.log ((v - m.c) / m.a) / m.lam * 86400000))
          / 86400000| ≤ m.lam / 86400000 := by
        rw [abs_div, abs_mul, abs_neg, abs_of_pos hlam,
          abs_of_pos (by norm_num : (0 : ℝ) < 86400000)]
        apply div_le_div_of_nonneg_right _ (by norm_num)
        calc m.lam * |t - (m.startTime + -Real.log ((v - m.c) / m.a) / m.lam * 86400000)|
            ≤ m.lam * 1 := mul_le_mul_of_nonneg_left (le_of_lt hnear) (le_of_lt hlam)
          _ = m.lam := mul_one _
      have hexp := abs_exp_sub_one_le _ _ hsmall
      have heq : (v - m.c) * Real.exp (-m.lam
            * (t - (m.startTime + -Real.log ((v - m.c) / m.a) / m.lam * 86400000))
            / 86400000) + m.c - v
          = (v - m.c) * (Real.exp (-m.lam
            * (t - (m.startTime + -Real.log ((v - m.c) / m.a) / m.lam * 86400000))
            / 86400000) - 1) := by ring
      rw [heq, abs_mul, abs_of_pos hu]
      exact mul_le_mul_of_nonneg_left hexp (le_of_lt hu)
    · intro hk
      have htv := hwhole hk
      rw [hcurve t, htv, sub_self, mul_zero, zero_div, Real.exp_zero, mul_one]
      rw [max_eq_right (by linarith)]
      ring
  · intro hgt
    have hinv := newDate_of_gt _ hgt
    refine ⟨hinv, ?_⟩
    rw [hinv]
    rfl

/-- C9 (amended) at the model `a = 400`, `lam = 1/4`, `c = 180` and the target value
300. -/
theorem exponential_round_trip_witness :
    (FansPredictionSystem.reversePredictExponential Real.log
        ({ chart :=
            { data := []
              linearModel := none
              exponentialModel := some
                { a := 400, lam := 1 / 4, c := 180, r2 := 9 / 10,
                  halfLife := Real.log 2 / (1 / 4),
                  currentDecayRate := -400 * (1 / 4) * Real.exp (-(1 / 4) * 9),
                  startTime := 1700000000000, dataPoints := 10, outlierCount := 0,
                  predict := exponentialPredict Real.exp 400 (1 / 4) 180 1700000000000 } }
           currentMethod := "exponential" } : FansPredictionSystem ℝ) 300).1
      = some (newDate ((1700000000000 : ℝ)
          + -Real.log ((300 - 180) / 400) / (1 / 4) * 86400000)) :=
  (exponential_round_trip
    { chart :=
        { data := []
          linearModel := none
          exponentialModel := some
            { a := 400, lam := 1 / 4, c := 180, r2 := 9 / 10, halfLife := Real.log 2 / (1 / 4),
              currentDecayRate := -400 * (1 / 4) * Real.exp (-(1 / 4) * 9),
              startTime := 1700000000000, dataPoints := 10, outlierCount := 0,
              predict := exponentialPredict Real.exp 400 (1 / 4) 180 1700000000000 } }
      currentMethod := "exponential" }
    { a := 400, lam := 1 / 4, c := 180, r2 := 9 / 10, halfLife := Real.log 2 / (1 / 4),
      currentDecayRate := -400 * (1 / 4) * Real.exp (-(1 / 4) * 9),
      startTime := 1700000000000, dataPoints := 10, outlierCount := 0,
      predict := exponentialPredict Real.exp 400 (1 / 4) 180 1700000000000 }
    rfl (Or.inl rfl) (by norm_num) (by norm_num) (by norm_num) 300 (by norm_num)
    (by norm_num)).1

/-- C10 fails as stated: an exponential model exists with `lam = 1e-16 > 0` and the
target `2.6` has `u = v - c = 0.08` with `0 < u ≤ 2a`, yet the method returns an
Invalid Date, which carries no timestamp. -/
theorem reverse_exponential_invalid_date :
    ((0 : ℝ) < 1 / 10 ^ 16 ∧ (0 : ℝ) < 26 / 10 - 252 / 100
      ∧ (26 / 10 - 252 / 100 : ℝ) ≤ 2 * (28 / 100))
    ∧ (FansPredictionSystem.reversePredictExponential Real.log
        (slowDecaySystem Real.exp Real.log) (26 / 10)).1
      = some JsDate.invalid
    ∧ (JsDate.invalid : JsDate ℝ).getTime = none :=
  ⟨⟨by norm_num, by norm_num, by norm_num⟩, slow_decay_returns_invalid_date, rfl⟩

/-- C10 (amended): `reversePredictExponential v` returns `null` if and only if there
is no exponential model, or `lam ≤ 0`, or `u = v - c` satisfies `u ≤ 0` or `u > 2a`;
in every other case it returns `new Date(startTime + (-ln(u/a)/lam)·86400000)`: a
valid date whose time value is that timestamp truncated to a whole millisecond when
the timestamp is within `±8.64e15`, an Invalid Date beyond.  In particular every
target at or below the asymptote `c` gives `null`, and the call leaves the object
(hence the model) unchanged. -/
theorem reverse_exponential_failure_cases [FloorRing F] (log : F → F)
    (sys : FansPredictionSystem F) (v : F) :
    ((FansPredictionSystem.reversePredictExponential log sys v).1 = none ↔
      (sys.chart.exponentialModel = none ∨
        ∃ m : ExponentialModel F, sys.chart.exponentialModel = some m ∧
          (m.lam ≤ 0 ∨ v - m.c ≤ 0 ∨ v - m.c > 2 * m.a))) ∧
    (∀ m : ExponentialModel F, sys.chart.exponentialModel = some m →
      0 < m.lam → 0 < v - m.c → v - m.c ≤ 2 * m.a →
      (FansPredictionSystem.reversePredictExponential log sys v).1
        = some (newDate (m.startTime + (-log ((v - m.c) / m.a) / m.lam) * 86400000))
      ∧ (|m.startTime + (-log ((v - m.c) / m.a) / m.lam) * 86400000| ≤ maxTimeValue →
          ∃ t : F, newDate (m.startTime + (-log ((v - m.c) / m.a) / m.lam) * 86400000)
              = JsDate.valid t
            ∧ |t - (m.startTime + (-log ((v - m.c) / m.a) / m.lam) * 86400000)| < 1
            ∧ (∃ k : ℤ, t = (k : F))
            ∧ ((∃ k : ℤ, m.startTime + (-log ((v - m.c) / m.a) / m.lam) * 86400000
                  = (k : F)) →
                t = m.startTime + (-log ((v - m.c) / m.a) / m.lam) * 86400000))
      ∧ (maxTimeValue < |m.startTime + (-log ((v - m.c) / m.a) / m.lam) * 86400000| →
          newDate (m.startTime + (-log ((v - m.c) / m.a) / m.lam) * 86400000)
            = JsDate.invalid)) ∧
    (∀ m : ExponentialModel F, sys.chart.exponentialModel = some m → v ≤ m.c →
      (FansPredictionSystem.reversePredictExponential log sys v).1 = none) ∧
    (FansPredictionSystem.reversePredictExponential log sys v).2 = sys := by
  refine ⟨?_, ?_, ?_, ?_⟩
  · cases hmod : sys.chart.exponentialModel with
    | none =>
      rw [reversePredictExponential_of_none log sys v hmod]
      exact ⟨fun _ => Or.inl rfl, fun _ => rfl⟩
    | some m =>
      rw [reversePredictExponential_of_model log sys v m hmod]
      constructor
      · intro h
        refine Or.inr ⟨m, rfl, ?_⟩
        by_cases hl : m.lam ≤ 0
        · exact Or.inl hl
        · by_cases hr : v - m.c ≤ 0 ∨ v - m.c > m.a * 2
          · rcases hr with h1 | h1
            · exact Or.inr (Or.inl h1)
            · exact Or.inr (Or.inr (by rw [mul_comm]; exact h1))
          · rw [if_neg hl, if_neg hr] at h
            exact absurd h (by simp)
      · intro h
        rcases h with h | ⟨m', hm', hc⟩
        · exact absurd h (by simp)
        · have hmm : m' = m := (Option.some.inj hm').symm
          subst hmm
          by_cases hl : m'.lam ≤ 0
          · rw [if_pos hl]
          · have hr : v - m'.c ≤ 0 ∨ v - m'.c > m'.a * 2 := by
              rcases hc with h1 | h1 | h1
              · exact absurd h1 hl
              · exact Or.inl h1
              · exact Or.inr (by rw [mul_comm]; exact h1)
            rw [if_neg hl, if_pos hr]
  · intro m hm hlam hu hle
    refine ⟨?_, fun h => newDate_of_le _ h, fun h => newDate_of_gt _ h⟩
    rw [reversePredictExponential_of_model log sys v m hm]
    have hl : ¬ m.lam ≤ 0 := not_le.mpr hlam
    have hr : ¬ (v - m.c ≤ 0 ∨ v - m.c > m.a * 2) := by
      intro h
      rcases h with h | h
      · exact absurd hu (not_lt.mpr h)
      · rw [mul_comm] at h
        exact absurd hle (not_le.mpr h)
    rw [if_neg hl, if_neg hr, ms_factor]
  · intro m hm hle
    rw [reversePredictExponential_of_model log sys v m hm]
    by_cases hl : m.lam ≤ 0
    · rw [if_pos hl]
    · rw [if_neg hl, if_pos (Or.inl (sub_nonpos.mpr hle))]
  · cases hmod : sys.chart.exponentialModel with
    | none => rw [reversePredictExponential_of_none log sys v hmod]
    | some m =>
      rw [reversePredictExponential_of_model log sys v m hmod]
      split_ifs <;> rfl

/-! ## The confidence score -/

/-- The rounding `Math.round` is within one half of its argument. -/
theorem jsRound_bounds [FloorRing F] (v : F) :
    v - 1 / 2 < (jsRound v : F) ∧ (jsRound v : F) ≤ v + 1 / 2 := by
  unfold jsRound
  constructor
  · have := Int.lt_floor_add_one (v + 1 / 2)
    linarith
  · exact Int.floor_le _

/-- The rounding `Math.round` is monotone. -/
theorem jsRound_mono [FloorRing F] : Monotone (jsRound (F := F)) := by
  intro a b hab
  unfold jsRound
  exact Int.floor_mono (by linarith)

/-- The rounding `Math.round` fixes the integers. -/
theorem jsRound_intCast [FloorRing F] (n : ℤ) : jsRound ((n : ℤ) : F) = n := by
  unfold jsRound
  rw [Int.floor_eq_iff]
  constructor
  · linarith
  · linarith

/-- Rounding before or after the clamp to `[30, 95]` gives the same integer. -/
theorem jsRound_clamp [FloorRing F] (v : F) :
    jsRound (max 30 (min 95 v)) = max 30 (min 95 (jsRound v)) := by
  rw [(jsRound_mono (F := F)).map_max, (jsRound_mono (F := F)).map_min]
  have h30 : jsRound (30 : F) = 30 := by
    have := jsRound_intCast (F := F) 30
    simpa using this
  have h95 : jsRound (95 : F) = 95 := by
    have := jsRound_intCast (F := F) 95
    simpa using this
  rw [h30, h95]

/-- The value of `calculateConfidence` when the three dates are valid and the first
and the last time value differ. -/
theorem calculateConfidence_eq [FloorRing F] (self : FansPredictionSystem F)
    (first last target : F)
    (hfirst : newDate (firstTimestamp self.chart.data) = JsDate.valid first)
    (hlast : newDate (lastTimestamp self.chart.data) = JsDate.valid last)
    (hrange : first ≠ last) :
    FansPredictionSystem.calculateConfidence self (JsDate.valid target)
      = some (max 30 (min 95 (jsRound (100 - 50 * (target - last) / (last - first))))) := by
  have hne : last - first ≠ 0 := by
    intro h
    apply hrange
    linarith
  unfold FansPredictionSystem.calculateConfidence
  rw [hfirst, hlast]
  simp only [JsDate.getTime, hne, if_false]
  congr 4
  ring

/-- The date of a whole timestamp within the range has that timestamp as time value. -/
theorem newDate_of_whole [FloorRing F] (v : F) (h : |v| ≤ maxTimeValue)
    (hk : ∃ k : ℤ, v = (k : F)) : newDate v = JsDate.valid v := by
  obtain ⟨t, ht, -, -, hwhole⟩ := newDate_of_le v h
  rw [ht, hwhole hk]

/-- C14 fails as stated: for the series with the timestamps `1.9` and `3.1` and the
target `4`, `calculateConfidence` returns `75` (the dates hold the time values 1
and 3), whereas `100 - 50·(4 - 3.1)/(3.1 - 1.9) = 62.5` rounds to `63`. -/
theorem confidence_counterexample :
    FansPredictionSystem.calculateConfidence
        fractionalTimesSystem (JsDate.valid 4)
      = some 75
    ∧ firstTimestamp fractionalTimesSystem.chart.data
        ≠ lastTimestamp fractionalTimesSystem.chart.data
    ∧ max 30 (min 95 (jsRound (100 - 50 * ((4 : ℚ) - 31 / 10) / (31 / 10 - 19 / 10))))
        = 63 := by
  have hf1 : ⌊(19 / 10 : ℚ)⌋ = 1 := by
    rw [Int.floor_eq_iff]
    norm_num
  have hf3 : ⌊(31 / 10 : ℚ)⌋ = 3 := by
    rw [Int.floor_eq_iff]
    norm_num
  have hfirst : newDate (firstTimestamp fractionalTimesSystem.chart.data)
      = JsDate.valid 1 := by
    have e : firstTimestamp fractionalTimesSystem.chart.data = 19 / 10 := rfl
    rw [e]
    unfold newDate
    rw [if_neg (by norm_num [maxTimeValue, abs_of_pos]), if_pos (by norm_num), hf1]
    norm_num
  have hlast : newDate (lastTimestamp fractionalTimesSystem.chart.data)
      = JsDate.valid 3 := by
    have e : lastTimestamp fractionalTimesSystem.chart.data = 31 / 10 := rfl
    rw [e]
    unfold newDate
    rw [if_neg (by norm_num [maxTimeValue, abs_of_pos]), if_pos (by norm_num), hf3]
    norm_num
  refine ⟨?_, ?_, ?_⟩
  · rw [calculateConfidence_eq fractionalTimesSystem 1 3 4 hfirst hlast (by norm_num)]
    have hr : jsRound (100 - 50 * ((4 : ℚ) - 3) / (3 - 1)) = 75 := by
      unfold jsRound
      rw [Int.floor_eq_iff]
      norm_num
    rw [hr]
    rfl
  · norm_num [firstTimestamp, lastTimestamp, fractionalTimesSystem, halfMillisecondSystem]
  · have hr : jsRound (100 - 50 * ((4 : ℚ) - 31 / 10) / (31 / 10 - 19 / 10)) = 63 := by
      unfold jsRound
      rw [Int.floor_eq_iff]
      norm_num
    rw [hr]
    rfl

/-- C14 (amended): for every target date and every series, when the dates built from
the first and the last timestamp are valid with different time values `first` and
`last` and the target date is valid with time value `target`, `calculateConfidence`
returns an integer `k` with `30 ≤ k ≤ 95`, equal to
`v = 100 - 50·(target - last)/(last - first)` rounded to the nearest integer
(`Math.round`, within one half of `v`) and clamped to `[30, 95]` (clamping first and
rounding afterwards gives the same integer); when one of the three dates is invalid
the result is `NaN`; and for a timestamp that is a whole number of milliseconds
within `±8.64e15` the time value of its date is the timestamp. -/
theorem confidence_is_rounded_clamped_formula [FloorRing F] (self : FansPredictionSystem F)
    (targetDate : JsDate F) :
    (∀ first last target : F,
      newDate (firstTimestamp self.chart.data) = JsDate.valid first →
      newDate (lastTimestamp self.chart.data) = JsDate.valid last →
      targetDate = JsDate.valid target → first ≠ last →
      ∃ k : ℤ, FansPredictionSystem.calculateConfidence self targetDate = some k
        ∧ 30 ≤ k ∧ k ≤ 95
        ∧ k = max 30 (min 95 (jsRound (100 - 50 * (target - last) / (last - first))))
        ∧ k = jsRound (max 30 (min 95 (100 - 50 * (target - last) / (last - first))))
        ∧ (100 - 50 * (target - last) / (last - first)) - 1 / 2
          < ((jsRound (100 - 50 * (target - last) / (last - first)) : ℤ) : F)
        ∧ ((jsRound (100 - 50 * (target - last) / (last - first)) : ℤ) : F)
          ≤ (100 - 50 * (target - last) / (last - first)) + 1 / 2)
    ∧ ((newDate (firstTimestamp self.chart.data) = JsDate.invalid
          ∨ newDate (lastTimestamp self.chart.data) = JsDate.invalid
          ∨ targetDate = JsDate.invalid) →
        FansPredictionSystem.calculateConfidence self targetDate = none)
    ∧ (∀ v : F, |v| ≤ maxTimeValue → (∃ k : ℤ, v = (k : F)) →
        newDate v = JsDate.valid v) := by
  refine ⟨?_, ?_, fun v hv hk => newDate_of_whole v hv hk⟩
  · intro first last target hfirst hlast htarget hrange
    rw [htarget]
    exact ⟨_, calculateConfidence_eq self first last target hfirst hlast hrange,
      le_max_left _ _, max_le (by norm_num) (min_le_left _ _), rfl, (jsRound_clamp _).symm,
      (jsRound_bounds _).1, (jsRound_bounds _).2⟩
  · intro h
    unfold FansPredictionSystem.calculateConfidence
    rcases h with h | h | h
    · rw [h]
      cases (newDate (lastTimestamp self.chart.data)).getTime <;> rfl
    · rw [h]
      rfl
    · rw [h]
      cases (newDate (lastTimestamp self.chart.data)).getTime <;>
        cases (newDate (firstTimestamp self.chart.data)).getTime <;> rfl

/-- C26 fails as stated: for the series with the timestamps `0.5` and `1.9` (last
later than first) and the target `2`, which is no later than
`last + 0.1·(last - first) = 2.04`, `calculateConfidence` returns `50`, not `95` (the
dates hold the time values 0 and 1). -/
theorem confidence_threshold_counterexample :
    firstTimestamp halfMillisecondSystem.chart.data
        < lastTimestamp halfMillisecondSystem.chart.data
    ∧ (2 : ℚ) ≤ lastTimestamp halfMillisecondSystem.chart.data
        + 1 / 10 * (lastTimestamp halfMillisecondSystem.chart.data
          - firstTimestamp halfMillisecondSystem.chart.data)
    ∧ FansPredictionSystem.calculateConfidence
        halfMillisecondSystem (JsDate.valid 2)
      = some 50 := by
  have hf0 : ⌊(1 / 2 : ℚ)⌋ = 0 := by
    rw [Int.floor_eq_iff]
    norm_num
  have hf1 : ⌊(19 / 10 : ℚ)⌋ = 1 := by
    rw [Int.floor_eq_iff]
    norm_num
  have hfirst : newDate (firstTimestamp halfMillisecondSystem.chart.data)
      = JsDate.valid 0 := by
    have e : firstTimestamp halfMillisecondSystem.chart.data = 1 / 2 := rfl
    rw [e]
    unfold newDate
    rw [if_neg (by norm_num [maxTimeValue, abs_of_pos]), if_pos (by norm_num), hf0]
    norm_num
  have hlast : newDate (lastTimestamp halfMillisecondSystem.chart.data)
      = JsDate.valid 1 := by
    have e : lastTimestamp halfMillisecondSystem.chart.data = 19 / 10 := rfl
    rw [e]
    unfold newDate
    rw [if_neg (by norm_num [maxTimeValue, abs_of_pos]), if_pos (by norm_num), hf1]
    norm_num
  refine ⟨?_, ?_, ?_⟩
  · norm_num [firstTimestamp, lastTimestamp, fractionalTimesSystem, halfMillisecondSystem]
  · norm_num [firstTimestamp, lastTimestamp, fractionalTimesSystem, halfMillisecondSystem]
  · rw [calculateConfidence_eq halfMillisecondSystem 0 1 2 hfirst hlast (by norm_num)]
    have hr : jsRound (100 - 50 * ((2 : ℚ) - 1) / (1 - 0)) = 50 := by
      unfold jsRound
      rw [Int.floor_eq_iff]
      norm_num
    rw [hr]
    rfl

/-- C26 (amended): for a fixed series whose first and last timestamp give valid dates
with time values `first < last` (the timestamps truncated to whole milliseconds),
`calculateConfidence` returns an integer for every valid target date, is
non-increasing in the target, returns `95` for every target no later than
`last + 0.1·(last - first)` (so for every target up to `last`) and `30` for every target
at least `1.4·(last - first)` beyond `last`. -/
theorem confidence_is_antitone [FloorRing F] (self : FansPredictionSystem F) (first last : F)
    (hfirst : newDate (firstTimestamp self.chart.data) = JsDate.valid first)
    (hlast : newDate (lastTimestamp self.chart.data) = JsDate.valid last)
    (hrange : first < last) :
    (∀ t : F, ∃ k : ℤ,
        FansPredictionSystem.calculateConfidence self (JsDate.valid t) = some k)
    ∧ (∀ (t1 t2 : F) (k1 k2 : ℤ), t1 ≤ t2 →
        FansPredictionSystem.calculateConfidence self (JsDate.valid t1) = some k1 →
        FansPredictionSystem.calculateConfidence self (JsDate.valid t2) = some k2 →
        k2 ≤ k1)
    ∧ (∀ t : F, t ≤ last + 1 / 10 * (last - first) →
        FansPredictionSystem.calculateConfidence self (JsDate.valid t) = some 95)
    ∧ (∀ t : F, t ≤ last →
        FansPredictionSystem.calculateConfidence self (JsDate.valid t) = some 95)
    ∧ (∀ t : F, last + 14 / 10 * (last - first) ≤ t →
        FansPredictionSystem.calculateConfidence self (JsDate.valid t) = some 30) := by
  have hne : first ≠ last := ne_of_lt hrange
  have hpos : 0 < last - first := by linarith
  have h30 : jsRound (30 : F) = 30 := by
    have := jsRound_intCast (F := F) 30
    simpa using this
  have h95 : jsRound (95 : F) = 95 := by
    have := jsRound_intCast (F := F) 95
    simpa using this
  have hhigh : ∀ t : F, t ≤ last + 1 / 10 * (last - first) →
      FansPredictionSystem.calculateConfidence self (JsDate.valid t) = some 95 := by
    intro t ht
    rw [calculateConfidence_eq self first last t hfirst hlast hne]
    have hv : (95 : F) ≤ 100 - 50 * (t - last) / (last - first) := by
      rw [le_sub_iff_add_le, ← le_sub_iff_add_le', div_le_iff₀ hpos]
      linarith
    have hk := jsRound_mono hv
    rw [h95] at hk
    rw [min_eq_left hk]
    rfl
  refine ⟨fun t => ⟨_, calculateConfidence_eq self first last t hfirst hlast hne⟩, ?_,
    hhigh, ?_, ?_⟩
  · intro t1 t2 k1 k2 ht h1 h2
    rw [calculateConfidence_eq self first last t1 hfirst hlast hne] at h1
    rw [calculateConfidence_eq self first last t2 hfirst hlast hne] at h2
    have e1 := Option.some.inj h1
    have e2 := Option.some.inj h2
    rw [← e1, ← e2]
    have hv : 100 - 50 * (t2 - last) / (last - first)
        ≤ 100 - 50 * (t1 - last) / (last - first) := by
      apply sub_le_sub_left
      apply div_le_div_of_nonneg_right _ (le_of_lt hpos)
      linarith
    exact max_le_max (le_refl _) (min_le_min (le_refl _) (jsRound_mono hv))
  · intro t ht
    apply hhigh
    linarith [mul_pos (by norm_num : (0 : F) < 1 / 10) hpos]
  · intro t ht
    rw [calculateConfidence_eq self first last t hfirst hlast hne]
    have hv : 100 - 50 * (t - last) / (last - first) ≤ (30 : F) := by
      rw [sub_le_iff_le_add, ← sub_le_iff_le_add', le_div_iff₀ hpos]
      linarith
    have hk := jsRound_mono hv
    rw [h30] at hk
    rw [min_eq_right (by linarith : jsRound (100 - 50 * (t - last) / (last - first)) ≤ 95)]
    rw [max_eq_left hk]

/-- C26 (amended) on the series `0 .. 1000`: confidence `95` at target `1100`, `30` at
target `2400`. -/
theorem confidence_is_antitone_witness :
    FansPredictionSystem.calculateConfidence confidenceScenario (JsDate.valid 1100) = some 95
    ∧ FansPredictionSystem.calculateConfidence confidenceScenario (JsDate.valid 2400)
        = some 30 :=
  ⟨(confidence_is_antitone confidenceScenario 0 1000
      (by
        have h := newDate_of_whole (0 : ℚ) (by norm_num [maxTimeValue]) ⟨0, by norm_num⟩
        simpa [confidenceScenario, firstTimestamp] using h)
      (by
        have h := newDate_of_whole (1000 : ℚ) (by norm_num [maxTimeValue, abs_of_pos])
          ⟨1000, by norm_num⟩
        simpa [confidenceScenario, lastTimestamp] using h)
      (by norm_num)).2.2.1 1100 (by norm_num),
    (confidence_is_antitone confidenceScenario 0 1000
      (by
        have h := newDate_of_whole (0 : ℚ) (by norm_num [maxTimeValue]) ⟨0, by norm_num⟩
        simpa [confidenceScenario, firstTimestamp] using h)
      (by
        have h := newDate_of_whole (1000 : ℚ) (by norm_num [maxTimeValue, abs_of_pos])
          ⟨1000, by norm_num⟩
        simpa [confidenceScenario, lastTimestamp] using h)
      (by norm_num)).2.2.2.2 2400 (by norm_num)⟩

/-! ## Arithmetic on doubles as far as their range goes -/

theorem overflowBound_pos : (0 : F) < overflowBound := by
  unfold overflowBound
  have h : (2 : F) ^ 970 < 2 ^ 1024 := pow_lt_pow_right₀ (by norm_num) (by norm_num)
  linarith

theorem underflowBound_pos : (0 : F) < underflowBound := by
  unfold underflowBound
  positivity

theorem JsNumber.add_def (a b : JsNumber F) : a + b = JsNumber.add a b := rfl

theorem JsNumber.mul_def (a b : JsNumber F) : a * b = JsNumber.mul a b := rfl

theorem JsNumber.div_def (a b : JsNumber F) : a / b = JsNumber.div a b := rfl

theorem JsNumber.neg_def (a : JsNumber F) : -a = JsNumber.neg a := rfl

theorem JsNumber.sub_def (a b : JsNumber F) : a - b = JsNumber.add a (JsNumber.neg b) := rfl

/-- A clipped non-negative real is not negative. -/
theorem clip_notNegative (v : F) (hv : 0 ≤ v) : (JsNumber.clip v).notNegative = true := by
  unfold JsNumber.clip
  have hb := overflowBound_pos (F := F)
  split_ifs with h1 h2 h3
  · rfl
  · exfalso
    linarith
  · simp [JsNumber.notNegative]
  · simp [JsNumber.notNegative, hv]

theorem clipSum_notNegative (v : F) (hv : 0 ≤ v) :
    (JsNumber.clipSum v).notNegative = true := by
  unfold JsNumber.clipSum
  have hb := overflowBound_pos (F := F)
  split_ifs with h1 h2
  · rfl
  · exfalso
    linarith
  · simp [JsNumber.notNegative, hv]

/-- A square is not negative. -/
theorem mul_self_notNegative (a : JsNumber F) : (a * a).notNegative = true := by
  rw [JsNumber.mul_def]
  cases a with
  | finite v => exact clip_notNegative _ (mul_self_nonneg v)
  | nan => rfl
  | posInf => rfl
  | negInf => rfl

/-- A sum of numbers that are not negative is not negative. -/
theorem add_notNegative (a b : JsNumber F) (ha : a.notNegative = true)
    (hb : b.notNegative = true) : (a + b).notNegative = true := by
  rw [JsNumber.add_def]
  cases a <;> cases b <;> simp [JsNumber.notNegative, JsNumber.add] at ha hb ⊢
  exact clipSum_notNegative _ (add_nonneg ha hb)

/-- A sum of squares, accumulated from a start that is not negative, is not negative. -/
theorem foldl_squares_notNegative {α : Type} (f : α → JsNumber F) (l : List α)
    (s : JsNumber F) (hs : s.notNegative = true) :
    (l.foldl (fun sum p => sum + f p * f p) s).notNegative = true := by
  induction l generalizing s with
  | nil => exact hs
  | cons h t ih =>
    rw [List.foldl_cons]
    exact ih _ (add_notNegative _ _ hs (mul_self_notNegative _))

/-- The value `r2 = ssTotal > 0 ? 1 - ssResidual/ssTotal : 0` is `NaN`, `-Infinity`
or a finite number at most 1, when `ssResidual` is not negative. -/
theorem rSquared_range (ssTotal ssResidual : JsNumber F)
    (hres : ssResidual.notNegative = true) :
    Js.rSquared ssTotal ssResidual = JsNumber.nan
    ∨ Js.rSquared ssTotal ssResidual = JsNumber.negInf
    ∨ ∃ v : F, Js.rSquared ssTotal ssResidual = JsNumber.finite v ∧ v ≤ 1 := by
  have hB := overflowBound_pos (F := F)
  have hU := underflowBound_pos (F := F)
  unfold Js.rSquared
  by_cases h0 : JsNumber.lt (JsNumber.finite 0) ssTotal = true
  · rw [if_pos h0]
    rw [JsNumber.sub_def, JsNumber.div_def]
    cases ssTotal with
    | nan => simp [JsNumber.lt] at h0
    | negInf => simp [JsNumber.lt] at h0
    | posInf =>
      cases ssResidual with
      | nan => left; rfl
      | negInf => simp [JsNumber.notNegative] at hres
      | posInf => left; rfl
      | finite r =>
        right; right
        refine ⟨1, ?_, le_refl _⟩
        simp only [JsNumber.div, JsNumber.neg, JsNumber.add, neg_zero, add_zero]
        unfold JsNumber.clipSum
        rw [if_neg (by
          unfold overflowBound
          have h : (2 : F) ^ 971 ≤ 2 ^ 1024 := pow_le_pow_right₀ (by norm_num) (by norm_num)
          have h2 : (2 : F) ^ 971 = 2 * 2 ^ 970 := by rw [pow_succ]; ring
          have h3 : (1 : F) ≤ 2 ^ 970 := one_le_pow₀ (by norm_num)
          linarith), if_neg (by linarith)]
    | finite t =>
      have ht : 0 < t := by simpa [JsNumber.lt] using h0
      cases ssResidual with
      | nan => left; rfl
      | negInf => simp [JsNumber.notNegative] at hres
      | posInf =>
        right; left
        simp [JsNumber.div, JsNumber.neg, JsNumber.add, le_of_lt ht]
      | finite r =>
        have hr : 0 ≤ r := by simpa [JsNumber.notNegative] using hres
        have hq : 0 ≤ r / t := div_nonneg hr (le_of_lt ht)
        simp only [JsNumber.div, if_neg (ne_of_gt ht)]
        unfold JsNumber.clip
        split_ifs with h1 h2 h3
        · right; left
          rfl
        · exfalso
          linarith
        · right; right
          refine ⟨1, ?_, le_refl _⟩
          simp only [JsNumber.neg, JsNumber.add, neg_zero, add_zero]
          unfold JsNumber.clipSum
          rw [if_neg (by
            unfold overflowBound
            have h : (2 : F) ^ 971 ≤ 2 ^ 1024 := pow_le_pow_right₀ (by norm_num) (by norm_num)
            have h2 : (2 : F) ^ 971 = 2 * 2 ^ 970 := by rw [pow_succ]; ring
            have h3 : (1 : F) ≤ 2 ^ 970 := one_le_pow₀ (by norm_num)
            linarith), if_neg (by linarith)]
        · simp only [JsNumber.neg, JsNumber.add]
          unfold JsNumber.clipSum
          split_ifs with h4 h5
          · exfalso
            have h3b : (1 : F) ≤ 2 ^ 970 := one_le_pow₀ (by norm_num)
            have h : (2 : F) ^ 971 ≤ 2 ^ 1024 := pow_le_pow_right₀ (by norm_num) (by norm_num)
            have h2b : (2 : F) ^ 971 = 2 * 2 ^ 970 := by rw [pow_succ]; ring
            unfold overflowBound at h4
            linarith
          · right; left
            rfl
          · right; right
            exact ⟨_, rfl, by linarith⟩
  · rw [if_neg h0]
    right; right
    exact ⟨0, rfl, by norm_num⟩

/-! ## Evaluating the range-limited arithmetic -/

/-- A real within the overflow bound is its own sum-clipped double. -/
theorem clipSum_of_abs_lt (v : F) (h : |v| < overflowBound) :
    JsNumber.clipSum v = JsNumber.finite v := by
  have h2 := abs_lt.mp h
  unfold JsNumber.clipSum
  rw [if_neg (not_le.mpr h2.2), if_neg (not_le.mpr h2.1)]

/-- A real within the overflow bound and beyond the underflow bound (or zero) is its
own clipped double. -/
theorem clip_of_abs_lt (v : F) (h : |v| < overflowBound)
    (hu : v = 0 ∨ underflowBound < |v|) : JsNumber.clip v = JsNumber.finite v := by
  have h2 := abs_lt.mp h
  unfold JsNumber.clip
  rw [if_neg (not_le.mpr h2.2), if_neg (not_le.mpr h2.1)]
  rcases hu with h0 | hu
  · rw [h0]
    simp [le_of_lt underflowBound_pos]
  · rw [if_neg (not_le.mpr hu)]

/-- A real at or beyond the overflow bound clips to `Infinity`. -/
theorem clip_of_le (v : F) (h : overflowBound ≤ v) : JsNumber.clip v = JsNumber.posInf := by
  unfold JsNumber.clip
  rw [if_pos h]

theorem pow_1000_lt_overflowBound : (2 : F) ^ 1000 < overflowBound := by
  unfold overflowBound
  have h1 : (2 : F) ^ 1024 = 2 ^ 24 * 2 ^ 1000 := by rw [← pow_add]
  have h2 : (2 : F) ^ 970 ≤ 2 ^ 1000 := pow_le_pow_right₀ (by norm_num) (by norm_num)
  have h3 : (0 : F) < 2 ^ 1000 := by positivity
  rw [h1]
  nlinarith

theorem underflowBound_lt_inv_pow_1000 : (underflowBound : F) < 1 / 2 ^ 1000 := by
  unfold underflowBound
  apply one_div_lt_one_div_of_lt (by positivity)
  exact pow_lt_pow_right₀ (by norm_num) (by norm_num)

/-- Sums of moderate reals are exact. -/
theorem add_finite (a b : F) (h : |a + b| ≤ 2 ^ 1000) :
    JsNumber.finite a + JsNumber.finite b = JsNumber.finite (a + b) := by
  rw [JsNumber.add_def]
  exact clipSum_of_abs_lt _ (lt_of_le_of_lt h pow_1000_lt_overflowBound)

/-- Differences of moderate reals are exact. -/
theorem sub_finite (a b : F) (h : |a - b| ≤ 2 ^ 1000) :
    JsNumber.finite a - JsNumber.finite b = JsNumber.finite (a - b) := by
  rw [JsNumber.sub_def]
  simp only [JsNumber.neg, JsNumber.add]
  rw [← sub_eq_add_neg]
  exact clipSum_of_abs_lt _ (lt_of_le_of_lt h pow_1000_lt_overflowBound)

/-- Products of moderate size are exact. -/
theorem mul_finite (a b : F) (h : |a * b| ≤ 2 ^ 1000)
    (hu : a * b = 0 ∨ 1 / 2 ^ 1000 ≤ |a * b|) :
    JsNumber.finite a * JsNumber.finite b = JsNumber.finite (a * b) := by
  rw [JsNumber.mul_def]
  simp only [JsNumber.mul]
  apply clip_of_abs_lt _ (lt_of_le_of_lt h pow_1000_lt_overflowBound)
  rcases hu with h0 | hu
  · exact Or.inl h0
  · exact Or.inr (lt_of_lt_of_le underflowBound_lt_inv_pow_1000 hu)

/-- Quotients of moderate size are exact. -/
theorem div_finite (a b : F) (hb : b ≠ 0) (h : |a / b| ≤ 2 ^ 1000)
    (hu : a / b = 0 ∨ 1 / 2 ^ 1000 ≤ |a / b|) :
    JsNumber.finite a / JsNumber.finite b = JsNumber.finite (a / b) := by
  rw [JsNumber.div_def]
  simp only [JsNumber.div, if_neg hb]
  apply clip_of_abs_lt _ (lt_of_le_of_lt h pow_1000_lt_overflowBound)
  rcases hu with h0 | hu
  · exact Or.inl h0
  · exact Or.inr (lt_of_lt_of_le underflowBound_lt_inv_pow_1000 hu)

/-- The square of a real of absolute value at least `2^512` overflows. -/
theorem mul_self_overflow (v : F) (h : 2 ^ 512 ≤ |v|) :
    JsNumber.finite v * JsNumber.finite v = JsNumber.posInf := by
  rw [JsNumber.mul_def]
  simp only [JsNumber.mul]
  apply clip_of_le
  have h1 : (2 : F) ^ 1024 ≤ |v| * |v| := by
    have : (2 : F) ^ 1024 = 2 ^ 512 * 2 ^ 512 := by rw [← pow_add]
    rw [this]
    exact mul_le_mul h h (by positivity) (abs_nonneg v)
  rw [abs_mul_abs_self] at h1
  unfold overflowBound
  have h3 : (0 : F) < 2 ^ 970 := by positivity
  linarith

/-- The square of a number that is not `NaN` is a finite number or `Infinity`. -/
theorem mul_self_not_nan (a : JsNumber F) (ha : a.isNaN = false) :
    (a * a = JsNumber.posInf) ∨ ∃ v : F, a * a = JsNumber.finite v := by
  rw [JsNumber.mul_def]
  cases a with
  | nan => simp [JsNumber.isNaN] at ha
  | posInf => left; rfl
  | negInf => left; rfl
  | finite v =>
    simp only [JsNumber.mul]
    unfold JsNumber.clip
    split_ifs with h1 h2 h3
    · left; rfl
    · exfalso
      have := mul_self_nonneg v
      have hb := overflowBound_pos (F := F)
      linarith
    · right; exact ⟨_, rfl⟩
    · right; exact ⟨_, rfl⟩

/-- Adding squares of numbers that are not `NaN` to `Infinity` gives `Infinity`. -/
theorem foldl_squares_posInf {α : Type} (f : α → JsNumber F) (l : List α)
    (hl : ∀ p ∈ l, (f p).isNaN = false) :
    l.foldl (fun sum p => sum + f p * f p) JsNumber.posInf = JsNumber.posInf := by
  induction l with
  | nil => rfl
  | cons h t ih =>
    rw [List.foldl_cons]
    have hh := mul_self_not_nan (f h) (hl h (List.mem_cons_self _ _))
    have hstep : JsNumber.posInf + f h * f h = (JsNumber.posInf : JsNumber F) := by
      rcases hh with e | ⟨v, e⟩
      · rw [e]; rfl
      · rw [e]; rfl
    rw [hstep]
    exact ih (fun p hp => hl p (List.mem_cons_of_mem _ hp))

/-- A sum of squares whose first square overflows is `Infinity`. -/
theorem foldl_squares_overflow {α : Type} (f : α → JsNumber F) (h : α) (t : List α) (v : F)
    (hv : f h = JsNumber.finite v) (hbig : 2 ^ 512 ≤ |v|)
    (ht : ∀ p ∈ t, (f p).isNaN = false) :
    (h :: t).foldl (fun sum p => sum + f p * f p) (JsNumber.finite 0) = JsNumber.posInf := by
  rw [List.foldl_cons, hv, mul_self_overflow v hbig]
  have h0 : JsNumber.finite (0 : F) + JsNumber.posInf = JsNumber.posInf := rfl
  rw [h0]
  exact foldl_squares_posInf f t ht

/-- A filter that keeps at least ten of at most ten elements keeps them all. -/
theorem filter_all_of_ten {α : Type} (z : List α) (p : α → Bool) (hle : z.length ≤ 10)
    (h : ¬ (z.filter p).length < 10) :
    z.filter p = z ∧ (z.filter (fun a => !p a)).length = 0 := by
  have h1 : (z.filter p).length ≤ z.length := List.length_filter_le _ _
  have h2 : (z.filter p).length = z.length := by omega
  have hall : ∀ a ∈ z, p a = true := List.filter_length_eq_length.mp h2
  refine ⟨List.filter_eq_self.mpr hall, ?_⟩
  rw [List.length_eq_zero, List.filter_eq_nil_iff]
  intro a ha
  simp [hall a ha]

/-- On parallel arrays of at most ten elements the outlier step hands the arrays on
as they are: fewer than ten kept points revert to the unfiltered data. -/
theorem outlierStep_of_length_le (sqrt : F → F) (x y : List (JsNumber F))
    (hlen : x.length = y.length) (hle : x.length ≤ 10) :
    Js.outlierStep sqrt x y = (x, y, 0) := by
  unfold Js.outlierStep
  simp only
  split_ifs with h
  · rfl
  · have hz : (x.zip y).length ≤ 10 := by
      rw [List.length_zip, hlen, min_self]
      omega
    obtain ⟨hall, hnone⟩ := filter_all_of_ten _ _ hz h
    rw [hall, hnone, List.map_fst_zip _ _ (le_of_eq hlen), List.map_snd_zip _ _ (le_of_eq hlen.symm)]

/-- The result of `simpleExponentialFit` from the values of its intermediate
quantities, when no rejection fires. -/
theorem simpleExponentialFit_of (exp log : F → F) (x y lnY yPred : List (JsNumber F))
    (c sumX sumLnY sumXLnY sumXX denominator slope intercept a lam yMean ssTotal ssResidual
      r2 : JsNumber F)
    (hc : JsNumber.minOf y * JsNumber.finite (9 / 10) = c)
    (hany : (y.map (fun yi => yi - c)).any (fun v => JsNumber.le v (JsNumber.finite 0)) = false)
    (hln : (y.map (fun yi => yi - c)).map (fun v => JsNumber.log log v) = lnY)
    (hsumX : x.foldl (fun a b => a + b) (JsNumber.finite 0) = sumX)
    (hsumLnY : lnY.foldl (fun a b => a + b) (JsNumber.finite 0) = sumLnY)
    (hsumXLnY : (x.zip lnY).foldl (fun sum p => sum + p.1 * p.2) (JsNumber.finite 0) = sumXLnY)
    (hsumXX : x.foldl (fun sum xi => sum + xi * xi) (JsNumber.finite 0) = sumXX)
    (hden : JsNumber.ofNat x.length * sumXX - sumX * sumX = denominator)
    (hcheck : JsNumber.lt (JsNumber.abs denominator) (JsNumber.finite (1 / 10 ^ 10)) = false)
    (hslope : (JsNumber.ofNat x.length * sumXLnY - sumX * sumLnY) / denominator = slope)
    (hintercept : (sumLnY - slope * sumX) / JsNumber.ofNat x.length = intercept)
    (ha : JsNumber.exp exp intercept = a)
    (hlam : -slope = lam)
    (hpred : x.map (fun xi => a * JsNumber.exp exp (-lam * xi) + c) = yPred)
    (hmean : y.foldl (fun a b => a + b) (JsNumber.finite 0) / JsNumber.ofNat x.length = yMean)
    (htotal : y.foldl (fun sum yi => sum + (yi - yMean) * (yi - yMean)) (JsNumber.finite 0)
      = ssTotal)
    (hresidual : (y.zip yPred).foldl (fun sum p => sum + (p.1 - p.2) * (p.1 - p.2))
      (JsNumber.finite 0) = ssResidual)
    (hr2 : Js.rSquared ssTotal ssResidual = r2)
    (haccept : (a.isNaN || lam.isNaN || JsNumber.le lam (JsNumber.finite 0)
        || JsNumber.le a (JsNumber.finite 0) || JsNumber.lt r2 (JsNumber.finite (1 / 10)))
      = false) :
    Js.simpleExponentialFit exp log x y = some { a := a, lam := lam, c := c, r2 := r2 } := by
  subst hc hln hsumX hsumLnY hsumXLnY hsumXX hden hslope hintercept ha hlam hpred hmean
    htotal hresidual hr2
  unfold Js.simpleExponentialFit
  simp only [hany, hcheck, haccept, Bool.false_eq_true, if_false]

/-- A sum fold over exact non-negative terms of moderate total is exact. -/
theorem foldl_add_finite {α : Type} (f : α → JsNumber F) (g : α → F) (l : List α) (s : F)
    (hf : ∀ p ∈ l, f p = JsNumber.finite (g p) ∧ 0 ≤ g p) (hs : 0 ≤ s)
    (hsum : s + (l.map g).sum ≤ 2 ^ 1000) :
    l.foldl (fun sum p => sum + f p) (JsNumber.finite s)
      = JsNumber.finite (s + (l.map g).sum) := by
  induction l generalizing s with
  | nil => simp
  | cons h t ih =>
    obtain ⟨hh, hh0⟩ := hf h (List.mem_cons_self _ _)
    have ht : ∀ p ∈ t, f p = JsNumber.finite (g p) ∧ 0 ≤ g p :=
      fun p hp => hf p (List.mem_cons_of_mem _ hp)
    have htsum : 0 ≤ (t.map g).sum :=
      List.sum_nonneg (fun v hv => by
        obtain ⟨p, hp, rfl⟩ := List.mem_map.mp hv
        exact (ht p hp).2)
    rw [List.map_cons, List.sum_cons] at hsum
    rw [List.foldl_cons, hh, add_finite s (g h) (by
      rw [abs_of_nonneg (add_nonneg hs hh0)]
      linarith)]
    rw [ih (s + g h) ht (add_nonneg hs hh0) (by linarith)]
    rw [List.map_cons, List.sum_cons, add_assoc]

/-- Subtracting a constant from exact values of moderate size is exact. -/
theorem map_sub_finite (l : List F) (c : F) (h : ∀ v ∈ l, |v - c| ≤ 2 ^ 1000) :
    (l.map JsNumber.finite).map (fun yi => yi - JsNumber.finite c)
      = (l.map (fun v => v - c)).map JsNumber.finite := by
  rw [List.map_map, List.map_map]
  apply List.map_congr_left
  intro v hv
  exact sub_finite v c (h v hv)

/-- The logarithm of exact positive values is exact. -/
theorem map_log_finite (log : F → F) (l : List F) (h : ∀ v ∈ l, 0 < v) :
    (l.map JsNumber.finite).map (fun v => JsNumber.log log v)
      = (l.map log).map JsNumber.finite := by
  rw [List.map_map, List.map_map]
  apply List.map_congr_left
  intro v hv
  have hv0 := h v hv
  simp only [Function.comp, JsNumber.log, if_neg (not_lt.mpr (le_of_lt hv0)),
    if_neg (ne_of_gt hv0)]

/-- The sum of exact non-negative values of moderate total is exact. -/
theorem sum_finite (l : List F) (h : ∀ v ∈ l, 0 ≤ v) (hsum : l.sum ≤ 2 ^ 1000) :
    (l.map JsNumber.finite).foldl (fun a b => a + b) (JsNumber.finite 0)
      = JsNumber.finite l.sum := by
  rw [List.foldl_map]
  have := foldl_add_finite (fun v : F => JsNumber.finite v) (fun v => v) l 0
    (fun p hp => ⟨rfl, h p hp⟩) (le_refl _) (by simpa using hsum)
  simpa using this

/-- The dot product of exact non-negative values is exact when every product is
zero or at least one and the total is moderate. -/
theorem dot_finite (x w : List F) (hx : ∀ v ∈ x, v = 0 ∨ 1 ≤ v) (hw : ∀ v ∈ w, v = 0 ∨ 1 ≤ v)
    (hsum : ((x.zip w).map (fun p => p.1 * p.2)).sum ≤ 2 ^ 1000) :
    ((x.map JsNumber.finite).zip (w.map JsNumber.finite)).foldl
        (fun sum p => sum + p.1 * p.2) (JsNumber.finite 0)
      = JsNumber.finite ((x.zip w).map (fun p => p.1 * p.2)).sum := by
  have hzip : (x.map JsNumber.finite).zip (w.map JsNumber.finite)
      = (x.zip w).map (fun p => (JsNumber.finite p.1, JsNumber.finite p.2)) := by
    rw [List.zip_map]
    rfl
  rw [hzip, List.foldl_map]
  have hnn : ∀ p ∈ x.zip w, 0 ≤ p.1 * p.2 ∧ (p.1 * p.2 = 0 ∨ 1 ≤ p.1 * p.2) := by
    intro p hp
    have h1 := hx p.1 (List.of_mem_zip hp).1
    have h2 := hw p.2 (List.of_mem_zip hp).2
    rcases h1 with h1 | h1
    · rw [h1, zero_mul]
      exact ⟨le_refl _, Or.inl rfl⟩
    · rcases h2 with h2 | h2
      · rw [h2, mul_zero]
        exact ⟨le_refl _, Or.inl rfl⟩
      · have : 1 ≤ p.1 * p.2 := by nlinarith
        exact ⟨by linarith, Or.inr this⟩
  have hterm : ∀ p ∈ x.zip w, p.1 * p.2 ≤ 2 ^ 1000 := by
    intro p hp
    have hle : p.1 * p.2 ≤ ((x.zip w).map (fun p => p.1 * p.2)).sum :=
      List.single_le_sum (fun v hv => by
        obtain ⟨q, hq, rfl⟩ := List.mem_map.mp hv
        exact (hnn q hq).1) _ (List.mem_map_of_mem _ hp)
    linarith
  have := foldl_add_finite
    (fun p : F × F => JsNumber.finite p.1 * JsNumber.finite p.2) (fun p => p.1 * p.2)
    (x.zip w) 0
    (fun p hp => ⟨mul_finite p.1 p.2 (by
        rw [abs_of_nonneg (hnn p hp).1]
        exact hterm p hp) (by
        rcases (hnn p hp).2 with h0 | h1
        · exact Or.inl h0
        · right
          rw [abs_of_nonneg (hnn p hp).1]
          refine le_trans ?_ h1
          rw [div_le_iff₀ (by positivity)]
          have : (1 : F) ≤ 2 ^ 1000 := one_le_pow₀ (by norm_num)
          linarith), (hnn p hp).1⟩)
    (le_refl _) (by simpa using hsum)
  simpa using this

/-- The sum of the squares of exact values that are zero or at least one is exact. -/
theorem sum_squares_finite (x : List F) (hx : ∀ v ∈ x, v = 0 ∨ 1 ≤ v)
    (hsum : (x.map (fun v => v * v)).sum ≤ 2 ^ 1000) :
    (x.map JsNumber.finite).foldl (fun sum xi => sum + xi * xi) (JsNumber.finite 0)
      = JsNumber.finite (x.map (fun v => v * v)).sum := by
  rw [List.foldl_map]
  have hterm : ∀ p ∈ x, p * p ≤ 2 ^ 1000 := by
    intro p hp
    have hle : p * p ≤ (x.map (fun v => v * v)).sum :=
      List.single_le_sum (fun v hv => by
        obtain ⟨q, hq, rfl⟩ := List.mem_map.mp hv
        exact mul_self_nonneg q) _ (List.mem_map_of_mem _ hp)
    linarith
  have := foldl_add_finite
    (fun p : F => JsNumber.finite p * JsNumber.finite p) (fun p => p * p) x 0
    (fun p hp => ⟨mul_finite p p (by
        rw [abs_of_nonneg (mul_self_nonneg p)]
        exact hterm p hp) (by
        rcases hx p hp with h0 | h1
        · left
          rw [h0, mul_zero]
        · right
          rw [abs_of_nonneg (mul_self_nonneg p)]
          have h2 : 1 ≤ p * p := by nlinarith
          refine le_trans ?_ h2
          rw [div_le_iff₀ (by positivity)]
          have : (1 : F) ≤ 2 ^ 1000 := one_le_pow₀ (by norm_num)
          linarith), mul_self_nonneg p⟩)
    (le_refl _) (by simpa using hsum)
  simpa using this

/-! ## A series whose sums of squares overflow -/

theorem log_two_bounds : (1 / 2 : ℝ) < Real.log 2 ∧ Real.log 2 < 1 := by
  have h1 := Real.log_two_gt_d9
  have h2 := Real.log_two_lt_d9
  constructor <;> linarith

theorem log_two_pow (n : ℕ) : Real.log ((2 : ℝ) ^ n) = n * Real.log 2 := Real.log_pow 2 n

theorem exp_mul_log_two (n : ℕ) : Real.exp (n * Real.log 2) = 2 ^ n := by
  rw [Real.exp_nat_mul, Real.exp_log (by norm_num)]

theorem exp_neg_mul_log_two (n : ℕ) : Real.exp (-Real.log 2 * n) = 1 / 2 ^ n := by
  have h : -Real.log 2 * n = -(n * Real.log 2) := by ring
  rw [h, Real.exp_neg, exp_mul_log_two, one_div]

theorem tenDays_eq : (tenDays : List ℝ) = (List.range 10).map (fun i : ℕ => (i : ℝ)) := by
  simp [tenDays, List.range_succ]

/-- The logarithms of the adjusted values of the overflowing series. -/
theorem overflow_log_values :
    ((overflowValues : List ℝ).map (fun v => v - 9 * 2 ^ 531)).map Real.log
      = [541 * Real.log 2, 537 * Real.log 2, 539 * Real.log 2, 537 * Real.log 2,
         536 * Real.log 2, 535 * Real.log 2, 534 * Real.log 2, 533 * Real.log 2,
         532 * Real.log 2, 531 * Real.log 2] := by
  simp only [overflowValues, List.map_cons, List.map_nil, add_sub_cancel_left]
  simp only [log_two_pow]
  norm_num

theorem overflow_values_mem (v : ℝ) (hv : v ∈ (overflowValues : List ℝ)) :
    9 * 2 ^ 531 + 2 ^ 531 ≤ v ∧ v ≤ 9 * 2 ^ 531 + 2 ^ 541 := by
  simp only [overflowValues, List.mem_cons, List.mem_singleton, List.not_mem_nil,
    or_false] at hv
  have h0 : (0 : ℝ) < 2 ^ 531 := by positivity
  have e1 : (2 : ℝ) ^ 532 = 2 * 2 ^ 531 := by rw [pow_succ]; ring
  have e2 : (2 : ℝ) ^ 533 = 4 * 2 ^ 531 := by rw [show 533 = 531 + 2 from rfl, pow_add]; ring
  have e3 : (2 : ℝ) ^ 534 = 8 * 2 ^ 531 := by rw [show 534 = 531 + 3 from rfl, pow_add]; ring
  have e4 : (2 : ℝ) ^ 535 = 16 * 2 ^ 531 := by rw [show 535 = 531 + 4 from rfl, pow_add]; ring
  have e5 : (2 : ℝ) ^ 536 = 32 * 2 ^ 531 := by rw [show 536 = 531 + 5 from rfl, pow_add]; ring
  have e6 : (2 : ℝ) ^ 537 = 64 * 2 ^ 531 := by rw [show 537 = 531 + 6 from rfl, pow_add]; ring
  have e8 : (2 : ℝ) ^ 539 = 256 * 2 ^ 531 := by rw [show 539 = 531 + 8 from rfl, pow_add]; ring
  have e10 : (2 : ℝ) ^ 541 = 1024 * 2 ^ 531 := by
    rw [show 541 = 531 + 10 from rfl, pow_add]; ring
  rcases hv with h | h | h | h | h | h | h | h | h | h <;> rw [h] <;> constructor <;> linarith

theorem pow_541_le : (2 : ℝ) ^ 541 ≤ 2 ^ 1000 / 2 ^ 400 := by
  rw [le_div_iff₀ (by positivity), ← pow_add]
  exact pow_le_pow_right₀ (by norm_num) (by norm_num)

theorem overflow_minOf :
    JsNumber.minOf ((overflowValues : List ℝ).map JsNumber.finite)
      = JsNumber.finite (9 * 2 ^ 531 + 2 ^ 531) := by
  norm_num [overflowValues, JsNumber.minOf, JsNumber.min, JsNumber.lt, JsNumber.isNaN]

theorem pow_pos_bounds (n : ℕ) (hn : n ≤ 900) :
    (1 : ℝ) ≤ 2 ^ n ∧ (2 : ℝ) ^ n ≤ 2 ^ 900 :=
  ⟨one_le_pow₀ (by norm_num), pow_le_pow_right₀ (by norm_num) hn⟩

theorem pow_900_lt : (2 : ℝ) ^ 900 * 2 ^ 20 ≤ 2 ^ 1000 := by
  rw [← pow_add]
  exact pow_le_pow_right₀ (by norm_num) (by norm_num)

/-- The offset `c = 0.9·min` of the overflowing series. -/
theorem overflow_offset :
    JsNumber.minOf ((overflowValues : List ℝ).map JsNumber.finite) * JsNumber.finite (9 / 10)
      = JsNumber.finite (9 * 2 ^ 531) := by
  rw [overflow_minOf]
  have hb := pow_pos_bounds 531 (by norm_num)
  have h9 := pow_900_lt
  have hval : ((9 : ℝ) * 2 ^ 531 + 2 ^ 531) * (9 / 10) = 9 * 2 ^ 531 := by ring
  rw [mul_finite _ _ (by
      rw [hval, abs_of_pos (by positivity)]
      nlinarith [hb.1, hb.2]) (by
      right
      rw [hval, abs_of_pos (by positivity)]
      have : (1 : ℝ) / 2 ^ 1000 ≤ 1 := by
        rw [div_le_iff₀ (by positivity)]
        have : (1 : ℝ) ≤ 2 ^ 1000 := one_le_pow₀ (by norm_num)
        linarith
      linarith [hb.1]), hval]

theorem overflow_adjusted :
    ((overflowValues : List ℝ).map JsNumber.finite).map
        (fun yi => yi - JsNumber.finite (9 * 2 ^ 531))
      = ((overflowValues : List ℝ).map (fun v => v - 9 * 2 ^ 531)).map JsNumber.finite := by
  apply map_sub_finite
  intro v hv
  obtain ⟨h1, h2⟩ := overflow_values_mem v hv
  have hb := pow_pos_bounds 531 (by norm_num)
  have hb2 := pow_pos_bounds 541 (by norm_num)
  have h9 := pow_900_lt
  rw [abs_of_nonneg (by linarith)]
  nlinarith [hb.1, hb2.2]

theorem overflow_adjusted_pos (v : ℝ)
    (hv : v ∈ (overflowValues : List ℝ).map (fun v => v - 9 * 2 ^ 531)) : 0 < v := by
  obtain ⟨w, hw, rfl⟩ := List.mem_map.mp hv
  obtain ⟨h1, h2⟩ := overflow_values_mem w hw
  have hb := pow_pos_bounds 531 (by norm_num)
  linarith [hb.1]

theorem overflow_logs :
    (((overflowValues : List ℝ).map JsNumber.finite).map
        (fun yi => yi - JsNumber.finite (9 * 2 ^ 531))).map (fun v => JsNumber.log Real.log v)
      = ([541 * Real.log 2, 537 * Real.log 2, 539 * Real.log 2, 537 * Real.log 2,
          536 * Real.log 2, 535 * Real.log 2, 534 * Real.log 2, 533 * Real.log 2,
          532 * Real.log 2, 531 * Real.log 2] : List ℝ).map JsNumber.finite := by
  rw [overflow_adjusted, map_log_finite Real.log _ overflow_adjusted_pos, overflow_log_values]

theorem overflow_any :
    (((overflowValues : List ℝ).map JsNumber.finite).map
        (fun yi => yi - JsNumber.finite (9 * 2 ^ 531))).any
        (fun v => JsNumber.le v (JsNumber.finite 0)) = false := by
  rw [overflow_adjusted, Bool.eq_false_iff]
  intro h
  rw [List.any_eq_true] at h
  obtain ⟨a, ha, hle⟩ := h
  obtain ⟨v, hv, rfl⟩ := List.mem_map.mp ha
  have hpos := overflow_adjusted_pos v hv
  simp only [JsNumber.le, decide_eq_true_eq] at hle
  linarith

theorem overflow_log_list_mem (v : ℝ)
    (hv : v ∈ ([541 * Real.log 2, 537 * Real.log 2, 539 * Real.log 2, 537 * Real.log 2,
          536 * Real.log 2, 535 * Real.log 2, 534 * Real.log 2, 533 * Real.log 2,
          532 * Real.log 2, 531 * Real.log 2] : List ℝ)) : 1 ≤ v ∧ v ≤ 541 := by
  obtain ⟨hl1, hl2⟩ := log_two_bounds
  simp only [List.mem_cons, List.mem_singleton, List.not_mem_nil, or_false] at hv
  rcases hv with h | h | h | h | h | h | h | h | h | h <;> rw [h] <;> constructor <;> linarith

theorem tenDays_mem (v : ℝ) (hv : v ∈ (tenDays : List ℝ)) : (v = 0 ∨ 1 ≤ v) ∧ 0 ≤ v ∧ v ≤ 9 := by
  simp only [tenDays, List.mem_cons, List.mem_singleton, List.not_mem_nil, or_false] at hv
  rcases hv with h | h | h | h | h | h | h | h | h | h <;> rw [h] <;> norm_num

theorem one_le_pow_1000 : (10000000 : ℝ) ≤ 2 ^ 1000 := by
  have h : (2 : ℝ) ^ 24 ≤ 2 ^ 1000 := pow_le_pow_right₀ (by norm_num) (by norm_num)
  norm_num at h ⊢

theorem overflow_sumX :
    ((tenDays : List ℝ).map JsNumber.finite).foldl (fun a b => a + b) (JsNumber.finite 0)
      = JsNumber.finite 45 := by
  rw [sum_finite _ (fun v hv => (tenDays_mem v hv).2.1) (by
    norm_num [tenDays])]
  norm_num [tenDays]

theorem overflow_sumXX :
    ((tenDays : List ℝ).map JsNumber.finite).foldl (fun sum xi => sum + xi * xi)
        (JsNumber.finite 0)
      = JsNumber.finite 285 := by
  rw [sum_squares_finite _ (fun v hv => (tenDays_mem v hv).1) (by
    norm_num [tenDays])]
  norm_num [tenDays]

theorem overflow_sumLnY :
    (([541 * Real.log 2, 537 * Real.log 2, 539 * Real.log 2, 537 * Real.log 2,
        536 * Real.log 2, 535 * Real.log 2, 534 * Real.log 2, 533 * Real.log 2,
        532 * Real.log 2, 531 * Real.log 2] : List ℝ).map JsNumber.finite).foldl
        (fun a b => a + b) (JsNumber.finite 0)
      = JsNumber.finite (5355 * Real.log 2) := by
  obtain ⟨hl1, hl2⟩ := log_two_bounds
  have h7 := one_le_pow_1000
  rw [sum_finite _ (fun v hv => by linarith [(overflow_log_list_mem v hv).1]) (by
    simp only [List.sum_cons, List.sum_nil]
    linarith)]
  congr 1
  simp only [List.sum_cons, List.sum_nil]
  ring

theorem overflow_sumXLnY :
    (((tenDays : List ℝ).map JsNumber.finite).zip
        (([541 * Real.log 2, 537 * Real.log 2, 539 * Real.log 2, 537 * Real.log 2,
          536 * Real.log 2, 535 * Real.log 2, 534 * Real.log 2, 533 * Real.log 2,
          532 * Real.log 2, 531 * Real.log 2] : List ℝ).map JsNumber.finite)).foldl
        (fun sum p => sum + p.1 * p.2) (JsNumber.finite 0)
      = JsNumber.finite (24015 * Real.log 2) := by
  obtain ⟨hl1, hl2⟩ := log_two_bounds
  have h7 := one_le_pow_1000
  rw [dot_finite _ _ (fun v hv => (tenDays_mem v hv).1)
    (fun v hv => Or.inr (overflow_log_list_mem v hv).1) (by
      simp only [tenDays, List.zip_cons_cons, List.zip_nil_right, List.map_cons, List.map_nil,
        List.sum_cons, List.sum_nil]
      linarith)]
  congr 1
  simp only [tenDays, List.zip_cons_cons, List.zip_nil_right, List.map_cons, List.map_nil,
    List.sum_cons, List.sum_nil]
  ring

theorem abs_le_pow_1000_of (v : ℝ) (h1 : -10000000 ≤ v) (h2 : v ≤ 10000000) :
    |v| ≤ 2 ^ 1000 := by
  have := one_le_pow_1000
  rw [abs_le]
  constructor <;> linarith

theorem inv_pow_1000_le_of (v : ℝ) (h : 1 / 1000 ≤ |v|) : (1 : ℝ) / 2 ^ 1000 ≤ |v| := by
  refine le_trans ?_ h
  apply one_div_le_one_div_of_le (by norm_num)
  have := one_le_pow_1000
  linarith

theorem overflow_denominator :
    JsNumber.ofNat ((tenDays : List ℝ).map JsNumber.finite).length * JsNumber.finite (285 : ℝ)
        - JsNumber.finite 45 * JsNumber.finite 45
      = JsNumber.finite 825 := by
  have hn : JsNumber.ofNat ((tenDays : List ℝ).map JsNumber.finite).length
      = JsNumber.finite (10 : ℝ) := by
    simp [JsNumber.ofNat, tenDays]
  rw [hn, mul_finite 10 285 (abs_le_pow_1000_of _ (by norm_num) (by norm_num))
      (Or.inr (inv_pow_1000_le_of _ (by norm_num))),
    mul_finite 45 45 (abs_le_pow_1000_of _ (by norm_num) (by norm_num))
      (Or.inr (inv_pow_1000_le_of _ (by norm_num))),
    sub_finite _ _ (abs_le_pow_1000_of _ (by norm_num) (by norm_num))]
  norm_num

theorem overflow_slope :
    (JsNumber.ofNat ((tenDays : List ℝ).map JsNumber.finite).length
          * JsNumber.finite (24015 * Real.log 2)
        - JsNumber.finite 45 * JsNumber.finite (5355 * Real.log 2)) / JsNumber.finite 825
      = JsNumber.finite (-Real.log 2) := by
  obtain ⟨hl1, hl2⟩ := log_two_bounds
  have hn : JsNumber.ofNat ((tenDays : List ℝ).map JsNumber.finite).length
      = JsNumber.finite (10 : ℝ) := by
    simp [JsNumber.ofNat, tenDays]
  have e1 : (10 : ℝ) * (24015 * Real.log 2) - 45 * (5355 * Real.log 2)
      = -825 * Real.log 2 := by ring
  have e2 : -825 * Real.log 2 / 825 = -Real.log 2 := by ring
  rw [hn, mul_finite 10 _ (abs_le_pow_1000_of _ (by linarith) (by linarith))
      (Or.inr (inv_pow_1000_le_of _ (by rw [abs_of_pos (by linarith)]; linarith))),
    mul_finite 45 _ (abs_le_pow_1000_of _ (by linarith) (by linarith))
      (Or.inr (inv_pow_1000_le_of _ (by rw [abs_of_pos (by linarith)]; linarith))),
    sub_finite _ _ (abs_le_pow_1000_of _ (by linarith) (by linarith)), e1,
    div_finite _ _ (by norm_num) (abs_le_pow_1000_of _ (by linarith) (by linarith))
      (Or.inr (inv_pow_1000_le_of _ (by
        rw [e2, abs_neg, abs_of_pos (by linarith)]
        linarith))), e2]

theorem overflow_intercept :
    (JsNumber.finite (5355 * Real.log 2) - JsNumber.finite (-Real.log 2) * JsNumber.finite 45)
        / JsNumber.ofNat ((tenDays : List ℝ).map JsNumber.finite).length
      = JsNumber.finite (540 * Real.log 2) := by
  obtain ⟨hl1, hl2⟩ := log_two_bounds
  have hn : JsNumber.ofNat ((tenDays : List ℝ).map JsNumber.finite).length
      = JsNumber.finite (10 : ℝ) := by
    simp [JsNumber.ofNat, tenDays]
  have e1 : 5355 * Real.log 2 - -Real.log 2 * 45 = 5400 * Real.log 2 := by ring
  have e2 : 5400 * Real.log 2 / 10 = 540 * Real.log 2 := by ring
  rw [hn, mul_finite _ 45 (abs_le_pow_1000_of _ (by linarith) (by linarith))
      (Or.inr (inv_pow_1000_le_of _ (by
        rw [show -Real.log 2 * 45 = -(45 * Real.log 2) by ring, abs_neg,
          abs_of_pos (by linarith)]
        linarith))),
    sub_finite _ _ (abs_le_pow_1000_of _ (by linarith) (by linarith)), e1,
    div_finite _ _ (by norm_num) (abs_le_pow_1000_of _ (by linarith) (by linarith))
      (Or.inr (inv_pow_1000_le_of _ (by
        rw [e2, abs_of_pos (by linarith)]
        linarith))), e2]

theorem pow_in_range (n : ℕ) (hn : n ≤ 900) :
    |(2 : ℝ) ^ n| ≤ 2 ^ 1000 ∧ (1 : ℝ) / 2 ^ 1000 ≤ |(2 : ℝ) ^ n| := by
  have hb := pow_pos_bounds n hn
  have h9 : (2 : ℝ) ^ 900 ≤ 2 ^ 1000 := pow_le_pow_right₀ (by norm_num) (by norm_num)
  rw [abs_of_pos (by positivity)]
  refine ⟨by linarith, ?_⟩
  refine le_trans ?_ hb.1
  rw [div_le_iff₀ (by positivity)]
  have : (1 : ℝ) ≤ 2 ^ 1000 := one_le_pow₀ (by norm_num)
  linarith

theorem overflow_a :
    JsNumber.exp Real.exp (JsNumber.finite (540 * Real.log 2)) = JsNumber.finite (2 ^ 540) := by
  have h : Real.exp (540 * Real.log 2) = 2 ^ 540 := by
    exact_mod_cast exp_mul_log_two 540
  simp only [JsNumber.exp, h]
  obtain ⟨h1, h2⟩ := pow_in_range 540 (by norm_num)
  exact clip_of_abs_lt _ (lt_of_le_of_lt h1 pow_1000_lt_overflowBound)
    (Or.inr (lt_of_lt_of_le underflowBound_lt_inv_pow_1000 h2))

/-- One predicted value of the fitted curve on the overflowing series. -/
theorem overflow_prediction (i : ℕ) (hi : i ≤ 9) :
    JsNumber.finite ((2 : ℝ) ^ 540)
        * JsNumber.exp Real.exp (-JsNumber.finite (Real.log 2) * JsNumber.finite (i : ℝ))
        + JsNumber.finite (9 * 2 ^ 531)
      = JsNumber.finite (2 ^ (540 - i) + 9 * 2 ^ 531) := by
  obtain ⟨hl1, hl2⟩ := log_two_bounds
  have hi9 : (i : ℝ) ≤ 9 := by exact_mod_cast hi
  have hi0 : (0 : ℝ) ≤ i := Nat.cast_nonneg i
  have hneg : -JsNumber.finite (Real.log 2) = JsNumber.finite (-Real.log 2) := rfl
  have hprod : JsNumber.finite (-Real.log 2) * JsNumber.finite (i : ℝ)
      = JsNumber.finite (-Real.log 2 * i) := by
    apply mul_finite
    · apply abs_le_pow_1000_of <;> nlinarith
    · rcases Nat.eq_zero_or_pos i with h0 | hpos
      · left
        rw [h0]
        simp
      · right
        apply inv_pow_1000_le_of
        have h1 : (1 : ℝ) ≤ i := by exact_mod_cast hpos
        rw [show -Real.log 2 * (i : ℝ) = -(Real.log 2 * i) by ring, abs_neg,
          abs_of_pos (by nlinarith)]
        nlinarith
  have hexp : JsNumber.exp Real.exp (JsNumber.finite (-Real.log 2 * i))
      = JsNumber.finite (1 / 2 ^ i) := by
    simp only [JsNumber.exp, exp_neg_mul_log_two]
    have hb := pow_pos_bounds i (by omega)
    have hpos : (0 : ℝ) < 1 / 2 ^ i := by positivity
    have hle : (1 : ℝ) / 2 ^ i ≤ 1 := by
      rw [div_le_iff₀ (by positivity)]
      linarith [hb.1]
    have hge : (1 : ℝ) / 2 ^ 9 ≤ 1 / 2 ^ i :=
      one_div_le_one_div_of_le (by positivity) (pow_le_pow_right₀ (by norm_num) hi)
    apply clip_of_abs_lt
    · rw [abs_of_pos hpos]
      have h1000 := pow_1000_lt_overflowBound (F := ℝ)
      have := one_le_pow_1000
      linarith
    · right
      rw [abs_of_pos hpos]
      refine lt_of_lt_of_le underflowBound_lt_inv_pow_1000 (le_trans ?_ hge)
      exact one_div_le_one_div_of_le (by positivity)
        (pow_le_pow_right₀ (by norm_num) (by norm_num))
  have hsplit : (2 : ℝ) ^ 540 * (1 / 2 ^ i) = 2 ^ (540 - i) := by
    have hp : (2 : ℝ) ^ 540 = 2 ^ (540 - i) * 2 ^ i := by
      rw [← pow_add]
      congr 1
      omega
    rw [hp]
    field_simp
  obtain ⟨hr1, hr2⟩ := pow_in_range (540 - i) (by omega)
  have hb531 := pow_pos_bounds 531 (by norm_num)
  have hbk := pow_pos_bounds (540 - i) (by omega)
  have h9 := pow_900_lt
  rw [hneg, hprod, hexp, mul_finite _ _ (by rw [hsplit]; exact hr1)
    (Or.inr (by rw [hsplit]; exact hr2)), hsplit,
    add_finite _ _ (by
      rw [abs_of_pos (by positivity)]
      nlinarith [hb531.1, hb531.2, hbk.1, hbk.2])]

theorem overflow_predictions :
    ((tenDays : List ℝ).map JsNumber.finite).map
        (fun xi => JsNumber.finite ((2 : ℝ) ^ 540)
          * JsNumber.exp Real.exp (-JsNumber.finite (Real.log 2) * xi)
          + JsNumber.finite (9 * 2 ^ 531))
      = (List.range 10).map (fun i => JsNumber.finite ((2 : ℝ) ^ (540 - i) + 9 * 2 ^ 531)) := by
  rw [tenDays_eq, List.map_map, List.map_map]
  apply List.map_congr_left
  intro i hi
  have hi9 : i ≤ 9 := by
    have := List.mem_range.mp hi
    omega
  exact overflow_prediction i hi9

theorem overflow_values_sum_bounds :
    0 ≤ (overflowValues : List ℝ).sum ∧ (overflowValues : List ℝ).sum ≤ 2 ^ 546 := by
  have hnn : ∀ v ∈ (overflowValues : List ℝ), 0 ≤ v := by
    intro v hv
    have hb := pow_pos_bounds 531 (by norm_num)
    linarith [(overflow_values_mem v hv).1, hb.1]
  refine ⟨List.sum_nonneg hnn, ?_⟩
  have hle : (overflowValues : List ℝ).sum ≤ (overflowValues : List ℝ).length • (2 : ℝ) ^ 542 := by
    apply List.sum_le_card_nsmul
    intro v hv
    have := (overflow_values_mem v hv).2
    have e1 : (2 : ℝ) ^ 542 = 2 * 2 ^ 541 := by rw [pow_succ]; ring
    have e2 : (2 : ℝ) ^ 541 = 1024 * 2 ^ 531 := by
      rw [show 541 = 531 + 10 from rfl, pow_add]; ring
    have h0 : (0 : ℝ) < 2 ^ 531 := by positivity
    linarith
  have hlen : (overflowValues : List ℝ).length = 10 := rfl
  rw [hlen] at hle
  have e3 : (2 : ℝ) ^ 546 = 16 * 2 ^ 542 := by
    rw [show 546 = 542 + 4 from rfl, pow_add]; ring
  have h0 : (0 : ℝ) < 2 ^ 542 := by positivity
  simp only [nsmul_eq_mul, Nat.cast_ofNat] at hle
  linarith

theorem overflow_mean :
    ((overflowValues : List ℝ).map JsNumber.finite).foldl (fun a b => a + b) (JsNumber.finite 0)
        / JsNumber.ofNat ((tenDays : List ℝ).map JsNumber.finite).length
      = JsNumber.finite ((overflowValues : List ℝ).sum / 10) := by
  have hn : JsNumber.ofNat ((tenDays : List ℝ).map JsNumber.finite).length
      = JsNumber.finite (10 : ℝ) := by
    simp [JsNumber.ofNat, tenDays]
  obtain ⟨hs0, hs1⟩ := overflow_values_sum_bounds
  have h546 : (2 : ℝ) ^ 546 ≤ 2 ^ 1000 := pow_le_pow_right₀ (by norm_num) (by norm_num)
  have hnn : ∀ v ∈ (overflowValues : List ℝ), 0 ≤ v := by
    intro v hv
    have hb := pow_pos_bounds 531 (by norm_num)
    linarith [(overflow_values_mem v hv).1, hb.1]
  have hbig : (10 : ℝ) ≤ (overflowValues : List ℝ).sum := by
    have h1 : (9 : ℝ) * 2 ^ 531 + 2 ^ 541 ≤ (overflowValues : List ℝ).sum :=
      List.single_le_sum hnn _ (by simp [overflowValues])
    have hb := pow_pos_bounds 531 (by norm_num)
    have hb2 := pow_pos_bounds 541 (by norm_num)
    linarith [hb.1, hb2.1]
  rw [hn, sum_finite _ hnn (by linarith),
    div_finite _ _ (by norm_num) (by
      rw [abs_of_nonneg (by positivity)]
      linarith) (Or.inr (inv_pow_1000_le_of _ (by
      rw [abs_of_nonneg (by positivity)]
      linarith)))]

theorem overflow_mean_bounds :
    (2 : ℝ) ^ 531 ≤ (overflowValues : List ℝ).sum / 10
    ∧ (overflowValues : List ℝ).sum / 10 ≤ 2 ^ 540 := by
  have e : (overflowValues : List ℝ).sum
      = 90 * 2 ^ 531 + (2 ^ 541 + 2 ^ 537 + 2 ^ 539 + 2 ^ 537 + 2 ^ 536 + 2 ^ 535 + 2 ^ 534
          + 2 ^ 533 + 2 ^ 532 + 2 ^ 531) := by
    simp only [overflowValues, List.sum_cons, List.sum_nil]
    ring
  have e1 : (2 : ℝ) ^ 532 = 2 * 2 ^ 531 := by rw [pow_succ]; ring
  have e2 : (2 : ℝ) ^ 533 = 4 * 2 ^ 531 := by rw [show 533 = 531 + 2 from rfl, pow_add]; ring
  have e3 : (2 : ℝ) ^ 534 = 8 * 2 ^ 531 := by rw [show 534 = 531 + 3 from rfl, pow_add]; ring
  have e4 : (2 : ℝ) ^ 535 = 16 * 2 ^ 531 := by rw [show 535 = 531 + 4 from rfl, pow_add]; ring
  have e5 : (2 : ℝ) ^ 536 = 32 * 2 ^ 531 := by rw [show 536 = 531 + 5 from rfl, pow_add]; ring
  have e6 : (2 : ℝ) ^ 537 = 64 * 2 ^ 531 := by rw [show 537 = 531 + 6 from rfl, pow_add]; ring
  have e8 : (2 : ℝ) ^ 539 = 256 * 2 ^ 531 := by rw [show 539 = 531 + 8 from rfl, pow_add]; ring
  have e9 : (2 : ℝ) ^ 540 = 512 * 2 ^ 531 := by rw [show 540 = 531 + 9 from rfl, pow_add]; ring
  have e10 : (2 : ℝ) ^ 541 = 1024 * 2 ^ 531 := by
    rw [show 541 = 531 + 10 from rfl, pow_add]; ring
  have h0 : (0 : ℝ) < 2 ^ 531 := by positivity
  rw [e]
  constructor
  · rw [le_div_iff₀ (by norm_num)]
    linarith
  · rw [div_le_iff₀ (by norm_num)]
    linarith

theorem sub_finite_not_nan (a b : F) :
    (JsNumber.finite a - JsNumber.finite b).isNaN = false := by
  rw [JsNumber.sub_def]
  simp only [JsNumber.neg, JsNumber.add]
  unfold JsNumber.clipSum
  split_ifs <;> rfl

theorem pow_512_le_of (v : ℝ) (h : 2 ^ 540 ≤ v) : (2 : ℝ) ^ 512 ≤ |v| := by
  have h1 : (2 : ℝ) ^ 512 ≤ 2 ^ 540 := pow_le_pow_right₀ (by norm_num) (by norm_num)
  exact le_trans (le_trans h1 h) (le_abs_self v)

theorem overflow_total :
    ((overflowValues : List ℝ).map JsNumber.finite).foldl
        (fun sum yi => sum + (yi - JsNumber.finite ((overflowValues : List ℝ).sum / 10))
          * (yi - JsNumber.finite ((overflowValues : List ℝ).sum / 10))) (JsNumber.finite 0)
      = JsNumber.posInf := by
  obtain ⟨hm1, hm2⟩ := overflow_mean_bounds
  have hb541 : (2 : ℝ) ^ 541 = 2 * 2 ^ 540 := by rw [pow_succ]; ring
  have hb := pow_pos_bounds 531 (by norm_num)
  have hb2 := pow_pos_bounds 541 (by norm_num)
  have h9 := pow_900_lt
  have hcons : (overflowValues : List ℝ).map JsNumber.finite
      = JsNumber.finite (9 * 2 ^ 531 + 2 ^ 541)
        :: ((overflowValues : List ℝ).tail.map JsNumber.finite) := rfl
  rw [hcons]
  apply foldl_squares_overflow
    (fun yi => yi - JsNumber.finite ((overflowValues : List ℝ).sum / 10)) _ _
    (9 * 2 ^ 531 + 2 ^ 541 - (overflowValues : List ℝ).sum / 10)
  · apply sub_finite
    rw [abs_of_nonneg (by linarith)]
    nlinarith [hb.1, hb.2, hb2.1, hb2.2]
  · apply pow_512_le_of
    linarith
  · intro p hp
    obtain ⟨v, -, rfl⟩ := List.mem_map.mp hp
    exact sub_finite_not_nan _ _

theorem overflow_residual :
    (((overflowValues : List ℝ).map JsNumber.finite).zip
        ((List.range 10).map (fun i => JsNumber.finite ((2 : ℝ) ^ (540 - i) + 9 * 2 ^ 531)))).foldl
        (fun sum p => sum + (p.1 - p.2) * (p.1 - p.2)) (JsNumber.finite 0)
      = JsNumber.posInf := by
  have hb541 : (2 : ℝ) ^ 541 = 2 * 2 ^ 540 := by rw [pow_succ]; ring
  have hb := pow_pos_bounds 540 (by norm_num)
  have h9 := pow_900_lt
  have hcons : ((overflowValues : List ℝ).map JsNumber.finite).zip
        ((List.range 10).map (fun i => JsNumber.finite ((2 : ℝ) ^ (540 - i) + 9 * 2 ^ 531)))
      = (JsNumber.finite (9 * 2 ^ 531 + 2 ^ 541), JsNumber.finite (2 ^ 540 + 9 * 2 ^ 531))
        :: (((overflowValues : List ℝ).tail.map JsNumber.finite).zip
          ((List.range' 1 9).map
            (fun i => JsNumber.finite ((2 : ℝ) ^ (540 - i) + 9 * 2 ^ 531)))) := rfl
  rw [hcons]
  apply foldl_squares_overflow (fun p : JsNumber ℝ × JsNumber ℝ => p.1 - p.2) _ _
    (9 * 2 ^ 531 + 2 ^ 541 - (2 ^ 540 + 9 * 2 ^ 531))
  · apply sub_finite
    rw [show (9 : ℝ) * 2 ^ 531 + 2 ^ 541 - (2 ^ 540 + 9 * 2 ^ 531) = 2 ^ 540 by rw [hb541]; ring,
      abs_of_pos (by positivity)]
    nlinarith [hb.1, hb.2]
  · apply pow_512_le_of
    rw [hb541]
    linarith
  · intro p hp
    have h1 := (List.of_mem_zip hp).1
    have h2 := (List.of_mem_zip hp).2
    obtain ⟨v, -, hv⟩ := List.mem_map.mp h1
    obtain ⟨i, -, hi⟩ := List.mem_map.mp h2
    show (p.1 - p.2).isNaN = false
    rw [← hv, ← hi]
    exact sub_finite_not_nan _ _

/-- The offset tier accepts the overflowing series with `r2 = NaN`. -/
theorem overflow_fit :
    Js.simpleExponentialFit Real.exp Real.log ((tenDays : List ℝ).map JsNumber.finite)
        ((overflowValues : List ℝ).map JsNumber.finite)
      = some { a := JsNumber.finite (2 ^ 540), lam := JsNumber.finite (Real.log 2),
               c := JsNumber.finite (9 * 2 ^ 531), r2 := JsNumber.nan } := by
  obtain ⟨hl1, hl2⟩ := log_two_bounds
  apply simpleExponentialFit_of Real.exp Real.log _ _
    (([541 * Real.log 2, 537 * Real.log 2, 539 * Real.log 2, 537 * Real.log 2,
        536 * Real.log 2, 535 * Real.log 2, 534 * Real.log 2, 533 * Real.log 2,
        532 * Real.log 2, 531 * Real.log 2] : List ℝ).map JsNumber.finite)
    ((List.range 10).map (fun i => JsNumber.finite ((2 : ℝ) ^ (540 - i) + 9 * 2 ^ 531)))
    (JsNumber.finite (9 * 2 ^ 531)) (JsNumber.finite 45) (JsNumber.finite (5355 * Real.log 2))
    (JsNumber.finite (24015 * Real.log 2)) (JsNumber.finite 285) (JsNumber.finite 825)
    (JsNumber.finite (-Real.log 2)) (JsNumber.finite (540 * Real.log 2))
    (JsNumber.finite (2 ^ 540)) (JsNumber.finite (Real.log 2))
    (JsNumber.finite ((overflowValues : List ℝ).sum / 10)) JsNumber.posInf JsNumber.posInf
    JsNumber.nan
  · exact overflow_offset
  · exact overflow_any
  · exact overflow_logs
  · exact overflow_sumX
  · exact overflow_sumLnY
  · exact overflow_sumXLnY
  · exact overflow_sumXX
  · exact overflow_denominator
  · simp only [JsNumber.abs, JsNumber.lt, decide_eq_false_iff_not, not_lt]
    rw [abs_of_pos (by norm_num)]
    norm_num
  · exact overflow_slope
  · exact overflow_intercept
  · exact overflow_a
  · show JsNumber.neg (JsNumber.finite (-Real.log 2)) = JsNumber.finite (Real.log 2)
    simp only [JsNumber.neg, neg_neg]
  · exact overflow_predictions
  · exact overflow_mean
  · exact overflow_total
  · exact overflow_residual
  · rfl
  · have h1 : ¬ Real.log 2 ≤ 0 := by linarith
    have h2 : ¬ (2 : ℝ) ^ 540 ≤ 0 := not_le.mpr (by positivity)
    simp [JsNumber.isNaN, JsNumber.le, JsNumber.lt, h1, h2]

theorem overflow_days :
    (overflowScenario : FansChart (JsNumber ℝ)).data.map
        (fun d => (d.timestamp - Js.firstTimestamp (overflowScenario : FansChart (JsNumber ℝ)).data)
          / JsNumber.finite 86400000)
      = (tenDays : List ℝ).map JsNumber.finite := by
  norm_num [overflowScenario, tenDays, Js.firstTimestamp, JsNumber.sub_def, JsNumber.div_def,
    JsNumber.add, JsNumber.neg, JsNumber.div, JsNumber.clip, JsNumber.clipSum, overflowBound,
    underflowBound, abs_le]

theorem overflow_fans :
    (overflowScenario : FansChart (JsNumber ℝ)).data.map (fun d => d.fans)
      = (overflowValues : List ℝ).map JsNumber.finite := rfl

/-- The exponential model stored for the overflowing series. -/
theorem overflow_model :
    (Js.calculateExponentialDecay Real.sqrt Real.exp Real.log overflowScenario).exponentialModel
      = some (Js.offsetModel Real.exp Real.log (JsNumber.finite 1700000000000)
          ((tenDays : List ℝ).map JsNumber.finite) 0
          { a := JsNumber.finite (2 ^ 540), lam := JsNumber.finite (Real.log 2),
            c := JsNumber.finite (9 * 2 ^ 531), r2 := JsNumber.nan }) := by
  have hlen : ¬ (overflowScenario : FansChart (JsNumber ℝ)).data.length < 3 := by
    simp [overflowScenario]
  have hstep := outlierStep_of_length_le Real.sqrt ((tenDays : List ℝ).map JsNumber.finite)
    ((overflowValues : List ℝ).map JsNumber.finite) rfl (by simp [tenDays])
  unfold Js.calculateExponentialDecay
  rw [if_neg hlen]
  simp only [overflow_days, overflow_fans, hstep, overflow_fit]
  rfl

set_option maxHeartbeats 4000000 in
theorem huge_values_linear_model :
    (Js.calculateLinearRegression hugeValuesScenario).linearModel
      = some { slope := JsNumber.finite (-19 / 22 * 10 ^ 160)
               intercept := JsNumber.finite (95 / 11 * 10 ^ 160)
               r2 := JsNumber.nan
               startTime := JsNumber.finite 1700000000000
               predict := Js.linearPredict (JsNumber.finite (-19 / 22 * 10 ^ 160))
                 (JsNumber.finite (95 / 11 * 10 ^ 160)) (JsNumber.finite 1700000000000) } := by
  norm_num [Js.calculateLinearRegression, hugeValuesScenario, Js.firstTimestamp,
      JsNumber.ofNat, JsNumber.sub_def, JsNumber.add_def, JsNumber.mul_def, JsNumber.div_def,
      JsNumber.neg_def, JsNumber.add, JsNumber.neg, JsNumber.mul, JsNumber.div, JsNumber.abs,
      JsNumber.lt, JsNumber.isNaN, JsNumber.clip, JsNumber.clipSum, overflowBound,
      underflowBound, Js.rSquared, JsNumber.max, abs_le, abs_lt]

/-! ## What the fits store, on doubles as far as their range goes -/

theorem zero_notNegative : (JsNumber.finite (0 : F)).notNegative = true := by
  simp [JsNumber.notNegative]

/-- The clamp `Math.max(0, r2)` of a value that is `NaN`, `-Infinity` or at most 1. -/
theorem max_zero_range (r : JsNumber F)
    (hr : r = JsNumber.nan ∨ r = JsNumber.negInf ∨ ∃ v : F, r = JsNumber.finite v ∧ v ≤ 1) :
    JsNumber.max (JsNumber.finite 0) r = JsNumber.nan
    ∨ ∃ v : F, JsNumber.max (JsNumber.finite 0) r = JsNumber.finite v ∧ 0 ≤ v ∧ v ≤ 1 := by
  rcases hr with h | h | ⟨v, h, hv⟩
  · left
    rw [h]
    rfl
  · right
    rw [h]
    exact ⟨0, rfl, le_refl _, zero_le_one⟩
  · right
    rw [h]
    by_cases h0 : 0 < v
    · refine ⟨v, ?_, le_of_lt h0, hv⟩
      simp [JsNumber.max, JsNumber.isNaN, JsNumber.lt, h0]
    · refine ⟨0, ?_, le_refl _, zero_le_one⟩
      simp [JsNumber.max, JsNumber.isNaN, JsNumber.lt, h0]

/-- A value that is `NaN`, `-Infinity` or at most 1 and not below `0.1` is `NaN` or in
`[0.1, 1]`. -/
theorem accepted_r2_range (r : JsNumber F)
    (hr : r = JsNumber.nan ∨ r = JsNumber.negInf ∨ ∃ v : F, r = JsNumber.finite v ∧ v ≤ 1)
    (hacc : JsNumber.lt r (JsNumber.finite (1 / 10)) = false) :
    r = JsNumber.nan ∨ ∃ v : F, r = JsNumber.finite v ∧ 1 / 10 ≤ v ∧ v ≤ 1 := by
  rcases hr with h | h | ⟨v, h, hv⟩
  · exact Or.inl h
  · rw [h] at hacc
    simp [JsNumber.lt] at hacc
  · right
    rw [h] at hacc
    refine ⟨v, h, ?_, hv⟩
    simpa [JsNumber.lt] using hacc

/-- The linear model stored by `calculateLinearRegression`, if it stores one. -/
theorem calculateLinearRegression_stored_js (self : FansChart (JsNumber F)) :
    Js.calculateLinearRegression self = self
    ∨ ∃ (slope intercept ssTotal ssResidual : JsNumber F),
        ssResidual.notNegative = true
        ∧ slope.isNaN = false ∧ intercept.isNaN = false
        ∧ Js.calculateLinearRegression self =
          { self with
            linearModel := some
              { slope := slope
                intercept := intercept
                r2 := JsNumber.max (JsNumber.finite 0) (Js.rSquared ssTotal ssResidual)
                startTime := Js.firstTimestamp self.data
                predict := Js.linearPredict slope intercept (Js.firstTimestamp self.data) } } := by
  simp only [Js.calculateLinearRegression]
  split_ifs with h1 h2 h3
  · left; rfl
  · left; rfl
  · left; rfl
  · right
    simp only [Bool.or_eq_true, not_or, Bool.not_eq_true] at h3
    refine ⟨_, _, _, _, ?_, h3.1, h3.2, rfl⟩
    exact foldl_squares_notNegative _ _ _ zero_notNegative

/-- What an accepted offset fit satisfies. -/
theorem simpleExponentialFit_accepted_js (exp log : F → F) (x y : List (JsNumber F))
    (r : OffsetFit (JsNumber F)) (h : Js.simpleExponentialFit exp log x y = some r) :
    r.c = JsNumber.minOf y * JsNumber.finite (9 / 10)
    ∧ (∀ v ∈ y, JsNumber.le (v - r.c) (JsNumber.finite 0) = false)
    ∧ r.a.isNaN = false ∧ r.lam.isNaN = false
    ∧ JsNumber.le r.lam (JsNumber.finite 0) = false
    ∧ JsNumber.le r.a (JsNumber.finite 0) = false
    ∧ JsNumber.lt r.r2 (JsNumber.finite (1 / 10)) = false
    ∧ ∃ ssTotal ssResidual : JsNumber F, ssResidual.notNegative = true
        ∧ r.r2 = Js.rSquared ssTotal ssResidual := by
  simp only [Js.simpleExponentialFit] at h
  split_ifs at h with h1 h2 h3
  simp only [Option.some.injEq] at h
  subst h
  simp only [Bool.or_eq_true, not_or, Bool.not_eq_true] at h3
  obtain ⟨⟨⟨⟨ha, hl⟩, hl0⟩, ha0⟩, hr⟩ := h3
  refine ⟨rfl, ?_, ha, hl, hl0, ha0, hr, _, _, ?_, rfl⟩
  · intro v hv
    simp only [Bool.not_eq_true] at h1
    have := List.any_eq_false.mp h1 (v - JsNumber.minOf y * JsNumber.finite (9 / 10))
      (List.mem_map_of_mem _ hv)
    simpa using this
  · exact foldl_squares_notNegative (fun p : JsNumber F × JsNumber F => p.1 - p.2) _ _
      zero_notNegative

/-- What an accepted offset-free fit satisfies. -/
theorem simpleExponentialFitNoOffset_accepted_js (exp log : F → F) (x y : List (JsNumber F))
    (r : NoOffsetFit (JsNumber F)) (h : Js.simpleExponentialFitNoOffset exp log x y = some r) :
    r.a.isNaN = false ∧ r.lam.isNaN = false
    ∧ JsNumber.le r.lam (JsNumber.finite 0) = false
    ∧ JsNumber.le r.a (JsNumber.finite 0) = false
    ∧ JsNumber.lt r.r2 (JsNumber.finite (1 / 10)) = false
    ∧ ∃ ssTotal ssResidual : JsNumber F, ssResidual.notNegative = true
        ∧ r.r2 = Js.rSquared ssTotal ssResidual := by
  simp only [Js.simpleExponentialFitNoOffset] at h
  split_ifs at h with h1 h2 h3
  simp only [Option.some.injEq] at h
  subst h
  simp only [Bool.or_eq_true, not_or, Bool.not_eq_true] at h3
  obtain ⟨⟨⟨⟨ha, hl⟩, hl0⟩, ha0⟩, hr⟩ := h3
  refine ⟨ha, hl, hl0, ha0, hr, _, _, ?_, rfl⟩
  exact foldl_squares_notNegative (fun p : JsNumber F × JsNumber F => p.1 - p.2) _ _
      zero_notNegative

/-- The three outcomes of `calculateExponentialDecay`. -/
theorem calculateExponentialDecay_stored_js (sqrt exp log : F → F)
    (self : FansChart (JsNumber F)) :
    Js.calculateExponentialDecay sqrt exp log self = self
    ∨ (∃ r : OffsetFit (JsNumber F),
        Js.simpleExponentialFit exp log
            (Js.outlierStep sqrt
              (self.data.map (fun d => (d.timestamp - Js.firstTimestamp self.data)
                / JsNumber.finite 86400000)) (self.data.map (fun d => d.fans))).1
            (Js.outlierStep sqrt
              (self.data.map (fun d => (d.timestamp - Js.firstTimestamp self.data)
                / JsNumber.finite 86400000)) (self.data.map (fun d => d.fans))).2.1 = some r
        ∧ Js.calculateExponentialDecay sqrt exp log self =
          { self with
            exponentialModel := some (Js.offsetModel exp log (Js.firstTimestamp self.data)
              (Js.outlierStep sqrt
                (self.data.map (fun d => (d.timestamp - Js.firstTimestamp self.data)
                  / JsNumber.finite 86400000)) (self.data.map (fun d => d.fans))).1
              (Js.outlierStep sqrt
                (self.data.map (fun d => (d.timestamp - Js.firstTimestamp self.data)
                  / JsNumber.finite 86400000)) (self.data.map (fun d => d.fans))).2.2 r) })
    ∨ (∃ r : NoOffsetFit (JsNumber F),
        Js.simpleExponentialFit exp log
            (Js.outlierStep sqrt
              (self.data.map (fun d => (d.timestamp - Js.firstTimestamp self.data)
                / JsNumber.finite 86400000)) (self.data.map (fun d => d.fans))).1
            (Js.outlierStep sqrt
              (self.data.map (fun d => (d.timestamp - Js.firstTimestamp self.data)
                / JsNumber.finite 86400000)) (self.data.map (fun d => d.fans))).2.1 = none
        ∧ Js.simpleExponentialFitNoOffset exp log
            (Js.outlierStep sqrt
              (self.data.map (fun d => (d.timestamp - Js.firstTimestamp self.data)
                / JsNumber.finite 86400000)) (self.data.map (fun d => d.fans))).1
            (Js.outlierStep sqrt
              (self.data.map (fun d => (d.timestamp - Js.firstTimestamp self.data)
                / JsNumber.finite 86400000)) (self.data.map (fun d => d.fans))).2.1 = some r
        ∧ Js.calculateExponentialDecay sqrt exp log self =
          { self with
            exponentialModel := some (Js.noOffsetModel exp log (Js.firstTimestamp self.data)
              (Js.outlierStep sqrt
                (self.data.map (fun d => (d.timestamp - Js.firstTimestamp self.data)
                  / JsNumber.finite 86400000)) (self.data.map (fun d => d.fans))).1
              (Js.outlierStep sqrt
                (self.data.map (fun d => (d.timestamp - Js.firstTimestamp self.data)
                  / JsNumber.finite 86400000)) (self.data.map (fun d => d.fans))).2.2 r) }) := by
  simp only [Js.calculateExponentialDecay]
  split_ifs with h1
  · left; rfl
  · cases hfit : Js.simpleExponentialFit exp log
        (Js.outlierStep sqrt
          (self.data.map (fun d => (d.timestamp - Js.firstTimestamp self.data)
            / JsNumber.finite 86400000)) (self.data.map (fun d => d.fans))).1
        (Js.outlierStep sqrt
          (self.data.map (fun d => (d.timestamp - Js.firstTimestamp self.data)
            / JsNumber.finite 86400000)) (self.data.map (fun d => d.fans))).2.1 with
    | some r =>
      right; left
      exact ⟨r, rfl, rfl⟩
    | none =>
      cases hfit2 : Js.simpleExponentialFitNoOffset exp log
          (Js.outlierStep sqrt
            (self.data.map (fun d => (d.timestamp - Js.firstTimestamp self.data)
              / JsNumber.finite 86400000)) (self.data.map (fun d => d.fans))).1
          (Js.outlierStep sqrt
            (self.data.map (fun d => (d.timestamp - Js.firstTimestamp self.data)
              / JsNumber.finite 86400000)) (self.data.map (fun d => d.fans))).2.1 with
      | some r =>
        right; right
        exact ⟨r, rfl, rfl, rfl⟩
      | none =>
        left; rfl

/-- A model present after `calculateExponentialDecay` on an object without one comes
from an accepted fit of one of the two tiers, on the post-filter data. -/
theorem calculateExponentialDecay_produced_js (sqrt exp log : F → F)
    (self : FansChart (JsNumber F)) (m : ExponentialModel (JsNumber F))
    (hnone : self.exponentialModel = none)
    (hm : (Js.calculateExponentialDecay sqrt exp log self).exponentialModel = some m) :
    3 ≤ self.data.length
    ∧ ((∃ r : OffsetFit (JsNumber F),
        Js.simpleExponentialFit exp log (Js.postFilterData sqrt self.data).1
          (Js.postFilterData sqrt self.data).2.1 = some r
        ∧ m = Js.offsetModel exp log (Js.firstTimestamp self.data)
            (Js.postFilterData sqrt self.data).1 (Js.postFilterData sqrt self.data).2.2 r)
      ∨ (∃ r : NoOffsetFit (JsNumber F),
        Js.simpleExponentialFit exp log (Js.postFilterData sqrt self.data).1
          (Js.postFilterData sqrt self.data).2.1 = none
        ∧ Js.simpleExponentialFitNoOffset exp log (Js.postFilterData sqrt self.data).1
          (Js.postFilterData sqrt self.data).2.1 = some r
        ∧ m = Js.noOffsetModel exp log (Js.firstTimestamp self.data)
            (Js.postFilterData sqrt self.data).1 (Js.postFilterData sqrt self.data).2.2 r)) := by
  have hlen : 3 ≤ self.data.length := by
    by_contra hlt
    have h : Js.calculateExponentialDecay sqrt exp log self = self := by
      simp only [Js.calculateExponentialDecay]
      rw [if_pos (by omega)]
    rw [h, hnone] at hm
    exact absurd hm (by simp)
  refine ⟨hlen, ?_⟩
  rcases calculateExponentialDecay_stored_js sqrt exp log self with h | ⟨r, hr, h⟩ | ⟨r, hr1, hr2, h⟩
  · rw [h, hnone] at hm
    exact absurd hm (by simp)
  · left
    rw [h] at hm
    simp only [Option.some.injEq] at hm
    exact ⟨r, hr, hm.symm⟩
  · right
    rw [h] at hm
    simp only [Option.some.injEq] at hm
    exact ⟨r, hr1, hr2, hm.symm⟩

/-! ## The range of the stored r², on doubles as far as their range goes -/

/-- C3, counterexample: on ten daily points with values of the order `1e160` the squared
deviations overflow, both sums of squares are `Infinity`, and the linear model is stored
with `r2 = NaN`, which is neither `≥ 0` nor `≤ 1`. -/
theorem linear_r2_nan_counterexample :
    ∃ m : LinearModel (JsNumber ℚ),
      (Js.calculateLinearRegression hugeValuesScenario).linearModel = some m
      ∧ m.r2 = JsNumber.nan
      ∧ JsNumber.le (JsNumber.finite 0) m.r2 = false
      ∧ JsNumber.le m.r2 (JsNumber.finite 1) = false :=
  ⟨_, huge_values_linear_model, rfl, rfl, rfl⟩

/-- C3, amended: every model produced has a stored r² that is `NaN` or lies in `[0, 1]`:
starting from an object without a linear (exponential) model, any model present after
`calculateLinearRegression` has `r2 = NaN` or `0 ≤ r2 ≤ 1`, any model present after
`calculateExponentialDecay` has `r2 = NaN` or `0.1 ≤ r2 ≤ 1`, and so has every result
accepted by the offset tier `simpleExponentialFit` and by the offset-free tier
`simpleExponentialFitNoOffset`. -/
theorem stored_r2_nan_or_in_unit_interval (sqrt exp log : F → F)
    (data : List (DataPoint (JsNumber F)))
    (lm : Option (LinearModel (JsNumber F))) (em : Option (ExponentialModel (JsNumber F))) :
    (∀ m : LinearModel (JsNumber F),
      (Js.calculateLinearRegression
        { data := data, linearModel := none, exponentialModel := em }).linearModel = some m →
      m.r2 = JsNumber.nan ∨ ∃ v : F, m.r2 = JsNumber.finite v ∧ 0 ≤ v ∧ v ≤ 1) ∧
    (∀ m : ExponentialModel (JsNumber F),
      (Js.calculateExponentialDecay sqrt exp log
        { data := data, linearModel := lm, exponentialModel := none }).exponentialModel = some m →
      m.r2 = JsNumber.nan ∨ ∃ v : F, m.r2 = JsNumber.finite v ∧ 1 / 10 ≤ v ∧ v ≤ 1) ∧
    (∀ (x y : List (JsNumber F)) (r : OffsetFit (JsNumber F)),
      Js.simpleExponentialFit exp log x y = some r →
      r.r2 = JsNumber.nan ∨ ∃ v : F, r.r2 = JsNumber.finite v ∧ 1 / 10 ≤ v ∧ v ≤ 1) ∧
    (∀ (x y : List (JsNumber F)) (r : NoOffsetFit (JsNumber F)),
      Js.simpleExponentialFitNoOffset exp log x y = some r →
      r.r2 = JsNumber.nan ∨ ∃ v : F, r.r2 = JsNumber.finite v ∧ 1 / 10 ≤ v ∧ v ≤ 1) := by
  have hoff : ∀ (x y : List (JsNumber F)) (r : OffsetFit (JsNumber F)),
      Js.simpleExponentialFit exp log x y = some r →
      r.r2 = JsNumber.nan ∨ ∃ v : F, r.r2 = JsNumber.finite v ∧ 1 / 10 ≤ v ∧ v ≤ 1 := by
    intro x y r h
    obtain ⟨_, _, _, _, _, _, hacc, t, s, hs, hr⟩ :=
      simpleExponentialFit_accepted_js exp log x y r h
    exact accepted_r2_range r.r2 (by rw [hr]; exact rSquared_range t s hs) hacc
  have hno : ∀ (x y : List (JsNumber F)) (r : NoOffsetFit (JsNumber F)),
      Js.simpleExponentialFitNoOffset exp log x y = some r →
      r.r2 = JsNumber.nan ∨ ∃ v : F, r.r2 = JsNumber.finite v ∧ 1 / 10 ≤ v ∧ v ≤ 1 := by
    intro x y r h
    obtain ⟨_, _, _, _, hacc, t, s, hs, hr⟩ :=
      simpleExponentialFitNoOffset_accepted_js exp log x y r h
    exact accepted_r2_range r.r2 (by rw [hr]; exact rSquared_range t s hs) hacc
  refine ⟨?_, ?_, hoff, hno⟩
  · intro m hm
    rcases calculateLinearRegression_stored_js
      ({ data := data, linearModel := none, exponentialModel := em }
        : FansChart (JsNumber F)) with h | ⟨slope, intercept, t, s, hs, _, _, h⟩
    · rw [h] at hm
      exact absurd hm (by simp)
    · rw [h] at hm
      simp only [Option.some.injEq] at hm
      subst hm
      exact max_zero_range _ (rSquared_range t s hs)
  · intro m hm
    obtain ⟨_, h⟩ := calculateExponentialDecay_produced_js sqrt exp log
      ({ data := data, linearModel := lm, exponentialModel := none }
        : FansChart (JsNumber F)) m rfl hm
    rcases h with ⟨r, hr, rfl⟩ | ⟨r, _, hr, rfl⟩
    · exact hoff _ _ r hr
    · exact hno _ _ r hr

/-! ## The offset tier on doubles, in the vocabulary of the specification -/

theorem foldl_zip_map_eq_zipWith (f : JsNumber F → JsNumber F)
    (g : JsNumber F → JsNumber F → JsNumber F) (x y : List (JsNumber F)) (s : JsNumber F) :
    (y.zip (x.map f)).foldl (fun sum p => sum + g p.1 p.2) s
      = (List.zipWith (fun xi yi => g yi (f xi)) x y).foldl (fun a b => a + b) s := by
  induction x generalizing y s with
  | nil => simp
  | cons a t ih =>
    cases y with
    | nil => simp
    | cons b u =>
      simp only [List.map_cons, List.zip_cons_cons, List.foldl_cons, List.zipWith_cons_cons, ih]

theorem foldl_zip_eq_zipWith (g : JsNumber F → JsNumber F → JsNumber F)
    (x l : List (JsNumber F)) (s : JsNumber F) :
    (x.zip l).foldl (fun sum p => sum + g p.1 p.2) s
      = (List.zipWith g x l).foldl (fun a b => a + b) s := by
  induction x generalizing l s with
  | nil => simp
  | cons a t ih =>
    cases l with
    | nil => simp
    | cons b u =>
      simp only [List.zip_cons_cons, List.foldl_cons, List.zipWith_cons_cons, ih]

/-- The offset tier `simpleExponentialFit` on parallel arrays of doubles, in the
vocabulary of the specification. -/
theorem simpleExponentialFit_eq_js (exp log : F → F) (x y : List (JsNumber F))
    (hlen : x.length = y.length) :
    Js.simpleExponentialFit exp log x y =
      if y.any (fun v => JsNumber.le (v - Js.offsetOf y) (JsNumber.finite 0)) then none
      else if JsNumber.lt (JsNumber.abs (Js.olsDenominator x)) (JsNumber.finite (1 / 10 ^ 10))
        then none
      else if (JsNumber.exp exp (Js.olsIntercept x (Js.logValues log y (Js.offsetOf y)))).isNaN
          || (-Js.olsSlope x (Js.logValues log y (Js.offsetOf y))).isNaN
          || JsNumber.le (-Js.olsSlope x (Js.logValues log y (Js.offsetOf y)))
              (JsNumber.finite 0)
          || JsNumber.le
              (JsNumber.exp exp (Js.olsIntercept x (Js.logValues log y (Js.offsetOf y))))
              (JsNumber.finite 0)
          || JsNumber.lt (Js.rSquared (Js.valueSquares y)
              (Js.curveSquaredError exp
                (JsNumber.exp exp (Js.olsIntercept x (Js.logValues log y (Js.offsetOf y))))
                (-Js.olsSlope x (Js.logValues log y (Js.offsetOf y)))
                (Js.offsetOf y) x y)) (JsNumber.finite (1 / 10))
        then none
      else some
        { a := JsNumber.exp exp (Js.olsIntercept x (Js.logValues log y (Js.offsetOf y)))
          lam := -Js.olsSlope x (Js.logValues log y (Js.offsetOf y))
          c := Js.offsetOf y
          r2 := Js.rSquared (Js.valueSquares y)
              (Js.curveSquaredError exp
                (JsNumber.exp exp (Js.olsIntercept x (Js.logValues log y (Js.offsetOf y))))
                (-Js.olsSlope x (Js.logValues log y (Js.offsetOf y)))
                (Js.offsetOf y) x y) } := by
  simp only [Js.simpleExponentialFit, Js.offsetOf, Js.logValues, Js.olsDenominator,
    Js.olsSlope, Js.olsIntercept, Js.curveSquaredError, Js.valueSquares, Js.sum,
    List.foldl_map, List.map_map, Function.comp_def, List.any_map,
    foldl_zip_map_eq_zipWith (fun xi => _) (fun a b => (a - b) * (a - b)),
    foldl_zip_eq_zipWith (fun a b => a * b), hlen]

/-- C18, counterexample: on ten daily points of the order `7e162` the squared deviations
overflow and `r2` is `NaN`; the offset tier is not rejected and returns a result one
of whose values is not a number (`isNaN` is tested on `a` and `lam` only, and
`NaN < 0.1` is false). -/
theorem offset_fit_nan_counterexample :
    ∃ r : OffsetFit (JsNumber ℝ),
      Js.simpleExponentialFit Real.exp Real.log ((tenDays : List ℝ).map JsNumber.finite)
        ((overflowValues : List ℝ).map JsNumber.finite) = some r
      ∧ r.r2.isNaN = true
      ∧ JsNumber.lt r.r2 (JsNumber.finite (1 / 10)) = false :=
  ⟨_, overflow_fit, rfl, rfl⟩

/-- C18, amended: on parallel arrays of doubles `simpleExponentialFit x y` computes
`c = 0.9·min(y)`, runs the closed-form least squares of `ln(y_i - c)` against `x_i`, sets
`a = e^intercept` and `lam = -slope`, and takes `r2 = 1 - SS_res/SS_tot` (`0` unless
`SS_tot > 0`) with the residuals `y_i - (a·e^(-lam·x_i) + c)` against the original
values; it is rejected if and only if some `y_i - c ≤ 0`, or the denominator has
absolute value below `1e-10`, or `a` or `lam` is `NaN`, or `a ≤ 0`, or `lam ≤ 0`, or
`r2 < 0.1` (a comparison that is false when `r2` is `NaN`). -/
theorem offset_fit_characterisation_js (exp log : F → F) (x y : List (JsNumber F))
    (hlen : x.length = y.length) :
    (Js.simpleExponentialFit exp log x y = none ↔
      ((∃ v ∈ y, JsNumber.le (v - Js.offsetOf y) (JsNumber.finite 0) = true)
        ∨ JsNumber.lt (JsNumber.abs (Js.olsDenominator x)) (JsNumber.finite (1 / 10 ^ 10))
            = true
        ∨ (JsNumber.exp exp
            (Js.olsIntercept x (Js.logValues log y (Js.offsetOf y)))).isNaN = true
        ∨ (-Js.olsSlope x (Js.logValues log y (Js.offsetOf y))).isNaN = true
        ∨ JsNumber.le
            (JsNumber.exp exp (Js.olsIntercept x (Js.logValues log y (Js.offsetOf y))))
            (JsNumber.finite 0) = true
        ∨ JsNumber.le (-Js.olsSlope x (Js.logValues log y (Js.offsetOf y)))
            (JsNumber.finite 0) = true
        ∨ JsNumber.lt (Js.rSquared (Js.valueSquares y)
            (Js.curveSquaredError exp
              (JsNumber.exp exp (Js.olsIntercept x (Js.logValues log y (Js.offsetOf y))))
              (-Js.olsSlope x (Js.logValues log y (Js.offsetOf y)))
              (Js.offsetOf y) x y)) (JsNumber.finite (1 / 10)) = true))
    ∧ (∀ r : OffsetFit (JsNumber F), Js.simpleExponentialFit exp log x y = some r →
        r.c = JsNumber.minOf y * JsNumber.finite (9 / 10)
        ∧ r.a = JsNumber.exp exp (Js.olsIntercept x (Js.logValues log y r.c))
        ∧ r.lam = -Js.olsSlope x (Js.logValues log y r.c)
        ∧ r.r2 = Js.rSquared (Js.valueSquares y)
            (Js.curveSquaredError exp r.a r.lam r.c x y)) := by
  rw [simpleExponentialFit_eq_js exp log x y hlen]
  have hany : (y.any (fun v => JsNumber.le (v - Js.offsetOf y) (JsNumber.finite 0)) = true)
      ↔ ∃ v ∈ y, JsNumber.le (v - Js.offsetOf y) (JsNumber.finite 0) = true := by
    simp only [List.any_eq_true]
  by_cases h1 : y.any (fun v => JsNumber.le (v - Js.offsetOf y) (JsNumber.finite 0)) = true
  · rw [if_pos h1]
    exact ⟨⟨fun _ => Or.inl (hany.mp h1), fun _ => rfl⟩, fun r hr => absurd hr (by simp)⟩
  · rw [if_neg h1]
    by_cases h2 : JsNumber.lt (JsNumber.abs (Js.olsDenominator x))
        (JsNumber.finite (1 / 10 ^ 10)) = true
    · rw [if_pos h2]
      exact ⟨⟨fun _ => Or.inr (Or.inl h2), fun _ => rfl⟩, fun r hr => absurd hr (by simp)⟩
    · rw [if_neg h2]
      split_ifs with h3
      · refine ⟨⟨fun _ => ?_, fun _ => rfl⟩, fun r hr => absurd hr (by simp)⟩
        simp only [Bool.or_eq_true] at h3
        rcases h3 with (((h | h) | h) | h) | h
        · exact Or.inr (Or.inr (Or.inl h))
        · exact Or.inr (Or.inr (Or.inr (Or.inl h)))
        · exact Or.inr (Or.inr (Or.inr (Or.inr (Or.inr (Or.inl h)))))
        · exact Or.inr (Or.inr (Or.inr (Or.inr (Or.inl h))))
        · exact Or.inr (Or.inr (Or.inr (Or.inr (Or.inr (Or.inr h)))))
      · refine ⟨⟨fun h => absurd h (by simp), fun h => ?_⟩, ?_⟩
        · exfalso
          apply h3
          simp only [Bool.or_eq_true]
          rcases h with h | h | h | h | h | h | h
          · exact absurd (hany.mpr h) h1
          · exact absurd h h2
          · exact Or.inl (Or.inl (Or.inl (Or.inl h)))
          · exact Or.inl (Or.inl (Or.inl (Or.inr h)))
          · exact Or.inl (Or.inr h)
          · exact Or.inl (Or.inl (Or.inr h))
          · exact Or.inr h
        · intro r hr
          simp only [Option.some.injEq] at hr
          subst hr
          exact ⟨rfl, rfl, rfl, rfl⟩

/-- C18 at the ten daily points of the order `7e162`, over the reals. -/
theorem offset_fit_characterisation_js_witness :
    ((tenDays : List ℝ).map JsNumber.finite).length
        = ((overflowValues : List ℝ).map JsNumber.finite).length
    ∧ (Js.simpleExponentialFit Real.exp Real.log ((tenDays : List ℝ).map JsNumber.finite)
          ((overflowValues : List ℝ).map JsNumber.finite) = none ↔
      ((∃ v ∈ (overflowValues : List ℝ).map JsNumber.finite,
          JsNumber.le (v - Js.offsetOf ((overflowValues : List ℝ).map JsNumber.finite))
            (JsNumber.finite 0) = true)
        ∨ JsNumber.lt (JsNumber.abs (Js.olsDenominator ((tenDays : List ℝ).map JsNumber.finite)))
            (JsNumber.finite (1 / 10 ^ 10)) = true
        ∨ (JsNumber.exp Real.exp
            (Js.olsIntercept ((tenDays : List ℝ).map JsNumber.finite)
              (Js.logValues Real.log ((overflowValues : List ℝ).map JsNumber.finite)
                (Js.offsetOf ((overflowValues : List ℝ).map JsNumber.finite))))).isNaN = true
        ∨ (-Js.olsSlope ((tenDays : List ℝ).map JsNumber.finite)
              (Js.logValues Real.log ((overflowValues : List ℝ).map JsNumber.finite)
                (Js.offsetOf ((overflowValues : List ℝ).map JsNumber.finite)))).isNaN = true
        ∨ JsNumber.le
            (JsNumber.exp Real.exp
              (Js.olsIntercept ((tenDays : List ℝ).map JsNumber.finite)
                (Js.logValues Real.log ((overflowValues : List ℝ).map JsNumber.finite)
                  (Js.offsetOf ((overflowValues : List ℝ).map JsNumber.finite)))))
            (JsNumber.finite 0) = true
        ∨ JsNumber.le (-Js.olsSlope ((tenDays : List ℝ).map JsNumber.finite)
              (Js.logValues Real.log ((overflowValues : List ℝ).map JsNumber.finite)
                (Js.offsetOf ((overflowValues : List ℝ).map JsNumber.finite))))
            (JsNumber.finite 0) = true
        ∨ JsNumber.lt (Js.rSquared
            (Js.valueSquares ((overflowValues : List ℝ).map JsNumber.finite))
            (Js.curveSquaredError Real.exp
              (JsNumber.exp Real.exp
                (Js.olsIntercept ((tenDays : List ℝ).map JsNumber.finite)
                  (Js.logValues Real.log ((overflowValues : List ℝ).map JsNumber.finite)
                    (Js.offsetOf ((overflowValues : List ℝ).map JsNumber.finite)))))
              (-Js.olsSlope ((tenDays : List ℝ).map JsNumber.finite)
                (Js.logValues Real.log ((overflowValues : List ℝ).map JsNumber.finite)
                  (Js.offsetOf ((overflowValues : List ℝ).map JsNumber.finite))))
              (Js.offsetOf ((overflowValues : List ℝ).map JsNumber.finite))
              ((tenDays : List ℝ).map JsNumber.finite)
              ((overflowValues : List ℝ).map JsNumber.finite))) (JsNumber.finite (1 / 10))
            = true)) :=
  ⟨rfl, (offset_fit_characterisation_js Real.exp Real.log
    ((tenDays : List ℝ).map JsNumber.finite)
    ((overflowValues : List ℝ).map JsNumber.finite) rfl).1⟩

/-! ## The invariants of stored models, on doubles as far as their range goes -/

theorem JsNumber.nan_add (b : JsNumber F) : JsNumber.nan + b = JsNumber.nan := by
  rw [JsNumber.add_def]
  cases b <;> rfl

theorem JsNumber.add_nan (a : JsNumber F) : a + JsNumber.nan = JsNumber.nan := by
  rw [JsNumber.add_def]
  cases a <;> rfl

theorem JsNumber.nan_sub (b : JsNumber F) : JsNumber.nan - b = JsNumber.nan := by
  rw [JsNumber.sub_def]
  cases b <;> rfl

theorem JsNumber.sub_nan (a : JsNumber F) : a - JsNumber.nan = JsNumber.nan := by
  rw [JsNumber.sub_def]
  cases a <;> rfl

theorem JsNumber.nan_div (b : JsNumber F) : JsNumber.nan / b = JsNumber.nan := by
  rw [JsNumber.div_def]
  cases b <;> rfl

theorem JsNumber.eq_nan_of_isNaN {G : Type} (a : JsNumber G) (h : a.isNaN = true) :
    a = JsNumber.nan := by
  cases a <;> simp [JsNumber.isNaN] at h ⊢

theorem foldl_add_nan (l : List (JsNumber F)) :
    l.foldl (fun a b => a + b) JsNumber.nan = JsNumber.nan := by
  induction l with
  | nil => rfl
  | cons h t ih => rw [List.foldl_cons, JsNumber.nan_add, ih]

/-- A sum over an array that holds a `NaN` is `NaN`. -/
theorem foldl_add_of_nan_mem (l : List (JsNumber F)) (s : JsNumber F)
    (h : JsNumber.nan ∈ l) : l.foldl (fun a b => a + b) s = JsNumber.nan := by
  induction l generalizing s with
  | nil => simp at h
  | cons a t ih =>
    rw [List.foldl_cons]
    rcases List.mem_cons.mp h with h | h
    · rw [← h, JsNumber.add_nan, foldl_add_nan]
    · exact ih _ h

/-- In an accepted offset fit no adjusted value `y_i - c` is `NaN`: a `NaN` among them
would make `a` a `NaN`. -/
theorem simpleExponentialFit_adjusted_not_nan (exp log : F → F) (x y : List (JsNumber F))
    (r : OffsetFit (JsNumber F)) (h : Js.simpleExponentialFit exp log x y = some r) :
    ∀ v ∈ y, (v - r.c).isNaN = false := by
  have hc := (simpleExponentialFit_accepted_js exp log x y r h).1
  intro v hv
  by_contra hnan
  have hv2 : v - r.c = JsNumber.nan :=
    JsNumber.eq_nan_of_isNaN _ (by simpa using hnan)
  rw [hc] at hv2
  simp only [Js.simpleExponentialFit] at h
  split_ifs at h with h1 h2 h3
  simp only [Bool.or_eq_true, not_or, Bool.not_eq_true] at h3
  obtain ⟨⟨⟨⟨ha, _⟩, _⟩, _⟩, _⟩ := h3
  have hmem : JsNumber.nan ∈ (y.map (fun yi => yi - JsNumber.minOf y * JsNumber.finite (9 / 10))).map
      (fun v => JsNumber.log log v) := by
    apply List.mem_map.mpr
    refine ⟨JsNumber.nan, ?_, rfl⟩
    apply List.mem_map.mpr
    exact ⟨v, hv, hv2⟩
  rw [foldl_add_of_nan_mem _ _ hmem, JsNumber.nan_sub, JsNumber.nan_div] at ha
  simp [JsNumber.exp, JsNumber.isNaN] at ha

theorem min_cases (a b : JsNumber F) :
    JsNumber.min a b = JsNumber.nan ∨ JsNumber.min a b = a ∨ JsNumber.min a b = b := by
  unfold JsNumber.min
  split_ifs
  · exact Or.inl rfl
  · exact Or.inr (Or.inr rfl)
  · exact Or.inr (Or.inl rfl)

theorem foldl_min_cases (y : List (JsNumber F)) (s : JsNumber F) :
    y.foldl JsNumber.min s = JsNumber.nan ∨ y.foldl JsNumber.min s = s
      ∨ y.foldl JsNumber.min s ∈ y := by
  induction y generalizing s with
  | nil => exact Or.inr (Or.inl rfl)
  | cons h t ih =>
    rw [List.foldl_cons]
    rcases ih (JsNumber.min s h) with h1 | h1 | h1
    · exact Or.inl h1
    · rcases min_cases s h with h2 | h2 | h2
      · exact Or.inl (by rw [h1, h2])
      · exact Or.inr (Or.inl (by rw [h1, h2]))
      · exact Or.inr (Or.inr (by rw [h1, h2]; exact List.mem_cons_self _ _))
    · exact Or.inr (Or.inr (List.mem_cons_of_mem _ h1))

/-- The value `Math.min(...y)` is `NaN`, `Infinity` or an element of `y`. -/
theorem minOf_cases (y : List (JsNumber F)) :
    JsNumber.minOf y = JsNumber.nan ∨ JsNumber.minOf y = JsNumber.posInf
      ∨ JsNumber.minOf y ∈ y :=
  foldl_min_cases y JsNumber.posInf

theorem pow_1074_facts :
    (underflowBound : F) < 1 / 2 ^ 1074 * (9 / 10) := by
  unfold underflowBound
  have h : (2 : F) ^ 1075 = 2 * 2 ^ 1074 := by rw [pow_succ]; ring
  rw [h]
  have hp : (0 : F) < 2 ^ 1074 := by positivity
  rw [div_mul_eq_mul_div, one_mul, div_lt_div_iff₀ (by positivity) hp]
  nlinarith

/-- In an accepted offset fit on a non-empty array of doubles the minimum is a finite
positive element of the array and the offset is `0.9` times it, a positive number. -/
theorem simpleExponentialFit_offset_pos (exp log : F → F) (x y : List (JsNumber F))
    (r : OffsetFit (JsNumber F)) (h : Js.simpleExponentialFit exp log x y = some r)
    (hy : y ≠ []) (hd : ∀ v ∈ y, v.isDouble = true) :
    JsNumber.minOf y ∈ y
    ∧ ∃ mv : F, JsNumber.minOf y = JsNumber.finite mv ∧ 0 < mv
        ∧ r.c = JsNumber.finite (mv * (9 / 10)) := by
  obtain ⟨hc, hpos, _⟩ := simpleExponentialFit_accepted_js exp log x y r h
  have hnn := simpleExponentialFit_adjusted_not_nan exp log x y r h
  have hB := overflowBound_pos (F := F)
  obtain ⟨w, hw⟩ := List.exists_mem_of_ne_nil y hy
  rcases minOf_cases y with hm | hm | hm
  · exfalso
    have h1 := hnn w hw
    rw [hc, hm] at h1
    have h2 : (JsNumber.nan : JsNumber F) * JsNumber.finite (9 / 10) = JsNumber.nan := rfl
    rw [h2, JsNumber.sub_nan] at h1
    simp [JsNumber.isNaN] at h1
  · exfalso
    have h1 := hnn w hw
    have h3 := hpos w hw
    rw [hc, hm] at h1 h3
    have h2 : (JsNumber.posInf : JsNumber F) * JsNumber.finite (9 / 10) = JsNumber.posInf := by
      rw [JsNumber.mul_def]
      simp [JsNumber.mul]
    rw [h2, JsNumber.sub_def] at h1 h3
    cases w <;> simp [JsNumber.neg, JsNumber.add, JsNumber.isNaN, JsNumber.le] at h1 h3
  · refine ⟨hm, ?_⟩
    have h1 := hnn _ hm
    have h3 := hpos _ hm
    have h4 := hd _ hm
    rw [hc] at h1 h3 ⊢
    cases hmin : JsNumber.minOf y with
    | nan =>
      exfalso
      rw [hmin] at h1
      simp [JsNumber.nan_sub, JsNumber.isNaN] at h1
    | posInf =>
      exfalso
      rw [hmin] at h1
      have h2 : (JsNumber.posInf : JsNumber F) * JsNumber.finite (9 / 10)
          = JsNumber.posInf := by
        rw [JsNumber.mul_def]
        simp [JsNumber.mul]
      rw [h2, JsNumber.sub_def] at h1
      simp [JsNumber.neg, JsNumber.add, JsNumber.isNaN] at h1
    | negInf =>
      exfalso
      rw [hmin] at h1
      have h2 : (JsNumber.negInf : JsNumber F) * JsNumber.finite (9 / 10)
          = JsNumber.negInf := by
        rw [JsNumber.mul_def]
        simp [JsNumber.mul]
      rw [h2, JsNumber.sub_def] at h1
      simp [JsNumber.neg, JsNumber.add, JsNumber.isNaN] at h1
    | finite mv =>
      rw [hmin] at h3 h4
      simp only [JsNumber.isDouble, decide_eq_true_eq] at h4
      obtain ⟨hlt, hsmall⟩ := h4
      have habs : |mv * (9 / 10)| < overflowBound := by
        rw [abs_mul, abs_of_pos (by norm_num : (0 : F) < 9 / 10)]
        nlinarith [abs_nonneg mv]
      rcases hsmall with h0 | hbig
      · exfalso
        rw [h0] at h3
        rw [JsNumber.mul_def, JsNumber.sub_def] at h3
        simp [JsNumber.mul, JsNumber.clip, JsNumber.neg, JsNumber.add, JsNumber.clipSum,
          JsNumber.le, hB, le_of_lt hB, le_of_lt (underflowBound_pos (F := F)),
          not_le.mpr hB] at h3
      · have hmul : JsNumber.finite mv * JsNumber.finite (9 / 10)
            = JsNumber.finite (mv * (9 / 10)) := by
          rw [JsNumber.mul_def]
          simp only [JsNumber.mul]
          apply clip_of_abs_lt _ habs
          right
          rw [abs_mul, abs_of_pos (by norm_num : (0 : F) < 9 / 10)]
          have := pow_1074_facts (F := F)
          nlinarith
        rw [hmul] at h3
        rw [JsNumber.sub_def] at h3
        simp only [JsNumber.neg, JsNumber.add] at h3
        have hsub : |mv + -(mv * (9 / 10))| < overflowBound := by
          have e : mv + -(mv * (9 / 10)) = mv * (1 / 10) := by ring
          rw [e, abs_mul, abs_of_pos (by norm_num : (0 : F) < 1 / 10)]
          nlinarith [abs_nonneg mv]
        rw [clipSum_of_abs_lt _ hsub] at h3
        simp only [JsNumber.le, decide_eq_false_iff_not, not_le] at h3
        have hmv : 0 < mv := by linarith
        exact ⟨mv, rfl, hmv, hmul⟩

/-- The values handed to the fitters are values of the series, and there are some when
the series has some. -/
theorem outlierStep_values (sqrt : F → F) (x y : List (JsNumber F)) :
    (∀ v ∈ (Js.outlierStep sqrt x y).2.1, v ∈ y)
    ∧ (y ≠ [] → (Js.outlierStep sqrt x y).2.1 ≠ []) := by
  simp only [Js.outlierStep]
  split_ifs with h
  · exact ⟨fun v hv => hv, fun hy => hy⟩
  · constructor
    · intro v hv
      obtain ⟨p, hp, rfl⟩ := List.mem_map.mp hv
      exact (List.of_mem_zip (List.mem_filter.mp hp).1).2
    · intro _ hnil
      apply h
      have := congrArg List.length hnil
      simp only [List.length_map, List.length_nil] at this
      omega

theorem simpleExponentialFit_a_eq (exp log : F → F) (x y : List (JsNumber F))
    (r : OffsetFit (JsNumber F)) (h : Js.simpleExponentialFit exp log x y = some r) :
    ∃ i : JsNumber F, r.a = JsNumber.exp exp i := by
  simp only [Js.simpleExponentialFit] at h
  split_ifs at h with h1 h2 h3
  simp only [Option.some.injEq] at h
  subst h
  exact ⟨_, rfl⟩

theorem simpleExponentialFitNoOffset_a_eq (exp log : F → F) (x y : List (JsNumber F))
    (r : NoOffsetFit (JsNumber F)) (h : Js.simpleExponentialFitNoOffset exp log x y = some r) :
    ∃ i : JsNumber F, r.a = JsNumber.exp exp i := by
  simp only [Js.simpleExponentialFitNoOffset] at h
  split_ifs at h with h1 h2 h3
  simp only [Option.some.injEq] at h
  subst h
  exact ⟨_, rfl⟩

/-- A number that is not `NaN` and not `≤ 0` is `> 0`. -/
theorem lt_zero_of_not_le (a : JsNumber F) (hn : a.isNaN = false)
    (h : JsNumber.le a (JsNumber.finite 0) = false) :
    JsNumber.lt (JsNumber.finite 0) a = true := by
  cases a <;> simp [JsNumber.isNaN, JsNumber.le, JsNumber.lt] at hn h ⊢
  exact h

/-- The invariants of an exponential model stored on a series of doubles. -/
theorem stored_exponential_model_facts_js (sqrt exp log : F → F)
    (self : FansChart (JsNumber F)) (m : ExponentialModel (JsNumber F))
    (hnone : self.exponentialModel = none)
    (hdouble : ∀ d ∈ self.data, d.fans.isDouble = true)
    (hm : (Js.calculateExponentialDecay sqrt exp log self).exponentialModel = some m) :
    JsNumber.lt (JsNumber.finite 0) m.a = true
    ∧ JsNumber.lt (JsNumber.finite 0) m.lam = true
    ∧ (∃ cv : F, m.c = JsNumber.finite cv ∧ 0 ≤ cv)
    ∧ (m.r2 = JsNumber.nan ∨ ∃ v : F, m.r2 = JsNumber.finite v ∧ 1 / 10 ≤ v ∧ v ≤ 1)
    ∧ (m.c = JsNumber.finite 0 ↔
        Js.simpleExponentialFit exp log (Js.postFilterData sqrt self.data).1
          (Js.postFilterData sqrt self.data).2.1 = none)
    ∧ (∀ r : OffsetFit (JsNumber F),
        Js.simpleExponentialFit exp log (Js.postFilterData sqrt self.data).1
          (Js.postFilterData sqrt self.data).2.1 = some r →
        m.c = JsNumber.minOf (Js.postFilterData sqrt self.data).2.1 * JsNumber.finite (9 / 10)
        ∧ JsNumber.minOf (Js.postFilterData sqrt self.data).2.1
            ∈ (Js.postFilterData sqrt self.data).2.1)
    ∧ (∃ i : JsNumber F, m.a = JsNumber.exp exp i)
    ∧ m.startTime = Js.firstTimestamp self.data
    ∧ (m.predict = Js.exponentialPredict exp m.a m.lam m.c m.startTime
        ∨ (m.c = JsNumber.finite 0
          ∧ m.predict = Js.exponentialPredictNoOffset exp m.a m.lam m.startTime)) := by
  obtain ⟨hlen, hcase⟩ := calculateExponentialDecay_produced_js sqrt exp log self m hnone hm
  have hfans : self.data.map (fun d => d.fans) ≠ [] := by
    intro h
    have := congrArg List.length h
    simp only [List.length_map, List.length_nil] at this
    omega
  obtain ⟨hsub, hne⟩ := outlierStep_values sqrt
    (self.data.map (fun d => (d.timestamp - Js.firstTimestamp self.data)
      / JsNumber.finite 86400000)) (self.data.map (fun d => d.fans))
  have hd : ∀ v ∈ (Js.postFilterData sqrt self.data).2.1, v.isDouble = true := by
    intro v hv
    obtain ⟨d, hdm, rfl⟩ := List.mem_map.mp (hsub v hv)
    exact hdouble d hdm
  rcases hcase with ⟨r, hr, rfl⟩ | ⟨r, hoff, hr, rfl⟩
  · obtain ⟨hc, _, ha, hl, hl0, ha0, hacc, t, s, hs, hr2⟩ :=
      simpleExponentialFit_accepted_js exp log _ _ r hr
    obtain ⟨hmem, mv, hmin, hmv, hcv⟩ :=
      simpleExponentialFit_offset_pos exp log _ _ r hr (hne hfans) hd
    refine ⟨lt_zero_of_not_le _ ha ha0, lt_zero_of_not_le _ hl hl0,
      ⟨_, hcv, by positivity⟩,
      accepted_r2_range r.r2 (by rw [hr2]; exact rSquared_range t s hs) hacc, ?_, ?_,
      simpleExponentialFit_a_eq exp log _ _ r hr, rfl, Or.inl rfl⟩
    · constructor
      · intro h0
        exfalso
        have h1 : r.c = JsNumber.finite 0 := h0
        rw [hcv] at h1
        simp only [JsNumber.finite.injEq] at h1
        have : 0 < mv * (9 / 10) := by positivity
        linarith
      · intro hn
        rw [hn] at hr
        exact absurd hr (by simp)
    · intro r2 _
      exact ⟨hc, hmem⟩
  · obtain ⟨ha, hl, hl0, ha0, hacc, t, s, hs, hr2⟩ :=
      simpleExponentialFitNoOffset_accepted_js exp log _ _ r hr
    refine ⟨lt_zero_of_not_le _ ha ha0, lt_zero_of_not_le _ hl hl0,
      ⟨0, rfl, le_refl _⟩,
      accepted_r2_range r.r2 (by rw [hr2]; exact rSquared_range t s hs) hacc,
      ⟨fun _ => hoff, fun _ => rfl⟩, ?_,
      simpleExponentialFitNoOffset_a_eq exp log _ _ r hr, rfl, Or.inr ⟨rfl, rfl⟩⟩
    intro r2 hr2b
    rw [hoff] at hr2b
    exact absurd hr2b (by simp)

theorem overflow_doubles :
    ∀ d ∈ (overflowScenario : FansChart (JsNumber ℝ)).data, d.fans.isDouble = true := by
  intro d hd
  have hmem : d.fans ∈ (overflowScenario : FansChart (JsNumber ℝ)).data.map (fun d => d.fans) :=
    List.mem_map_of_mem _ hd
  rw [overflow_fans] at hmem
  obtain ⟨v, hv, hvd⟩ := List.mem_map.mp hmem
  obtain ⟨h1, h2⟩ := overflow_values_mem v hv
  rw [← hvd]
  simp only [JsNumber.isDouble, decide_eq_true_eq]
  have h0 : (0 : ℝ) < 2 ^ 531 := by positivity
  have hpos : 0 < v := by linarith
  rw [abs_of_pos hpos]
  constructor
  · have h3 : (2 : ℝ) ^ 541 ≤ 2 ^ 1000 / 2 ^ 400 := pow_541_le
    have h4 : (2 : ℝ) ^ 1000 / 2 ^ 400 = 2 ^ 600 := by
      rw [div_eq_iff (by positivity), ← pow_add]
    have h5 : (2 : ℝ) ^ 531 ≤ 2 ^ 600 := pow_le_pow_right₀ (by norm_num) (by norm_num)
    have h6 : (2 : ℝ) ^ 1000 = 2 ^ 400 * 2 ^ 600 := by rw [← pow_add]
    have h7 : (16 : ℝ) ≤ 2 ^ 400 := by
      calc (16 : ℝ) = 2 ^ 4 := by norm_num
        _ ≤ 2 ^ 400 := pow_le_pow_right₀ (by norm_num) (by norm_num)
    have h8 : (0 : ℝ) < 2 ^ 600 := by positivity
    have := pow_1000_lt_overflowBound (F := ℝ)
    nlinarith
  · right
    have h9 : (1 : ℝ) / 2 ^ 1074 ≤ 1 := by
      rw [div_le_one (by positivity)]
      exact one_le_pow₀ (by norm_num)
    have h10 : (1 : ℝ) ≤ 2 ^ 531 := one_le_pow₀ (by norm_num)
    linarith

/-- C13, counterexample: on ten daily points of the order `7e162` the squared deviations
overflow; the offset tier is accepted and the model is stored with `r2 = NaN`, for which
`r2 ≥ 0.1` is false. -/
theorem exponential_r2_nan_counterexample :
    ∃ m : ExponentialModel (JsNumber ℝ),
      (Js.calculateExponentialDecay Real.sqrt Real.exp Real.log
        overflowScenario).exponentialModel = some m
      ∧ m.r2 = JsNumber.nan
      ∧ JsNumber.le (JsNumber.finite (1 / 10)) m.r2 = false :=
  ⟨_, overflow_model, rfl, rfl⟩

/-- C13, amended: every exponential model produced by `calculateExponentialDecay` on a
series of doubles has `a > 0`, `lam > 0`, a finite `c ≥ 0`, and an `r2` that is `NaN` or
lies in `[0.1, 1]`; `c = 0` exactly when the offset-free fallback produced it, and
`c = min(post-filter values)·0.9`, with the minimum one of the post-filter values, when
the offset tier produced it. -/
theorem exponential_model_invariants_js (sqrt exp log : F → F)
    (self : FansChart (JsNumber F)) (m : ExponentialModel (JsNumber F))
    (hnone : self.exponentialModel = none)
    (hdouble : ∀ d ∈ self.data, d.fans.isDouble = true)
    (hm : (Js.calculateExponentialDecay sqrt exp log self).exponentialModel = some m) :
    JsNumber.lt (JsNumber.finite 0) m.a = true
    ∧ JsNumber.lt (JsNumber.finite 0) m.lam = true
    ∧ (∃ cv : F, m.c = JsNumber.finite cv ∧ 0 ≤ cv)
    ∧ (m.r2 = JsNumber.nan ∨ ∃ v : F, m.r2 = JsNumber.finite v ∧ 1 / 10 ≤ v ∧ v ≤ 1)
    ∧ (m.c = JsNumber.finite 0 ↔
        Js.simpleExponentialFit exp log (Js.postFilterData sqrt self.data).1
          (Js.postFilterData sqrt self.data).2.1 = none)
    ∧ (∀ r : OffsetFit (JsNumber F),
        Js.simpleExponentialFit exp log (Js.postFilterData sqrt self.data).1
          (Js.postFilterData sqrt self.data).2.1 = some r →
        m.c = JsNumber.minOf (Js.postFilterData sqrt self.data).2.1 * JsNumber.finite (9 / 10)
        ∧ JsNumber.minOf (Js.postFilterData sqrt self.data).2.1
            ∈ (Js.postFilterData sqrt self.data).2.1) := by
  obtain ⟨h1, h2, h3, h4, h5, h6, _⟩ :=
    stored_exponential_model_facts_js sqrt exp log self m hnone hdouble hm
  exact ⟨h1, h2, h3, h4, h5, h6⟩

/-- C13 at the ten daily points of the order `7e162`. -/
theorem exponential_model_invariants_js_witness :
    ∃ m : ExponentialModel (JsNumber ℝ),
      (Js.calculateExponentialDecay Real.sqrt Real.exp Real.log
        overflowScenario).exponentialModel = some m
      ∧ JsNumber.lt (JsNumber.finite 0) m.a = true
      ∧ JsNumber.lt (JsNumber.finite 0) m.lam = true
      ∧ (∃ cv : ℝ, m.c = JsNumber.finite cv ∧ 0 ≤ cv)
      ∧ (m.r2 = JsNumber.nan ∨ ∃ v : ℝ, m.r2 = JsNumber.finite v ∧ 1 / 10 ≤ v ∧ v ≤ 1)
      ∧ (m.c = JsNumber.finite 0 ↔
          Js.simpleExponentialFit Real.exp Real.log
            (Js.postFilterData Real.sqrt (overflowScenario : FansChart (JsNumber ℝ)).data).1
            (Js.postFilterData Real.sqrt (overflowScenario : FansChart (JsNumber ℝ)).data).2.1
              = none)
      ∧ (∀ r : OffsetFit (JsNumber ℝ),
          Js.simpleExponentialFit Real.exp Real.log
            (Js.postFilterData Real.sqrt (overflowScenario : FansChart (JsNumber ℝ)).data).1
            (Js.postFilterData Real.sqrt (overflowScenario : FansChart (JsNumber ℝ)).data).2.1
              = some r →
          m.c = JsNumber.minOf
              (Js.postFilterData Real.sqrt (overflowScenario : FansChart (JsNumber ℝ)).data).2.1
            * JsNumber.finite (9 / 10)
          ∧ JsNumber.minOf
              (Js.postFilterData Real.sqrt (overflowScenario : FansChart (JsNumber ℝ)).data).2.1
            ∈ (Js.postFilterData Real.sqrt
                (overflowScenario : FansChart (JsNumber ℝ)).data).2.1) :=
  ⟨_, overflow_model, exponential_model_invariants_js Real.sqrt Real.exp Real.log
    overflowScenario _ rfl overflow_doubles overflow_model⟩

/-! ## Monotonicity of the arithmetic on doubles as far as their range goes -/

theorem clipSum_mono {v w : F} (h : v ≤ w) :
    JsNumber.le (JsNumber.clipSum v) (JsNumber.clipSum w) = true := by
  have hB := overflowBound_pos (F := F)
  unfold JsNumber.clipSum
  split_ifs <;> simp [JsNumber.le] <;> linarith

theorem clip_mono {v w : F} (h : v ≤ w) :
    JsNumber.le (JsNumber.clip v) (JsNumber.clip w) = true := by
  have hB := overflowBound_pos (F := F)
  have hU := underflowBound_pos (F := F)
  unfold JsNumber.clip
  split_ifs with h1 h2 h3 h4 h5 h6 h7 h8 h9 <;>
    simp only [JsNumber.le, decide_eq_true_eq, le_refl] <;>
    simp only [abs_le, not_and_or, not_le] at * <;>
    first
      | linarith
      | (rcases ‹_ ∨ _› with h | h <;> linarith)

theorem clipSum_not_nan (v : F) : (JsNumber.clipSum v).isNaN = false := by
  unfold JsNumber.clipSum
  split_ifs <;> rfl

theorem clip_not_nan (v : F) : (JsNumber.clip v).isNaN = false := by
  unfold JsNumber.clip
  split_ifs <;> rfl

theorem le_posInf (a : JsNumber F) (h : a.isNaN = false) :
    JsNumber.le a JsNumber.posInf = true := by
  cases a <;> simp [JsNumber.isNaN, JsNumber.le] at h ⊢

theorem negInf_le (a : JsNumber F) (h : a.isNaN = false) :
    JsNumber.le JsNumber.negInf a = true := by
  cases a <;> simp [JsNumber.isNaN, JsNumber.le] at h ⊢

theorem le_self (a : JsNumber F) (h : a.isNaN = false) : JsNumber.le a a = true := by
  cases a <;> simp [JsNumber.isNaN, JsNumber.le] at h ⊢

/-- The difference from a fixed finite number is monotone. -/
theorem sub_finite_mono (t1 t2 s : F) (h : t1 ≤ t2) :
    JsNumber.le (JsNumber.finite t1 - JsNumber.finite s)
      (JsNumber.finite t2 - JsNumber.finite s) = true := by
  rw [JsNumber.sub_def, JsNumber.sub_def]
  simp only [JsNumber.neg, JsNumber.add]
  exact clipSum_mono (by linarith)

/-- The quotient by a fixed positive finite number is monotone. -/
theorem div_pos_mono (a b : JsNumber F) (k : F) (hk : 0 < k)
    (h : JsNumber.le a b = true) :
    JsNumber.le (a / JsNumber.finite k) (b / JsNumber.finite k) = true := by
  rw [JsNumber.div_def, JsNumber.div_def]
  cases a <;> cases b <;>
    simp only [JsNumber.le, JsNumber.div, if_neg (ne_of_gt hk), if_pos (le_of_lt hk),
      decide_eq_true_eq, Bool.false_eq_true] at h ⊢
  · exact clip_mono (div_le_div_of_nonneg_right h (le_of_lt hk))
  · exact le_posInf _ (clip_not_nan _)
  · exact negInf_le _ (clip_not_nan _)

/-- The product with a fixed negative finite number is antitone. -/
theorem neg_mul_anti (a b : JsNumber F) (c : F) (hc : 0 < c)
    (h : JsNumber.le a b = true) :
    JsNumber.le (-JsNumber.finite c * b) (-JsNumber.finite c * a) = true := by
  have hc1 : ¬ (-c = 0) := by
    intro h0
    linarith
  have hc2 : ¬ (0 < -c) := by
    intro h0
    linarith
  rw [JsNumber.neg_def, JsNumber.mul_def, JsNumber.mul_def]
  cases a <;> cases b <;>
    simp only [JsNumber.le, JsNumber.neg, JsNumber.mul, if_neg hc1, if_neg hc2,
      decide_eq_true_eq, Bool.false_eq_true] at h ⊢
  · exact clip_mono (by nlinarith)
  · exact negInf_le _ (clip_not_nan _)
  · exact le_posInf _ (clip_not_nan _)

/-- The call `Math.exp` is monotone. -/
theorem exp_mono_js (a b : JsNumber ℝ) (h : JsNumber.le a b = true) :
    JsNumber.le (JsNumber.exp Real.exp a) (JsNumber.exp Real.exp b) = true := by
  cases a <;> cases b <;>
    simp only [JsNumber.le, JsNumber.exp, decide_eq_true_eq, Bool.false_eq_true] at h ⊢
  · exact clip_mono (Real.exp_le_exp.mpr h)
  · exact le_posInf _ (clip_not_nan _)
  · have h0 : JsNumber.clip (0 : ℝ) = JsNumber.finite 0 := by
      simp [JsNumber.clip, le_of_lt (underflowBound_pos (F := ℝ)),
        not_le.mpr (overflowBound_pos (F := ℝ))]
    rw [← h0]
    exact clip_mono (le_of_lt (Real.exp_pos _))
  · rfl

/-- The value of `Math.exp` at a number that is not `NaN` is not negative and not
`NaN`. -/
theorem exp_range_js (a : JsNumber ℝ) (h : a.isNaN = false) :
    (JsNumber.exp Real.exp a).isNaN = false
    ∧ JsNumber.le (JsNumber.finite 0) (JsNumber.exp Real.exp a) = true := by
  cases a with
  | nan => simp [JsNumber.isNaN] at h
  | posInf => exact ⟨rfl, rfl⟩
  | negInf => exact ⟨rfl, by simp [JsNumber.exp, JsNumber.le]⟩
  | finite v =>
    refine ⟨clip_not_nan _, ?_⟩
    have h0 : JsNumber.clip (0 : ℝ) = JsNumber.finite 0 := by
      simp [JsNumber.clip, le_of_lt (underflowBound_pos (F := ℝ)),
        not_le.mpr (overflowBound_pos (F := ℝ))]
    rw [← h0]
    exact clip_mono (le_of_lt (Real.exp_pos _))

/-- The product with a fixed positive finite number is monotone. -/
theorem pos_mul_mono (a b : JsNumber F) (c : F) (hc : 0 < c)
    (h : JsNumber.le a b = true) :
    JsNumber.le (JsNumber.finite c * a) (JsNumber.finite c * b) = true := by
  rw [JsNumber.mul_def, JsNumber.mul_def]
  cases a <;> cases b <;>
    simp only [JsNumber.le, JsNumber.mul, if_neg (ne_of_gt hc), if_pos hc,
      decide_eq_true_eq, Bool.false_eq_true] at h ⊢
  · exact clip_mono (by nlinarith)
  · exact le_posInf _ (clip_not_nan _)
  · exact negInf_le _ (clip_not_nan _)

/-- The sum with a fixed finite number is monotone. -/
theorem add_finite_mono (a b : JsNumber F) (c : F) (h : JsNumber.le a b = true) :
    JsNumber.le (a + JsNumber.finite c) (b + JsNumber.finite c) = true := by
  rw [JsNumber.add_def, JsNumber.add_def]
  cases a <;> cases b <;>
    simp only [JsNumber.le, JsNumber.add, decide_eq_true_eq, Bool.false_eq_true] at h ⊢
  · exact clipSum_mono (by linarith)
  · exact le_posInf _ (clipSum_not_nan _)
  · exact negInf_le _ (clipSum_not_nan _)

/-- The clamp `Math.max(0, ·)` is monotone. -/
theorem max_zero_mono (a b : JsNumber F) (h : JsNumber.le a b = true) :
    JsNumber.le (JsNumber.max (JsNumber.finite 0) a) (JsNumber.max (JsNumber.finite 0) b)
      = true := by
  cases a <;> cases b <;>
    simp only [JsNumber.le, JsNumber.max, JsNumber.isNaN, JsNumber.lt, decide_eq_true_eq,
      Bool.false_eq_true, Bool.or_false, Bool.or_self, if_false, if_true] at h ⊢
  · rename_i v w
    by_cases hv : 0 < v
    · have hw : 0 < w := lt_of_lt_of_le hv h
      simp [hv, hw, JsNumber.le, h]
    · by_cases hw : 0 < w
      · simp [hv, hw, JsNumber.le, le_of_lt hw]
      · simp [hv, hw, JsNumber.le]
  · rename_i v
    by_cases hv : 0 < v
    · simp [hv, JsNumber.le]
    · simp [hv, JsNumber.le]
  · rename_i w
    by_cases hw : 0 < w
    · simp [hw, JsNumber.le, le_of_lt hw]
    · simp [hw, JsNumber.le]
  · simp [JsNumber.le]

theorem not_nan_of_le (a b : JsNumber F) (h : JsNumber.le a b = true) :
    a.isNaN = false ∧ b.isNaN = false := by
  cases a <;> cases b <;> simp [JsNumber.le, JsNumber.isNaN] at h ⊢

theorem clip_zero : JsNumber.clip (0 : F) = JsNumber.finite 0 := by
  simp [JsNumber.clip, le_of_lt (underflowBound_pos (F := F)),
    not_le.mpr (overflowBound_pos (F := F))]

theorem clipSum_zero : JsNumber.clipSum (0 : F) = JsNumber.finite 0 := by
  simp [JsNumber.clipSum, not_le.mpr (overflowBound_pos (F := F)),
    overflowBound_pos (F := F)]

/-- The curve term `a·e^(-lam·days)` of a prediction with finite `a > 0`, `lam > 0` and a
finite start time does not increase with the query time and is never negative. -/
theorem curve_term_antitone (av lv s t1 t2 : ℝ) (hav : 0 < av) (hlv : 0 < lv)
    (h : t1 ≤ t2) :
    JsNumber.le
        (JsNumber.finite av * JsNumber.exp Real.exp (-JsNumber.finite lv
          * ((JsNumber.finite t2 - JsNumber.finite s) / JsNumber.finite 86400000)))
        (JsNumber.finite av * JsNumber.exp Real.exp (-JsNumber.finite lv
          * ((JsNumber.finite t1 - JsNumber.finite s) / JsNumber.finite 86400000))) = true
    ∧ JsNumber.le (JsNumber.finite 0)
        (JsNumber.finite av * JsNumber.exp Real.exp (-JsNumber.finite lv
          * ((JsNumber.finite t2 - JsNumber.finite s) / JsNumber.finite 86400000))) = true := by
  have hd := div_pos_mono _ _ (86400000 : ℝ) (by norm_num) (sub_finite_mono t1 t2 s h)
  have he := neg_mul_anti _ _ lv hlv hd
  have hexp := exp_mono_js _ _ he
  refine ⟨pos_mul_mono _ _ av hav hexp, ?_⟩
  have h0 := pos_mul_mono _ _ av hav (exp_range_js _ (not_nan_of_le _ _ he).1).2
  have hz : JsNumber.finite av * JsNumber.finite (0 : ℝ) = JsNumber.finite 0 := by
    rw [JsNumber.mul_def]
    simp only [JsNumber.mul, mul_zero]
    exact clip_zero
  rw [hz] at h0
  exact h0

/-- Adding a finite `c ≥ 0` to a number that is not negative gives at least `c`. -/
theorem le_add_of_nonneg (a : JsNumber F) (cv : F) (hc : 0 ≤ cv)
    (ha : JsNumber.le (JsNumber.finite 0) a = true) :
    JsNumber.le (JsNumber.finite cv) (a + JsNumber.finite cv) = true := by
  have hB := overflowBound_pos (F := F)
  rw [JsNumber.add_def]
  cases a with
  | nan => simp [JsNumber.le] at ha
  | negInf => simp [JsNumber.le] at ha
  | posInf => simp [JsNumber.add, JsNumber.le]
  | finite v =>
    have hv : 0 ≤ v := by simpa [JsNumber.le] using ha
    simp only [JsNumber.add]
    unfold JsNumber.clipSum
    split_ifs with h1 h2
    · rfl
    · exfalso
      linarith
    · simp only [JsNumber.le, decide_eq_true_eq]
      linarith

/-- The clamp at `0` of a number that is at least a finite `c ≥ 0` is at least `c`. -/
theorem le_max_zero (a : JsNumber F) (cv : F)
    (ha : JsNumber.le (JsNumber.finite cv) a = true) :
    JsNumber.le (JsNumber.finite cv) (JsNumber.max (JsNumber.finite 0) a) = true := by
  cases a with
  | nan => simp [JsNumber.le] at ha
  | negInf => simp [JsNumber.le] at ha
  | posInf => simp [JsNumber.max, JsNumber.isNaN, JsNumber.lt, JsNumber.le]
  | finite v =>
    have hv : cv ≤ v := by simpa [JsNumber.le] using ha
    by_cases h0 : 0 < v
    · simp [JsNumber.max, JsNumber.isNaN, JsNumber.lt, JsNumber.le, h0, hv]
    · simp only [JsNumber.max, JsNumber.isNaN, JsNumber.lt, h0, Bool.or_self,
        Bool.false_eq_true, if_false, decide_False, JsNumber.le, decide_eq_true_eq]
      linarith

/-- A positive finite value of `Math.exp` lies within the range of the doubles. -/
theorem exp_eq_finite_range (i : JsNumber ℝ) (av : ℝ)
    (h : JsNumber.exp Real.exp i = JsNumber.finite av) (hav : 0 < av) :
    underflowBound < av ∧ av < overflowBound := by
  cases i with
  | nan => simp [JsNumber.exp] at h
  | posInf => simp [JsNumber.exp] at h
  | negInf =>
    simp only [JsNumber.exp, JsNumber.finite.injEq] at h
    linarith
  | finite v =>
    simp only [JsNumber.exp] at h
    unfold JsNumber.clip at h
    split_ifs at h with h1 h2 h3
    · simp only [JsNumber.finite.injEq] at h
      linarith
    · simp only [JsNumber.finite.injEq] at h
      rw [h] at h1 h3
      rw [abs_of_pos hav] at h3
      exact ⟨not_le.mp h3, not_le.mp h1⟩

/-- The curve term at the start time is `a`. -/
theorem curve_term_at_start (av lv s : ℝ) (hu : underflowBound < av)
    (ho : av < overflowBound) :
    JsNumber.finite av * JsNumber.exp Real.exp (-JsNumber.finite lv
        * ((JsNumber.finite s - JsNumber.finite s) / JsNumber.finite 86400000))
      = JsNumber.finite av := by
  have hU := underflowBound_pos (F := ℝ)
  have h1 : JsNumber.finite s - JsNumber.finite s = JsNumber.finite (0 : ℝ) := by
    rw [JsNumber.sub_def]
    simp only [JsNumber.neg, JsNumber.add, add_neg_cancel]
    exact clipSum_zero
  have h2 : JsNumber.finite (0 : ℝ) / JsNumber.finite 86400000 = JsNumber.finite 0 := by
    rw [JsNumber.div_def]
    simp only [JsNumber.div, zero_div]
    rw [if_neg (by norm_num)]
    exact clip_zero
  have h3 : -JsNumber.finite lv * JsNumber.finite (0 : ℝ) = JsNumber.finite 0 := by
    rw [JsNumber.neg_def, JsNumber.mul_def]
    simp only [JsNumber.neg, JsNumber.mul, mul_zero]
    exact clip_zero
  have h4 : JsNumber.exp Real.exp (JsNumber.finite 0) = JsNumber.finite 1 := by
    simp only [JsNumber.exp, Real.exp_zero]
    apply clip_of_abs_lt
    · rw [abs_one]
      have := pow_1000_lt_overflowBound (F := ℝ)
      have h1000 : (1 : ℝ) ≤ 2 ^ 1000 := one_le_pow₀ (by norm_num)
      linarith
    · right
      rw [abs_one]
      have := underflowBound_lt_inv_pow_1000 (F := ℝ)
      have h1000 : (1 : ℝ) / 2 ^ 1000 ≤ 1 := by
        rw [div_le_one (by positivity)]
        exact one_le_pow₀ (by norm_num)
      linarith
  rw [h1, h2, h3, h4, JsNumber.mul_def]
  simp only [JsNumber.mul, mul_one]
  apply clip_of_abs_lt
  · rw [abs_of_pos (by linarith)]
    exact ho
  · right
    rw [abs_of_pos (by linarith)]
    exact hu

/-- The clamp at `0` leaves a sum of a positive and a non-negative finite number as it
is. -/
theorem max_zero_add_pos (av cv : F) (hav : 0 < av) (hc : 0 ≤ cv) :
    JsNumber.max (JsNumber.finite 0) (JsNumber.finite av + JsNumber.finite cv)
      = JsNumber.finite av + JsNumber.finite cv := by
  have hB := overflowBound_pos (F := F)
  rw [JsNumber.add_def]
  simp only [JsNumber.add]
  unfold JsNumber.clipSum
  split_ifs with h1 h2
  · simp [JsNumber.max, JsNumber.isNaN, JsNumber.lt]
  · exfalso
    linarith
  · have : 0 < av + cv := by linarith
    simp [JsNumber.max, JsNumber.isNaN, JsNumber.lt, this]

/-! ## The prediction of a stored exponential model over time -/

/-- The prediction of the model of the overflowing series `n` days after the start,
from 1075 days on: the exponential underflows to `0` and the prediction is `c`. -/
theorem overflow_predict_far (n : ℕ) (hn1 : 1075 ≤ n) (hn2 : n ≤ 100000) :
    Js.exponentialPredict Real.exp (JsNumber.finite (2 ^ 540))
        (JsNumber.finite (Real.log 2)) (JsNumber.finite (9 * 2 ^ 531))
        (JsNumber.finite 1700000000000)
        (JsNumber.finite (1700000000000 + 86400000 * (n : ℝ)))
      = JsNumber.finite (9 * 2 ^ 531) := by
  have hn0 : (1075 : ℝ) ≤ n := by exact_mod_cast hn1
  have hn3 : (n : ℝ) ≤ 100000 := by exact_mod_cast hn2
  have hbig := one_le_pow_1000
  obtain ⟨hl1, hl2⟩ := log_two_bounds
  have h1 : JsNumber.finite (1700000000000 + 86400000 * (n : ℝ)) - JsNumber.finite 1700000000000
      = JsNumber.finite (86400000 * (n : ℝ)) := by
    rw [sub_finite _ _ (by
      rw [add_sub_cancel_left, abs_of_nonneg (by positivity)]
      have h1000 : (8640000000000 : ℝ) ≤ 2 ^ 1000 := by
        calc (8640000000000 : ℝ) ≤ 2 ^ 43 := by norm_num
          _ ≤ 2 ^ 1000 := pow_le_pow_right₀ (by norm_num) (by norm_num)
      linarith)]
    rw [add_sub_cancel_left]
  have h2 : JsNumber.finite (86400000 * (n : ℝ)) / JsNumber.finite 86400000
      = JsNumber.finite (n : ℝ) := by
    have e : 86400000 * (n : ℝ) / 86400000 = n := by field_simp
    rw [div_finite _ _ (by norm_num) (by
      rw [e, abs_of_nonneg (by positivity)]
      linarith) (by
      right
      rw [e, abs_of_nonneg (by positivity)]
      have : (1 : ℝ) / 2 ^ 1000 ≤ 1 := by
        rw [div_le_one (by positivity)]
        exact one_le_pow₀ (by norm_num)
      linarith), e]
  have h3 : -JsNumber.finite (Real.log 2) * JsNumber.finite (n : ℝ)
      = JsNumber.finite (-Real.log 2 * n) := by
    rw [JsNumber.neg_def]
    simp only [JsNumber.neg]
    have hprod : |(-Real.log 2) * (n : ℝ)| = Real.log 2 * n := by
      rw [abs_mul, abs_neg, abs_of_pos (by linarith), abs_of_nonneg (by positivity)]
    rw [mul_finite _ _ (by
      rw [hprod]
      nlinarith) (by
      right
      rw [hprod]
      have : (1 : ℝ) / 2 ^ 1000 ≤ 1 := by
        rw [div_le_one (by positivity)]
        exact one_le_pow₀ (by norm_num)
      nlinarith)]
  have h4 : JsNumber.exp Real.exp (JsNumber.finite (-Real.log 2 * n)) = JsNumber.finite 0 := by
    simp only [JsNumber.exp]
    rw [exp_neg_mul_log_two]
    have hB := overflowBound_pos (F := ℝ)
    have hp : (0 : ℝ) < 1 / 2 ^ n := by positivity
    have hle : (1 : ℝ) / 2 ^ n ≤ underflowBound := by
      unfold underflowBound
      apply one_div_le_one_div_of_le (by positivity)
      exact pow_le_pow_right₀ (by norm_num) hn1
    have hU := underflowBound_lt_inv_pow_1000 (F := ℝ)
    have h1000 : (1 : ℝ) / 2 ^ 1000 ≤ 1 := by
      rw [div_le_one (by positivity)]
      exact one_le_pow₀ (by norm_num)
    have hB2 := pow_1000_lt_overflowBound (F := ℝ)
    have h1000b : (1 : ℝ) ≤ 2 ^ 1000 := one_le_pow₀ (by norm_num)
    unfold JsNumber.clip
    rw [if_neg (by linarith), if_neg (by linarith), if_pos (by
      rw [abs_of_pos hp]
      exact hle)]
  have h5 : JsNumber.finite ((2 : ℝ) ^ 540) * JsNumber.finite 0 = JsNumber.finite 0 := by
    rw [JsNumber.mul_def]
    simp only [JsNumber.mul, mul_zero]
    exact clip_zero
  have hc : (0 : ℝ) < 9 * 2 ^ 531 := by positivity
  have hc2 : (9 : ℝ) * 2 ^ 531 ≤ 2 ^ 1000 := by
    calc (9 : ℝ) * 2 ^ 531 ≤ 2 ^ 4 * 2 ^ 531 := by
          apply mul_le_mul_of_nonneg_right (by norm_num) (by positivity)
      _ = 2 ^ 535 := by rw [← pow_add]
      _ ≤ 2 ^ 1000 := pow_le_pow_right₀ (by norm_num) (by norm_num)
  have h6 : JsNumber.finite (0 : ℝ) + JsNumber.finite (9 * 2 ^ 531)
      = JsNumber.finite (9 * 2 ^ 531) := by
    rw [add_finite _ _ (by
      rw [zero_add, abs_of_pos hc]
      exact hc2), zero_add]
  simp only [Js.exponentialPredict]
  rw [h1, h2, h3, h4, h5, h6]
  simp [JsNumber.max, JsNumber.isNaN, JsNumber.lt, hc]

/-- C25, counterexample: the model stored for the ten daily points of the order `7e162`
predicts exactly `c` both 2000 and 3000 days after the start (the exponential underflows
to `0`): the later prediction is not below the earlier one and not above `c`. -/
theorem predict_not_strictly_decreasing_counterexample :
    ∃ m : ExponentialModel (JsNumber ℝ),
      (Js.calculateExponentialDecay Real.sqrt Real.exp Real.log
        overflowScenario).exponentialModel = some m
      ∧ m.predict (JsNumber.finite 1872800000000) = m.c
      ∧ m.predict (JsNumber.finite 1959200000000) = m.c
      ∧ JsNumber.lt (m.predict (JsNumber.finite 1959200000000))
          (m.predict (JsNumber.finite 1872800000000)) = false
      ∧ JsNumber.lt m.c (m.predict (JsNumber.finite 1959200000000)) = false := by
  have h1 := overflow_predict_far 2000 (by norm_num) (by norm_num)
  have h2 := overflow_predict_far 3000 (by norm_num) (by norm_num)
  have e1 : (1700000000000 + 86400000 * ((2000 : ℕ) : ℝ)) = 1872800000000 := by norm_num
  have e2 : (1700000000000 + 86400000 * ((3000 : ℕ) : ℝ)) = 1959200000000 := by norm_num
  rw [e1] at h1
  rw [e2] at h2
  refine ⟨_, overflow_model, h1, h2, ?_, ?_⟩
  · show JsNumber.lt (Js.exponentialPredict _ _ _ _ _ _) (Js.exponentialPredict _ _ _ _ _ _)
      = false
    rw [h1, h2]
    simp [JsNumber.lt]
  · show JsNumber.lt _ (Js.exponentialPredict _ _ _ _ _ _) = false
    rw [h2]
    simp [JsNumber.lt, Js.offsetModel]

/-- C25, amended: for every exponential model produced on a series of doubles whose `a`,
`lam` and start time are finite, `predict` does not increase with the query timestamp
and never falls below the asymptote `c`: for all finite timestamps `t1 ≤ t2`,
`predict(t1) ≥ predict(t2) ≥ c`; and `predict(startTime) = a + c`. -/
theorem exponential_predict_nonincreasing (self : FansChart (JsNumber ℝ))
    (m : ExponentialModel (JsNumber ℝ)) (av lv s : ℝ)
    (hnone : self.exponentialModel = none)
    (hdouble : ∀ d ∈ self.data, d.fans.isDouble = true)
    (hm : (Js.calculateExponentialDecay Real.sqrt Real.exp Real.log
      self).exponentialModel = some m)
    (ha : m.a = JsNumber.finite av) (hl : m.lam = JsNumber.finite lv)
    (hs : m.startTime = JsNumber.finite s) :
    (∀ t1 t2 : ℝ, t1 ≤ t2 →
      JsNumber.le (m.predict (JsNumber.finite t2)) (m.predict (JsNumber.finite t1)) = true
      ∧ JsNumber.le m.c (m.predict (JsNumber.finite t2)) = true)
    ∧ m.predict m.startTime = m.a + m.c := by
  obtain ⟨hapos, hlpos, ⟨cv, hc, hcv⟩, _, hc0, _, ⟨i, hi⟩, _, hp⟩ :=
    stored_exponential_model_facts_js Real.sqrt Real.exp Real.log self m hnone hdouble hm
  rw [ha] at hapos hi
  rw [hl] at hlpos
  have hav : 0 < av := by simpa [JsNumber.lt] using hapos
  have hlv : 0 < lv := by simpa [JsNumber.lt] using hlpos
  obtain ⟨hu, ho⟩ := exp_eq_finite_range i av hi.symm hav
  rcases hp with hp | ⟨hcz, hp⟩
  · rw [hp, ha, hl, hc, hs]
    refine ⟨?_, ?_⟩
    · intro t1 t2 ht
      obtain ⟨h1, h2⟩ := curve_term_antitone av lv s t1 t2 hav hlv ht
      simp only [Js.exponentialPredict]
      exact ⟨max_zero_mono _ _ (add_finite_mono _ _ cv h1),
        le_max_zero _ _ (le_add_of_nonneg _ cv hcv h2)⟩
    · simp only [Js.exponentialPredict]
      rw [curve_term_at_start av lv s hu ho]
      exact max_zero_add_pos av cv hav hcv
  · rw [hp, ha, hl, hcz, hs]
    refine ⟨?_, ?_⟩
    · intro t1 t2 ht
      obtain ⟨h1, h2⟩ := curve_term_antitone av lv s t1 t2 hav hlv ht
      simp only [Js.exponentialPredictNoOffset]
      exact ⟨max_zero_mono _ _ h1, le_max_zero _ _ h2⟩
    · simp only [Js.exponentialPredictNoOffset]
      rw [curve_term_at_start av lv s hu ho]
      have hsum : JsNumber.finite av + JsNumber.finite (0 : ℝ) = JsNumber.finite av := by
        rw [JsNumber.add_def]
        simp only [JsNumber.add, add_zero]
        exact clipSum_of_abs_lt _ (by rw [abs_of_pos hav]; exact ho)
      rw [hsum]
      simp [JsNumber.max, JsNumber.isNaN, JsNumber.lt, hav]

/-- C25 at the model stored for the ten daily points of the order `7e162`. -/
theorem exponential_predict_nonincreasing_witness :
    ∃ m : ExponentialModel (JsNumber ℝ),
      (Js.calculateExponentialDecay Real.sqrt Real.exp Real.log
        overflowScenario).exponentialModel = some m
      ∧ m.a = JsNumber.finite (2 ^ 540) ∧ m.lam = JsNumber.finite (Real.log 2)
      ∧ m.startTime = JsNumber.finite 1700000000000
      ∧ (∀ t1 t2 : ℝ, t1 ≤ t2 →
          JsNumber.le (m.predict (JsNumber.finite t2)) (m.predict (JsNumber.finite t1)) = true
          ∧ JsNumber.le m.c (m.predict (JsNumber.finite t2)) = true)
      ∧ m.predict m.startTime = m.a + m.c :=
  ⟨_, overflow_model, rfl, rfl, rfl,
    exponential_predict_nonincreasing overflowScenario _ (2 ^ 540) (Real.log 2) 1700000000000
      rfl overflow_doubles overflow_model rfl rfl rfl⟩

end FansPredict
